import Mathlib

/-!
# GiiBiiAdvance: the Game Boy debug renderers of `source/gb_core/debug_video.c`

A shallow embedding of the palette resolver and of the tile, sprite and map
renderers, followed by the properties proved about them.

Conventions of the embedding

* C `int` values are `Int`, unsigned values (`u8`, `u32`) are `Nat`; a byte
  read from a table is reduced modulo 256 and a byte stored into a
  destination buffer likewise.
* A read of a C array of known size outside of its bounds, and a shift by a
  negative amount or by 32 or more, are undefined in C: the embedding returns
  `none` there, so a result `some _` also says that every access was inside
  its array.
* A destination buffer is a pointer in C: it is a map from the byte offset
  relative to that pointer to the byte stored there.
-/

namespace GB

/-! ## Data model -/

/-- An RGB triple as the three `u32` outputs `*red`, `*green`, `*blue`. -/
abbrev RGB := Nat × Nat × Nat

/-- The fields of `GameBoy.Emulator` read by the debug renderers. -/
structure GB_EMULATOR where
  CGBEnabled : Int
  gbc_in_gb_mode : Int
  spr_pal : Nat → Nat
  bg_pal : Nat → Nat

/-- One entry of the sprite attribute table (`_GB_OAM_ENTRY_`), four `u8`. -/
structure GB_OAM_ENTRY where
  Y : Nat
  X : Nat
  Tile : Nat
  Info : Nat

/-- The fields of `GameBoy.Memory` read by the debug renderers. -/
structure GB_MEMORY where
  VideoRAM : Nat → Nat
  ObjAttrMem : Nat → GB_OAM_ENTRY
  IO_Ports : Int → Nat
  ExternRAM : Nat → Nat → Nat

/-- The global `GameBoy` of type `_GB_CONTEXT_`. -/
structure GB_CONTEXT where
  Emulator : GB_EMULATOR
  Memory : GB_MEMORY

/-- Declarations that `debug_video.c` takes from headers outside of the
sources at hand (`gameboy.h`, `video.h`): the addresses of four I/O registers
and the two compatibility palette lookups. They are parameters of the
embedding; the lookups may depend on the emulator state. -/
structure Extern where
  LCDC_REG : Int
  BGP_REG : Int
  OBP0_REG : Int
  OBP1_REG : Int
  gbc_getsprpalcolor : GB_CONTEXT → Int → Nat → Nat
  gbc_getbgpalcolor : GB_CONTEXT → Int → Nat → Nat

/-- Modelled from the spec: the size of the palette RAM arrays `spr_pal` and
`bg_pal`, declared in `gameboy.h` (spec §3: "64 bytes each = 8 palettes × 4
colors × 2 bytes"). -/
def PAL_RAM_SIZE : Nat := 64

/-- Modelled from the spec: the size of `VideoRAM`, declared in `gameboy.h`
(spec §3: "2 banks × 8192 bytes"). -/
def VIDEO_RAM_SIZE : Nat := 0x4000

/-- Modelled from the spec: the number of entries of the sprite attribute
table, declared in `gameboy.h` (spec §3: "fixed-size array of 40 sprite
entries"). -/
def OAM_ENTRIES : Nat := 40

/-! ## Memory accesses -/

/-- Read of element `i` of a `u8` array of `size` elements. -/
def read_u8 (size : Nat) (t : Nat → Nat) (i : Int) : Option Nat :=
  if 0 ≤ i ∧ i < (size : Int) then some (t i.toNat % 256) else none

/-- Read of the I/O register at CPU address `reg`: `mem->IO_Ports[reg - 0xFF00]`. -/
def read_io (mem : GB_MEMORY) (reg : Int) : Nat :=
  mem.IO_Ports (reg - 0xFF00) % 256

/-- The C expression `v >> n` on a `u32` value with an `int` shift amount. -/
def shr_u32 (v : Nat) (n : Int) : Option Nat :=
  if 0 ≤ n ∧ n < 32 then some (v >>> n.toNat) else none

/-- A byte store `buf[i] = v` through an `unsigned char *`. -/
def store_u8 (buf : Int → Nat) (i : Int) (v : Nat) : Int → Nat :=
  fun j => if j = i then v % 256 else buf j

/-! ## `gb_pal_colors` and `rgb16to32` -/

/-- The table `static u32 gb_pal_colors[4][3]`. -/
def gb_pal_colors : List (List Nat) :=
  [[255, 255, 255], [168, 168, 168], [80, 80, 80], [0, 0, 0]]

/-- The element `gb_pal_colors[i][j]`. -/
def gb_pal_colors_at (i j : Nat) : Option Nat :=
  (gb_pal_colors[i]?).bind (fun row => row[j]?)

/-- The three stores `*red = gb_pal_colors[i][0]`, `*green = gb_pal_colors[i][1]`,
`*blue = gb_pal_colors[i][2]`. -/
def gb_pal_colors_rgb (i : Nat) : Option RGB := do
  let r ← gb_pal_colors_at i 0
  let g ← gb_pal_colors_at i 1
  let b ← gb_pal_colors_at i 2
  pure (r, g, b)

/-- The function `rgb16to32`. -/
def rgb16to32 (color : Nat) : Nat :=
  let r := (color &&& 31) <<< 3
  let g := ((color >>> 5) &&& 31) <<< 3
  let b := ((color >>> 10) &&& 31) <<< 3
  ((b <<< 16) ||| (g <<< 8) ||| r) % 2 ^ 32

/-- The three stores `*red = (c & 0x1F) << 3`, `*green = ((c >> 5) & 0x1F) << 3`,
`*blue = ((c >> 10) & 0x1F) << 3` that unpack a 15-bit colour. -/
def unpack15 (c : Nat) : RGB :=
  ((c &&& 0x1F) <<< 3, ((c >>> 5) &&& 0x1F) <<< 3, ((c >>> 10) &&& 0x1F) <<< 3)

/-! ## `GB_Debug_GetPalette` -/

/-- The function `GB_Debug_GetPalette`; the result is `(*red, *green, *blue)`. -/
def GB_Debug_GetPalette (E : Extern) (gb : GB_CONTEXT) (is_sprite num color : Int) :
    Option RGB :=
  let mem := gb.Memory
  if gb.Emulator.CGBEnabled ≠ 0 then do
    let color_ ←
      if is_sprite ≠ 0 then do
        let lo ← read_u8 PAL_RAM_SIZE gb.Emulator.spr_pal ((num * 8) + (color * 2))
        let hi ← read_u8 PAL_RAM_SIZE gb.Emulator.spr_pal ((num * 8) + (color * 2) + 1)
        pure (lo ||| (hi <<< 8))
      else do
        let lo ← read_u8 PAL_RAM_SIZE gb.Emulator.bg_pal ((num * 8) + (color * 2))
        let hi ← read_u8 PAL_RAM_SIZE gb.Emulator.bg_pal ((num * 8) + (color * 2) + 1)
        pure (lo ||| (hi <<< 8))
    pure (unpack15 color_)
  else if gb.Emulator.gbc_in_gb_mode ≠ 0 then
    if is_sprite ≠ 0 then
      if num = 0 then do
        let obp0_reg := read_io mem E.OBP0_REG
        let out_color ← (shr_u32 obp0_reg (color * 2)).map (fun v => v &&& 0x3)
        let out_color := E.gbc_getsprpalcolor gb 0 out_color % 2 ^ 32
        pure (unpack15 out_color)
      else if num = 1 then do
        let obp1_reg := read_io mem E.OBP1_REG
        let out_color ← (shr_u32 obp1_reg (color * 2)).map (fun v => v &&& 0x3)
        let out_color := E.gbc_getsprpalcolor gb 1 out_color % 2 ^ 32
        pure (unpack15 out_color)
      else
        pure (0, 0, 0)
    else
      if num = 0 then do
        let bgp_reg := read_io mem E.BGP_REG
        let out_color ← (shr_u32 bgp_reg (color * 2)).map (fun v => v &&& 0x3)
        let out_color := E.gbc_getbgpalcolor gb 0 out_color % 2 ^ 32
        pure (unpack15 out_color)
      else
        pure (0, 0, 0)
  else
    if is_sprite ≠ 0 then
      if num = 0 then do
        let obp0_reg := read_io mem E.OBP0_REG
        let out_color ← (shr_u32 obp0_reg (color * 2)).map (fun v => v &&& 0x3)
        gb_pal_colors_rgb out_color
      else if num = 1 then do
        let obp1_reg := read_io mem E.OBP1_REG
        let pal ← (shr_u32 obp1_reg (color * 2)).map (fun v => v &&& 0x3)
        gb_pal_colors_rgb pal
      else
        pure (0, 0, 0)
    else
      if num = 0 then do
        let bgp_reg := read_io mem E.BGP_REG
        let out_color ← (shr_u32 bgp_reg (color * 2)).map (fun v => v &&& 0x3)
        gb_pal_colors_rgb out_color
      else
        pure (0, 0, 0)

/-- The packed 16-bit palette entry `pal[num*8 + color*2] | (pal[num*8 + color*2 + 1] << 8)`
of palette `num`, colour `color`, where `pal` is `spr_pal` when `is_sprite` is
not zero and `bg_pal` when it is zero: the value named `v` in the statements
about the colour mode. -/
def cgb_entry (gb : GB_CONTEXT) (is_sprite num color : Int) : Nat :=
  let pal := if is_sprite ≠ 0 then gb.Emulator.spr_pal else gb.Emulator.bg_pal
  (pal (num * 8 + color * 2).toNat % 256) |||
    ((pal (num * 8 + color * 2 + 1).toNat % 256) <<< 8)

/-! ## Loops and the tile decoder -/

/-- The loop `for (int i = 0; i < n; i++) body(i)` over a state `s`; an
iteration that fails makes the loop fail. -/
def for_loop {σ : Type} (n : Nat) (body : Nat → σ → Option σ) (s : σ) : Option σ :=
  match n with
  | 0 => some s
  | k + 1 => (for_loop k body s).bind (body k)

/-- The loop `for_loop` when no iteration can fail. -/
def pure_loop {σ : Type} (n : Nat) (g : Nat → σ → σ) (s : σ) : σ :=
  match n with
  | 0 => s
  | k + 1 => g k (pure_loop k g s)

/-- The colour index expression
`((*data >> x_) & 1) | ((((*(data + 1)) >> x_) << 1) & 2)` shared by all
decoders, `d0` being `*data` and `d1` being `*(data + 1)`. -/
def color_index (d0 d1 x_ : Nat) : Nat :=
  ((d0 >>> x_) &&& 1) ||| (((d1 >>> x_) <<< 1) &&& 2)

/-- Read of `VideoRAM[i]`. -/
def read_vram (mem : GB_MEMORY) (i : Nat) : Option Nat :=
  read_u8 VIDEO_RAM_SIZE mem.VideoRAM (i : Int)

/-- The three stores `buffer[i + 0] = r`, `buffer[i + 1] = g`,
`buffer[i + 2] = b` of an RGB pixel. -/
def store_rgb (buf : Int → Nat) (i : Int) (r g b : Nat) : Int → Nat :=
  store_u8 (store_u8 (store_u8 buf (i + 0) r) (i + 1) g) (i + 2) b

/-! ## `GB_Debug_TileVRAMDraw` -/

/-- The body of the two pixel loops of `GB_Debug_TileVRAMDraw`: `bank_offset`
is 0 in the first loop and `0x2000` (the statement `data += 0x2000`) in the
second. -/
def GB_Debug_TileVRAMDraw_body (gb : GB_CONTEXT) (bank_offset : Nat) (bufw : Int)
    (y x : Nat) (buffer : Int → Nat) : Option (Int → Nat) := do
  let mem := gb.Memory
  let tile := (x >>> 3) + ((y >>> 3) * 16)
  let data := tile <<< 4
  let data := data + bank_offset
  let data := data + ((y &&& 7) * 2)
  let x_ := 7 - (x &&& 7)
  let d0 ← read_vram mem data
  let d1 ← read_vram mem (data + 1)
  let color := color_index d0 d1 x_
  let r ← gb_pal_colors_at color 0
  let g ← gb_pal_colors_at color 1
  let b ← gb_pal_colors_at color 2
  pure (store_rgb buffer (((y : Int) * bufw + x) * 3) r g b)

/-- The function `GB_Debug_TileVRAMDraw`; the result is the final content of
`buffer0` and of `buffer1`. -/
def GB_Debug_TileVRAMDraw (gb : GB_CONTEXT) (buffer0 : Int → Nat) (bufw0 : Int)
    (buffer1 : Int → Nat) (bufw1 : Int) : Option ((Int → Nat) × (Int → Nat)) := do
  let buffer0 ← for_loop 192 (fun y buffer =>
    for_loop 128 (fun x buffer => GB_Debug_TileVRAMDraw_body gb 0 bufw0 y x buffer) buffer)
    buffer0
  let buffer1 ← for_loop 192 (fun y buffer =>
    for_loop 128 (fun x buffer => GB_Debug_TileVRAMDraw_body gb 0x2000 bufw1 y x buffer) buffer)
    buffer1
  pure (buffer0, buffer1)

/-! ## `GB_Debug_PrintSpriteAlpha` -/

/-- Read of the sprite `((_GB_OAM_ *)(mem->ObjAttrMem))->Sprite[sprite]`; each
field is a byte. -/
def read_oam (mem : GB_MEMORY) (sprite : Int) : Option GB_OAM_ENTRY :=
  if 0 ≤ sprite ∧ sprite < (OAM_ENTRIES : Int) then
    some { Y := (mem.ObjAttrMem sprite.toNat).Y % 256,
           X := (mem.ObjAttrMem sprite.toNat).X % 256,
           Tile := (mem.ObjAttrMem sprite.toNat).Tile % 256,
           Info := (mem.ObjAttrMem sprite.toNat).Info % 256 }
  else none

/-- The value `8 << ((mem->IO_Ports[LCDC_REG - 0xFF00] & (1 << 2)) != 0)` of
`spriteheight`. -/
def spriteheight (E : Extern) (mem : GB_MEMORY) : Nat :=
  8 <<< (if (read_io mem E.LCDC_REG) &&& (1 <<< 2) ≠ 0 then 1 else 0)

/-- The four stores `buf[i + 0] = r`, `buf[i + 1] = g`, `buf[i + 2] = b`,
`buf[i + 3] = a` of an RGBA pixel. -/
def store_rgba (buf : Int → Nat) (i : Int) (r g b a : Nat) : Int → Nat :=
  store_u8 (store_u8 (store_u8 (store_u8 buf (i + 0) r) (i + 1) g) (i + 2) b) (i + 3) a

/-- The decoding part of the body of the sprite pixel loops: the address of the
row (`data`, flipped over the sprite height when `Info` bit 6 is set), the bit
position (`x_`, mirrored when `Info` bit 5 is set) and the colour index. -/
def sprite_color_index (mem : GB_MEMORY) (spriteheight Info spr_data y x : Nat) :
    Option Nat := do
  let data := spr_data
  let data := if Info &&& (1 <<< 6) ≠ 0 then data + (spriteheight - y - 1) * 2 else data + y * 2
  let x_ := if Info &&& (1 <<< 5) ≠ 0 then 7 - x else x
  let x_ := 7 - x_
  let d0 ← read_vram mem data
  let d1 ← read_vram mem (data + 1)
  pure (color_index d0 d1 x_)

/-- The body of the pixel loops of `GB_Debug_PrintSpriteAlpha`; `resolve color`
is the colour stored for a colour index that is not 0, which is the only
difference between the loop of the CGB branch and the loop of the other
branch. -/
def GB_Debug_PrintSpriteAlpha_body (mem : GB_MEMORY) (spriteheight Info spr_data : Nat)
    (resolve : Nat → Option RGB) (y x : Nat) (buf : Int → Nat) : Option (Int → Nat) := do
  let color ← sprite_color_index mem spriteheight Info spr_data y x
  if color ≠ 0 then do
    let (r, g, b) ← resolve color
    pure (store_rgba buf (((y : Int) * 8 + x) * 4) r g b 255)
  else
    pure (store_rgba buf (((y : Int) * 8 + x) * 4) 0 0 0 0)

/-- The local array `palette` of the CGB branch of the sprite renderers: the
four packed colours of sprite palette `Info & 7`. -/
def sprite_palette_cgb (gb : GB_CONTEXT) (Info : Nat) : Option (List Nat) := do
  let pal_index := (Info &&& 7) * 8
  let p0lo ← read_u8 PAL_RAM_SIZE gb.Emulator.spr_pal (pal_index : Nat)
  let p0hi ← read_u8 PAL_RAM_SIZE gb.Emulator.spr_pal ((pal_index + 1 : Nat) : Int)
  let p1lo ← read_u8 PAL_RAM_SIZE gb.Emulator.spr_pal ((pal_index + 2 : Nat) : Int)
  let p1hi ← read_u8 PAL_RAM_SIZE gb.Emulator.spr_pal ((pal_index + 3 : Nat) : Int)
  let p2lo ← read_u8 PAL_RAM_SIZE gb.Emulator.spr_pal ((pal_index + 4 : Nat) : Int)
  let p2hi ← read_u8 PAL_RAM_SIZE gb.Emulator.spr_pal ((pal_index + 5 : Nat) : Int)
  let p3lo ← read_u8 PAL_RAM_SIZE gb.Emulator.spr_pal ((pal_index + 6 : Nat) : Int)
  let p3hi ← read_u8 PAL_RAM_SIZE gb.Emulator.spr_pal ((pal_index + 7 : Nat) : Int)
  pure [p0lo ||| (p0hi <<< 8), p1lo ||| (p1hi <<< 8), p2lo ||| (p2hi <<< 8),
    p3lo ||| (p3hi <<< 8)]

/-- The local array `palette` of the other branch of the sprite renderers: the
four 2-bit fields of OBP1 when `Info` bit 4 is set, of OBP0 otherwise. -/
def sprite_palette_dmg (E : Extern) (mem : GB_MEMORY) (Info : Nat) : List Nat :=
  let objX_reg :=
    if Info &&& (1 <<< 4) ≠ 0 then read_io mem E.OBP1_REG else read_io mem E.OBP0_REG
  [objX_reg &&& 0x3, (objX_reg >>> 2) &&& 0x3, (objX_reg >>> 4) &&& 0x3,
    (objX_reg >>> 6) &&& 0x3]

/-- The function `GB_Debug_PrintSpriteAlpha`; the result is the final content of
`buf`. -/
def GB_Debug_PrintSpriteAlpha (E : Extern) (gb : GB_CONTEXT) (buf : Int → Nat)
    (sprite : Int) : Option (Int → Nat) := do
  let mem := gb.Memory
  let spriteheight := spriteheight E mem
  let GB_Sprite ← read_oam mem sprite
  let tile := GB_Sprite.Tile &&& (if spriteheight = 16 then 0xFE else 0xFF)
  let spr_data := tile <<< 4
  if gb.Emulator.CGBEnabled ≠ 0 then do
    let spr_data := if GB_Sprite.Info &&& (1 <<< 3) ≠ 0 then spr_data + 0x2000 else spr_data
    let palette ← sprite_palette_cgb gb GB_Sprite.Info
    for_loop spriteheight (fun y buf =>
      for_loop 8 (fun x buf =>
        GB_Debug_PrintSpriteAlpha_body mem spriteheight GB_Sprite.Info spr_data
          (fun color => (palette[color]?).map unpack15) y x buf) buf) buf
  else do
    let palette := sprite_palette_dmg E mem GB_Sprite.Info
    for_loop spriteheight (fun y buf =>
      for_loop 8 (fun x buf =>
        GB_Debug_PrintSpriteAlpha_body mem spriteheight GB_Sprite.Info spr_data
          (fun color => (palette[color]?).bind gb_pal_colors_rgb) y x buf) buf) buf

/-! ## `GB_Debug_MapPrint` -/

/-- The C expression `a & m` for an `int` `a` and a mask `m`, on 32-bit two's
complement integers. -/
def and_s32 (a : Int) (m : Nat) : Nat := (a % 2 ^ 32).toNat &&& m

/-- The tile number after the adjustment made when `tile_base` is not zero
("If tile base is 0x8800"). -/
def map_tile_number (tile_base : Int) (tile : Nat) : Nat :=
  if tile_base ≠ 0 then
    if tile &&& (1 <<< 7) ≠ 0 then tile &&& 0x7F else tile + 128
  else tile

/-- The body of the pixel loops of the CGB branch of `GB_Debug_MapPrint`;
`tiledata` and `bgtilemap` are offsets into `VideoRAM`. -/
def GB_Debug_MapPrint_body_cgb (gb : GB_CONTEXT) (tiledata bgtilemap : Nat)
    (tile_base bufw : Int) (y x : Nat) (buffer : Int → Nat) : Option (Int → Nat) := do
  let mem := gb.Memory
  let tile_location := (((y >>> 3) &&& 31) * 32) + ((x >>> 3) &&& 31)
  let tile ← read_vram mem (bgtilemap + tile_location)
  let tileinfo ← read_vram mem (bgtilemap + (tile_location + 0x2000))
  let tile := map_tile_number tile_base tile
  let data := tiledata + ((tile <<< 4) + (if tileinfo &&& (1 <<< 3) ≠ 0 then 0x2000 else 0))
  let data :=
    if tileinfo &&& (1 <<< 6) ≠ 0 then data + (and_s32 (7 - (y : Int)) 7 * 2)
    else data + ((y &&& 7) * 2)
  let x_ := if tileinfo &&& (1 <<< 5) ≠ 0 then x &&& 7 else 7 - (x &&& 7)
  let d0 ← read_vram mem data
  let d1 ← read_vram mem (data + 1)
  let color := color_index d0 d1 x_
  let pal_index := ((tileinfo &&& 7) * 8) + (2 * color)
  let lo ← read_u8 PAL_RAM_SIZE gb.Emulator.bg_pal (pal_index : Nat)
  let hi ← read_u8 PAL_RAM_SIZE gb.Emulator.bg_pal ((pal_index + 1 : Nat) : Int)
  let color := lo ||| (hi <<< 8)
  pure (store_rgb buffer (((y : Int) * bufw + x) * 3) ((color &&& 0x1F) <<< 3)
    (((color >>> 5) &&& 0x1F) <<< 3) (((color >>> 10) &&& 0x1F) <<< 3))

/-- The body of the pixel loops of the other branch of `GB_Debug_MapPrint`;
`bg_pal` is the local array of four gray levels. -/
def GB_Debug_MapPrint_body_dmg (gb : GB_CONTEXT) (tiledata bgtilemap : Nat)
    (tile_base bufw : Int) (bg_pal : List Nat) (y x : Nat) (buffer : Int → Nat) :
    Option (Int → Nat) := do
  let mem := gb.Memory
  let tile ← read_vram mem (bgtilemap + ((((y >>> 3) &&& 31) * 32) + ((x >>> 3) &&& 31)))
  let tile := map_tile_number tile_base tile
  let data := (tiledata + (tile <<< 4)) + ((y &&& 7) <<< 1)
  let x_ := 7 - (x &&& 7)
  let d0 ← read_vram mem data
  let d1 ← read_vram mem (data + 1)
  let color := color_index d0 d1 x_
  let v ← bg_pal[color]?
  pure (store_rgb buffer (((y : Int) * bufw + x) * 3) v v v)

/-- The function `GB_Debug_MapPrint`; the result is the final content of
`buffer`. -/
def GB_Debug_MapPrint (E : Extern) (gb : GB_CONTEXT) (buffer : Int → Nat) (bufw : Int)
    (map tile_base : Int) : Option (Int → Nat) := do
  let mem := gb.Memory
  let tiledata : Nat := if tile_base ≠ 0 then 0x0800 else 0x0000
  let bgtilemap : Nat := if map ≠ 0 then 0x1C00 else 0x1800
  if gb.Emulator.CGBEnabled ≠ 0 then
    for_loop 256 (fun y buffer =>
      for_loop 256 (fun x buffer =>
        GB_Debug_MapPrint_body_cgb gb tiledata bgtilemap tile_base bufw y x buffer) buffer)
      buffer
  else do
    let bgp_reg := read_io mem E.BGP_REG
    let bg_pal0 ← gb_pal_colors_at (bgp_reg &&& 0x3) 0
    let bg_pal1 ← gb_pal_colors_at ((bgp_reg >>> 2) &&& 0x3) 0
    let bg_pal2 ← gb_pal_colors_at ((bgp_reg >>> 4) &&& 0x3) 0
    let bg_pal3 ← gb_pal_colors_at ((bgp_reg >>> 6) &&& 0x3) 0
    for_loop 256 (fun y buffer =>
      for_loop 256 (fun x buffer =>
        GB_Debug_MapPrint_body_dmg gb tiledata bgtilemap tile_base bufw
          [bg_pal0, bg_pal1, bg_pal2, bg_pal3] y x buffer) buffer)
      buffer

/-! ## `GB_Debug_PrintSprite` -/

/-- The flag `isvisible` that `GB_Debug_PrintSprite` computes for a sprite with
the bytes `X` and `Y`. -/
def sprite_isvisible (spriteheight X Y : Nat) : Bool :=
  if X > 0 ∧ X < 168 then
    if spriteheight = 16 then
      if Y > 0 ∧ Y < 160 then true else false
    else
      if Y > 8 ∧ Y < 160 then true else false
  else false

/-- The body of the `i`, `j` loops of `GB_Debug_PrintSprite` for the sprite
pixel `(x, y)` with the colour index `color`; `resolve color` is the colour
stored for a colour index that is not 0, which is the only difference between
the loops of the CGB branch and those of the other branch. -/
def GB_Debug_PrintSprite_pixel (isvisible : Bool) (resolve : Nat → Option RGB)
    (bufw buff_x buff_y : Int) (color y x i j : Nat) (buf : Int → Nat) :
    Option (Int → Nat) :=
  if !isvisible && (((((x * 2) + i) ^^^ ((y * 2) + j)) &&& 3) == 0) then
    let xx_ : Int := buff_x + ((x * 2 : Nat) : Int) + (i : Int)
    let yy_ : Int := buff_y + ((y * 2 : Nat) : Int) + (j : Int)
    pure (store_rgb buf ((yy_ * bufw + xx_) * 3) 255 0 0)
  else
    if color ≠ 0 then do
      let xx_ : Int := buff_x + ((x * 2 : Nat) : Int) + (i : Int)
      let yy_ : Int := buff_y + ((y * 2 : Nat) : Int) + (j : Int)
      let (r, g, b) ← resolve color
      pure (store_rgb buf ((yy_ * bufw + xx_) * 3) r g b)
    else
      pure buf

/-- The body of the `y`, `x` loops of `GB_Debug_PrintSprite`. -/
def GB_Debug_PrintSprite_body (mem : GB_MEMORY) (spriteheight Info spr_data : Nat)
    (isvisible : Bool) (resolve : Nat → Option RGB) (bufw buff_x buff_y : Int) (y x : Nat)
    (buf : Int → Nat) : Option (Int → Nat) := do
  let color ← sprite_color_index mem spriteheight Info spr_data y x
  for_loop 2 (fun i buf =>
    for_loop 2 (fun j buf =>
      GB_Debug_PrintSprite_pixel isvisible resolve bufw buff_x buff_y color y x i j buf) buf) buf

/-- The function `GB_Debug_PrintSprite`; the result is the final content of
`buf`. The parameter `bufh` is not used. -/
def GB_Debug_PrintSprite (E : Extern) (gb : GB_CONTEXT) (buf : Int → Nat)
    (bufw buff_x buff_y sprite : Int) : Option (Int → Nat) := do
  let mem := gb.Memory
  let spriteheight := spriteheight E mem
  let GB_Sprite ← read_oam mem sprite
  let tile := GB_Sprite.Tile &&& (if spriteheight = 16 then 0xFE else 0xFF)
  let spr_data := tile <<< 4
  let isvisible := sprite_isvisible spriteheight GB_Sprite.X GB_Sprite.Y
  if gb.Emulator.CGBEnabled ≠ 0 then do
    let spr_data := if GB_Sprite.Info &&& (1 <<< 3) ≠ 0 then spr_data + 0x2000 else spr_data
    let palette ← sprite_palette_cgb gb GB_Sprite.Info
    for_loop spriteheight (fun y buf =>
      for_loop 8 (fun x buf =>
        GB_Debug_PrintSprite_body mem spriteheight GB_Sprite.Info spr_data isvisible
          (fun color => (palette[color]?).map unpack15) bufw buff_x buff_y y x buf) buf) buf
  else do
    let palette := sprite_palette_dmg E mem GB_Sprite.Info
    for_loop spriteheight (fun y buf =>
      for_loop 8 (fun x buf =>
        GB_Debug_PrintSprite_body mem spriteheight GB_Sprite.Info spr_data isvisible
          (fun color => (palette[color]?).bind gb_pal_colors_rgb) bufw buff_x buff_y y x buf)
        buf) buf

/-! ## `GB_Debug_PrintZoomedSprite` -/

/-- The body of the loops of `GB_Debug_PrintZoomedSprite` that fill the 64x128
buffer with the checkerboard. -/
def GB_Debug_PrintZoomedSprite_fill (y x : Nat) (buf : Int → Nat) : Int → Nat :=
  store_rgb buf ((((y : Int) * (8 * 8)) + x) * 3)
    (if (x ^^^ y) &&& 4 ≠ 0 then 192 else 128)
    (if (x ^^^ y) &&& 4 ≠ 0 then 192 else 128)
    (if (x ^^^ y) &&& 4 ≠ 0 then 192 else 128)

/-- The body of the `i`, `j` loops of `GB_Debug_PrintZoomedSprite` for the sprite
pixel `(x, y)` with the colour index `color`. -/
def GB_Debug_PrintZoomedSprite_pixel (resolve : Nat → Option RGB) (color y x i j : Nat)
    (buf : Int → Nat) : Option (Int → Nat) :=
  if color ≠ 0 then do
    let xx_ : Int := ((x * 8 : Nat) : Int) + (i : Int)
    let yy_ : Int := ((y * 8 : Nat) : Int) + (j : Int)
    let (r, g, b) ← resolve color
    pure (store_rgb buf ((yy_ * (8 * 8) + xx_) * 3) r g b)
  else
    pure buf

/-- The body of the `y`, `x` loops of `GB_Debug_PrintZoomedSprite`. -/
def GB_Debug_PrintZoomedSprite_body (mem : GB_MEMORY) (spriteheight Info spr_data : Nat)
    (resolve : Nat → Option RGB) (y x : Nat) (buf : Int → Nat) : Option (Int → Nat) := do
  let color ← sprite_color_index mem spriteheight Info spr_data y x
  for_loop 8 (fun i buf =>
    for_loop 8 (fun j buf =>
      GB_Debug_PrintZoomedSprite_pixel resolve color y x i j buf) buf) buf

/-- The function `GB_Debug_PrintZoomedSprite`; the result is the final content of
`buf`. -/
def GB_Debug_PrintZoomedSprite (E : Extern) (gb : GB_CONTEXT) (buf : Int → Nat)
    (sprite : Int) : Option (Int → Nat) := do
  let mem := gb.Memory
  let spriteheight := spriteheight E mem
  let GB_Sprite ← read_oam mem sprite
  let tile := GB_Sprite.Tile &&& (if spriteheight = 16 then 0xFE else 0xFF)
  let spr_data := tile <<< 4
  let buf ← for_loop (16 * 8) (fun y buf =>
    for_loop (8 * 8) (fun x buf => some (GB_Debug_PrintZoomedSprite_fill y x buf)) buf) buf
  if gb.Emulator.CGBEnabled ≠ 0 then do
    let spr_data := if GB_Sprite.Info &&& (1 <<< 3) ≠ 0 then spr_data + 0x2000 else spr_data
    let palette ← sprite_palette_cgb gb GB_Sprite.Info
    for_loop spriteheight (fun y buf =>
      for_loop 8 (fun x buf =>
        GB_Debug_PrintZoomedSprite_body mem spriteheight GB_Sprite.Info spr_data
          (fun color => (palette[color]?).map unpack15) y x buf) buf) buf
  else do
    let palette := sprite_palette_dmg E mem GB_Sprite.Info
    for_loop spriteheight (fun y buf =>
      for_loop 8 (fun x buf =>
        GB_Debug_PrintZoomedSprite_body mem spriteheight GB_Sprite.Info spr_data
          (fun color => (palette[color]?).bind gb_pal_colors_rgb) y x buf) buf) buf

/-! ## The Game Boy Camera photo renderers -/

/-- Modelled from the spec: the size of one bank of `ExternRAM`, declared in
`gameboy.h` (spec §3: "array of cartridge RAM banks ... bank-indexed, 8 KiB
each"). -/
def EXTERN_RAM_BANK_SIZE : Nat := 0x2000

/-- Modelled from the spec: the number of banks of `ExternRAM`, declared in
`gameboy.h` (spec §4.1: the bank index is `(addr & 0x1E000) >> 13`, and the 30
photo slots of `0x1000` bytes above the base `0x2000` make 16 banks of 8 KiB). -/
def EXTERN_RAM_BANKS : Nat := 16

/-- Read of `mem->ExternRAM[bank][addr]`. -/
def read_extern_ram (mem : GB_MEMORY) (bank addr : Nat) : Option Nat :=
  if bank < EXTERN_RAM_BANKS ∧ addr < EXTERN_RAM_BANK_SIZE then
    some (mem.ExternRAM bank addr % 256)
  else none

/-- The bank `(ramaddr & 0x1E000) >> 13` of a flat address of the external RAM. -/
def camera_bank (ramaddr : Int) : Nat := (and_s32 ramaddr 0x1E000) >>> 13

/-- The offset `ramaddr & 0x1FFF` in its bank of a flat address of the external
RAM. -/
def camera_bankaddr (ramaddr : Int) : Nat := and_s32 ramaddr 0x1FFF

/-- The body of the pixel loops of the two photo renderers: `tiles_per_row` is 4
in `GB_Debug_GBCameraMiniPhotoPrint` and 16 in `GB_Debug_GBCameraPhotoPrint`,
whose `bufindex` has no `posx` and `posy` (here 0). -/
def GB_Debug_GBCameraPhotoPrint_body (gb : GB_CONTEXT) (tiles_per_row bank bankaddr : Nat)
    (bufw posx posy : Int) (y x : Nat) (buffer : Int → Nat) : Option (Int → Nat) := do
  let mem := gb.Memory
  let basetileaddr := bankaddr + ((((y >>> 3) * tiles_per_row) + (x >>> 3)) * 16)
  let baselineaddr := basetileaddr + ((y &&& 7) <<< 1)
  let data ← read_extern_ram mem bank baselineaddr
  let data2 ← read_extern_ram mem bank (baselineaddr + 1)
  let x_ := 7 - (x &&& 7)
  let color := color_index data data2 x_
  let bufindex : Int := (((y : Int) + posy) * bufw + ((x : Int) + posx)) * 3
  let v ← gb_pal_colors_at color 0
  pure (store_rgb buffer bufindex v v v)

/-- The function `GB_Debug_GBCameraMiniPhotoPrint`; the result is the final
content of `buffer`. The parameter `bufh` is not used. -/
def GB_Debug_GBCameraMiniPhotoPrint (gb : GB_CONTEXT) (buffer : Int → Nat)
    (bufw posx posy index : Int) : Option (Int → Nat) :=
  let ramaddr : Int := index * 0x1000 + 0x2E00
  let bank := camera_bank ramaddr
  let bankaddr := camera_bankaddr ramaddr
  for_loop (4 * 8) (fun y buffer =>
    for_loop (4 * 8) (fun x buffer =>
      GB_Debug_GBCameraPhotoPrint_body gb 4 bank bankaddr bufw posx posy y x buffer) buffer)
    buffer

/-- The function `GB_Debug_GBCameraPhotoPrint`; the result is the final content
of `buffer`. The parameter `bufh` is not used. -/
def GB_Debug_GBCameraPhotoPrint (gb : GB_CONTEXT) (buffer : Int → Nat)
    (bufw index : Int) : Option (Int → Nat) :=
  let ramaddr : Int := if index = -1 then 0x0100 else index * 0x1000 + 0x2000
  let bank := camera_bank ramaddr
  let bankaddr := camera_bankaddr ramaddr
  for_loop (14 * 8) (fun y buffer =>
    for_loop (16 * 8) (fun x buffer =>
      GB_Debug_GBCameraPhotoPrint_body gb 16 bank bankaddr bufw 0 0 y x buffer) buffer)
    buffer

/-! ## `GB_Debug_TileDrawZoomed64x64` -/

/-- A store `tiletempbuffer[i] = v` into an array of 32-bit `int`. -/
def store_s32 (buf : Int → Nat) (i : Int) (v : Nat) : Int → Nat :=
  fun j => if j = i then v % 2 ^ 32 else buf j

/-- Read of `tiletempbuffer[i]`, an array of `8 * 8` elements. -/
def read_temp (tiletempbuffer : Int → Nat) (i : Nat) : Option Nat :=
  if i < 8 * 8 then some (tiletempbuffer (i : Int)) else none

/-- The body of the loops of `GB_Debug_TileDrawZoomed64x64` that decode the tile
into `tiletempbuffer`; `tile_data` is the offset into `VideoRAM` of the pointer
`tile_data`. -/
def GB_Debug_TileDrawZoomed64x64_decode (gb : GB_CONTEXT) (tile_data : Int) (y x : Nat)
    (tiletempbuffer : Int → Nat) : Option (Int → Nat) := do
  let data : Int := tile_data + (((y &&& 7) * 2 : Nat) : Int)
  let x_ := 7 - (x &&& 7)
  let d0 ← read_u8 VIDEO_RAM_SIZE gb.Memory.VideoRAM data
  let d1 ← read_u8 VIDEO_RAM_SIZE gb.Memory.VideoRAM (data + 1)
  let color := color_index d0 d1 x_
  let c0 ← gb_pal_colors_at color 0
  let c1 ← gb_pal_colors_at color 1
  let c2 ← gb_pal_colors_at color 2
  pure (store_s32 tiletempbuffer ((x + y * 8 : Nat) : Int) ((c0 <<< 16) ||| (c1 <<< 8) ||| c2))

/-- The body of the loops of `GB_Debug_TileDrawZoomed64x64` that expand the
decoded tile to 64x64 pixels. -/
def GB_Debug_TileDrawZoomed64x64_expand (tiletempbuffer : Int → Nat) (i j : Nat)
    (buffer : Int → Nat) : Option (Int → Nat) := do
  let t ← read_temp tiletempbuffer ((j / 8) * 8 + (i / 8))
  pure (store_rgb buffer (((j * 64 + i : Nat) : Int) * 3)
    (t &&& 0xFF) ((t >>> 8) &&& 0xFF) ((t >>> 16) &&& 0xFF))

/-- The function `GB_Debug_TileDrawZoomed64x64`; the result is the final content
of `buffer`. The pointer `tile_data` is `&VideoRAM[tile << 4]`, moved by
`0x2000` when `bank` is not 0; the function reads no field of
`GameBoy.Emulator`. The local array `tiletempbuffer` is not initialised; it
starts here with zeros. -/
def GB_Debug_TileDrawZoomed64x64 (gb : GB_CONTEXT) (buffer : Int → Nat) (tile bank : Int) :
    Option (Int → Nat) := do
  let tile_data : Int := tile * 16
  let tile_data : Int := if bank ≠ 0 then tile_data + 0x2000 else tile_data
  let tiletempbuffer ← for_loop 8 (fun y t =>
    for_loop 8 (fun x t => GB_Debug_TileDrawZoomed64x64_decode gb tile_data y x t) t)
    (fun _ => 0)
  for_loop 64 (fun i buffer =>
    for_loop 64 (fun j buffer =>
      GB_Debug_TileDrawZoomed64x64_expand tiletempbuffer i j buffer) buffer) buffer

/-! ## The SGB packet engine (`sgb.h`) -/

/-- The constant `SGB_MAX_PACKETS` of `sgb.h`. -/
def SGB_MAX_PACKETS : Nat := 7

/-- The constant `SGB_BYTES_PER_PACKET` of `sgb.h`. -/
def SGB_BYTES_PER_PACKET : Nat := 16

/-- The constant `SGB_PACKET_DELAY` of `sgb.h`, whose comment reads "A 60ms
(4 frames) delay should be invoked between each packet transfer." -/
def SGB_PACKET_DELAY : Nat := 280896

/-- The fields of `_SGB_INFO_` that form the cursor of a transfer, and the packet
buffer `data[SGB_MAX_PACKETS][SGB_BYTES_PER_PACKET]`. -/
structure SGB_INFO where
  sending : Nat
  currbit : Nat
  currbyte : Nat
  currpacket : Nat
  numpackets : Nat
  data : Nat → Nat → Nat

/-- Modelled from the spec: the kinds of writes to the joypad register that
spec §4.4 tells apart, "a write pattern recognized as start of transfer", a
"qualifying write" that carries one bit, and any other write. The body of
`SGB_WriteP1` (`sgb.c`) is not among the sources. -/
inductive SGB_WRITE where
  | start : SGB_WRITE
  | bit : Nat → SGB_WRITE
  | other : SGB_WRITE

/-- Modelled from the spec: what spec §4.4 leaves open about `SGB_WriteP1`
(`sgb.c` is not among the sources): which values written are recognised as which
kind of write (`classify`), how a bit is shifted into the current byte
(`shift_in old currbit bit`, the bit order is an open question of the spec),
and how the number of packets of a command is read off when a packet is
complete (`numpackets_of`). -/
structure SGB_PROTOCOL where
  classify : Nat → SGB_WRITE
  shift_in : Nat → Nat → Nat → Nat
  numpackets_of : SGB_INFO → Nat

/-- Modelled from the spec: the function `SGB_WriteP1` of `sgb.c`, which is not
among the sources, after spec §4.4: a start of transfer "resets
`currbit=currbyte=currpacket=0, sending=1`"; "each subsequent qualifying write
shifts one bit into `data[currpacket][currbyte]`; byte completion
(`currbit==8`) advances `currbyte`, resets `currbit`; packet completion
(`currbyte==16`) advances `currpacket`, resets `currbyte`, and inspects the
packet's command nibble to determine `numpackets`"; "when
`currpacket == numpackets`, the engine ... returns to Idle (`sending=0`)". A bit
written while no transfer is active and a write of another kind change nothing;
a store outside of `data` fails. The tables that decoding a command fills are
not part of `SGB_INFO` here. -/
def SGB_WriteP1 (P : SGB_PROTOCOL) (s : SGB_INFO) (value : Nat) : Option SGB_INFO :=
  match P.classify value with
  | SGB_WRITE.start => some { s with currbit := 0, currbyte := 0, currpacket := 0, sending := 1 }
  | SGB_WRITE.other => some s
  | SGB_WRITE.bit b =>
    if s.sending = 0 then some s
    else if s.currpacket < SGB_MAX_PACKETS ∧ s.currbyte < SGB_BYTES_PER_PACKET then
      let s1 : SGB_INFO :=
        { s with
          data := fun i j =>
            if i = s.currpacket ∧ j = s.currbyte then
              P.shift_in (s.data s.currpacket s.currbyte) s.currbit b
            else s.data i j,
          currbit := s.currbit + 1 }
      if s1.currbit = 8 then
        let s2 : SGB_INFO := { s1 with currbyte := s1.currbyte + 1, currbit := 0 }
        if s2.currbyte = SGB_BYTES_PER_PACKET then
          let s3 : SGB_INFO := { s2 with currpacket := s2.currpacket + 1, currbyte := 0 }
          let s4 : SGB_INFO := { s3 with numpackets := P.numpackets_of s3 }
          if s4.currpacket = s4.numpackets then some { s4 with sending := 0 } else some s4
        else some s2
      else some s1
    else none

/-- A sequence of calls of `SGB_WriteP1`, one for each value of the list. -/
def SGB_WriteP1_seq (P : SGB_PROTOCOL) (s : SGB_INFO) : List Nat → Option SGB_INFO
  | [] => some s
  | w :: ws => (SGB_WriteP1 P s w).bind (fun s1 => SGB_WriteP1_seq P s1 ws)

/-! ## `GB_Debug_MapPrintBW` -/

/-- The body of the pixel loops of the CGB branch of `GB_Debug_MapPrintBW`;
`tiledata` and `bgtilemap` are offsets into `VideoRAM`. -/
def GB_Debug_MapPrintBW_body_cgb (gb : GB_CONTEXT) (tiledata bgtilemap : Nat)
    (tile_base bufw : Int) (y x : Nat) (buffer : Int → Nat) : Option (Int → Nat) := do
  let mem := gb.Memory
  let tile_location := (((y >>> 3) &&& 31) * 32) + ((x >>> 3) &&& 31)
  let tile ← read_vram mem (bgtilemap + tile_location)
  let tileinfo ← read_vram mem (bgtilemap + (tile_location + 0x2000))
  let tile := map_tile_number tile_base tile
  let data := tiledata + ((tile <<< 4) + (if tileinfo &&& (1 <<< 3) ≠ 0 then 0x2000 else 0))
  let data :=
    if tileinfo &&& (1 <<< 6) ≠ 0 then data + (and_s32 (7 - (y : Int)) 7 * 2)
    else data + ((y &&& 7) * 2)
  let x_ := if tileinfo &&& (1 <<< 5) ≠ 0 then x &&& 7 else 7 - (x &&& 7)
  let d0 ← read_vram mem data
  let d1 ← read_vram mem (data + 1)
  let color := color_index d0 d1 x_
  let c0 ← gb_pal_colors_at color 0
  let c1 ← gb_pal_colors_at color 1
  let c2 ← gb_pal_colors_at color 2
  pure (store_rgb buffer (((y : Int) * bufw + x) * 3) c0 c1 c2)

/-- The body of the pixel loops of the other branch of `GB_Debug_MapPrintBW`. -/
def GB_Debug_MapPrintBW_body_dmg (gb : GB_CONTEXT) (tiledata bgtilemap : Nat)
    (tile_base bufw : Int) (y x : Nat) (buffer : Int → Nat) : Option (Int → Nat) := do
  let mem := gb.Memory
  let tile ← read_vram mem (bgtilemap + ((((y >>> 3) &&& 31) * 32) + ((x >>> 3) &&& 31)))
  let tile := map_tile_number tile_base tile
  let data := (tiledata + (tile <<< 4)) + ((y &&& 7) <<< 1)
  let x_ := 7 - (x &&& 7)
  let d0 ← read_vram mem data
  let d1 ← read_vram mem (data + 1)
  let color := color_index d0 d1 x_
  let c0 ← gb_pal_colors_at color 0
  let c1 ← gb_pal_colors_at color 1
  let c2 ← gb_pal_colors_at color 2
  pure (store_rgb buffer (((y : Int) * bufw + x) * 3) c0 c1 c2)

/-- The function `GB_Debug_MapPrintBW`; the result is the final content of
`buffer`. The parameter `bufh` is not used. -/
def GB_Debug_MapPrintBW (gb : GB_CONTEXT) (buffer : Int → Nat) (bufw : Int)
    (map tile_base : Int) : Option (Int → Nat) :=
  let tiledata : Nat := if tile_base ≠ 0 then 0x0800 else 0x0000
  let bgtilemap : Nat := if map ≠ 0 then 0x1C00 else 0x1800
  if gb.Emulator.CGBEnabled ≠ 0 then
    for_loop 256 (fun y buffer =>
      for_loop 256 (fun x buffer =>
        GB_Debug_MapPrintBW_body_cgb gb tiledata bgtilemap tile_base bufw y x buffer) buffer)
      buffer
  else
    for_loop 256 (fun y buffer =>
      for_loop 256 (fun x buffer =>
        GB_Debug_MapPrintBW_body_dmg gb tiledata bgtilemap tile_base bufw y x buffer) buffer)
      buffer

/-! ## `GB_Debug_PrintSprites` -/

/-- The body of the loops of `GB_Debug_PrintSprites` that fill the 256x256
buffer with the checkerboard. -/
def GB_Debug_PrintSprites_fill (y x : Nat) (buf : Int → Nat) : Int → Nat :=
  store_rgb buf ((((y : Int) * 256) + x) * 3)
    (if (x ^^^ y) &&& 4 ≠ 0 then 192 else 128)
    (if (x ^^^ y) &&& 4 ≠ 0 then 192 else 128)
    (if (x ^^^ y) &&& 4 ≠ 0 then 192 else 128)

/-- The body of the loops of `GB_Debug_PrintSprites` that draw the sprites: the
call `GB_Debug_PrintSprite(buf, 256, 256, 8 + (x * 32), 10 + (y * 52), i++)`
on the state made of the buffer and the `u32` counter `i`. -/
def GB_Debug_PrintSprites_body (E : Extern) (gb : GB_CONTEXT) (y x : Nat)
    (st : (Int → Nat) × Nat) : Option ((Int → Nat) × Nat) := do
  let buf ← GB_Debug_PrintSprite E gb st.1 256 (8 + ((x : Int) * 32)) (10 + ((y : Int) * 52))
    (st.2 : Int)
  pure (buf, (st.2 + 1) % 2 ^ 32)

/-- The function `GB_Debug_PrintSprites`; the result is the final content of
`buf`. -/
def GB_Debug_PrintSprites (E : Extern) (gb : GB_CONTEXT) (buf : Int → Nat) :
    Option (Int → Nat) := do
  let buf ← for_loop 256 (fun y buf =>
    for_loop 256 (fun x buf => some (GB_Debug_PrintSprites_fill y x buf)) buf) buf
  let i : Nat := 0
  let st ← for_loop 5 (fun y st =>
    for_loop 8 (fun x st => GB_Debug_PrintSprites_body E gb y x st) st) (buf, i)
  pure st.1

/-! ## The GBA memory viewer (`win_gba_memviewer.c`) -/

/-- The conversion of a `u8` value to `char`, a signed 8-bit type as the comment
in `win_gba_memviewer_character_fix` assumes. -/
def char_of_u8 (v : Nat) : Int :=
  if v % 256 < 128 then ((v % 256 : Nat) : Int) else ((v % 256 : Nat) : Int) - 256

/-- The function `win_gba_memviewer_character_fix` on a `char` value; the
character constants are written as their codes: `'-'` is `0x2D`, `'_'` is
`0x5F`, `'a'` is `0x61` and `'.'` is `0x2E`. -/
def win_gba_memviewer_character_fix (c : Int) : Int :=
  if (c ≥ 0x2D) ∧ (c ≤ 0x5F) then c
  else if c ≥ 0x61 then c
  else 0x2E

/-- The constant `GBA_MEMVIEWER_MAX_LINES`. -/
def GBA_MEMVIEWER_MAX_LINES : Nat := 20

/-- The constant `GBA_MEMVIEWER_ADDRESS_JUMP_LINE`, an `int`. -/
def GBA_MEMVIEWER_ADDRESS_JUMP_LINE : Int := 16

/-- The constant `GBA_MEMVIEWER_8`. -/
def GBA_MEMVIEWER_8 : Int := 0

/-- The constant `GBA_MEMVIEWER_16`. -/
def GBA_MEMVIEWER_16 : Int := 1

/-- The constant `GBA_MEMVIEWER_32`. -/
def GBA_MEMVIEWER_32 : Int := 2

/-- The conversion of an `int` value to `u32`. -/
def u32_of_int (a : Int) : Nat := (a % 2 ^ 32).toNat

/-- The result of an `int` operation whose mathematical value is `a`, on 32-bit
two's complement integers with wrap-around. -/
def s32_wrap (a : Int) : Int := (a + 2 ^ 31) % 2 ^ 32 - 2 ^ 31

/-- The static variables of `win_gba_memviewer.c` that the callbacks change; the
two addresses are `u32`. -/
structure GBA_MEMVIEWER where
  GBAMemViewerCreated : Int
  gba_memviewer_mode : Int
  gba_memviewer_start_address : Nat
  gba_memviewer_clicked_address : Nat
  gba_memviewer_inputwindow_is_goto : Int

/-- The loop `for (int j = 0; j < n; j++)` of `_win_gba_mem_view_textbox_callback`
that looks for the value under the column `xtile`: a value is `last + 1`
columns wide, the next one starts `step` columns further and `w` bytes higher.
The result is `clicked_addr` when `has_clicked_addr` is set. -/
def win_gba_mem_view_scan (last : Int) (w : Nat) (step : Int) :
    Nat → Int → Nat → Option Nat
  | 0, _, _ => none
  | n + 1, xtile, line_base_addr =>
    if (xtile ≥ 0) ∧ (xtile ≤ last) then some line_base_addr
    else win_gba_mem_view_scan last w step n (xtile - step) ((line_base_addr + w) % 2 ^ 32)

/-- The address that `_win_gba_mem_view_textbox_callback` selects for a click in
the text column `xtile` of the text line `ytile`, if it selects one. -/
def win_gba_mem_view_clicked (s : GBA_MEMVIEWER) (xtile ytile : Int) : Option Nat :=
  let line_base_addr : Nat :=
    u32_of_int ((s.gba_memviewer_start_address : Int) +
      s32_wrap (ytile * GBA_MEMVIEWER_ADDRESS_JUMP_LINE))
  if s.gba_memviewer_mode = GBA_MEMVIEWER_32 then
    win_gba_mem_view_scan 7 4 9 4 (xtile - 11) line_base_addr
  else if s.gba_memviewer_mode = GBA_MEMVIEWER_16 then
    win_gba_mem_view_scan 3 2 5 8 (xtile - 11) line_base_addr
  else if s.gba_memviewer_mode = GBA_MEMVIEWER_8 then
    win_gba_mem_view_scan 1 1 3 16 (xtile - 11) line_base_addr
  else none

/-- The function `_win_gba_mem_view_textbox_callback` as the change of the static
variables; `FONT_WIDTH` and `FONT_HEIGHT` are constants of `font_utils.h`, which
is not among the sources, and the divisions are those of C. -/
def win_gba_mem_view_textbox_callback (FONT_WIDTH FONT_HEIGHT : Int) (s : GBA_MEMVIEWER)
    (x y : Int) : GBA_MEMVIEWER :=
  let xtile := Int.tdiv x FONT_WIDTH
  let ytile := Int.tdiv y FONT_HEIGHT
  match win_gba_mem_view_clicked s xtile ytile with
  | some clicked_addr =>
    { s with
      gba_memviewer_clicked_address := clicked_addr,
      gba_memviewer_inputwindow_is_goto := 0 }
  | none => s

/-- The memory reads of the GBA core that the viewer prints: `GBA_MemoryReadFast32`,
`GBA_MemoryReadFast16` and `GBA_MemoryReadFast8` are declared in a header that is not part of the
sources, so they are parameters; their results are reduced to `u32`, `u16` and `u8`. -/
structure GBA_MEMORY where
  GBA_MemoryReadFast32 : Nat → Nat
  GBA_MemoryReadFast16 : Nat → Nat
  GBA_MemoryReadFast8 : Nat → Nat

/-- One upper-case hexadecimal digit, as the conversion `%X` prints it. -/
def hex_digit (n : Nat) : Char :=
  if n < 10 then Char.ofNat (0x30 + n) else Char.ofNat (0x41 + (n - 10))

/-- The text `snprintf` produces for the conversions `%08X`, `%04X` and `%02X` (`d` is 8, 4 or 2)
of a value below `16 ^ d`: exactly `d` digits, most significant first. -/
def snprintf_0X (d : Nat) (v : Nat) : List Char :=
  (List.range d).reverse.map (fun k => hex_digit (v / 16 ^ k % 16))

/-- The value columns of one line of `Win_GBAMemViewerUpdate`: `n` values of `w` bytes, each
printed with `d` digits and one blank, `tmpaddr` advancing by `w` in 32 bits. -/
def Win_GBAMemViewerUpdate_values (read : Nat → Nat) (w n d : Nat) (address : Nat) : List Char :=
  ((List.range n).map (fun j =>
    snprintf_0X d (read ((address + w * j) % 2 ^ 32) % 16 ^ d) ++ [' '])).flatten

/-- The ASCII columns of one line of `Win_GBAMemViewerUpdate`: 16 characters made printable by
`win_gba_memviewer_character_fix`, with a blank after every fourth one. -/
def Win_GBAMemViewerUpdate_ascii (R : GBA_MEMORY) (address : Nat) : List Char :=
  ((List.range 16).map (fun j =>
    let c : Int := win_gba_memviewer_character_fix
      (char_of_u8 (R.GBA_MemoryReadFast8 ((address + j) % 2 ^ 32)))
    Char.ofNat c.toNat :: (if (j &&& 3) = 3 then [' '] else []))).flatten

/-- The text `textbuf` that the loop body of `Win_GBAMemViewerUpdate` builds for one line that
starts at `address`; no text is built when the mode is none of the three. -/
def Win_GBAMemViewerUpdate_line (R : GBA_MEMORY) (mode : Int) (address : Nat) : List Char :=
  if mode = GBA_MEMVIEWER_32 then
    snprintf_0X 8 address ++ [' ', ':', ' '] ++
      Win_GBAMemViewerUpdate_values R.GBA_MemoryReadFast32 4 4 8 address ++ [':', ' '] ++
      Win_GBAMemViewerUpdate_ascii R address
  else if mode = GBA_MEMVIEWER_16 then
    snprintf_0X 8 address ++ [' ', ':', ' '] ++
      Win_GBAMemViewerUpdate_values R.GBA_MemoryReadFast16 2 8 4 address ++ [':', ' '] ++
      Win_GBAMemViewerUpdate_ascii R address
  else if mode = GBA_MEMVIEWER_8 then
    snprintf_0X 8 address ++ [' ', ':', ' '] ++
      Win_GBAMemViewerUpdate_values R.GBA_MemoryReadFast8 1 16 2 address ++ [':', ' '] ++
      Win_GBAMemViewerUpdate_ascii R address
  else []

/-- The C function `Win_GBAMemViewerUpdate`: the lines it prints at column 0 of the console, line
`i` starting at `gba_memviewer_start_address + 16 * i` in 32 bits; nothing is printed (`none`)
when the viewer is not created or no GBA program runs, and no line when the mode is none of the
three. -/
def Win_GBAMemViewerUpdate (R : GBA_MEMORY) (running_gba : Int) (s : GBA_MEMVIEWER) :
    Option (List (List Char)) :=
  if s.GBAMemViewerCreated = 0 then none
  else if running_gba = 0 then none
  else if s.gba_memviewer_mode = GBA_MEMVIEWER_32 ∨ s.gba_memviewer_mode = GBA_MEMVIEWER_16 ∨
      s.gba_memviewer_mode = GBA_MEMVIEWER_8 then
    some ((List.range GBA_MEMVIEWER_MAX_LINES).map (fun i =>
      Win_GBAMemViewerUpdate_line R s.gba_memviewer_mode
        ((s.gba_memviewer_start_address + 16 * i) % 2 ^ 32)))
  else some []

/-! ## `GB_Debug_TileVRAMDrawPaletted` and `GB_Debug_TileDrawZoomedPaletted64x64` -/

/-- The statement `if (GameBoy.Emulator.CGBEnabled) { ... } else { ... }` that the pixel loops of
`GB_Debug_TileVRAMDrawPaletted` and of `GB_Debug_TileDrawZoomedPaletted64x64` both contain: the
packed `u32` colour of the colour index `color`, `rgb16to32` of the palette entry at
`pal_index = (pal * 8) + (2 * color)` in CGB mode and
`bg_pal[color] | (bg_pal[color] << 8) | (bg_pal[color] << 16)` otherwise; `bg_pal` is the local
array of four gray levels. -/
def GB_Debug_Paletted_color (gb : GB_CONTEXT) (bg_pal : List Nat) (pal pal_is_spr : Int)
    (color : Nat) : Option Nat :=
  if gb.Emulator.CGBEnabled ≠ 0 then do
    let pal_index : Nat := u32_of_int ((pal * 8) + ((2 * color : Nat) : Int))
    let color ←
      if pal_is_spr ≠ 0 then do
        let lo ← read_u8 PAL_RAM_SIZE gb.Emulator.spr_pal (pal_index : Int)
        let hi ← read_u8 PAL_RAM_SIZE gb.Emulator.spr_pal (((pal_index + 1) % 2 ^ 32 : Nat) : Int)
        pure (lo ||| (hi <<< 8))
      else do
        let lo ← read_u8 PAL_RAM_SIZE gb.Emulator.bg_pal (pal_index : Int)
        let hi ← read_u8 PAL_RAM_SIZE gb.Emulator.bg_pal (((pal_index + 1) % 2 ^ 32 : Nat) : Int)
        pure (lo ||| (hi <<< 8))
    pure (rgb16to32 color)
  else do
    let v ← bg_pal[color]?
    pure ((v ||| (v <<< 8) ||| (v <<< 16)) % 2 ^ 32)

/-- The body of the two pixel loops of `GB_Debug_TileVRAMDrawPaletted`: `bank_offset` is 0 in
the first loop and `0x2000` (the statement `data += 0x2000`) in the second; `bufw` is the stride
in the index of the three stores. -/
def GB_Debug_TileVRAMDrawPaletted_body (gb : GB_CONTEXT) (bg_pal : List Nat) (bank_offset : Nat)
    (bufw : Int) (pal pal_is_spr : Int) (y x : Nat) (buffer : Int → Nat) :
    Option (Int → Nat) := do
  let mem := gb.Memory
  let tile := (x >>> 3) + ((y >>> 3) * 16)
  let data := tile <<< 4
  let data := data + bank_offset
  let data := data + ((y &&& 7) * 2)
  let x_ := 7 - (x &&& 7)
  let d0 ← read_vram mem data
  let d1 ← read_vram mem (data + 1)
  let color := color_index d0 d1 x_
  let color ← GB_Debug_Paletted_color gb bg_pal pal pal_is_spr color
  pure (store_rgb buffer (((y : Int) * bufw + x) * 3) (color &&& 0xFF) ((color >>> 8) &&& 0xFF)
    ((color >>> 16) &&& 0xFF))

/-- The function `GB_Debug_TileVRAMDrawPaletted`; the result is the final content of `buffer0`
and of `buffer1`. The stores of the second loop are
`buffer1[(y * bufw0 + x) * 3 + k]`: the source indexes `buffer1` with `bufw0`, and `bufw1` is
not read (the parameter `_bufw1`). -/
def GB_Debug_TileVRAMDrawPaletted (E : Extern) (gb : GB_CONTEXT) (buffer0 : Int → Nat)
    (bufw0 : Int) (buffer1 : Int → Nat) (_bufw1 : Int) (pal pal_is_spr : Int) :
    Option ((Int → Nat) × (Int → Nat)) := do
  let mem := gb.Memory
  let bgp_reg := read_io mem E.BGP_REG
  let bg_pal0 ← gb_pal_colors_at (bgp_reg &&& 0x3) 0
  let bg_pal1 ← gb_pal_colors_at ((bgp_reg >>> 2) &&& 0x3) 0
  let bg_pal2 ← gb_pal_colors_at ((bgp_reg >>> 4) &&& 0x3) 0
  let bg_pal3 ← gb_pal_colors_at ((bgp_reg >>> 6) &&& 0x3) 0
  let buffer0 ← for_loop 192 (fun y buffer =>
    for_loop 128 (fun x buffer =>
      GB_Debug_TileVRAMDrawPaletted_body gb [bg_pal0, bg_pal1, bg_pal2, bg_pal3] 0 bufw0
        pal pal_is_spr y x buffer) buffer)
    buffer0
  let buffer1 ← for_loop 192 (fun y buffer =>
    for_loop 128 (fun x buffer =>
      GB_Debug_TileVRAMDrawPaletted_body gb [bg_pal0, bg_pal1, bg_pal2, bg_pal3] 0x2000 bufw0
        pal pal_is_spr y x buffer) buffer)
    buffer1
  pure (buffer0, buffer1)

/-- The body of the loops of `GB_Debug_TileDrawZoomedPaletted64x64` that decode the tile into
`tiletempbuffer`; `tile_data` is the offset into `VideoRAM` of the pointer `tile_data`. -/
def GB_Debug_TileDrawZoomedPaletted64x64_decode (gb : GB_CONTEXT) (bg_pal : List Nat)
    (tile_data : Int) (palette is_sprite_palette : Int) (y x : Nat)
    (tiletempbuffer : Int → Nat) : Option (Int → Nat) := do
  let data : Int := tile_data + (((y &&& 7) * 2 : Nat) : Int)
  let x_ := 7 - (x &&& 7)
  let d0 ← read_u8 VIDEO_RAM_SIZE gb.Memory.VideoRAM data
  let d1 ← read_u8 VIDEO_RAM_SIZE gb.Memory.VideoRAM (data + 1)
  let color := color_index d0 d1 x_
  let v ← GB_Debug_Paletted_color gb bg_pal palette is_sprite_palette color
  pure (store_s32 tiletempbuffer ((x + y * 8 : Nat) : Int) v)

/-- The function `GB_Debug_TileDrawZoomedPaletted64x64`; the result is the final content of
`buffer`. The expanding loops have the text of those of `GB_Debug_TileDrawZoomed64x64`. The
local array `tiletempbuffer` is not initialised; it starts here with zeros. -/
def GB_Debug_TileDrawZoomedPaletted64x64 (E : Extern) (gb : GB_CONTEXT) (buffer : Int → Nat)
    (tile bank palette is_sprite_palette : Int) : Option (Int → Nat) := do
  let mem := gb.Memory
  let tile_data : Int := tile * 16
  let tile_data : Int := if bank ≠ 0 then tile_data + 0x2000 else tile_data
  let bgp_reg := read_io mem E.BGP_REG
  let bg_pal0 ← gb_pal_colors_at (bgp_reg &&& 0x3) 0
  let bg_pal1 ← gb_pal_colors_at ((bgp_reg >>> 2) &&& 0x3) 0
  let bg_pal2 ← gb_pal_colors_at ((bgp_reg >>> 4) &&& 0x3) 0
  let bg_pal3 ← gb_pal_colors_at ((bgp_reg >>> 6) &&& 0x3) 0
  let tiletempbuffer ← for_loop 8 (fun y t =>
    for_loop 8 (fun x t =>
      GB_Debug_TileDrawZoomedPaletted64x64_decode gb [bg_pal0, bg_pal1, bg_pal2, bg_pal3]
        tile_data palette is_sprite_palette y x t) t)
    (fun _ => 0)
  for_loop 64 (fun i buffer =>
    for_loop 64 (fun j buffer =>
      GB_Debug_TileDrawZoomed64x64_expand tiletempbuffer i j buffer) buffer) buffer

/-! ## `GB_Debug_PrintSpritesAlpha` -/

/-- The library function `memset(buf, c, n)` on a byte buffer: the `n` bytes from offset 0 are
set to `c` converted to `unsigned char`. -/
def memset (buf : Int → Nat) (c n : Nat) : Int → Nat :=
  fun p => if 0 ≤ p ∧ p < (n : Int) then c % 256 else buf p

/-- The body of the `i`, `j` loops of `_gb_debug_print_sprite_alpha_at_position` for the sprite
pixel `(x, y)` with the colour index `color`; `resolve color` is the colour stored for a colour
index that is not 0, which is the only difference between the loops of the CGB branch and those
of the other branch. -/
def gb_debug_print_sprite_alpha_at_position_pixel (resolve : Nat → Option RGB)
    (bufw buff_x buff_y : Int) (color y x i j : Nat) (buf : Int → Nat) :
    Option (Int → Nat) :=
  let xx_ : Int := buff_x + ((x * 2 : Nat) : Int) + (i : Int)
  let yy_ : Int := buff_y + ((y * 2 : Nat) : Int) + (j : Int)
  if color ≠ 0 then do
    let (r, g, b) ← resolve color
    pure (store_rgba buf ((yy_ * bufw + xx_) * 4) r g b 255)
  else
    pure (store_rgba buf ((yy_ * bufw + xx_) * 4) 0 0 0 0)

/-- The body of the `y`, `x` loops of `_gb_debug_print_sprite_alpha_at_position`. -/
def gb_debug_print_sprite_alpha_at_position_body (mem : GB_MEMORY)
    (spriteheight Info spr_data : Nat) (resolve : Nat → Option RGB) (bufw buff_x buff_y : Int)
    (y x : Nat) (buf : Int → Nat) : Option (Int → Nat) := do
  let color ← sprite_color_index mem spriteheight Info spr_data y x
  for_loop 2 (fun i buf =>
    for_loop 2 (fun j buf =>
      gb_debug_print_sprite_alpha_at_position_pixel resolve bufw buff_x buff_y color y x i j buf)
      buf) buf

/-- The function `_gb_debug_print_sprite_alpha_at_position`; the result is the final content of
`buf`. The parameter `bufh` is not used. -/
def gb_debug_print_sprite_alpha_at_position (E : Extern) (gb : GB_CONTEXT) (buf : Int → Nat)
    (bufw buff_x buff_y sprite : Int) : Option (Int → Nat) := do
  let mem := gb.Memory
  let spriteheight := spriteheight E mem
  let GB_Sprite ← read_oam mem sprite
  let tile := GB_Sprite.Tile &&& (if spriteheight = 16 then 0xFE else 0xFF)
  let spr_data := tile <<< 4
  if gb.Emulator.CGBEnabled ≠ 0 then do
    let spr_data := if GB_Sprite.Info &&& (1 <<< 3) ≠ 0 then spr_data + 0x2000 else spr_data
    let palette ← sprite_palette_cgb gb GB_Sprite.Info
    for_loop spriteheight (fun y buf =>
      for_loop 8 (fun x buf =>
        gb_debug_print_sprite_alpha_at_position_body mem spriteheight GB_Sprite.Info spr_data
          (fun color => (palette[color]?).map unpack15) bufw buff_x buff_y y x buf) buf) buf
  else do
    let palette := sprite_palette_dmg E mem GB_Sprite.Info
    for_loop spriteheight (fun y buf =>
      for_loop 8 (fun x buf =>
        gb_debug_print_sprite_alpha_at_position_body mem spriteheight GB_Sprite.Info spr_data
          (fun color => (palette[color]?).bind gb_pal_colors_rgb) bufw buff_x buff_y y x buf)
        buf) buf

/-- The body of the loops of `GB_Debug_PrintSpritesAlpha`: the call
`_gb_debug_print_sprite_alpha_at_position(buf, 256, 256, 8 + (x * 32), 10 + (y * 52), i++)` on
the state made of the buffer and the `u32` counter `i`. -/
def GB_Debug_PrintSpritesAlpha_body (E : Extern) (gb : GB_CONTEXT) (y x : Nat)
    (st : (Int → Nat) × Nat) : Option ((Int → Nat) × Nat) := do
  let buf ← gb_debug_print_sprite_alpha_at_position E gb st.1 256 (8 + ((x : Int) * 32))
    (10 + ((y : Int) * 52)) (st.2 : Int)
  pure (buf, (st.2 + 1) % 2 ^ 32)

/-- The function `GB_Debug_PrintSpritesAlpha`; the result is the final content of `buf`. -/
def GB_Debug_PrintSpritesAlpha (E : Extern) (gb : GB_CONTEXT) (buf : Int → Nat) :
    Option (Int → Nat) := do
  let buf := memset buf 0 (256 * 256 * 4)
  let i : Nat := 0
  let st ← for_loop 5 (fun y st =>
    for_loop 8 (fun x st => GB_Debug_PrintSpritesAlpha_body E gb y x st) st) (buf, i)
  pure st.1

/-! ## Derived quantities used in the proofs -/

/-- The colour index that `sprite_color_index` decodes at the pixel `(x, y)` from
the video RAM content `vram`. -/
def sprite_color (vram : Nat → Nat) (spriteheight Info spr_data y x : Nat) : Nat :=
  color_index
    (vram (if Info &&& (1 <<< 6) ≠ 0 then spr_data + (spriteheight - y - 1) * 2
      else spr_data + y * 2) % 256)
    (vram ((if Info &&& (1 <<< 6) ≠ 0 then spr_data + (spriteheight - y - 1) * 2
      else spr_data + y * 2) + 1) % 256)
    (7 - (if Info &&& (1 <<< 5) ≠ 0 then 7 - x else x))

/-- The four bytes that the body of `GB_Debug_PrintSpriteAlpha` stores for the
colour index `c`. -/
def sprite_rgba (resolve : Nat → Option RGB) (c : Nat) : Nat × Nat × Nat × Nat :=
  if c ≠ 0 then
    match resolve c with
    | some (r, g, b) => (r, g, b, 255)
    | none => (0, 0, 0, 0)
  else (0, 0, 0, 0)

/-- The byte `k` of an RGBA pixel. -/
def rgba_byte (q : Nat × Nat × Nat × Nat) (k : Nat) : Nat :=
  if k = 0 then q.1 else if k = 1 then q.2.1 else if k = 2 then q.2.2.1 else q.2.2.2

/-- The content of the destination buffer after the pixel loops of
`GB_Debug_PrintSpriteAlpha`, as a loop of stores that cannot fail. -/
def sprite_alpha_paint (vram : Nat → Nat) (spriteheight Info spr_data : Nat)
    (resolve : Nat → Option RGB) (buf : Int → Nat) : Int → Nat :=
  pure_loop spriteheight (fun y s => pure_loop 8 (fun x s =>
    store_rgba s (((y : Int) * 8 + x) * 4)
      (sprite_rgba resolve (sprite_color vram spriteheight Info spr_data y x)).1
      (sprite_rgba resolve (sprite_color vram spriteheight Info spr_data y x)).2.1
      (sprite_rgba resolve (sprite_color vram spriteheight Info spr_data y x)).2.2.1
      (sprite_rgba resolve (sprite_color vram spriteheight Info spr_data y x)).2.2.2) s) buf

/-- The offset `spr_data` into `VideoRAM` of the tile data of a sprite with the
bytes `Tile` and `Info`. -/
def sprite_data_offset (E : Extern) (gb : GB_CONTEXT) (Tile Info : Nat) : Nat :=
  if gb.Emulator.CGBEnabled ≠ 0 then
    if Info &&& (1 <<< 3) ≠ 0 then
      ((Tile &&& (if spriteheight E gb.Memory = 16 then 0xFE else 0xFF)) <<< 4) + 0x2000
    else (Tile &&& (if spriteheight E gb.Memory = 16 then 0xFE else 0xFF)) <<< 4
  else (Tile &&& (if spriteheight E gb.Memory = 16 then 0xFE else 0xFF)) <<< 4

/-- The colour that the sprite renderers store for a colour index of a sprite
with the byte `Info`. -/
def sprite_resolve (E : Extern) (gb : GB_CONTEXT) (Info : Nat) : Nat → Option RGB :=
  if gb.Emulator.CGBEnabled ≠ 0 then
    fun color => ((((sprite_palette_cgb gb Info).getD [])[color]?).map unpack15)
  else
    fun color => (((sprite_palette_dmg E gb.Memory Info)[color]?).bind gb_pal_colors_rgb)

/-- The emulator state in which the byte `Info` of the sprite `sprite` has been
replaced by `info`. -/
def set_sprite_info (gb : GB_CONTEXT) (sprite info : Nat) : GB_CONTEXT :=
  { gb with
    Memory :=
      { gb.Memory with
        ObjAttrMem := fun i =>
          if i = sprite then { gb.Memory.ObjAttrMem i with Info := info }
          else gb.Memory.ObjAttrMem i } }

/-- The tile number that the bodies of `GB_Debug_MapPrint` read for the pixel
`(x, y)`. -/
def map_tile (gb : GB_CONTEXT) (bgtilemap y x : Nat) : Nat :=
  gb.Memory.VideoRAM (bgtilemap + ((((y >>> 3) &&& 31) * 32) + ((x >>> 3) &&& 31))) % 256

/-- The attribute byte `tileinfo` that the CGB body of `GB_Debug_MapPrint` reads
for the pixel `(x, y)`. -/
def map_tileinfo (gb : GB_CONTEXT) (bgtilemap y x : Nat) : Nat :=
  gb.Memory.VideoRAM
    (bgtilemap + ((((y >>> 3) &&& 31) * 32) + ((x >>> 3) &&& 31) + 0x2000)) % 256

/-- The offset `data` of the tile row that the CGB body of `GB_Debug_MapPrint`
decodes for a pixel of line `y` with tile number `t` and attribute `attr`. -/
def map_data_cgb (tiledata : Nat) (tile_base : Int) (t attr y : Nat) : Nat :=
  if attr &&& (1 <<< 6) ≠ 0 then
    tiledata + ((map_tile_number tile_base t <<< 4) +
      (if attr &&& (1 <<< 3) ≠ 0 then 0x2000 else 0)) + (and_s32 (7 - (y : Int)) 7 * 2)
  else
    tiledata + ((map_tile_number tile_base t <<< 4) +
      (if attr &&& (1 <<< 3) ≠ 0 then 0x2000 else 0)) + ((y &&& 7) * 2)

/-- The colour index that the CGB body of `GB_Debug_MapPrint` decodes for the
pixel `(x, y)`. -/
def map_color_cgb (gb : GB_CONTEXT) (tiledata bgtilemap : Nat) (tile_base : Int)
    (y x : Nat) : Nat :=
  color_index
    (gb.Memory.VideoRAM (map_data_cgb tiledata tile_base (map_tile gb bgtilemap y x)
      (map_tileinfo gb bgtilemap y x) y) % 256)
    (gb.Memory.VideoRAM (map_data_cgb tiledata tile_base (map_tile gb bgtilemap y x)
      (map_tileinfo gb bgtilemap y x) y + 1) % 256)
    (if map_tileinfo gb bgtilemap y x &&& (1 <<< 5) ≠ 0 then x &&& 7 else 7 - (x &&& 7))

/-- The packed colour that the CGB body of `GB_Debug_MapPrint` reads from the
background palette RAM for the pixel `(x, y)`. -/
def map_packed_cgb (gb : GB_CONTEXT) (tiledata bgtilemap : Nat) (tile_base : Int)
    (y x : Nat) : Nat :=
  (gb.Emulator.bg_pal (((map_tileinfo gb bgtilemap y x &&& 7) * 8) +
    (2 * map_color_cgb gb tiledata bgtilemap tile_base y x)) % 256) |||
  ((gb.Emulator.bg_pal (((map_tileinfo gb bgtilemap y x &&& 7) * 8) +
    (2 * map_color_cgb gb tiledata bgtilemap tile_base y x) + 1) % 256) <<< 8)

/-- The content of the destination buffer after the pixel loops of the CGB
branch of `GB_Debug_MapPrint`, as a loop of stores that cannot fail. -/
def map_paint_cgb (gb : GB_CONTEXT) (tiledata bgtilemap : Nat) (tile_base bufw : Int)
    (buffer : Int → Nat) : Int → Nat :=
  pure_loop 256 (fun y s => pure_loop 256 (fun x s =>
    store_rgb s (((y : Int) * bufw + x) * 3)
      (unpack15 (map_packed_cgb gb tiledata bgtilemap tile_base y x)).1
      (unpack15 (map_packed_cgb gb tiledata bgtilemap tile_base y x)).2.1
      (unpack15 (map_packed_cgb gb tiledata bgtilemap tile_base y x)).2.2) s) buffer

/-- The colour index of the pixel in row `row`, column `col` of the tile whose
16 bytes start at offset `base` of the video RAM `vram`, in the 2 bits per
pixel planar format: bit `7 - col` of the first byte of the row is the low bit
and bit `7 - col` of the second byte is the high bit. -/
def tile_pixel_2bpp (vram : Nat → Nat) (base row col : Nat) : Nat :=
  (((vram (base + 2 * row) % 256) >>> (7 - col)) &&& 1) +
    2 * (((vram (base + 2 * row + 1) % 256) >>> (7 - col)) &&& 1)

/-- The emulator state in which the bits `mask` of the byte `Info` of the sprite
`sprite` are toggled. -/
def toggle_sprite_info (gb : GB_CONTEXT) (sprite mask : Nat) : GB_CONTEXT :=
  set_sprite_info gb sprite (((gb.Memory.ObjAttrMem sprite).Info % 256) ^^^ mask)

/-- The eight colour indices of a tile row with the bytes `d0` and `d1`, as the
`x` loops of the decoders produce them: pixel `x` reads bit `7 - x_` with
`x_ = 7 - x` when the row is flipped and `x_ = x` when it is not (the tile
viewers read bit `7 - (x & 7)`, the row that is not flipped). -/
def decode_row (d0 d1 : Nat) (flip : Bool) : List Nat :=
  (List.range 8).map (fun x => color_index d0 d1 (7 - (if flip then 7 - x else x)))


/-- The colour index that the body of `GB_Debug_TileVRAMDraw` decodes at the
pixel `(x, y)`. -/
def GB_Debug_TileVRAMDraw_color (gb : GB_CONTEXT) (bank_offset y x : Nat) : Nat :=
  color_index
    (gb.Memory.VideoRAM ((((x >>> 3) + ((y >>> 3) * 16)) <<< 4) + bank_offset +
      ((y &&& 7) * 2)) % 256)
    (gb.Memory.VideoRAM ((((x >>> 3) + ((y >>> 3) * 16)) <<< 4) + bank_offset +
      ((y &&& 7) * 2) + 1) % 256)
    (7 - (x &&& 7))

/-- The channel `gb_pal_colors[c][k]` as a number, 0 outside of the table. -/
def gray (c k : Nat) : Nat := (gb_pal_colors_at c k).getD 0

/-- The content of a destination buffer after one of the two pixel loops of
`GB_Debug_TileVRAMDraw`, as a loop of stores that cannot fail. -/
def GB_Debug_TileVRAMDraw_paint (gb : GB_CONTEXT) (bank_offset : Nat) (bufw : Int)
    (buffer : Int → Nat) : Int → Nat :=
  pure_loop 192 (fun y s => pure_loop 128 (fun x s =>
    store_rgb s (((y : Int) * bufw + x) * 3)
      (gray (GB_Debug_TileVRAMDraw_color gb bank_offset y x) 0)
      (gray (GB_Debug_TileVRAMDraw_color gb bank_offset y x) 1)
      (gray (GB_Debug_TileVRAMDraw_color gb bank_offset y x) 2)) s) buffer

/-- The colour index of the pixel `(x, y)` of the sprite `sprite`: the 2bpp
index, at the row and the column that the flip bits 6 and 5 of `Info` select, of
the tile data that starts at the tile `Tile` (`Tile & 0xFE` for a sprite 16
high), in bank 1 when CGB mode is enabled and bit 3 of `Info` is set and in
bank 0 otherwise; the rows 8..15 are the rows 0..7 of the tile that follows. -/
def sprite_pixel_index (E : Extern) (gb : GB_CONTEXT) (sprite y x : Nat) : Nat :=
  tile_pixel_2bpp gb.Memory.VideoRAM
    ((if gb.Emulator.CGBEnabled ≠ 0 ∧ ((gb.Memory.ObjAttrMem sprite).Info % 256) &&& (1 <<< 3) ≠ 0
        then 0x2000 else 0) +
      16 * (if spriteheight E gb.Memory = 16 then ((gb.Memory.ObjAttrMem sprite).Tile % 256) &&& 0xFE
        else (gb.Memory.ObjAttrMem sprite).Tile % 256))
    (if ((gb.Memory.ObjAttrMem sprite).Info % 256) &&& (1 <<< 6) ≠ 0
      then spriteheight E gb.Memory - 1 - y else y)
    (if ((gb.Memory.ObjAttrMem sprite).Info % 256) &&& (1 <<< 5) ≠ 0 then 7 - x else x)

/-- A store of an RGB pixel that may be skipped: `none` leaves the buffer as it
is. -/
def store_opt (buf : Int → Nat) (i : Int) (w : Option RGB) : Int → Nat :=
  match w with
  | some (r, g, b) => store_rgb buf i r g b
  | none => buf

/-- The byte `k` of a pixel after `store_opt`, `old` being the byte before. -/
def opt_byte (w : Option RGB) (k old : Nat) : Nat :=
  match w with
  | some (r, g, b) => (if k = 0 then r else if k = 1 then g else b) % 256
  | none => old

/-- What `GB_Debug_PrintSprite_pixel` stores at the position `(px, py)` of the
sprite cell for the colour index `c`: the placeholder colour, the colour of the
index, or nothing. -/
def sprite_cell (isvisible : Bool) (resolve : Nat → Option RGB) (c px py : Nat) : Option RGB :=
  if !isvisible && (((px ^^^ py) &&& 3) == 0) then some (255, 0, 0)
  else if c ≠ 0 then resolve c else none

/-- The content of the destination buffer after the loops of
`GB_Debug_PrintSprite`, as a loop of stores that cannot fail. -/
def sprite_paint (vram : Nat → Nat) (spriteheight Info spr_data : Nat) (isvisible : Bool)
    (resolve : Nat → Option RGB) (bufw buff_x buff_y : Int) (buf : Int → Nat) : Int → Nat :=
  pure_loop spriteheight (fun y s => pure_loop 8 (fun x s =>
    pure_loop 2 (fun i s => pure_loop 2 (fun j s =>
      store_opt s (((buff_y + ((y * 2 : Nat) : Int) + (j : Int)) * bufw +
          (buff_x + ((x * 2 : Nat) : Int) + (i : Int))) * 3)
        (sprite_cell isvisible resolve (sprite_color vram spriteheight Info spr_data y x)
          ((x * 2) + i) ((y * 2) + j))) s) s) s) buf

/-- An emulator state outside of CGB mode in which every byte of video RAM, of
the sprite attribute table and of the I/O registers is 0: the sprites are 8
pixels high, not visible (`X` is 0), and all their colour indices are 0. -/
def blankState : GB_CONTEXT where
  Emulator :=
    { CGBEnabled := 0, gbc_in_gb_mode := 0, spr_pal := fun _ => 0, bg_pal := fun _ => 0 }
  Memory :=
    { VideoRAM := fun _ => 0,
      ObjAttrMem := fun _ => { Y := 0, X := 0, Tile := 0, Info := 0 },
      IO_Ports := fun _ => 0,
      ExternRAM := fun _ _ => 0 }

/-- The content of the destination buffer after the loops of
`GB_Debug_PrintZoomedSprite`, as loops of stores that cannot fail. -/
def zoomed_paint (vram : Nat → Nat) (spriteheight Info spr_data : Nat)
    (resolve : Nat → Option RGB) (buf : Int → Nat) : Int → Nat :=
  pure_loop spriteheight (fun y s => pure_loop 8 (fun x s =>
    pure_loop 8 (fun i s => pure_loop 8 (fun j s =>
      store_opt s (((((y * 8 : Nat) : Int) + (j : Int)) * (8 * 8) +
          (((x * 8 : Nat) : Int) + (i : Int))) * 3)
        (if sprite_color vram spriteheight Info spr_data y x ≠ 0 then
          resolve (sprite_color vram spriteheight Info spr_data y x) else none)) s) s) s)
    (pure_loop (16 * 8) (fun y s => pure_loop (8 * 8) (fun x s =>
      GB_Debug_PrintZoomedSprite_fill y x s) s) buf)

/-- The emulator state in which the byte `Tile` of the sprite `sprite` has been
replaced by `tile`. -/
def set_sprite_tile (gb : GB_CONTEXT) (sprite tile : Nat) : GB_CONTEXT :=
  { gb with
    Memory :=
      { gb.Memory with
        ObjAttrMem := fun i =>
          if i = sprite then { gb.Memory.ObjAttrMem i with Tile := tile }
          else gb.Memory.ObjAttrMem i } }

/-- The local array `bg_pal` of the branch of `GB_Debug_MapPrint` that is taken
outside of CGB mode: the red channels of the four gray levels selected by the
2-bit fields of BGP. -/
def map_bg_pal (E : Extern) (gb : GB_CONTEXT) : List Nat :=
  [gray ((read_io gb.Memory E.BGP_REG) &&& 0x3) 0,
    gray (((read_io gb.Memory E.BGP_REG) >>> 2) &&& 0x3) 0,
    gray (((read_io gb.Memory E.BGP_REG) >>> 4) &&& 0x3) 0,
    gray (((read_io gb.Memory E.BGP_REG) >>> 6) &&& 0x3) 0]

/-- The colour index that the body of `GB_Debug_MapPrint` decodes outside of CGB
mode for the pixel `(x, y)`. -/
def map_color_dmg (gb : GB_CONTEXT) (tiledata bgtilemap : Nat) (tile_base : Int)
    (y x : Nat) : Nat :=
  color_index
    (gb.Memory.VideoRAM ((tiledata + (map_tile_number tile_base (map_tile gb bgtilemap y x) <<< 4)) +
      ((y &&& 7) <<< 1)) % 256)
    (gb.Memory.VideoRAM ((tiledata + (map_tile_number tile_base (map_tile gb bgtilemap y x) <<< 4)) +
      ((y &&& 7) <<< 1) + 1) % 256)
    (7 - (x &&& 7))

/-- The content of the destination buffer after the pixel loops of the branch of
`GB_Debug_MapPrint` that is taken outside of CGB mode, as a loop of stores that
cannot fail. -/
def map_paint_dmg (E : Extern) (gb : GB_CONTEXT) (tiledata bgtilemap : Nat)
    (tile_base bufw : Int) (buffer : Int → Nat) : Int → Nat :=
  pure_loop 256 (fun y s => pure_loop 256 (fun x s =>
    store_rgb s (((y : Int) * bufw + x) * 3)
      ((map_bg_pal E gb).getD (map_color_dmg gb tiledata bgtilemap tile_base y x) 0)
      ((map_bg_pal E gb).getD (map_color_dmg gb tiledata bgtilemap tile_base y x) 0)
      ((map_bg_pal E gb).getD (map_color_dmg gb tiledata bgtilemap tile_base y x) 0)) s) buffer

/-- The external RAM as one flat array: the byte at the flat address `a` is the
byte `a mod 0x2000` of the bank `a / 0x2000`. -/
def extern_flat (mem : GB_MEMORY) (a : Nat) : Nat :=
  mem.ExternRAM (a / 0x2000) (a % 0x2000)

/-- The colour index of the pixel `(x, y)` of a picture of `tiles` tiles per row
whose tiles are stored one after the other from the flat address `start` of
the external RAM. -/
def camera_pixel (gb : GB_CONTEXT) (tiles start y x : Nat) : Nat :=
  tile_pixel_2bpp (extern_flat gb.Memory) (start + 16 * ((y >>> 3) * tiles + (x >>> 3)))
    (y &&& 7) (x &&& 7)

/-- The content of the destination buffer after the pixel loops of a photo
renderer that decodes `H` rows of `W` pixels from the flat address `start`. -/
def camera_paint (gb : GB_CONTEXT) (tiles H W start : Nat) (bufw posx posy : Int)
    (buf : Int → Nat) : Int → Nat :=
  pure_loop H (fun y s => pure_loop W (fun x s =>
    store_rgb s ((((y : Int) + posy) * bufw + ((x : Int) + posx)) * 3)
      (gray (camera_pixel gb tiles start y x) 0) (gray (camera_pixel gb tiles start y x) 0)
      (gray (camera_pixel gb tiles start y x) 0)) s) buf

/-- The value `(gb_pal_colors[c][0] << 16) | (gb_pal_colors[c][1] << 8) |
gb_pal_colors[c][2]` that `GB_Debug_TileDrawZoomed64x64` keeps for a pixel of
colour index `c`. -/
def tile_packed (c : Nat) : Nat :=
  (gray c 0 <<< 16) ||| (gray c 1 <<< 8) ||| gray c 2

/-- The content of `tiletempbuffer` after the decoding loops of
`GB_Debug_TileDrawZoomed64x64` for the tile whose 16 bytes start at the offset
`base` of the video RAM. -/
def tile_temp_paint (vram : Nat → Nat) (base : Nat) (t0 : Int → Nat) : Int → Nat :=
  pure_loop 8 (fun y t => pure_loop 8 (fun x t =>
    store_s32 t ((x + y * 8 : Nat) : Int) (tile_packed (tile_pixel_2bpp vram base y x))) t) t0

/-- The content of the destination buffer after the expanding loops of
`GB_Debug_TileDrawZoomed64x64`. -/
def zoomed64_paint (temp : Int → Nat) (buffer : Int → Nat) : Int → Nat :=
  pure_loop 64 (fun i b => pure_loop 64 (fun j b =>
    store_rgb b (((j * 64 + i : Nat) : Int) * 3)
      (temp (((j / 8) * 8 + (i / 8) : Nat) : Int) &&& 0xFF)
      ((temp (((j / 8) * 8 + (i / 8) : Nat) : Int) >>> 8) &&& 0xFF)
      ((temp (((j / 8) * 8 + (i / 8) : Nat) : Int) >>> 16) &&& 0xFF)) b) buffer

/-- The offset into `VideoRAM` of the tile data that `GB_Debug_TileDrawZoomed64x64`
decodes for the arguments `tile` and `bank`. -/
def zoomed64_base (tile bank : Int) : Nat :=
  16 * tile.toNat + (if bank ≠ 0 then 0x2000 else 0)

/-- The palette number `p` of a sprite with the byte `Info`: `Info & 7` in CGB
mode, and bit 4 of `Info` (0 for OBP0, 1 for OBP1) otherwise. -/
def sprite_palette_number (gb : GB_CONTEXT) (Info : Nat) : Nat :=
  if gb.Emulator.CGBEnabled ≠ 0 then Info &&& 7
  else if Info &&& (1 <<< 4) ≠ 0 then 1 else 0

/-- The index `baselineaddr` into the bank that the body of the photo renderers
computes for the pixel `(x, y)`; the two reads are at `baselineaddr` and
`baselineaddr + 1`. -/
def camera_baselineaddr (tiles_per_row bankaddr y x : Nat) : Nat :=
  bankaddr + ((((y >>> 3) * tiles_per_row) + (x >>> 3)) * 16) + ((y &&& 7) <<< 1)

/-- The colour index that `GB_Debug_MapPrint` and `GB_Debug_MapPrintBW` decode
for the pixel `(x, y)` in the mode of the state `gb`. -/
def map_color (gb : GB_CONTEXT) (tiledata bgtilemap : Nat) (tile_base : Int)
    (y x : Nat) : Nat :=
  if gb.Emulator.CGBEnabled ≠ 0 then map_color_cgb gb tiledata bgtilemap tile_base y x
  else map_color_dmg gb tiledata bgtilemap tile_base y x

/-- The content of the destination buffer after the pixel loops of
`GB_Debug_MapPrintBW`, as a loop of stores that cannot fail. -/
def map_paint_bw (gb : GB_CONTEXT) (tiledata bgtilemap : Nat) (tile_base bufw : Int)
    (buffer : Int → Nat) : Int → Nat :=
  pure_loop 256 (fun y s => pure_loop 256 (fun x s =>
    store_rgb s (((y : Int) * bufw + x) * 3)
      (gray (map_color gb tiledata bgtilemap tile_base y x) 0)
      (gray (map_color gb tiledata bgtilemap tile_base y x) 1)
      (gray (map_color gb tiledata bgtilemap tile_base y x) 2)) s) buffer

/-- The byte `t` read as a signed 8-bit integer, `-128..127`. -/
def signed8 (t : Nat) : Int :=
  if t < 128 then (t : Int) else (t : Int) - 256

/-- The offset in its bank of the 16 bytes of the tile `t` of a map: from
`0x0800` on with the top bit of `t` toggled when `tile_base` is not 0, and
`16*t` otherwise. -/
def map_tile_offset (tile_base : Int) (t : Nat) : Nat :=
  if tile_base ≠ 0 then 0x0800 + 16 * (t ^^^ 0x80) else 16 * t

/-- The content of the buffer after the loops of `GB_Debug_PrintSprites` that
fill it with the checkerboard. -/
def sprites_fill_paint (buf : Int → Nat) : Int → Nat :=
  pure_loop 256 (fun y s => pure_loop 256 (fun x s =>
    GB_Debug_PrintSprites_fill y x s) s) buf

/-- The content of the buffer after `GB_Debug_PrintSprites`: the checkerboard,
then the 40 sprites, the sprite `8*y + x` in the cell of column `x` and row `y`
of the sheet, as loops of stores that cannot fail. -/
def sprites_sheet_paint (E : Extern) (gb : GB_CONTEXT) (buf : Int → Nat) : Int → Nat :=
  pure_loop 5 (fun y s => pure_loop 8 (fun x s =>
    sprite_paint gb.Memory.VideoRAM (spriteheight E gb.Memory)
      ((gb.Memory.ObjAttrMem (8 * y + x)).Info % 256)
      (sprite_data_offset E gb ((gb.Memory.ObjAttrMem (8 * y + x)).Tile % 256)
        ((gb.Memory.ObjAttrMem (8 * y + x)).Info % 256))
      (sprite_isvisible (spriteheight E gb.Memory)
        ((gb.Memory.ObjAttrMem (8 * y + x)).X % 256)
        ((gb.Memory.ObjAttrMem (8 * y + x)).Y % 256))
      (sprite_resolve E gb ((gb.Memory.ObjAttrMem (8 * y + x)).Info % 256))
      256 (8 + ((x : Int) * 32)) (10 + ((y : Int) * 52)) s) s) (sprites_fill_paint buf)

/-- The byte offset `(yy_ * bufw + xx_) * 3` that `GB_Debug_PrintSprite` computes
for the position `(i, j)` of the pixel `(x, y)` of a sprite drawn by
`GB_Debug_PrintSprites` in the cell of column `X` and row `Y` of the sheet:
`bufw` is 256, `buff_x` is `8 + X*32` and `buff_y` is `10 + Y*52`. -/
def sheet_index (X Y y x i j : Nat) : Int :=
  ((10 + ((Y : Int) * 52) + ((y * 2 : Nat) : Int) + (j : Int)) * 256 +
    (8 + ((X : Int) * 32) + ((x * 2 : Nat) : Int) + (i : Int))) * 3

/-- The offset `data` into `VideoRAM` of the two bytes that `sprite_color_index`
reads for the row `y` of a sprite whose tile data starts at `spr_data`. -/
def sprite_row_offset (spriteheight Info spr_data y : Nat) : Nat :=
  if Info &&& (1 <<< 6) ≠ 0 then spr_data + (spriteheight - y - 1) * 2 else spr_data + y * 2

/-- The packed colour that the Paletted tile viewers compute for the colour index `c`:
`rgb16to32` of the palette entry in CGB mode, three copies of the gray level of `c` otherwise. -/
def paletted_value (E : Extern) (gb : GB_CONTEXT) (pal pal_is_spr : Int) (c : Nat) : Nat :=
  if gb.Emulator.CGBEnabled ≠ 0 then rgb16to32 (cgb_entry gb pal_is_spr pal (c : Int))
  else ((map_bg_pal E gb).getD c 0 ||| ((map_bg_pal E gb).getD c 0 <<< 8) |||
    ((map_bg_pal E gb).getD c 0 <<< 16)) % 2 ^ 32

/-- The content of a destination buffer after one of the two pixel loops of
`GB_Debug_TileVRAMDrawPaletted`, as a loop of stores that cannot fail. -/
def TileVRAMDrawPaletted_paint (E : Extern) (gb : GB_CONTEXT) (bank_offset : Nat) (bufw : Int)
    (pal pal_is_spr : Int) (buffer : Int → Nat) : Int → Nat :=
  pure_loop 192 (fun y s => pure_loop 128 (fun x s =>
    store_rgb s (((y : Int) * bufw + x) * 3)
      (paletted_value E gb pal pal_is_spr (GB_Debug_TileVRAMDraw_color gb bank_offset y x) &&& 0xFF)
      ((paletted_value E gb pal pal_is_spr (GB_Debug_TileVRAMDraw_color gb bank_offset y x) >>> 8)
        &&& 0xFF)
      ((paletted_value E gb pal pal_is_spr (GB_Debug_TileVRAMDraw_color gb bank_offset y x) >>> 16)
        &&& 0xFF)) s) buffer

/-- The content of `tiletempbuffer` after the decoding loops of
`GB_Debug_TileDrawZoomedPaletted64x64` for the tile whose 16 bytes start at the offset `base` of
the video RAM. -/
def paletted_temp_paint (E : Extern) (gb : GB_CONTEXT) (base : Nat) (pal pal_is_spr : Int)
    (t0 : Int → Nat) : Int → Nat :=
  pure_loop 8 (fun y t => pure_loop 8 (fun x t =>
    store_s32 t ((x + y * 8 : Nat) : Int)
      (paletted_value E gb pal pal_is_spr (tile_pixel_2bpp gb.Memory.VideoRAM base y x))) t) t0

/-- The content of the destination buffer after the loops of
`_gb_debug_print_sprite_alpha_at_position`, as loops of stores that cannot fail. -/
def sprite_alpha_at_paint (vram : Nat → Nat) (spriteheight Info spr_data : Nat)
    (resolve : Nat → Option RGB) (bufw buff_x buff_y : Int) (buf : Int → Nat) : Int → Nat :=
  pure_loop spriteheight (fun y s => pure_loop 8 (fun x s =>
    pure_loop 2 (fun i s => pure_loop 2 (fun j s =>
      store_rgba s (((buff_y + ((y * 2 : Nat) : Int) + (j : Int)) * bufw +
          (buff_x + ((x * 2 : Nat) : Int) + (i : Int))) * 4)
        (sprite_rgba resolve (sprite_color vram spriteheight Info spr_data y x)).1
        (sprite_rgba resolve (sprite_color vram spriteheight Info spr_data y x)).2.1
        (sprite_rgba resolve (sprite_color vram spriteheight Info spr_data y x)).2.2.1
        (sprite_rgba resolve (sprite_color vram spriteheight Info spr_data y x)).2.2.2) s) s) s)
    buf

/-- The content of the buffer after `GB_Debug_PrintSpritesAlpha`: the zeros, then the 40
sprites, the sprite `8*y + x` in the cell of column `x` and row `y` of the sheet, as loops of
stores that cannot fail. -/
def sprites_alpha_sheet_paint (E : Extern) (gb : GB_CONTEXT) (buf : Int → Nat) : Int → Nat :=
  pure_loop 5 (fun y s => pure_loop 8 (fun x s =>
    sprite_alpha_at_paint gb.Memory.VideoRAM (spriteheight E gb.Memory)
      ((gb.Memory.ObjAttrMem (8 * y + x)).Info % 256)
      (sprite_data_offset E gb ((gb.Memory.ObjAttrMem (8 * y + x)).Tile % 256)
        ((gb.Memory.ObjAttrMem (8 * y + x)).Info % 256))
      (sprite_resolve E gb ((gb.Memory.ObjAttrMem (8 * y + x)).Info % 256))
      256 (8 + ((x : Int) * 32)) (10 + ((y : Int) * 52)) s) s) (memset buf 0 (256 * 256 * 4))

/-- The emulator state in which the content of the video RAM has been replaced
by `v`. -/
def set_video_ram (gb : GB_CONTEXT) (v : Nat → Nat) : GB_CONTEXT :=
  { gb with Memory := { gb.Memory with VideoRAM := v } }

/-! ## Example inputs -/

/-- Register addresses of the Game Boy hardware and two sample lookups. -/
def sampleExtern : Extern where
  LCDC_REG := 0xFF40
  BGP_REG := 0xFF47
  OBP0_REG := 0xFF48
  OBP1_REG := 0xFF49
  gbc_getsprpalcolor := fun _ pal c => if pal = 0 then 0x7FFF - c else 0x001F + c
  gbc_getbgpalcolor := fun _ _ c => 0x03E0 + c

/-- A sample emulator state with the given mode flags: every byte of palette
RAM is `0xFF`, video RAM byte `i` is `i mod 256`, and every I/O register
holds `0xE4`. -/
def sampleState (cgb compat : Int) : GB_CONTEXT where
  Emulator :=
    { CGBEnabled := cgb, gbc_in_gb_mode := compat,
      spr_pal := fun _ => 0xFF, bg_pal := fun _ => 0xFF }
  Memory :=
    { VideoRAM := fun i => i % 256,
      ObjAttrMem := fun i => { Y := 16 + i, X := 8 + i, Tile := i, Info := i },
      IO_Ports := fun _ => 0xE4,
      ExternRAM := fun b i => (b + i) % 256 }

/-- The sample state `sampleState 0 0` with other bytes in bank 1 of the video
RAM (`0xAA` from offset `0x2000` on) and with bit 3 of the byte `Info` of every
sprite toggled. -/
def sampleStateBank1 : GB_CONTEXT where
  Emulator :=
    { CGBEnabled := 0, gbc_in_gb_mode := 0,
      spr_pal := fun _ => 0xFF, bg_pal := fun _ => 0xFF }
  Memory :=
    { VideoRAM := fun i => if i < 0x2000 then i % 256 else 0xAA,
      ObjAttrMem := fun i => { Y := 16 + i, X := 8 + i, Tile := i, Info := i ^^^ 8 },
      IO_Ports := fun _ => 0xE4,
      ExternRAM := fun b i => (b + i) % 256 }

/-- The sample state `sampleState 0 0` with other contents of the two palette
RAM arrays. -/
def sampleStatePalettes : GB_CONTEXT where
  Emulator :=
    { CGBEnabled := 0, gbc_in_gb_mode := 0,
      spr_pal := fun i => i, bg_pal := fun i => 2 * i }
  Memory := (sampleState 0 0).Memory

/-- A sample protocol of the SGB packet engine: bits 4 and 5 of the value
written both low is a start of transfer, bit 4 low alone carries a 0, bit 5 low
alone carries a 1; bits are shifted in from the low end, and the number of
packets is the low three bits of the first byte of the first packet. -/
def sampleProtocol : SGB_PROTOCOL where
  classify := fun v =>
    if v &&& 0x30 = 0 then SGB_WRITE.start
    else if v &&& 0x30 = 0x20 then SGB_WRITE.bit 0
    else if v &&& 0x30 = 0x10 then SGB_WRITE.bit 1
    else SGB_WRITE.other
  shift_in := fun old currbit b => old ||| (b <<< currbit)
  numpackets_of := fun s => s.data 0 0 &&& 7

/-- An idle state of the SGB packet engine with an empty packet buffer. -/
def sampleSGB : SGB_INFO where
  sending := 0
  currbit := 0
  currbyte := 0
  currpacket := 0
  numpackets := 0
  data := fun _ _ => 0

/-- A memory viewer in 32-bit mode that shows the internal work RAM. -/
def sampleViewer : GBA_MEMVIEWER :=
  { GBAMemViewerCreated := 1,
    gba_memviewer_mode := GBA_MEMVIEWER_32,
    gba_memviewer_start_address := 0x03000000,
    gba_memviewer_clicked_address := 0,
    gba_memviewer_inputwindow_is_goto := 1 }

/-- A memory whose content at each address is derived from the address. -/
def sampleMemory : GBA_MEMORY :=
  { GBA_MemoryReadFast32 := fun a => (a * 0x01010101 + 0x89ABCDEF) % 2 ^ 32,
    GBA_MemoryReadFast16 := fun a => (a * 0x0101 + 0xCDEF) % 2 ^ 16,
    GBA_MemoryReadFast8 := fun a => (a + 0xEF) % 2 ^ 8 }

/-- The sample state in CGB mode in which every sprite has the tile byte `0xFF`
and the byte `Info = 0x08` (bank 1); the sprites are 16 pixels high. -/
def sampleStateLastTile : GB_CONTEXT where
  Emulator := (sampleState 1 0).Emulator
  Memory :=
    { VideoRAM := fun i => i % 256,
      ObjAttrMem := fun _ => { Y := 16, X := 8, Tile := 0xFF, Info := 0x08 },
      IO_Ports := fun _ => 0xE4,
      ExternRAM := fun b i => (b + i) % 256 }

/-! ## Arithmetic of the bit operations -/

theorem and_0x1F (v : Nat) : v &&& 0x1F = v % 32 :=
  Nat.and_pow_two_sub_one_eq_mod v 5

theorem and_0x3 (v : Nat) : v &&& 0x3 = v % 4 :=
  Nat.and_pow_two_sub_one_eq_mod v 2

theorem and_0x7 (v : Nat) : v &&& 7 = v % 8 :=
  Nat.and_pow_two_sub_one_eq_mod v 3

theorem unpack15_eq (c : Nat) :
    unpack15 c = (c % 32 * 8, c / 32 % 32 * 8, c / 1024 % 32 * 8) := by
  simp only [unpack15, and_0x1F, Nat.shiftLeft_eq, Nat.shiftRight_eq_div_pow]

theorem unpack15_mod (c : Nat) : unpack15 (c % 2 ^ 32) = unpack15 c := by
  simp only [unpack15_eq]
  refine Prod.ext ?_ (Prod.ext ?_ ?_) <;> simp only <;> omega

theorem unpack15_mod_lit (c : Nat) : unpack15 (c % 4294967296) = unpack15 c :=
  unpack15_mod c

theorem read_u8_pal (t : Nat → Nat) (i : Int) (h0 : 0 ≤ i) (h1 : i ≤ 63) :
    read_u8 PAL_RAM_SIZE t i = some (t i.toNat % 256) := by
  have : 0 ≤ i ∧ i < ((PAL_RAM_SIZE : Nat) : Int) := by
    simp only [PAL_RAM_SIZE]; omega
  simp [read_u8, this]

theorem GetPalette_cgb_eq (E : Extern) (gb : GB_CONTEXT) (is_sprite num color : Int)
    (hcgb : gb.Emulator.CGBEnabled ≠ 0) (hnum : 0 ≤ num ∧ num ≤ 7)
    (hcolor : 0 ≤ color ∧ color ≤ 3) :
    GB_Debug_GetPalette E gb is_sprite num color =
      some (unpack15 (cgb_entry gb is_sprite num color)) := by
  have h0 : 0 ≤ num * 8 + color * 2 := by omega
  have h1 : num * 8 + color * 2 ≤ 63 := by omega
  have h2 : 0 ≤ num * 8 + color * 2 + 1 := by omega
  have h3 : num * 8 + color * 2 + 1 ≤ 63 := by omega
  by_cases hs : is_sprite = 0
  · simp [GB_Debug_GetPalette, cgb_entry, hcgb, hs, read_u8_pal _ _ h0 h1,
      read_u8_pal _ _ h2 h3]
  · simp [GB_Debug_GetPalette, cgb_entry, hcgb, hs, read_u8_pal _ _ h0 h1,
      read_u8_pal _ _ h2 h3]

theorem shr_u32_color (v : Nat) (color : Int) (hcolor : 0 ≤ color ∧ color ≤ 3) :
    shr_u32 v (color * 2) = some (v >>> (2 * color).toNat) := by
  have h : 0 ≤ color * 2 ∧ color * 2 < 32 := by omega
  simp [shr_u32, h, mul_comm]

theorem and_3_lt (v : Nat) : v &&& 3 < 4 := by
  rw [and_0x3]; omega

theorem gb_pal_colors_rgb_row (i : Nat) (h : i < 4) :
    ∃ r g b : Nat, gb_pal_colors[i]? = some [r, g, b] ∧
      gb_pal_colors_rgb i = some (r, g, b) := by
  interval_cases i <;> exact ⟨_, _, _, rfl, rfl⟩

theorem gb_pal_colors_rgb_cases (i : Nat) (h : i < 4) :
    gb_pal_colors_rgb i = some (255, 255, 255) ∨ gb_pal_colors_rgb i = some (168, 168, 168) ∨
      gb_pal_colors_rgb i = some (80, 80, 80) ∨ gb_pal_colors_rgb i = some (0, 0, 0) := by
  interval_cases i
  · exact Or.inl rfl
  · exact Or.inr (Or.inl rfl)
  · exact Or.inr (Or.inr (Or.inl rfl))
  · exact Or.inr (Or.inr (Or.inr rfl))

theorem GetPalette_dmg_obp0 (E : Extern) (gb : GB_CONTEXT) (is_sprite color : Int)
    (hcgb : gb.Emulator.CGBEnabled = 0) (hcompat : gb.Emulator.gbc_in_gb_mode = 0)
    (hs : is_sprite ≠ 0) (hcolor : 0 ≤ color ∧ color ≤ 3) :
    GB_Debug_GetPalette E gb is_sprite 0 color =
      gb_pal_colors_rgb ((read_io gb.Memory E.OBP0_REG >>> (2 * color).toNat) &&& 3) := by
  simp [GB_Debug_GetPalette, hcgb, hcompat, hs, shr_u32_color _ _ hcolor]

theorem GetPalette_dmg_obp1 (E : Extern) (gb : GB_CONTEXT) (is_sprite color : Int)
    (hcgb : gb.Emulator.CGBEnabled = 0) (hcompat : gb.Emulator.gbc_in_gb_mode = 0)
    (hs : is_sprite ≠ 0) (hcolor : 0 ≤ color ∧ color ≤ 3) :
    GB_Debug_GetPalette E gb is_sprite 1 color =
      gb_pal_colors_rgb ((read_io gb.Memory E.OBP1_REG >>> (2 * color).toNat) &&& 3) := by
  simp [GB_Debug_GetPalette, hcgb, hcompat, hs, shr_u32_color _ _ hcolor]

theorem GetPalette_dmg_bgp (E : Extern) (gb : GB_CONTEXT) (color : Int)
    (hcgb : gb.Emulator.CGBEnabled = 0) (hcompat : gb.Emulator.gbc_in_gb_mode = 0)
    (hcolor : 0 ≤ color ∧ color ≤ 3) :
    GB_Debug_GetPalette E gb 0 0 color =
      gb_pal_colors_rgb ((read_io gb.Memory E.BGP_REG >>> (2 * color).toNat) &&& 3) := by
  simp [GB_Debug_GetPalette, hcgb, hcompat, shr_u32_color _ _ hcolor]

theorem GetPalette_dmg_other (E : Extern) (gb : GB_CONTEXT) (is_sprite num color : Int)
    (hcgb : gb.Emulator.CGBEnabled = 0) (hcompat : gb.Emulator.gbc_in_gb_mode = 0)
    (hnum : num ≠ 0) (hnum1 : is_sprite ≠ 0 → num ≠ 1) :
    GB_Debug_GetPalette E gb is_sprite num color = some (0, 0, 0) := by
  by_cases hs : is_sprite = 0
  · simp [GB_Debug_GetPalette, hcgb, hcompat, hs, hnum]
  · simp [GB_Debug_GetPalette, hcgb, hcompat, hs, hnum, hnum1 hs]

/-! ## Loops that paint a raster -/

theorem for_loop_eq_pure {σ : Type} (n : Nat) (body : Nat → σ → Option σ)
    (g : Nat → σ → σ) (h : ∀ i, i < n → ∀ s, body i s = some (g i s)) (s : σ) :
    for_loop n body s = some (pure_loop n g s) := by
  induction n with
  | zero => rfl
  | succ k ih =>
    have hk := ih (fun i hi s => h i (Nat.lt_succ_of_lt hi) s)
    simp only [for_loop, pure_loop, hk, Option.some_bind]
    exact h k (Nat.lt_succ_self k) _

theorem pure_loop_frame (n : Nat) (g : Nat → (Int → Nat) → (Int → Nat)) (p : Int)
    (h : ∀ i, i < n → ∀ s, g i s p = s p) (s : Int → Nat) :
    pure_loop n g s p = s p := by
  induction n with
  | zero => rfl
  | succ k ih =>
    simp only [pure_loop]
    rw [h k (Nat.lt_succ_self k), ih (fun i hi s => h i (Nat.lt_succ_of_lt hi) s)]

theorem pure_loop_at (n : Nat) (g : Nat → (Int → Nat) → (Int → Nat)) (p : Int) (v : Nat)
    (i : Nat) (hi : i < n) (hset : ∀ s, g i s p = v)
    (hother : ∀ j, j < n → j ≠ i → ∀ s, g j s p = s p) (s : Int → Nat) :
    pure_loop n g s p = v := by
  induction n with
  | zero => exact absurd hi (Nat.not_lt_zero i)
  | succ k ih =>
    simp only [pure_loop]
    by_cases hik : i = k
    · subst hik
      exact hset _
    · rw [hother k (Nat.lt_succ_self k) (fun h => hik h.symm)]
      exact ih (by omega) (fun j hj hne s => hother j (Nat.lt_succ_of_lt hj) hne s)

/-- A raster of `H` rows of `W` cells painted by `g y x`: the cell `(x, y)` holds
what its own iteration stored when no other iteration touches the byte. -/
theorem raster_at (H W : Nat) (g : Nat → Nat → (Int → Nat) → (Int → Nat)) (p : Int) (v : Nat)
    (x y : Nat) (hx : x < W) (hy : y < H) (hset : ∀ s, g y x s p = v)
    (hother : ∀ y2 x2, y2 < H → x2 < W → ¬(y2 = y ∧ x2 = x) → ∀ s, g y2 x2 s p = s p)
    (s : Int → Nat) :
    pure_loop H (fun y s => pure_loop W (fun x s => g y x s) s) s p = v := by
  apply pure_loop_at H _ p v y hy
  · intro s
    apply pure_loop_at W _ p v x hx hset
    intro j hj hne s
    exact hother y j hy hj (fun h => hne h.2) s
  · intro j hj hne s
    apply pure_loop_frame
    intro i hi s
    exact hother j i hj hi (fun h => hne h.1) s

theorem raster_index_ne (bufw : Int) (W : Nat) (hw : (W : Int) ≤ bufw) (x y x2 y2 : Nat)
    (hx : x < W) (hx2 : x2 < W) (hne : ¬(y2 = y ∧ x2 = x)) :
    (y2 : Int) * bufw + x2 ≠ (y : Int) * bufw + x := by
  intro h
  rcases Nat.lt_trichotomy y2 y with hlt | heq | hgt
  · have h1 : ((y2 : Int) + 1) * bufw ≤ (y : Int) * bufw := by
      apply mul_le_mul_of_nonneg_right _ (by omega)
      omega
    have : ((y2 : Int) + 1) * bufw = y2 * bufw + bufw := by ring
    omega
  · subst heq
    apply hne
    refine ⟨rfl, ?_⟩
    omega
  · have h1 : ((y : Int) + 1) * bufw ≤ (y2 : Int) * bufw := by
      apply mul_le_mul_of_nonneg_right _ (by omega)
      omega
    have : ((y : Int) + 1) * bufw = y * bufw + bufw := by ring
    omega

theorem raster_cells (H W n : Nat) (bufw : Int) (hw : (W : Int) ≤ bufw)
    (g : Nat → Nat → (Int → Nat) → (Int → Nat)) (val : Nat → Nat → Nat → Nat)
    (hset : ∀ (y x k : Nat) (s : Int → Nat), k < n →
      g y x s (((y : Int) * bufw + x) * n + k) = val y x k)
    (hframe : ∀ (y x : Nat) (s : Int → Nat) (p : Int),
      (p < ((y : Int) * bufw + x) * n ∨ ((y : Int) * bufw + x) * n + n ≤ p) → g y x s p = s p)
    (x y k : Nat) (hx : x < W) (hy : y < H) (hk : k < n) (s : Int → Nat) :
    pure_loop H (fun y s => pure_loop W (fun x s => g y x s) s) s
      (((y : Int) * bufw + x) * n + k) = val y x k := by
  apply raster_at H W g _ _ x y hx hy (fun s => hset y x k s hk)
  intro y2 x2 _ hx2 hne s
  apply hframe
  have hidx := raster_index_ne bufw W hw x y x2 y2 hx hx2 hne
  rcases lt_or_gt_of_ne hidx with hlt | hgt
  · right
    have h1 : ((y2 : Int) * bufw + x2 + 1) * n ≤ ((y : Int) * bufw + x) * n :=
      mul_le_mul_of_nonneg_right (by omega) (by omega)
    have h2 : ((y2 : Int) * bufw + x2 + 1) * n = ((y2 : Int) * bufw + x2) * n + n := by ring
    omega
  · left
    have h1 : ((y : Int) * bufw + x + 1) * n ≤ ((y2 : Int) * bufw + x2) * n :=
      mul_le_mul_of_nonneg_right (by omega) (by omega)
    have h2 : ((y : Int) * bufw + x + 1) * n = ((y : Int) * bufw + x) * n + n := by ring
    omega

theorem store_u8_same (buf : Int → Nat) (i : Int) (v : Nat) : store_u8 buf i v i = v % 256 := by
  simp [store_u8]

theorem store_u8_other (buf : Int → Nat) (i p : Int) (v : Nat) (h : p ≠ i) :
    store_u8 buf i v p = buf p := by
  simp [store_u8, h]

theorem store_rgb_at (buf : Int → Nat) (i : Int) (r g b k : Nat) (hk : k < 3) :
    store_rgb buf i r g b (i + k) = (if k = 0 then r else if k = 1 then g else b) % 256 := by
  interval_cases k <;> simp [store_rgb, store_u8]

theorem store_rgb_other (buf : Int → Nat) (i p : Int) (r g b : Nat) (h : p < i ∨ i + 3 ≤ p) :
    store_rgb buf i r g b p = buf p := by
  have h0 : p ≠ i := by omega
  have h1 : p ≠ i + 1 := by omega
  have h2 : p ≠ i + 2 := by omega
  simp [store_rgb, store_u8, h0, h1, h2]

/-- A raster of RGB pixels of `bufw` pixels per line, painted in `H` rows of `W`
pixels: when a line holds at least `W` pixels, the byte `k` of the pixel
`(x, y)` is the channel `k` of the colour stored for it. -/
theorem raster_rgb (H W : Nat) (bufw : Int) (hw : (W : Int) ≤ bufw)
    (col : Nat → Nat → Nat → Nat) (x y k : Nat) (hx : x < W) (hy : y < H) (hk : k < 3)
    (s : Int → Nat) :
    pure_loop H (fun y s => pure_loop W (fun x s =>
      store_rgb s (((y : Int) * bufw + x) * 3) (col y x 0) (col y x 1) (col y x 2)) s) s
      (((y : Int) * bufw + x) * 3 + k) = col y x k % 256 := by
  have h := raster_cells H W 3 bufw hw
    (fun y x s => store_rgb s (((y : Int) * bufw + x) * 3) (col y x 0) (col y x 1) (col y x 2))
    (fun y x k => col y x k % 256)
    (fun y x k s hk => by
      have := store_rgb_at s (((y : Int) * bufw + x) * 3) (col y x 0) (col y x 1) (col y x 2) k hk
      simp only [Nat.cast_ofNat] at this ⊢
      rw [this]
      interval_cases k <;> simp)
    (fun y x s p hp => store_rgb_other s _ p _ _ _ (by
      simp only [Nat.cast_ofNat] at hp
      omega))
    x y k hx hy hk s
  simpa using h

/-! ## The colour index -/

theorem and_one (v : Nat) : v &&& 1 = v % 2 :=
  Nat.and_pow_two_sub_one_eq_mod v 1

theorem shl_and_two (v : Nat) : (v <<< 1) &&& 2 = 2 * (v % 2) := by
  have h32 : (2 : Nat) = 3 &&& 2 := by decide
  have h : (v <<< 1) &&& 2 = ((v <<< 1) % 4) &&& 2 := by
    conv_lhs => rw [h32, ← Nat.and_assoc]
    rw [show (3 : Nat) = 2 ^ 2 - 1 from rfl, Nat.and_pow_two_sub_one_eq_mod]
  rw [h, Nat.shiftLeft_eq]
  rcases Nat.mod_two_eq_zero_or_one v with h0 | h1
  · have : v * 2 ^ 1 % 4 = 0 := by omega
    rw [this, h0]; rfl
  · have : v * 2 ^ 1 % 4 = 2 := by omega
    rw [this, h1]; rfl

theorem color_index_eq (d0 d1 x_ : Nat) :
    color_index d0 d1 x_ = ((d0 >>> x_) &&& 1) + 2 * ((d1 >>> x_) &&& 1) := by
  simp only [color_index, shl_and_two, and_one]
  rcases Nat.mod_two_eq_zero_or_one (d0 >>> x_) with h0 | h0 <;>
    rcases Nat.mod_two_eq_zero_or_one (d1 >>> x_) with h1 | h1 <;>
    rw [h0, h1] <;> rfl

theorem color_index_lt (d0 d1 x_ : Nat) : color_index d0 d1 x_ < 4 := by
  rw [color_index_eq, and_one, and_one]
  omega

theorem gray_row (c : Nat) (h : c < 4) :
    gb_pal_colors[c]? = some [gray c 0, gray c 1, gray c 2] ∧
    gb_pal_colors_at c 0 = some (gray c 0) ∧ gb_pal_colors_at c 1 = some (gray c 1) ∧
    gb_pal_colors_at c 2 = some (gray c 2) ∧
    gray c 0 < 256 ∧ gray c 1 < 256 ∧ gray c 2 < 256 := by
  interval_cases c <;> decide

theorem read_vram_lt (mem : GB_MEMORY) (i : Nat) (h : i < 0x4000) :
    read_vram mem i = some (mem.VideoRAM i % 256) := by
  have : (i : Int) < ((VIDEO_RAM_SIZE : Nat) : Int) := by
    simp only [VIDEO_RAM_SIZE]; omega
  simp [read_vram, read_u8, this]

/-! ## The palette resolver -/

/-- C1: in CGB mode, for palette numbers 0..7 and colour indices 0..3 and every
content of the palette tables, `GB_Debug_GetPalette` returns
red = `(v & 0x1F) << 3`, green = `((v >> 5) & 0x1F) << 3` and
blue = `((v >> 10) & 0x1F) << 3` of the packed entry
`v = pal[num*8 + color*2] | (pal[num*8 + color*2 + 1] << 8)`, with `pal` the
sprite table when `is_sprite` is not zero and the background table otherwise. -/
theorem GetPalette_cgb_unpacks_entry (E : Extern) (gb : GB_CONTEXT)
    (is_sprite num color : Int) (hcgb : gb.Emulator.CGBEnabled ≠ 0)
    (hnum : 0 ≤ num ∧ num ≤ 7) (hcolor : 0 ≤ color ∧ color ≤ 3) :
    let pal := if is_sprite ≠ 0 then gb.Emulator.spr_pal else gb.Emulator.bg_pal
    let v := (pal (num * 8 + color * 2).toNat % 256) |||
      ((pal (num * 8 + color * 2 + 1).toNat % 256) <<< 8)
    GB_Debug_GetPalette E gb is_sprite num color =
      some ((v &&& 0x1F) <<< 3, ((v >>> 5) &&& 0x1F) <<< 3, ((v >>> 10) &&& 0x1F) <<< 3) := by
  intro pal v
  exact GetPalette_cgb_eq E gb is_sprite num color hcgb hnum hcolor

/-- Witness of C1: sprite palette 7, colour 3 of a palette RAM full of `0xFF`. -/
theorem GetPalette_cgb_unpacks_entry_witness :
    (sampleState 1 0).Emulator.CGBEnabled ≠ 0 ∧ ((0 : Int) ≤ 7 ∧ (7 : Int) ≤ 7) ∧
    ((0 : Int) ≤ 3 ∧ (3 : Int) ≤ 3) ∧
    GB_Debug_GetPalette sampleExtern (sampleState 1 0) 1 7 3 = some (248, 248, 248) :=
  ⟨by decide, by decide, by decide,
    GetPalette_cgb_unpacks_entry sampleExtern (sampleState 1 0) 1 7 3
      (by decide) (by decide) (by decide)⟩

/-- C2: in CGB mode the packed entry `0x0000` resolves to (0,0,0) and `0x7FFF`
to (248,248,248); for every packed entry each channel is a multiple of 8 in
0..248, and two states whose entries differ at most in bit 15 resolve to the
same triple. -/
theorem GetPalette_cgb_channel_range (E : Extern) (gb : GB_CONTEXT)
    (is_sprite num color : Int) (hcgb : gb.Emulator.CGBEnabled ≠ 0)
    (hnum : 0 ≤ num ∧ num ≤ 7) (hcolor : 0 ≤ color ∧ color ≤ 3) :
    (cgb_entry gb is_sprite num color = 0x0000 →
      GB_Debug_GetPalette E gb is_sprite num color = some (0, 0, 0)) ∧
    (cgb_entry gb is_sprite num color = 0x7FFF →
      GB_Debug_GetPalette E gb is_sprite num color = some (248, 248, 248)) ∧
    cgb_entry gb is_sprite num color < 0x10000 ∧
    (∃ r g b : Nat, GB_Debug_GetPalette E gb is_sprite num color = some (r, g, b) ∧
      (8 ∣ r ∧ r ≤ 248) ∧ (8 ∣ g ∧ g ≤ 248) ∧ (8 ∣ b ∧ b ≤ 248)) ∧
    (∀ (E2 : Extern) (gb2 : GB_CONTEXT) (is_sprite2 num2 color2 : Int),
      gb2.Emulator.CGBEnabled ≠ 0 → 0 ≤ num2 ∧ num2 ≤ 7 → 0 ≤ color2 ∧ color2 ≤ 3 →
      cgb_entry gb2 is_sprite2 num2 color2 % 0x8000 =
        cgb_entry gb is_sprite num color % 0x8000 →
      GB_Debug_GetPalette E2 gb2 is_sprite2 num2 color2 =
        GB_Debug_GetPalette E gb is_sprite num color) := by
  have hres := GetPalette_cgb_eq E gb is_sprite num color hcgb hnum hcolor
  refine ⟨?_, ?_, ?_, ?_, ?_⟩
  · intro h
    rw [hres, h]
    rfl
  · intro h
    rw [hres, h]
    rfl
  · simp only [cgb_entry]
    have hlt : ∀ a b : Nat, (a % 256) ||| ((b % 256) <<< 8) < 2 ^ 16 := by
      intro a b
      apply Nat.or_lt_two_pow
      · omega
      · rw [Nat.shiftLeft_eq]; omega
    exact hlt _ _
  · refine ⟨_, _, _, by rw [hres, unpack15_eq], ?_, ?_, ?_⟩ <;>
      exact ⟨Nat.dvd_mul_left 8 _, by omega⟩
  · intro E2 gb2 s2 n2 c2 hcgb2 hn2 hc2 hmod
    rw [hres, GetPalette_cgb_eq E2 gb2 s2 n2 c2 hcgb2 hn2 hc2, unpack15_eq, unpack15_eq]
    congr 1
    refine Prod.ext ?_ (Prod.ext ?_ ?_) <;> simp only <;> omega

/-- Witness of C2: background palette 0, colour 0 of a palette RAM full of `0xFF`. -/
theorem GetPalette_cgb_channel_range_witness :
    (sampleState 1 0).Emulator.CGBEnabled ≠ 0 ∧ ((0 : Int) ≤ 0 ∧ (0 : Int) ≤ 7) ∧
    ((0 : Int) ≤ 0 ∧ (0 : Int) ≤ 3) ∧
    (∃ r g b : Nat, GB_Debug_GetPalette sampleExtern (sampleState 1 0) 0 0 0 = some (r, g, b) ∧
      (8 ∣ r ∧ r ≤ 248) ∧ (8 ∣ g ∧ g ≤ 248) ∧ (8 ∣ b ∧ b ≤ 248)) :=
  ⟨by decide, by decide, by decide,
    (GetPalette_cgb_channel_range sampleExtern (sampleState 1 0) 0 0 0
      (by decide) (by decide) (by decide)).2.2.2.1⟩

/-- C3: in DMG mode (`CGBEnabled == 0`, `gbc_in_gb_mode == 0`), for colour
indices 0..3 and every register content, `GB_Debug_GetPalette` returns the row
`gb_pal_colors[(reg >> (2*color)) & 3]` of the grayscale table, `reg` being OBP0
for sprite palette 0, OBP1 for sprite palette 1 and BGP for background palette
0; the table is {255,255,255},{168,168,168},{80,80,80},{0,0,0}. -/
theorem GetPalette_dmg_register_row (E : Extern) (gb : GB_CONTEXT) (is_sprite color : Int)
    (hcgb : gb.Emulator.CGBEnabled = 0) (hcompat : gb.Emulator.gbc_in_gb_mode = 0)
    (hcolor : 0 ≤ color ∧ color ≤ 3) :
    gb_pal_colors = [[255, 255, 255], [168, 168, 168], [80, 80, 80], [0, 0, 0]] ∧
    (is_sprite ≠ 0 → ∃ r g b : Nat,
      gb_pal_colors[(read_io gb.Memory E.OBP0_REG >>> (2 * color).toNat) &&& 3]? =
        some [r, g, b] ∧
      GB_Debug_GetPalette E gb is_sprite 0 color = some (r, g, b)) ∧
    (is_sprite ≠ 0 → ∃ r g b : Nat,
      gb_pal_colors[(read_io gb.Memory E.OBP1_REG >>> (2 * color).toNat) &&& 3]? =
        some [r, g, b] ∧
      GB_Debug_GetPalette E gb is_sprite 1 color = some (r, g, b)) ∧
    (∃ r g b : Nat,
      gb_pal_colors[(read_io gb.Memory E.BGP_REG >>> (2 * color).toNat) &&& 3]? =
        some [r, g, b] ∧
      GB_Debug_GetPalette E gb 0 0 color = some (r, g, b)) := by
  refine ⟨rfl, ?_, ?_, ?_⟩
  · intro hs
    rw [GetPalette_dmg_obp0 E gb is_sprite color hcgb hcompat hs hcolor]
    exact gb_pal_colors_rgb_row _ (and_3_lt _)
  · intro hs
    rw [GetPalette_dmg_obp1 E gb is_sprite color hcgb hcompat hs hcolor]
    exact gb_pal_colors_rgb_row _ (and_3_lt _)
  · rw [GetPalette_dmg_bgp E gb color hcgb hcompat hcolor]
    exact gb_pal_colors_rgb_row _ (and_3_lt _)

/-- Witness of C3: colour 2 with every register holding `0xE4` (the identity
mapping) is the gray level 80. -/
theorem GetPalette_dmg_register_row_witness :
    (sampleState 0 0).Emulator.CGBEnabled = 0 ∧ (sampleState 0 0).Emulator.gbc_in_gb_mode = 0 ∧
    ((0 : Int) ≤ 2 ∧ (2 : Int) ≤ 3) ∧
    (∃ r g b : Nat,
      gb_pal_colors[(read_io (sampleState 0 0).Memory sampleExtern.BGP_REG >>>
        (2 * (2 : Int)).toNat) &&& 3]? = some [r, g, b] ∧
      GB_Debug_GetPalette sampleExtern (sampleState 0 0) 0 0 2 = some (r, g, b)) :=
  ⟨rfl, rfl, by decide,
    (GetPalette_dmg_register_row sampleExtern (sampleState 0 0) 1 2 rfl rfl
      (by decide)).2.2.2⟩

/-- C4: in DMG mode, for every `is_sprite` flag, every palette number (also one
without a register, also a negative one), every colour index 0..3 and every
register content, `GB_Debug_GetPalette` returns one of the four triples
(255,255,255), (168,168,168), (80,80,80), (0,0,0). -/
theorem GetPalette_dmg_four_grays (E : Extern) (gb : GB_CONTEXT) (is_sprite num color : Int)
    (hcgb : gb.Emulator.CGBEnabled = 0) (hcompat : gb.Emulator.gbc_in_gb_mode = 0)
    (hcolor : 0 ≤ color ∧ color ≤ 3) :
    GB_Debug_GetPalette E gb is_sprite num color = some (255, 255, 255) ∨
    GB_Debug_GetPalette E gb is_sprite num color = some (168, 168, 168) ∨
    GB_Debug_GetPalette E gb is_sprite num color = some (80, 80, 80) ∨
    GB_Debug_GetPalette E gb is_sprite num color = some (0, 0, 0) := by
  by_cases hs : is_sprite = 0
  · by_cases h0 : num = 0
    · subst hs; subst h0
      rw [GetPalette_dmg_bgp E gb color hcgb hcompat hcolor]
      exact gb_pal_colors_rgb_cases _ (and_3_lt _)
    · exact Or.inr (Or.inr (Or.inr
        (GetPalette_dmg_other E gb is_sprite num color hcgb hcompat h0 (fun h => absurd hs h))))
  · by_cases h0 : num = 0
    · subst h0
      rw [GetPalette_dmg_obp0 E gb is_sprite color hcgb hcompat hs hcolor]
      exact gb_pal_colors_rgb_cases _ (and_3_lt _)
    · by_cases h1 : num = 1
      · subst h1
        rw [GetPalette_dmg_obp1 E gb is_sprite color hcgb hcompat hs hcolor]
        exact gb_pal_colors_rgb_cases _ (and_3_lt _)
      · exact Or.inr (Or.inr (Or.inr
          (GetPalette_dmg_other E gb is_sprite num color hcgb hcompat h0 (fun _ => h1))))

/-- Witness of C4: the sprite palette number -5, which has no register. -/
theorem GetPalette_dmg_four_grays_witness :
    (sampleState 0 0).Emulator.CGBEnabled = 0 ∧ (sampleState 0 0).Emulator.gbc_in_gb_mode = 0 ∧
    ((0 : Int) ≤ 1 ∧ (1 : Int) ≤ 3) ∧
    (GB_Debug_GetPalette sampleExtern (sampleState 0 0) 1 (-5) 1 = some (255, 255, 255) ∨
    GB_Debug_GetPalette sampleExtern (sampleState 0 0) 1 (-5) 1 = some (168, 168, 168) ∨
    GB_Debug_GetPalette sampleExtern (sampleState 0 0) 1 (-5) 1 = some (80, 80, 80) ∨
    GB_Debug_GetPalette sampleExtern (sampleState 0 0) 1 (-5) 1 = some (0, 0, 0)) :=
  ⟨rfl, rfl, by decide,
    GetPalette_dmg_four_grays sampleExtern (sampleState 0 0) 1 (-5) 1 rfl rfl (by decide)⟩

/-- C5: in GBC-in-GB compatibility mode (`CGBEnabled == 0`,
`gbc_in_gb_mode != 0`), `GB_Debug_GetPalette` returns (0,0,0) for every sprite
palette number above 1 and every background palette number above 0, whatever
the colour index, the registers, the palette RAM and the lookups are. -/
theorem GetPalette_compat_unassigned_black (E : Extern) (gb : GB_CONTEXT)
    (is_sprite num color : Int)
    (hcgb : gb.Emulator.CGBEnabled = 0) (hcompat : gb.Emulator.gbc_in_gb_mode ≠ 0) :
    (is_sprite ≠ 0 → num > 1 → GB_Debug_GetPalette E gb is_sprite num color = some (0, 0, 0)) ∧
    (is_sprite = 0 → num > 0 → GB_Debug_GetPalette E gb is_sprite num color = some (0, 0, 0)) := by
  constructor
  · intro hs hn
    have h0 : num ≠ 0 := by omega
    have h1 : num ≠ 1 := by omega
    simp [GB_Debug_GetPalette, hcgb, hcompat, hs, h0, h1]
  · intro hs hn
    have h0 : num ≠ 0 := by omega
    simp [GB_Debug_GetPalette, hcgb, hcompat, hs, h0]

/-- Witness of C5: sprite palette 2, with a colour index outside of 0..3. -/
theorem GetPalette_compat_unassigned_black_witness :
    (sampleState 0 1).Emulator.CGBEnabled = 0 ∧ (sampleState 0 1).Emulator.gbc_in_gb_mode ≠ 0 ∧
    ((1 : Int) ≠ 0 → (2 : Int) > 1 →
      GB_Debug_GetPalette sampleExtern (sampleState 0 1) 1 2 77 = some (0, 0, 0)) :=
  ⟨rfl, by decide,
    (GetPalette_compat_unassigned_black sampleExtern (sampleState 0 1) 1 2 77 rfl
      (by decide)).1⟩

/-- C6: in GBC-in-GB compatibility mode, for colour indices 0..3, sprite
palette n in {0,1} resolves to the 5-bit-per-channel unpacking (each channel
shifted left by 3) of `gbc_getsprpalcolor(n, (OBPn >> (2*c)) & 3)`, and
background palette 0 to that of `gbc_getbgpalcolor(0, (BGP >> (2*c)) & 3)`, for
arbitrary lookup functions. -/
theorem GetPalette_compat_lookup (E : Extern) (gb : GB_CONTEXT) (is_sprite color : Int)
    (hcgb : gb.Emulator.CGBEnabled = 0) (hcompat : gb.Emulator.gbc_in_gb_mode ≠ 0)
    (hcolor : 0 ≤ color ∧ color ≤ 3) :
    (∀ v : Nat, unpack15 v =
      ((v &&& 0x1F) <<< 3, ((v >>> 5) &&& 0x1F) <<< 3, ((v >>> 10) &&& 0x1F) <<< 3)) ∧
    (is_sprite ≠ 0 → GB_Debug_GetPalette E gb is_sprite 0 color =
      some (unpack15 (E.gbc_getsprpalcolor gb 0
        ((read_io gb.Memory E.OBP0_REG >>> (2 * color).toNat) &&& 3)))) ∧
    (is_sprite ≠ 0 → GB_Debug_GetPalette E gb is_sprite 1 color =
      some (unpack15 (E.gbc_getsprpalcolor gb 1
        ((read_io gb.Memory E.OBP1_REG >>> (2 * color).toNat) &&& 3)))) ∧
    GB_Debug_GetPalette E gb 0 0 color =
      some (unpack15 (E.gbc_getbgpalcolor gb 0
        ((read_io gb.Memory E.BGP_REG >>> (2 * color).toNat) &&& 3))) := by
  refine ⟨fun _ => rfl, ?_, ?_, ?_⟩
  · intro hs
    simp [GB_Debug_GetPalette, hcgb, hcompat, hs, shr_u32_color _ _ hcolor, unpack15_mod_lit]
  · intro hs
    simp [GB_Debug_GetPalette, hcgb, hcompat, hs, shr_u32_color _ _ hcolor, unpack15_mod_lit]
  · simp [GB_Debug_GetPalette, hcgb, hcompat, shr_u32_color _ _ hcolor, unpack15_mod_lit]

/-- Witness of C6: background colour 1 with BGP = `0xE4` looks up
`gbc_getbgpalcolor(0, 1)`, here `0x03E1`. -/
theorem GetPalette_compat_lookup_witness :
    (sampleState 0 1).Emulator.CGBEnabled = 0 ∧ (sampleState 0 1).Emulator.gbc_in_gb_mode ≠ 0 ∧
    ((0 : Int) ≤ 1 ∧ (1 : Int) ≤ 3) ∧
    GB_Debug_GetPalette sampleExtern (sampleState 0 1) 0 0 1 = some (8, 248, 0) :=
  ⟨rfl, by decide, by decide,
    (GetPalette_compat_lookup sampleExtern (sampleState 0 1) 0 1 rfl (by decide)
      (by decide)).2.2.2⟩

/-! ## The tile viewer -/

theorem TileVRAMDraw_body_eq (gb : GB_CONTEXT) (off : Nat) (hoff : off ≤ 0x2000) (bufw : Int)
    (y x : Nat) (hx : x < 128) (hy : y < 192) (s : Int → Nat) :
    GB_Debug_TileVRAMDraw_body gb off bufw y x s =
      some (store_rgb s (((y : Int) * bufw + x) * 3)
        (gray (GB_Debug_TileVRAMDraw_color gb off y x) 0)
        (gray (GB_Debug_TileVRAMDraw_color gb off y x) 1)
        (gray (GB_Debug_TileVRAMDraw_color gb off y x) 2)) := by
  have ha : (((x >>> 3) + ((y >>> 3) * 16)) <<< 4) + off + ((y &&& 7) * 2) + 1 < 0x4000 := by
    simp only [Nat.shiftRight_eq_div_pow, Nat.shiftLeft_eq, and_0x7]
    omega
  have hc := gray_row (GB_Debug_TileVRAMDraw_color gb off y x) (color_index_lt _ _ _)
  simp only [GB_Debug_TileVRAMDraw_color] at hc
  simp only [GB_Debug_TileVRAMDraw_body, GB_Debug_TileVRAMDraw_color,
    read_vram_lt _ _ (Nat.lt_of_succ_lt ha), read_vram_lt _ _ ha, hc.2.1, hc.2.2.1, hc.2.2.2.1,
    Option.bind_eq_bind, Option.some_bind, Option.pure_def]

theorem TileVRAMDraw_loop_eq (gb : GB_CONTEXT) (off : Nat) (hoff : off ≤ 0x2000) (bufw : Int)
    (s : Int → Nat) :
    for_loop 192 (fun y buffer =>
      for_loop 128 (fun x buffer => GB_Debug_TileVRAMDraw_body gb off bufw y x buffer) buffer) s =
    some (GB_Debug_TileVRAMDraw_paint gb off bufw s) := by
  apply for_loop_eq_pure
  intro y hy s
  apply for_loop_eq_pure
  intro x hx s
  exact TileVRAMDraw_body_eq gb off hoff bufw y x hx hy s

theorem TileVRAMDraw_eq (gb : GB_CONTEXT) (buffer0 buffer1 : Int → Nat) (bufw0 bufw1 : Int) :
    GB_Debug_TileVRAMDraw gb buffer0 bufw0 buffer1 bufw1 =
      some (GB_Debug_TileVRAMDraw_paint gb 0 bufw0 buffer0,
        GB_Debug_TileVRAMDraw_paint gb 0x2000 bufw1 buffer1) := by
  simp only [GB_Debug_TileVRAMDraw, TileVRAMDraw_loop_eq gb 0 (by decide),
    TileVRAMDraw_loop_eq gb 0x2000 (by decide), Option.bind_eq_bind, Option.some_bind,
    Option.pure_def]

theorem gray_lt (c k : Nat) : gray c k < 256 := by
  rcases c with _ | _ | _ | _ | c <;> rcases k with _ | _ | _ | k <;>
    simp [gray, gb_pal_colors_at, gb_pal_colors]

theorem TileVRAMDraw_paint_pixel (gb : GB_CONTEXT) (off : Nat) (bufw : Int)
    (hw : 128 ≤ bufw) (s : Int → Nat) (x y k : Nat) (hx : x < 128) (hy : y < 192) (hk : k < 3) :
    GB_Debug_TileVRAMDraw_paint gb off bufw s (((y : Int) * bufw + x) * 3 + k) =
      gray (GB_Debug_TileVRAMDraw_color gb off y x) k := by
  have h := raster_rgb 192 128 bufw (by simpa using hw)
    (fun y x k => gray (GB_Debug_TileVRAMDraw_color gb off y x) k) x y k hx hy hk s
  rw [GB_Debug_TileVRAMDraw_paint, h]
  exact Nat.mod_eq_of_lt (gray_lt _ _)

theorem TileVRAMDraw_color_eq (gb : GB_CONTEXT) (off y x : Nat) :
    GB_Debug_TileVRAMDraw_color gb off y x =
      (((gb.Memory.VideoRAM (off + 16 * ((x >>> 3) + 16 * (y >>> 3)) + 2 * (y &&& 7)) % 256) >>>
        (7 - (x &&& 7))) &&& 1) +
      2 * (((gb.Memory.VideoRAM (off + 16 * ((x >>> 3) + 16 * (y >>> 3)) + 2 * (y &&& 7) + 1)
        % 256) >>> (7 - (x &&& 7))) &&& 1) := by
  have ha : (((x >>> 3) + ((y >>> 3) * 16)) <<< 4) + off + ((y &&& 7) * 2) =
      off + 16 * ((x >>> 3) + 16 * (y >>> 3)) + 2 * (y &&& 7) := by
    rw [Nat.shiftLeft_eq]
    omega
  rw [GB_Debug_TileVRAMDraw_color, color_index_eq, ha]

/-- C7: for every video RAM content and every pixel `(x, y)` with `x < 128`,
`y < 192`, `GB_Debug_TileVRAMDraw` writes to `buffer0` at the pixel `(x, y)`
(byte offset `(y*bufw0 + x)*3`) the triple `gb_pal_colors[c]`, where
`T = (x >> 3) + 16*(y >> 3)`, `b0 = VideoRAM[16*T + 2*(y & 7)]`,
`b1 = VideoRAM[16*T + 2*(y & 7) + 1]` and
`c = ((b0 >> (7 - (x & 7))) & 1) + 2*((b1 >> (7 - (x & 7))) & 1)`; `buffer1` gets
the same function of the bytes `0x2000` higher. The function returns for every
input; the iteration `(x, y)` of each loop stores the triple whatever the width
of the buffer is, and the triple is what the buffer holds at the pixel when the
function returns if a line of the buffer has at least 128 pixels. -/
theorem TileVRAMDraw_pixels (gb : GB_CONTEXT) (buffer0 buffer1 : Int → Nat) (bufw0 bufw1 : Int) :
    ∃ out0 out1 : Int → Nat,
      GB_Debug_TileVRAMDraw gb buffer0 bufw0 buffer1 bufw1 = some (out0, out1) ∧
      ∀ x y : Nat, x < 128 → y < 192 →
        let T := (x >>> 3) + 16 * (y >>> 3)
        let b0 := gb.Memory.VideoRAM (16 * T + 2 * (y &&& 7)) % 256
        let b1 := gb.Memory.VideoRAM (16 * T + 2 * (y &&& 7) + 1) % 256
        let c := ((b0 >>> (7 - (x &&& 7))) &&& 1) + 2 * ((b1 >>> (7 - (x &&& 7))) &&& 1)
        let b0hi := gb.Memory.VideoRAM (0x2000 + 16 * T + 2 * (y &&& 7)) % 256
        let b1hi := gb.Memory.VideoRAM (0x2000 + 16 * T + 2 * (y &&& 7) + 1) % 256
        let chi := ((b0hi >>> (7 - (x &&& 7))) &&& 1) + 2 * ((b1hi >>> (7 - (x &&& 7))) &&& 1)
        ∃ r g b rhi ghi bhi : Nat,
          gb_pal_colors[c]? = some [r, g, b] ∧ gb_pal_colors[chi]? = some [rhi, ghi, bhi] ∧
          (∀ buf : Int → Nat, GB_Debug_TileVRAMDraw_body gb 0 bufw0 y x buf =
            some (store_rgb buf (((y : Int) * bufw0 + x) * 3) r g b)) ∧
          (∀ buf : Int → Nat, GB_Debug_TileVRAMDraw_body gb 0x2000 bufw1 y x buf =
            some (store_rgb buf (((y : Int) * bufw1 + x) * 3) rhi ghi bhi)) ∧
          (128 ≤ bufw0 →
            out0 (((y : Int) * bufw0 + x) * 3 + 0) = r ∧
            out0 (((y : Int) * bufw0 + x) * 3 + 1) = g ∧
            out0 (((y : Int) * bufw0 + x) * 3 + 2) = b) ∧
          (128 ≤ bufw1 →
            out1 (((y : Int) * bufw1 + x) * 3 + 0) = rhi ∧
            out1 (((y : Int) * bufw1 + x) * 3 + 1) = ghi ∧
            out1 (((y : Int) * bufw1 + x) * 3 + 2) = bhi) := by
  refine ⟨_, _, TileVRAMDraw_eq gb buffer0 buffer1 bufw0 bufw1, ?_⟩
  intro x y hx hy T b0 b1 c b0hi b1hi chi
  have e0 := TileVRAMDraw_color_eq gb 0 y x
  have e1 := TileVRAMDraw_color_eq gb 0x2000 y x
  simp only [Nat.zero_add] at e0
  have hc : c = GB_Debug_TileVRAMDraw_color gb 0 y x := e0.symm
  have hchi : chi = GB_Debug_TileVRAMDraw_color gb 0x2000 y x := e1.symm
  refine ⟨gray c 0, gray c 1, gray c 2, gray chi 0, gray chi 1, gray chi 2,
    (gray_row c (by rw [hc]; exact color_index_lt _ _ _)).1,
    (gray_row chi (by rw [hchi]; exact color_index_lt _ _ _)).1, ?_, ?_, ?_, ?_⟩
  · intro buf
    rw [hc]
    exact TileVRAMDraw_body_eq gb 0 (by decide) bufw0 y x hx hy buf
  · intro buf
    rw [hchi]
    exact TileVRAMDraw_body_eq gb 0x2000 (by decide) bufw1 y x hx hy buf
  · intro hw0
    have p0 := fun k hk => TileVRAMDraw_paint_pixel gb 0 bufw0 hw0 buffer0 x y k hx hy hk
    have q0 := p0 0 (by decide)
    have q1 := p0 1 (by decide)
    have q2 := p0 2 (by decide)
    simp only [Nat.cast_zero, Nat.cast_one, Nat.cast_ofNat] at q0 q1 q2
    rw [hc]
    exact ⟨q0, q1, q2⟩
  · intro hw1
    have p1 := fun k hk => TileVRAMDraw_paint_pixel gb 0x2000 bufw1 hw1 buffer1 x y k hx hy hk
    have r0 := p1 0 (by decide)
    have r1 := p1 1 (by decide)
    have r2 := p1 2 (by decide)
    simp only [Nat.cast_zero, Nat.cast_one, Nat.cast_ofNat] at r0 r1 r2
    rw [hchi]
    exact ⟨r0, r1, r2⟩

/-- Witness of C7: with video RAM byte `i` holding `i mod 256` and two buffers
128 pixels wide, the pixel (15, 1) of `buffer0` decodes the bytes 18 and 19 at
bit 0 to the colour index 2, the gray level 80. -/
theorem TileVRAMDraw_pixels_witness :
    ∃ out0 out1 : Int → Nat,
      GB_Debug_TileVRAMDraw (sampleState 0 0) (fun _ => 0) 128 (fun _ => 0) 128 =
        some (out0, out1) ∧
      [out0 ((((1 : Nat) : Int) * 128 + (15 : Nat)) * 3 + 0),
        out0 ((((1 : Nat) : Int) * 128 + (15 : Nat)) * 3 + 1),
        out0 ((((1 : Nat) : Int) * 128 + (15 : Nat)) * 3 + 2)] = [80, 80, 80] := by
  obtain ⟨out0, out1, h, hp⟩ := TileVRAMDraw_pixels (sampleState 0 0) (fun _ => 0) (fun _ => 0)
    128 128
  refine ⟨out0, out1, h, ?_⟩
  obtain ⟨r, g, b, _, _, _, hrow, _, _, _, hout, _⟩ := hp 15 1 (by decide) (by decide)
  obtain ⟨h0, h1, h2⟩ := hout (by decide)
  rw [h0, h1, h2]
  exact (Option.some.inj hrow).symm

/-! ## The tile decoder -/

/-- C8: for all row bytes `b0`, `b1` and every bit position `s` (so for bytes
0..255 and positions 0..7) the colour index
`((b0 >> s) & 1) | (((b1 >> s) << 1) & 2)` is in {0,1,2,3}; a decoded row has
exactly 8 indices, all in {0,1,2,3}; the lookups `gb_pal_colors[color]` and
`palette[color]` into 4-entry tables are in range; and the row the sprite and
tile decoders compute is `decode_row`, a function of the two bytes and of the
flip flag only. -/
theorem color_index_in_range (b0 b1 s : Nat) (flip : Bool) :
    color_index b0 b1 s = (((b0 >>> s) &&& 1) ||| (((b1 >>> s) <<< 1) &&& 2)) ∧
    color_index b0 b1 s < 4 ∧
    (decode_row b0 b1 flip).length = 8 ∧
    (∀ c ∈ decode_row b0 b1 flip, c < 4) ∧
    (∃ r g b : Nat, gb_pal_colors[color_index b0 b1 s]? = some [r, g, b]) ∧
    (∀ palette : List Nat, palette.length = 4 →
      ∃ v : Nat, palette[color_index b0 b1 s]? = some v) ∧
    (∀ (mem : GB_MEMORY) (height Info spr_data y x : Nat), x < 8 →
      ((Info &&& (1 <<< 5) ≠ 0) ↔ flip = true) →
      read_vram mem (if Info &&& (1 <<< 6) ≠ 0 then spr_data + (height - y - 1) * 2
        else spr_data + y * 2) = some b0 →
      read_vram mem ((if Info &&& (1 <<< 6) ≠ 0 then spr_data + (height - y - 1) * 2
        else spr_data + y * 2) + 1) = some b1 →
      sprite_color_index mem height Info spr_data y x = (decode_row b0 b1 flip)[x]?) ∧
    (∀ x : Nat, x < 8 → (decode_row b0 b1 false)[x]? = some (color_index b0 b1 (7 - (x &&& 7)))) := by
  refine ⟨rfl, color_index_lt _ _ _, by simp [decode_row], ?_, ?_, ?_, ?_, ?_⟩
  · intro c hc
    simp only [decode_row, List.mem_map] at hc
    obtain ⟨x, _, rfl⟩ := hc
    exact color_index_lt _ _ _
  · exact ⟨_, _, _, (gray_row _ (color_index_lt _ _ _)).1⟩
  · intro palette hlen
    have h : color_index b0 b1 s < palette.length := by
      rw [hlen]; exact color_index_lt _ _ _
    exact ⟨palette[color_index b0 b1 s], List.getElem?_eq_getElem h⟩
  · intro mem height Info spr_data y x hx hflip h0 h1
    simp only [sprite_color_index, h0, h1, Option.bind_eq_bind, Option.some_bind,
      Option.pure_def, decode_row, List.getElem?_map, List.getElem?_range hx, Option.map_some']
    cases flip
    · have : ¬ (Info &&& (1 <<< 5) ≠ 0) := by
        intro h; exact absurd (hflip.mp h) (by decide)
      rw [if_neg this]
      simp only [Bool.false_eq_true, if_false]
    · have : Info &&& (1 <<< 5) ≠ 0 := hflip.mpr rfl
      rw [if_pos this]
      simp only [if_true]
  · intro x hx
    have hx7 : x &&& 7 = x := by rw [and_0x7]; omega
    simp only [decode_row, List.getElem?_map, List.getElem?_range hx, Option.map_some', hx7,
      Bool.false_eq_true, if_false]

/-! ## The sprite renderer `GB_Debug_PrintSpriteAlpha` -/

theorem read_u8_pal_nat (t : Nat → Nat) (i : Nat) (h : i ≤ 63) :
    read_u8 PAL_RAM_SIZE t (i : Int) = some (t i % 256) := by
  have := read_u8_pal t (i : Int) (by omega) (by omega)
  simpa using this

theorem spriteheight_cases (E : Extern) (mem : GB_MEMORY) :
    spriteheight E mem = 8 ∨ spriteheight E mem = 16 := by
  unfold spriteheight
  split
  · right; rfl
  · left; rfl

theorem sprite_palette_cgb_some (gb : GB_CONTEXT) (Info : Nat) :
    ∃ p0 p1 p2 p3 : Nat, sprite_palette_cgb gb Info = some [p0, p1, p2, p3] := by
  have h : (Info &&& 7) * 8 + 7 ≤ 63 := by
    rw [and_0x7]; omega
  simp only [sprite_palette_cgb, read_u8_pal_nat _ ((Info &&& 7) * 8) (by omega),
    read_u8_pal_nat _ ((Info &&& 7) * 8 + 1) (by omega),
    read_u8_pal_nat _ ((Info &&& 7) * 8 + 2) (by omega),
    read_u8_pal_nat _ ((Info &&& 7) * 8 + 3) (by omega),
    read_u8_pal_nat _ ((Info &&& 7) * 8 + 4) (by omega),
    read_u8_pal_nat _ ((Info &&& 7) * 8 + 5) (by omega),
    read_u8_pal_nat _ ((Info &&& 7) * 8 + 6) (by omega),
    read_u8_pal_nat _ ((Info &&& 7) * 8 + 7) (by omega),
    Option.bind_eq_bind, Option.some_bind, Option.pure_def]
  exact ⟨_, _, _, _, rfl⟩

theorem sprite_resolve_some (E : Extern) (gb : GB_CONTEXT) (Info c : Nat) (hc : c < 4) :
    ∃ r g b : Nat, sprite_resolve E gb Info c = some (r, g, b) := by
  unfold sprite_resolve
  split
  · obtain ⟨p0, p1, p2, p3, hp⟩ := sprite_palette_cgb_some gb Info
    rw [hp]
    interval_cases c <;> exact ⟨_, _, _, rfl⟩
  · have h4 : ∀ v : Nat, ∃ r g b : Nat, gb_pal_colors_rgb (v &&& 0x3) = some (r, g, b) := by
      intro v
      obtain ⟨r, g, b, _, h⟩ := gb_pal_colors_rgb_row (v &&& 0x3) (and_3_lt v)
      exact ⟨r, g, b, h⟩
    interval_cases c <;> simp only [sprite_palette_dmg] <;> exact h4 _

theorem sprite_data_offset_lt (E : Extern) (gb : GB_CONTEXT) (Tile Info y : Nat)
    (hT : Tile < 256) (hy : y < spriteheight E gb.Memory) :
    sprite_data_offset E gb Tile Info + y * 2 + 1 < 0x4000 := by
  have hFE : Tile &&& 0xFE ≤ 0xFE := Nat.and_le_right
  have hFF : Tile &&& 0xFF ≤ Tile := Nat.and_le_left
  unfold sprite_data_offset
  rcases spriteheight_cases E gb.Memory with h8 | h16
  · rw [h8] at hy ⊢
    simp only [Nat.shiftLeft_eq]
    split_ifs <;> omega
  · rw [h16] at hy ⊢
    simp only [Nat.shiftLeft_eq]
    split_ifs <;> omega

theorem sprite_color_index_eq (mem : GB_MEMORY) (height Info spr_data y x : Nat)
    (hrow : ∀ r, r < height → spr_data + r * 2 + 1 < 0x4000) (hy : y < height) :
    sprite_color_index mem height Info spr_data y x =
      some (sprite_color mem.VideoRAM height Info spr_data y x) := by
  have h1 := hrow y hy
  have h2 := hrow (height - y - 1) (by omega)
  unfold sprite_color_index sprite_color
  by_cases h6 : Info &&& (1 <<< 6) ≠ 0
  · simp only [if_pos h6, read_vram_lt _ _ (Nat.lt_of_succ_lt h2), read_vram_lt _ _ h2,
      Option.bind_eq_bind, Option.some_bind, Option.pure_def]
  · simp only [if_neg h6, read_vram_lt _ _ (Nat.lt_of_succ_lt h1), read_vram_lt _ _ h1,
      Option.bind_eq_bind, Option.some_bind, Option.pure_def]

theorem sprite_color_lt (vram : Nat → Nat) (height Info spr_data y x : Nat) :
    sprite_color vram height Info spr_data y x < 4 :=
  color_index_lt _ _ _

theorem PrintSpriteAlpha_body_eq (mem : GB_MEMORY) (height Info spr_data : Nat)
    (resolve : Nat → Option RGB) (y x : Nat) (buf : Int → Nat)
    (hrow : ∀ r, r < height → spr_data + r * 2 + 1 < 0x4000) (hy : y < height)
    (hres : ∀ c, c < 4 → ∃ r g b : Nat, resolve c = some (r, g, b)) :
    GB_Debug_PrintSpriteAlpha_body mem height Info spr_data resolve y x buf =
      some (store_rgba buf (((y : Int) * 8 + x) * 4)
        (sprite_rgba resolve (sprite_color mem.VideoRAM height Info spr_data y x)).1
        (sprite_rgba resolve (sprite_color mem.VideoRAM height Info spr_data y x)).2.1
        (sprite_rgba resolve (sprite_color mem.VideoRAM height Info spr_data y x)).2.2.1
        (sprite_rgba resolve (sprite_color mem.VideoRAM height Info spr_data y x)).2.2.2) := by
  obtain ⟨r, g, b, hr⟩ := hres _ (sprite_color_lt mem.VideoRAM height Info spr_data y x)
  simp only [GB_Debug_PrintSpriteAlpha_body, sprite_color_index_eq mem height Info spr_data y x
    hrow hy, Option.bind_eq_bind, Option.some_bind, Option.pure_def, sprite_rgba, hr]
  by_cases hc : sprite_color mem.VideoRAM height Info spr_data y x = 0
  · simp [hc]
  · simp [hc]

theorem sprite_alpha_loop_eq (mem : GB_MEMORY) (height Info spr_data : Nat)
    (resolve : Nat → Option RGB) (buf : Int → Nat)
    (hrow : ∀ r, r < height → spr_data + r * 2 + 1 < 0x4000)
    (hres : ∀ c, c < 4 → ∃ r g b : Nat, resolve c = some (r, g, b)) :
    for_loop height (fun y buf =>
      for_loop 8 (fun x buf =>
        GB_Debug_PrintSpriteAlpha_body mem height Info spr_data resolve y x buf) buf) buf =
    some (sprite_alpha_paint mem.VideoRAM height Info spr_data resolve buf) := by
  apply for_loop_eq_pure
  intro y hy s
  apply for_loop_eq_pure
  intro x _ s
  exact PrintSpriteAlpha_body_eq mem height Info spr_data resolve y x s hrow hy hres

theorem read_oam_some (mem : GB_MEMORY) (sprite : Int) (h : 0 ≤ sprite ∧ sprite < 40) :
    read_oam mem sprite =
      some { Y := (mem.ObjAttrMem sprite.toNat).Y % 256,
             X := (mem.ObjAttrMem sprite.toNat).X % 256,
             Tile := (mem.ObjAttrMem sprite.toNat).Tile % 256,
             Info := (mem.ObjAttrMem sprite.toNat).Info % 256 } := by
  have : 0 ≤ sprite ∧ sprite < ((OAM_ENTRIES : Nat) : Int) := by
    simp only [OAM_ENTRIES]; omega
  simp [read_oam, this]

/-- The image `GB_Debug_PrintSpriteAlpha` produces, as a loop of stores that
cannot fail. -/
theorem PrintSpriteAlpha_eq (E : Extern) (gb : GB_CONTEXT) (buf : Int → Nat) (sprite : Int)
    (h : 0 ≤ sprite ∧ sprite < 40) :
    GB_Debug_PrintSpriteAlpha E gb buf sprite =
      some (sprite_alpha_paint gb.Memory.VideoRAM (spriteheight E gb.Memory)
        ((gb.Memory.ObjAttrMem sprite.toNat).Info % 256)
        (sprite_data_offset E gb ((gb.Memory.ObjAttrMem sprite.toNat).Tile % 256)
          ((gb.Memory.ObjAttrMem sprite.toNat).Info % 256))
        (sprite_resolve E gb ((gb.Memory.ObjAttrMem sprite.toNat).Info % 256)) buf) := by
  have hrow : ∀ r, r < spriteheight E gb.Memory →
      sprite_data_offset E gb ((gb.Memory.ObjAttrMem sprite.toNat).Tile % 256)
        ((gb.Memory.ObjAttrMem sprite.toNat).Info % 256) + r * 2 + 1 < 0x4000 :=
    fun r hr => sprite_data_offset_lt E gb _ _ r (Nat.mod_lt _ (by decide)) hr
  have hres := sprite_resolve_some E gb ((gb.Memory.ObjAttrMem sprite.toNat).Info % 256)
  have hloop := sprite_alpha_loop_eq gb.Memory (spriteheight E gb.Memory)
    ((gb.Memory.ObjAttrMem sprite.toNat).Info % 256) _ _ buf hrow hres
  rw [← hloop]
  obtain ⟨p0, p1, p2, p3, hp⟩ :=
    sprite_palette_cgb_some gb ((gb.Memory.ObjAttrMem sprite.toNat).Info % 256)
  by_cases hcgb : gb.Emulator.CGBEnabled ≠ 0
  · simp only [GB_Debug_PrintSpriteAlpha, read_oam_some _ _ h, Option.bind_eq_bind,
      Option.some_bind, if_pos hcgb, hp, sprite_data_offset, sprite_resolve, Option.getD_some]
  · simp only [GB_Debug_PrintSpriteAlpha, read_oam_some _ _ h, Option.bind_eq_bind,
      Option.some_bind, if_neg hcgb, sprite_data_offset, sprite_resolve]

theorem store_rgba_at (buf : Int → Nat) (i : Int) (r g b a k : Nat) (hk : k < 4) :
    store_rgba buf i r g b a (i + k) = rgba_byte (r, g, b, a) k % 256 := by
  interval_cases k <;> simp [store_rgba, store_u8, rgba_byte]

theorem store_rgba_other (buf : Int → Nat) (i p : Int) (r g b a : Nat)
    (h : p < i ∨ i + 4 ≤ p) : store_rgba buf i r g b a p = buf p := by
  have h0 : p ≠ i := by omega
  have h1 : p ≠ i + 1 := by omega
  have h2 : p ≠ i + 2 := by omega
  have h3 : p ≠ i + 3 := by omega
  simp [store_rgba, store_u8, h0, h1, h2, h3]

theorem sprite_alpha_paint_pixel (vram : Nat → Nat) (height Info spr_data : Nat)
    (resolve : Nat → Option RGB) (buf : Int → Nat) (x y k : Nat)
    (hx : x < 8) (hy : y < height) (hk : k < 4) :
    sprite_alpha_paint vram height Info spr_data resolve buf (((y : Int) * 8 + x) * 4 + k) =
      rgba_byte (sprite_rgba resolve (sprite_color vram height Info spr_data y x)) k % 256 := by
  have h := raster_cells height 8 4 8 (by decide)
    (fun y x s => store_rgba s (((y : Int) * 8 + x) * 4)
      (sprite_rgba resolve (sprite_color vram height Info spr_data y x)).1
      (sprite_rgba resolve (sprite_color vram height Info spr_data y x)).2.1
      (sprite_rgba resolve (sprite_color vram height Info spr_data y x)).2.2.1
      (sprite_rgba resolve (sprite_color vram height Info spr_data y x)).2.2.2)
    (fun y x k => rgba_byte (sprite_rgba resolve (sprite_color vram height Info spr_data y x)) k
      % 256)
    (fun y x k s hk => by
      have := store_rgba_at s (((y : Int) * 8 + x) * 4)
        (sprite_rgba resolve (sprite_color vram height Info spr_data y x)).1
        (sprite_rgba resolve (sprite_color vram height Info spr_data y x)).2.1
        (sprite_rgba resolve (sprite_color vram height Info spr_data y x)).2.2.1
        (sprite_rgba resolve (sprite_color vram height Info spr_data y x)).2.2.2 k hk
      simpa using this)
    (fun y x s p hp => store_rgba_other s _ p _ _ _ _ (by
      simp only [Nat.cast_ofNat] at hp
      omega))
    x y k hx hy hk buf
  simpa [sprite_alpha_paint] using h

/-! ### Toggling a bit of the attribute byte -/

theorem and_two_pow_cases (v i : Nat) : v &&& 2 ^ i = 0 ∨ v &&& 2 ^ i = 2 ^ i := by
  rw [Nat.and_two_pow]
  cases v.testBit i
  · left; simp
  · right; simp

theorem xor_and_other (v m t : Nat) (h : m &&& t = 0) : (v ^^^ m) &&& t = v &&& t := by
  rw [Nat.and_xor_distrib_right, h, Nat.xor_zero]

theorem xor_and_same (v i : Nat) : ((v ^^^ 2 ^ i) &&& 2 ^ i ≠ 0) ↔ v &&& 2 ^ i = 0 := by
  rw [Nat.and_xor_distrib_right, Nat.and_self]
  have hpos : 2 ^ i ≠ 0 := by positivity
  rcases and_two_pow_cases v i with h | h
  · rw [h, Nat.zero_xor]
    exact ⟨fun _ => rfl, fun _ => hpos⟩
  · rw [h, Nat.xor_self]
    exact ⟨fun hne => absurd rfl hne, fun h0 => absurd h0 hpos⟩

theorem xor_byte_lt (v m : Nat) (hm : m < 256) : ((v % 256) ^^^ m) % 256 = (v % 256) ^^^ m := by
  apply Nat.mod_eq_of_lt
  exact Nat.xor_lt_two_pow (n := 8) (Nat.mod_lt _ (by decide)) hm

theorem toggle_sprite_info_Info (gb : GB_CONTEXT) (sprite mask : Nat) (hm : mask < 256) :
    ((toggle_sprite_info gb sprite mask).Memory.ObjAttrMem sprite).Info % 256 =
      ((gb.Memory.ObjAttrMem sprite).Info % 256) ^^^ mask := by
  simp only [toggle_sprite_info, set_sprite_info, if_true]
  exact xor_byte_lt _ _ hm

theorem toggle_sprite_info_Tile (gb : GB_CONTEXT) (sprite mask : Nat) :
    ((toggle_sprite_info gb sprite mask).Memory.ObjAttrMem sprite).Tile =
      (gb.Memory.ObjAttrMem sprite).Tile := by
  simp only [toggle_sprite_info, set_sprite_info, if_true]

theorem sprite_data_offset_toggle (E : Extern) (gb : GB_CONTEXT) (sprite mask Tile Info : Nat)
    (hmask : mask &&& (1 <<< 3) = 0) :
    sprite_data_offset E (toggle_sprite_info gb sprite mask) Tile (Info ^^^ mask) =
      sprite_data_offset E gb Tile Info := by
  have e3 : (Info ^^^ mask) &&& (1 <<< 3) = Info &&& (1 <<< 3) := xor_and_other _ _ _ hmask
  simp only [sprite_data_offset, e3]
  rfl

theorem sprite_resolve_toggle (E : Extern) (gb : GB_CONTEXT) (sprite mask Info : Nat)
    (h7 : mask &&& 7 = 0) (h4 : mask &&& (1 <<< 4) = 0) :
    sprite_resolve E (toggle_sprite_info gb sprite mask) (Info ^^^ mask) =
      sprite_resolve E gb Info := by
  have e7 : (Info ^^^ mask) &&& 7 = Info &&& 7 := xor_and_other _ _ _ h7
  have e4 : (Info ^^^ mask) &&& (1 <<< 4) = Info &&& (1 <<< 4) := xor_and_other _ _ _ h4
  simp only [sprite_resolve, sprite_palette_cgb, sprite_palette_dmg, e7, e4]
  rfl

theorem sprite_color_xflip (vram : Nat → Nat) (height Info spr_data y x : Nat) (hx : x < 8) :
    sprite_color vram height (Info ^^^ 0x20) spr_data y x =
      sprite_color vram height Info spr_data y (7 - x) := by
  have e6 : (Info ^^^ 0x20) &&& (1 <<< 6) = Info &&& (1 <<< 6) :=
    xor_and_other _ _ _ (by decide)
  have e5 : ((Info ^^^ 0x20) &&& (1 <<< 5) ≠ 0) ↔ Info &&& (1 <<< 5) = 0 := xor_and_same Info 5
  simp only [sprite_color, e6]
  by_cases h5 : Info &&& (1 <<< 5) = 0
  · have h5f : (Info ^^^ 0x20) &&& (1 <<< 5) ≠ 0 := e5.mpr h5
    rw [if_pos h5f, if_neg (not_not.mpr h5)]
  · have h5f : ¬ ((Info ^^^ 0x20) &&& (1 <<< 5) ≠ 0) := fun h => h5 (e5.mp h)
    rw [if_neg h5f, if_pos h5]
    have : 7 - (7 - (7 - x)) = 7 - x := by omega
    rw [this]

/-- The two images of a sprite, before and after bit 5 of its byte `Info` is
toggled, mirror each other. -/
theorem PrintSpriteAlpha_xflip (E : Extern) (gb : GB_CONTEXT) (buf buf2 : Int → Nat)
    (sprite : Int) (hs : 0 ≤ sprite ∧ sprite < 40) :
    ∃ img imgf : Int → Nat,
      GB_Debug_PrintSpriteAlpha E gb buf sprite = some img ∧
      GB_Debug_PrintSpriteAlpha E (toggle_sprite_info gb sprite.toNat 0x20) buf2 sprite =
        some imgf ∧
      ∀ x y k : Nat, x < 8 → y < spriteheight E gb.Memory → k < 4 →
        imgf (((y : Int) * 8 + x) * 4 + k) = img (((y : Int) * 8 + (7 - x : Nat)) * 4 + k) := by
  refine ⟨_, _, PrintSpriteAlpha_eq E gb buf sprite hs,
    PrintSpriteAlpha_eq E (toggle_sprite_info gb sprite.toNat 0x20) buf2 sprite hs, ?_⟩
  intro x y k hx hy hk
  have hy2 : y < spriteheight E (toggle_sprite_info gb sprite.toNat 0x20).Memory := hy
  rw [sprite_alpha_paint_pixel _ _ _ _ _ _ x y k hx hy2 hk,
    sprite_alpha_paint_pixel _ _ _ _ _ _ (7 - x) y k (by omega) hy hk,
    toggle_sprite_info_Info gb sprite.toNat 0x20 (by decide), toggle_sprite_info_Tile,
    sprite_data_offset_toggle E gb sprite.toNat 0x20 _ _ (by decide),
    sprite_resolve_toggle E gb sprite.toNat 0x20 _ (by decide) (by decide)]
  have hv : (toggle_sprite_info gb sprite.toNat 0x20).Memory.VideoRAM = gb.Memory.VideoRAM := rfl
  have hh : spriteheight E (toggle_sprite_info gb sprite.toNat 0x20).Memory =
      spriteheight E gb.Memory := rfl
  rw [hv, hh, sprite_color_xflip _ _ _ _ _ _ hx]

/-- C10: for every emulator state and sprite, the image that
`GB_Debug_PrintSpriteAlpha` produces with bit 5 (X flip) of the sprite's byte
`Info` toggled is the left-right mirror of the image it produces without the
toggle: every byte of the pixel `(x, y)` of one is that of the pixel
`(7 - x, y)` of the other, for `x < 8` and `y < spriteheight`; toggling the bit
a second time gives the rows of the original image again. -/
theorem PrintSpriteAlpha_xflip_mirror (E : Extern) (gb : GB_CONTEXT)
    (buf buf2 buf3 : Int → Nat) (sprite : Int) (hs : 0 ≤ sprite ∧ sprite < 40) :
    ∃ img imgf imgff : Int → Nat,
      GB_Debug_PrintSpriteAlpha E gb buf sprite = some img ∧
      GB_Debug_PrintSpriteAlpha E (toggle_sprite_info gb sprite.toNat 0x20) buf2 sprite =
        some imgf ∧
      GB_Debug_PrintSpriteAlpha E
        (toggle_sprite_info (toggle_sprite_info gb sprite.toNat 0x20) sprite.toNat 0x20)
        buf3 sprite = some imgff ∧
      ∀ x y k : Nat, x < 8 → y < spriteheight E gb.Memory → k < 4 →
        imgf (((y : Int) * 8 + x) * 4 + k) = img (((y : Int) * 8 + (7 - x : Nat)) * 4 + k) ∧
        imgff (((y : Int) * 8 + x) * 4 + k) = img (((y : Int) * 8 + x) * 4 + k) := by
  obtain ⟨img, imgf, h1, h2, hm⟩ := PrintSpriteAlpha_xflip E gb buf buf2 sprite hs
  obtain ⟨imgf2, imgff, h3, h4, hm2⟩ :=
    PrintSpriteAlpha_xflip E (toggle_sprite_info gb sprite.toNat 0x20) buf2 buf3 sprite hs
  have hf : imgf2 = imgf := Option.some.inj (h3.symm.trans h2)
  subst hf
  refine ⟨img, imgf2, imgff, h1, h2, h4, ?_⟩
  intro x y k hx hy hk
  refine ⟨hm x y k hx hy hk, ?_⟩
  rw [hm2 x y k hx hy hk, hm (7 - x) y k (by omega) hy hk]
  have : 7 - (7 - x) = x := by omega
  rw [this]

/-- Witness of C10: sprite 3 of the sample state in CGB mode. -/
theorem PrintSpriteAlpha_xflip_mirror_witness :
    ((0 : Int) ≤ 3 ∧ (3 : Int) < 40) ∧
    ∃ img imgf imgff : Int → Nat,
      GB_Debug_PrintSpriteAlpha sampleExtern (sampleState 1 0) (fun _ => 0) 3 = some img ∧
      GB_Debug_PrintSpriteAlpha sampleExtern
        (toggle_sprite_info (sampleState 1 0) (3 : Int).toNat 0x20) (fun _ => 0) 3 =
        some imgf ∧
      GB_Debug_PrintSpriteAlpha sampleExtern
        (toggle_sprite_info (toggle_sprite_info (sampleState 1 0) (3 : Int).toNat 0x20)
          (3 : Int).toNat 0x20) (fun _ => 0) 3 = some imgff ∧
      ∀ x y k : Nat, x < 8 → y < spriteheight sampleExtern (sampleState 1 0).Memory → k < 4 →
        imgf (((y : Int) * 8 + x) * 4 + k) = img (((y : Int) * 8 + (7 - x : Nat)) * 4 + k) ∧
        imgff (((y : Int) * 8 + x) * 4 + k) = img (((y : Int) * 8 + x) * 4 + k) :=
  ⟨by decide, PrintSpriteAlpha_xflip_mirror sampleExtern (sampleState 1 0) (fun _ => 0)
    (fun _ => 0) (fun _ => 0) 3 (by decide)⟩

/-! ## The map renderer `GB_Debug_MapPrint` -/

theorem and_31 (v : Nat) : v &&& 31 = v % 32 :=
  Nat.and_pow_two_sub_one_eq_mod v 5

theorem and_0x7F (v : Nat) : v &&& 0x7F = v % 128 :=
  Nat.and_pow_two_sub_one_eq_mod v 7

theorem and_bit_eq (v i : Nat) : v &&& 2 ^ i = (v / 2 ^ i % 2) * 2 ^ i := by
  rw [Nat.and_two_pow, Nat.toNat_testBit]

theorem and_s32_seven (y : Nat) : and_s32 (7 - (y : Int)) 7 = 7 - y % 8 := by
  rw [and_s32, and_0x7]
  omega

theorem map_tile_number_eq (tile_base : Int) (t : Nat) (ht : t < 256) :
    map_tile_number tile_base t =
      if tile_base ≠ 0 then (if t < 128 then t + 128 else t - 128) else t := by
  have h7 : t &&& (1 <<< 7) = (t / 128 % 2) * 128 := and_bit_eq t 7
  unfold map_tile_number
  rw [h7, and_0x7F]
  split_ifs <;> omega

theorem map_data_cgb_lt (tiledata : Nat) (tile_base : Int) (t attr y : Nat)
    (htd : tiledata = if tile_base ≠ 0 then 0x0800 else 0x0000) (ht : t < 256) :
    map_data_cgb tiledata tile_base t attr y + 1 < 0x4000 := by
  unfold map_data_cgb
  rw [and_s32_seven, and_0x7, map_tile_number_eq tile_base t ht, Nat.shiftLeft_eq, htd]
  split_ifs <;> omega

theorem MapPrint_body_cgb_eq (gb : GB_CONTEXT) (tiledata bgtilemap : Nat)
    (tile_base bufw : Int) (y x : Nat) (buffer : Int → Nat)
    (htd : tiledata = if tile_base ≠ 0 then 0x0800 else 0x0000) (hmap : bgtilemap ≤ 0x1C00) :
    GB_Debug_MapPrint_body_cgb gb tiledata bgtilemap tile_base bufw y x buffer =
      some (store_rgb buffer (((y : Int) * bufw + x) * 3)
        (unpack15 (map_packed_cgb gb tiledata bgtilemap tile_base y x)).1
        (unpack15 (map_packed_cgb gb tiledata bgtilemap tile_base y x)).2.1
        (unpack15 (map_packed_cgb gb tiledata bgtilemap tile_base y x)).2.2) := by
  have hloc : bgtilemap + ((((y >>> 3) &&& 31) * 32) + ((x >>> 3) &&& 31) + 0x2000) < 0x4000 := by
    rw [and_31, and_31]; omega
  have hloc0 : bgtilemap + ((((y >>> 3) &&& 31) * 32) + ((x >>> 3) &&& 31)) < 0x4000 := by
    omega
  have r1 : read_vram gb.Memory (bgtilemap + ((((y >>> 3) &&& 31) * 32) + ((x >>> 3) &&& 31))) =
      some (map_tile gb bgtilemap y x) := read_vram_lt _ _ hloc0
  have r2 : read_vram gb.Memory
      (bgtilemap + ((((y >>> 3) &&& 31) * 32) + ((x >>> 3) &&& 31) + 0x2000)) =
      some (map_tileinfo gb bgtilemap y x) := read_vram_lt _ _ hloc
  have hd := map_data_cgb_lt tiledata tile_base (map_tile gb bgtilemap y x)
    (map_tileinfo gb bgtilemap y x) y htd (Nat.mod_lt _ (by decide))
  have r3 := read_vram_lt gb.Memory _ (Nat.lt_of_succ_lt hd)
  have r4 := read_vram_lt gb.Memory _ hd
  have hc := color_index_lt
    (gb.Memory.VideoRAM (map_data_cgb tiledata tile_base (map_tile gb bgtilemap y x)
      (map_tileinfo gb bgtilemap y x) y) % 256)
    (gb.Memory.VideoRAM (map_data_cgb tiledata tile_base (map_tile gb bgtilemap y x)
      (map_tileinfo gb bgtilemap y x) y + 1) % 256)
    (if map_tileinfo gb bgtilemap y x &&& (1 <<< 5) ≠ 0 then x &&& 7 else 7 - (x &&& 7))
  have hp : ((map_tileinfo gb bgtilemap y x &&& 7) * 8) +
      (2 * map_color_cgb gb tiledata bgtilemap tile_base y x) + 1 ≤ 63 := by
    have := color_index_lt
      (gb.Memory.VideoRAM (map_data_cgb tiledata tile_base (map_tile gb bgtilemap y x)
        (map_tileinfo gb bgtilemap y x) y) % 256)
      (gb.Memory.VideoRAM (map_data_cgb tiledata tile_base (map_tile gb bgtilemap y x)
        (map_tileinfo gb bgtilemap y x) y + 1) % 256)
      (if map_tileinfo gb bgtilemap y x &&& (1 <<< 5) ≠ 0 then x &&& 7 else 7 - (x &&& 7))
    rw [and_0x7, map_color_cgb]
    omega
  have r5 := read_u8_pal_nat gb.Emulator.bg_pal _ (Nat.le_of_succ_le hp)
  have r6 := read_u8_pal_nat gb.Emulator.bg_pal _ hp
  unfold GB_Debug_MapPrint_body_cgb
  simp only [Option.bind_eq_bind]
  simp only [map_color_cgb] at r5 r6
  simp only [map_data_cgb] at r3 r4 r5 r6
  rw [r1, Option.some_bind, r2, Option.some_bind, r3, Option.some_bind, r4, Option.some_bind,
    r5, Option.some_bind, r6, Option.some_bind]
  rfl

theorem MapPrint_cgb_eq (E : Extern) (gb : GB_CONTEXT) (buffer : Int → Nat)
    (bufw map tile_base : Int) (hcgb : gb.Emulator.CGBEnabled ≠ 0) :
    GB_Debug_MapPrint E gb buffer bufw map tile_base =
      some (map_paint_cgb gb (if tile_base ≠ 0 then 0x0800 else 0x0000)
        (if map ≠ 0 then 0x1C00 else 0x1800) tile_base bufw buffer) := by
  have hmap : (if map ≠ 0 then 0x1C00 else 0x1800 : Nat) ≤ 0x1C00 := by
    split_ifs <;> decide
  simp only [GB_Debug_MapPrint, if_pos hcgb]
  apply for_loop_eq_pure
  intro y _ s
  apply for_loop_eq_pure
  intro x _ s
  exact MapPrint_body_cgb_eq gb _ _ tile_base bufw y x s rfl hmap

theorem unpack15_lt (c : Nat) :
    (unpack15 c).1 < 256 ∧ (unpack15 c).2.1 < 256 ∧ (unpack15 c).2.2 < 256 := by
  rw [unpack15_eq]
  refine ⟨?_, ?_, ?_⟩ <;> simp only <;> omega

theorem map_paint_cgb_pixel (gb : GB_CONTEXT) (tiledata bgtilemap : Nat) (tile_base bufw : Int)
    (hw : 256 ≤ bufw) (buffer : Int → Nat) (x y : Nat) (hx : x < 256) (hy : y < 256) :
    some (map_paint_cgb gb tiledata bgtilemap tile_base bufw buffer (((y : Int) * bufw + x) * 3 + 0),
      map_paint_cgb gb tiledata bgtilemap tile_base bufw buffer (((y : Int) * bufw + x) * 3 + 1),
      map_paint_cgb gb tiledata bgtilemap tile_base bufw buffer (((y : Int) * bufw + x) * 3 + 2)) =
    some (unpack15 (map_packed_cgb gb tiledata bgtilemap tile_base y x)) := by
  have h := fun k hk => raster_rgb 256 256 bufw (by simpa using hw)
    (fun y x k => if k = 0 then (unpack15 (map_packed_cgb gb tiledata bgtilemap tile_base y x)).1
      else if k = 1 then (unpack15 (map_packed_cgb gb tiledata bgtilemap tile_base y x)).2.1
      else (unpack15 (map_packed_cgb gb tiledata bgtilemap tile_base y x)).2.2)
    x y k hx hy hk buffer
  have h0 := h 0 (by decide)
  have h1 := h 1 (by decide)
  have h2 := h 2 (by decide)
  simp only [if_true, if_false, one_ne_zero, OfNat.ofNat_ne_zero, OfNat.ofNat_ne_one,
    Nat.cast_zero, Nat.cast_one, Nat.cast_ofNat] at h0 h1 h2
  have hlt := unpack15_lt (map_packed_cgb gb tiledata bgtilemap tile_base y x)
  rw [Nat.mod_eq_of_lt hlt.1] at h0
  rw [Nat.mod_eq_of_lt hlt.2.1] at h1
  rw [Nat.mod_eq_of_lt hlt.2.2] at h2
  rw [map_paint_cgb, h0, h1, h2]

theorem shr3_and_31 (v : Nat) (h : v < 256) : (v >>> 3) &&& 31 = v >>> 3 := by
  rw [and_31, Nat.shiftRight_eq_div_pow]
  omega

theorem map_color_cgb_eq (gb : GB_CONTEXT) (tiledata bgtilemap : Nat) (tile_base : Int)
    (y x : Nat) (htd : tiledata = if tile_base ≠ 0 then 0x0800 else 0x0000) :
    map_color_cgb gb tiledata bgtilemap tile_base y x =
      tile_pixel_2bpp gb.Memory.VideoRAM
        ((if map_tileinfo gb bgtilemap y x &&& (1 <<< 3) ≠ 0 then 0x2000 else 0) +
          (if tile_base ≠ 0 then
            (if map_tile gb bgtilemap y x < 128 then 0x1000 + 16 * map_tile gb bgtilemap y x
              else 16 * map_tile gb bgtilemap y x)
            else 16 * map_tile gb bgtilemap y x))
        (if map_tileinfo gb bgtilemap y x &&& (1 <<< 6) ≠ 0 then 7 - (y &&& 7) else y &&& 7)
        (if map_tileinfo gb bgtilemap y x &&& (1 <<< 5) ≠ 0 then 7 - (x &&& 7) else x &&& 7) := by
  have ht : map_tile gb bgtilemap y x < 256 := Nat.mod_lt _ (by decide)
  have hpos : (if map_tileinfo gb bgtilemap y x &&& (1 <<< 5) ≠ 0 then x &&& 7
      else 7 - (x &&& 7)) =
      7 - (if map_tileinfo gb bgtilemap y x &&& (1 <<< 5) ≠ 0 then 7 - (x &&& 7) else x &&& 7) := by
    rw [and_0x7]
    split_ifs <;> omega
  have hdata : map_data_cgb tiledata tile_base (map_tile gb bgtilemap y x)
      (map_tileinfo gb bgtilemap y x) y =
      (if map_tileinfo gb bgtilemap y x &&& (1 <<< 3) ≠ 0 then 0x2000 else 0) +
        (if tile_base ≠ 0 then
          (if map_tile gb bgtilemap y x < 128 then 0x1000 + 16 * map_tile gb bgtilemap y x
            else 16 * map_tile gb bgtilemap y x)
          else 16 * map_tile gb bgtilemap y x) +
        2 * (if map_tileinfo gb bgtilemap y x &&& (1 <<< 6) ≠ 0 then 7 - (y &&& 7)
          else y &&& 7) := by
    unfold map_data_cgb
    rw [and_s32_seven, and_0x7, map_tile_number_eq tile_base _ ht, Nat.shiftLeft_eq, htd]
    split_ifs <;> omega
  rw [map_color_cgb, color_index_eq, hdata, hpos, tile_pixel_2bpp]

theorem map_packed_cgb_entry (gb : GB_CONTEXT) (tiledata bgtilemap : Nat) (tile_base : Int)
    (y x : Nat) :
    map_packed_cgb gb tiledata bgtilemap tile_base y x =
      cgb_entry gb 0 ((map_tileinfo gb bgtilemap y x &&& 7 : Nat) : Int)
        ((map_color_cgb gb tiledata bgtilemap tile_base y x : Nat) : Int) := by
  have e1 : (((map_tileinfo gb bgtilemap y x &&& 7 : Nat) : Int) * 8 +
      ((map_color_cgb gb tiledata bgtilemap tile_base y x : Nat) : Int) * 2).toNat =
      ((map_tileinfo gb bgtilemap y x &&& 7) * 8) +
        (2 * map_color_cgb gb tiledata bgtilemap tile_base y x) := by
    omega
  have e2 : (((map_tileinfo gb bgtilemap y x &&& 7 : Nat) : Int) * 8 +
      ((map_color_cgb gb tiledata bgtilemap tile_base y x : Nat) : Int) * 2 + 1).toNat =
      ((map_tileinfo gb bgtilemap y x &&& 7) * 8) +
        (2 * map_color_cgb gb tiledata bgtilemap tile_base y x) + 1 := by
    omega
  simp only [cgb_entry, e1, e2, map_packed_cgb, ne_eq, not_true_eq_false, if_false]

/-- C9: in CGB mode, for every pixel `(x, y)` of the 256x256 map,
`GB_Debug_MapPrint` writes at the pixel (byte offset `(y*bufw + x)*3`) the triple
`GB_Debug_GetPalette(0, attr & 7, c)`, where `t` and `attr` are the tile number
and the attribute byte of the map cell `(y >> 3, x >> 3)` (the attribute `0x2000`
above the tile number) and `c` is the 2bpp colour index of the tile `t`, read
from bank 1 when `attr` bit 3 is set and from bank 0 otherwise, at row
`7 - (y & 7)` when bit 6 is set and `y & 7` otherwise, at column `7 - (x & 7)`
when bit 5 is set and `x & 7` otherwise. The data of tile `t` is at offset
`16*t`, or, when `tile_base` is not zero, at `0x1000` plus 16 times `t` read as a
signed byte. The function returns for every input; the iteration `(x, y)` stores
the triple whatever the width of the buffer is, and the triple is what the
buffer holds at the pixel when the function returns if a line of the buffer
has at least 256 pixels. -/
theorem MapPrint_cgb_pixels (E : Extern) (gb : GB_CONTEXT) (buffer : Int → Nat)
    (bufw map tile_base : Int) (hcgb : gb.Emulator.CGBEnabled ≠ 0) :
    ∃ out : Int → Nat,
      GB_Debug_MapPrint E gb buffer bufw map tile_base = some out ∧
      ∀ x y : Nat, x < 256 → y < 256 →
        let cell := (if map ≠ 0 then 0x1C00 else 0x1800) + (32 * (y >>> 3) + (x >>> 3))
        let t := gb.Memory.VideoRAM cell % 256
        let attr := gb.Memory.VideoRAM (cell + 0x2000) % 256
        let tile_addr :=
          if tile_base ≠ 0 then (if t < 128 then 0x1000 + 16 * t else 16 * t) else 16 * t
        let bank := if attr &&& (1 <<< 3) ≠ 0 then 0x2000 else 0
        let row := if attr &&& (1 <<< 6) ≠ 0 then 7 - (y &&& 7) else y &&& 7
        let col := if attr &&& (1 <<< 5) ≠ 0 then 7 - (x &&& 7) else x &&& 7
        let c := tile_pixel_2bpp gb.Memory.VideoRAM (bank + tile_addr) row col
        ∃ r g b : Nat,
          GB_Debug_GetPalette E gb 0 ((attr &&& 7 : Nat) : Int) ((c : Nat) : Int) =
            some (r, g, b) ∧
          (∀ buf : Int → Nat,
            GB_Debug_MapPrint_body_cgb gb (if tile_base ≠ 0 then 0x0800 else 0x0000)
              (if map ≠ 0 then 0x1C00 else 0x1800) tile_base bufw y x buf =
            some (store_rgb buf (((y : Int) * bufw + x) * 3) r g b)) ∧
          (256 ≤ bufw →
            out (((y : Int) * bufw + x) * 3 + 0) = r ∧
            out (((y : Int) * bufw + x) * 3 + 1) = g ∧
            out (((y : Int) * bufw + x) * 3 + 2) = b) := by
  refine ⟨_, MapPrint_cgb_eq E gb buffer bufw map tile_base hcgb, ?_⟩
  intro x y hx hy cell t attr tile_addr bank row col c
  have hmap : (if map ≠ 0 then 0x1C00 else 0x1800 : Nat) ≤ 0x1C00 := by
    split_ifs <;> decide
  have hcell : cell = (if map ≠ 0 then 0x1C00 else 0x1800) +
      ((((y >>> 3) &&& 31) * 32) + ((x >>> 3) &&& 31)) := by
    rw [shr3_and_31 y hy, shr3_and_31 x hx]
    show (if map ≠ 0 then 0x1C00 else 0x1800) + (32 * (y >>> 3) + (x >>> 3)) = _
    omega
  have ht : t = map_tile gb (if map ≠ 0 then 0x1C00 else 0x1800) y x := by
    show gb.Memory.VideoRAM cell % 256 = _
    rw [hcell, map_tile]
  have hattr : attr = map_tileinfo gb (if map ≠ 0 then 0x1C00 else 0x1800) y x := by
    show gb.Memory.VideoRAM (cell + 0x2000) % 256 = _
    rw [hcell, map_tileinfo, Nat.add_assoc]
  have hc : c = map_color_cgb gb (if tile_base ≠ 0 then 0x0800 else 0x0000)
      (if map ≠ 0 then 0x1C00 else 0x1800) tile_base y x := by
    rw [map_color_cgb_eq gb _ _ tile_base y x rfl, ← ht, ← hattr]
  have hnum : (0 : Int) ≤ ((attr &&& 7 : Nat) : Int) ∧ ((attr &&& 7 : Nat) : Int) ≤ 7 := by
    have : attr &&& 7 ≤ 7 := Nat.and_le_right
    omega
  have hcol : (0 : Int) ≤ ((c : Nat) : Int) ∧ ((c : Nat) : Int) ≤ 3 := by
    have : c < 4 := by rw [hc]; exact color_index_lt _ _ _
    omega
  refine ⟨(unpack15 (map_packed_cgb gb (if tile_base ≠ 0 then 0x0800 else 0x0000)
      (if map ≠ 0 then 0x1C00 else 0x1800) tile_base y x)).1,
    (unpack15 (map_packed_cgb gb (if tile_base ≠ 0 then 0x0800 else 0x0000)
      (if map ≠ 0 then 0x1C00 else 0x1800) tile_base y x)).2.1,
    (unpack15 (map_packed_cgb gb (if tile_base ≠ 0 then 0x0800 else 0x0000)
      (if map ≠ 0 then 0x1C00 else 0x1800) tile_base y x)).2.2, ?_, ?_, ?_⟩
  · rw [GetPalette_cgb_eq E gb 0 _ _ hcgb hnum hcol, hc, hattr, ← map_packed_cgb_entry]
  · intro buf
    exact MapPrint_body_cgb_eq gb _ _ tile_base bufw y x buf rfl hmap
  · intro hw
    have h := map_paint_cgb_pixel gb (if tile_base ≠ 0 then 0x0800 else 0x0000)
      (if map ≠ 0 then 0x1C00 else 0x1800) tile_base bufw hw buffer x y hx hy
    have h2 := Option.some.inj h
    exact ⟨congrArg Prod.fst h2, congrArg (fun p => p.2.1) h2, congrArg (fun p => p.2.2) h2⟩

/-- Witness of C9: the sample state in CGB mode, map 0, tile data at offset 0,
and a buffer 256 pixels wide. -/
theorem MapPrint_cgb_pixels_witness :
    (sampleState 1 0).Emulator.CGBEnabled ≠ 0 ∧
    ∃ out : Int → Nat,
      GB_Debug_MapPrint sampleExtern (sampleState 1 0) (fun _ => 0) 256 0 0 = some out ∧
      (out ((((9 : Nat) : Int) * 256 + (20 : Nat)) * 3 + 0),
        out ((((9 : Nat) : Int) * 256 + (20 : Nat)) * 3 + 1),
        out ((((9 : Nat) : Int) * 256 + (20 : Nat)) * 3 + 2)) = (248, 248, 248) := by
  refine ⟨by decide, ?_⟩
  obtain ⟨out, h, hp⟩ := MapPrint_cgb_pixels sampleExtern (sampleState 1 0) (fun _ => 0)
    256 0 0 (by decide)
  refine ⟨out, h, ?_⟩
  obtain ⟨r, g, b, hpal, _, hout⟩ := hp 20 9 (by decide) (by decide)
  obtain ⟨h0, h1, h2⟩ := hout (by decide)
  rw [h0, h1, h2]
  exact Option.some.inj (hpal.symm.trans (by decide))

/-! ### The colour index of a sprite pixel -/

theorem and_0xFF (v : Nat) : v &&& 0xFF = v % 256 :=
  Nat.and_pow_two_sub_one_eq_mod v 8

theorem sprite_color_eq_pixel_index (E : Extern) (gb : GB_CONTEXT) (sprite y x : Nat)
    (hy : y < spriteheight E gb.Memory) :
    sprite_color gb.Memory.VideoRAM (spriteheight E gb.Memory)
      ((gb.Memory.ObjAttrMem sprite).Info % 256)
      (sprite_data_offset E gb ((gb.Memory.ObjAttrMem sprite).Tile % 256)
        ((gb.Memory.ObjAttrMem sprite).Info % 256)) y x =
    sprite_pixel_index E gb sprite y x := by
  have hT : (gb.Memory.ObjAttrMem sprite).Tile % 256 < 256 := Nat.mod_lt _ (by decide)
  have hA : (if ((gb.Memory.ObjAttrMem sprite).Info % 256) &&& (1 <<< 6) ≠ 0 then
        sprite_data_offset E gb ((gb.Memory.ObjAttrMem sprite).Tile % 256)
          ((gb.Memory.ObjAttrMem sprite).Info % 256) + (spriteheight E gb.Memory - y - 1) * 2
      else
        sprite_data_offset E gb ((gb.Memory.ObjAttrMem sprite).Tile % 256)
          ((gb.Memory.ObjAttrMem sprite).Info % 256) + y * 2) =
      (if gb.Emulator.CGBEnabled ≠ 0 ∧
          ((gb.Memory.ObjAttrMem sprite).Info % 256) &&& (1 <<< 3) ≠ 0 then 0x2000 else 0) +
        16 * (if spriteheight E gb.Memory = 16 then
          ((gb.Memory.ObjAttrMem sprite).Tile % 256) &&& 0xFE
          else (gb.Memory.ObjAttrMem sprite).Tile % 256) +
        2 * (if ((gb.Memory.ObjAttrMem sprite).Info % 256) &&& (1 <<< 6) ≠ 0
          then spriteheight E gb.Memory - 1 - y else y) := by
    have e4 : ∀ v : Nat, v <<< 4 = v * 16 := fun v => by rw [Nat.shiftLeft_eq]
    have eFF : (gb.Memory.ObjAttrMem sprite).Tile % 256 &&& 0xFF =
        (gb.Memory.ObjAttrMem sprite).Tile % 256 := by
      rw [and_0xFF, Nat.mod_mod]
    unfold sprite_data_offset
    rcases spriteheight_cases E gb.Memory with h8 | h16
    · rw [h8] at hy ⊢
      simp only [e4, if_neg (show ¬ (8 = 16) by decide), eFF]
      split_ifs <;> omega
    · rw [h16] at hy ⊢
      simp only [e4, if_true]
      split_ifs <;> omega
  rw [sprite_color, color_index_eq, hA, sprite_pixel_index, tile_pixel_2bpp]

theorem sprite_color_yflip (vram : Nat → Nat) (height Info spr_data y x : Nat)
    (hy : y < height) :
    sprite_color vram height (Info ^^^ 0x40) spr_data y x =
      sprite_color vram height Info spr_data (height - 1 - y) x := by
  have e5 : (Info ^^^ 0x40) &&& (1 <<< 5) = Info &&& (1 <<< 5) :=
    xor_and_other _ _ _ (by decide)
  have e6 : ((Info ^^^ 0x40) &&& (1 <<< 6) ≠ 0) ↔ Info &&& (1 <<< 6) = 0 := xor_and_same Info 6
  simp only [sprite_color, e5]
  by_cases h6 : Info &&& (1 <<< 6) = 0
  · have h6f : (Info ^^^ 0x40) &&& (1 <<< 6) ≠ 0 := e6.mpr h6
    rw [if_pos h6f, if_neg (not_not.mpr h6)]
    have : height - y - 1 = height - 1 - y := by omega
    rw [this]
  · have h6f : ¬ ((Info ^^^ 0x40) &&& (1 <<< 6) ≠ 0) := fun h => h6 (e6.mp h)
    rw [if_neg h6f, if_pos h6]
    have : height - (height - 1 - y) - 1 = y := by omega
    rw [this]

theorem gb_pal_colors_rgb_lt (v r g b : Nat) (h : gb_pal_colors_rgb v = some (r, g, b)) :
    r < 256 ∧ g < 256 ∧ b < 256 := by
  rcases v with _ | _ | _ | _ | v
  · cases h; decide
  · cases h; decide
  · cases h; decide
  · cases h; decide
  · simp [gb_pal_colors_rgb, gb_pal_colors_at, gb_pal_colors] at h

theorem sprite_resolve_lt (E : Extern) (gb : GB_CONTEXT) (Info c r g b : Nat)
    (h : sprite_resolve E gb Info c = some (r, g, b)) : r < 256 ∧ g < 256 ∧ b < 256 := by
  unfold sprite_resolve at h
  split at h
  · simp only [Option.map_eq_some'] at h
    obtain ⟨v, _, hv⟩ := h
    have := unpack15_lt v
    rw [hv] at this
    exact this
  · simp only [Option.bind_eq_some] at h
    obtain ⟨v, _, hv⟩ := h
    exact gb_pal_colors_rgb_lt v r g b hv

theorem sprite_rgba_byte_lt (E : Extern) (gb : GB_CONTEXT) (Info c k : Nat) :
    rgba_byte (sprite_rgba (sprite_resolve E gb Info) c) k < 256 := by
  unfold sprite_rgba
  by_cases hc : c = 0
  · simp [hc, rgba_byte]
  · rw [if_pos hc]
    rcases hres : sprite_resolve E gb Info c with _ | ⟨r, g, b⟩
    · simp [rgba_byte]
    · have := sprite_resolve_lt E gb Info c r g b hres
      simp only [rgba_byte]
      split_ifs <;> omega

/-- The bytes of the image of `GB_Debug_PrintSpriteAlpha`: the pixel `(x, y)`
holds the four bytes stored for the colour index of the sprite pixel. -/
theorem PrintSpriteAlpha_pixel (E : Extern) (gb : GB_CONTEXT) (buf : Int → Nat) (sprite : Int)
    (hs : 0 ≤ sprite ∧ sprite < 40) :
    ∃ img : Int → Nat,
      GB_Debug_PrintSpriteAlpha E gb buf sprite = some img ∧
      ∀ x y k : Nat, x < 8 → y < spriteheight E gb.Memory → k < 4 →
        img (((y : Int) * 8 + x) * 4 + k) =
          rgba_byte (sprite_rgba
            (sprite_resolve E gb ((gb.Memory.ObjAttrMem sprite.toNat).Info % 256))
            (sprite_pixel_index E gb sprite.toNat y x)) k := by
  refine ⟨_, PrintSpriteAlpha_eq E gb buf sprite hs, ?_⟩
  intro x y k hx hy hk
  rw [sprite_alpha_paint_pixel _ _ _ _ _ _ x y k hx hy hk,
    sprite_color_eq_pixel_index E gb sprite.toNat y x hy]
  exact Nat.mod_eq_of_lt (sprite_rgba_byte_lt E gb _ _ k)

theorem tile_pixel_2bpp_next_tile (vram : Nat → Nat) (base r col : Nat) :
    tile_pixel_2bpp vram base (8 + r) col = tile_pixel_2bpp vram (base + 16) r col := by
  have h : base + 2 * (8 + r) = base + 16 + 2 * r := by omega
  simp only [tile_pixel_2bpp, h]

theorem sprite_pixel_index_toggle (E : Extern) (gb : GB_CONTEXT) (sprite mask y x : Nat)
    (hm : mask < 256) (h3 : mask &&& (1 <<< 3) = 0)
    (hy : y < spriteheight E gb.Memory) :
    sprite_pixel_index E (toggle_sprite_info gb sprite mask) sprite y x =
      sprite_color gb.Memory.VideoRAM (spriteheight E gb.Memory)
        (((gb.Memory.ObjAttrMem sprite).Info % 256) ^^^ mask)
        (sprite_data_offset E gb ((gb.Memory.ObjAttrMem sprite).Tile % 256)
          ((gb.Memory.ObjAttrMem sprite).Info % 256)) y x := by
  have hy2 : y < spriteheight E (toggle_sprite_info gb sprite mask).Memory := hy
  rw [← sprite_color_eq_pixel_index E (toggle_sprite_info gb sprite mask) sprite y x hy2,
    toggle_sprite_info_Info gb sprite mask hm, toggle_sprite_info_Tile,
    sprite_data_offset_toggle E gb sprite mask _ _ h3]
  rfl

theorem sprite_pixel_index_yflip (E : Extern) (gb : GB_CONTEXT) (sprite y x : Nat)
    (hy : y < spriteheight E gb.Memory) :
    sprite_pixel_index E (toggle_sprite_info gb sprite 0x40) sprite y x =
      sprite_pixel_index E gb sprite (spriteheight E gb.Memory - 1 - y) x := by
  rw [sprite_pixel_index_toggle E gb sprite 0x40 y x (by decide) (by decide) hy,
    sprite_color_yflip _ _ _ _ _ _ hy,
    sprite_color_eq_pixel_index E gb sprite _ x (by omega)]

/-- The two images of a sprite, before and after bit 6 of its byte `Info` is
toggled, mirror each other over the sprite height. -/
theorem PrintSpriteAlpha_yflip (E : Extern) (gb : GB_CONTEXT) (buf buf2 : Int → Nat)
    (sprite : Int) (hs : 0 ≤ sprite ∧ sprite < 40) :
    ∃ img imgf : Int → Nat,
      GB_Debug_PrintSpriteAlpha E gb buf sprite = some img ∧
      GB_Debug_PrintSpriteAlpha E (toggle_sprite_info gb sprite.toNat 0x40) buf2 sprite =
        some imgf ∧
      ∀ x y k : Nat, x < 8 → y < spriteheight E gb.Memory → k < 4 →
        imgf (((y : Int) * 8 + x) * 4 + k) =
          img ((((spriteheight E gb.Memory - 1 - y : Nat) : Int) * 8 + x) * 4 + k) := by
  obtain ⟨img, h1, hp⟩ := PrintSpriteAlpha_pixel E gb buf sprite hs
  obtain ⟨imgf, h2, hpf⟩ :=
    PrintSpriteAlpha_pixel E (toggle_sprite_info gb sprite.toNat 0x40) buf2 sprite hs
  refine ⟨img, imgf, h1, h2, ?_⟩
  intro x y k hx hy hk
  have hy2 : y < spriteheight E (toggle_sprite_info gb sprite.toNat 0x40).Memory := hy
  rw [hpf x y k hx hy2 hk, hp x (spriteheight E gb.Memory - 1 - y) k hx (by omega) hk,
    toggle_sprite_info_Info gb sprite.toNat 0x40 (by decide),
    sprite_resolve_toggle E gb sprite.toNat 0x40 _ (by decide) (by decide),
    sprite_pixel_index_yflip E gb sprite.toNat y x hy]

/-- C11: for every emulator state and sprite (the sprite height `h` is 8 or
16), the image that `GB_Debug_PrintSpriteAlpha` produces with bit 6 (Y flip) of
the sprite's byte `Info` toggled is the original image mirrored over the full
sprite height: every byte of the pixel `(x, y)` of one is that of the pixel
`(x, h - 1 - y)` of the other, for `x < 8` and `y < h`; toggling the bit a second
time gives the original image again; and for `h = 16` the row 0 of a sprite
whose bit 6 is set shows the row 7 of the second tile, `(Tile & 0xFE) + 1`. -/
theorem PrintSpriteAlpha_yflip_mirror (E : Extern) (gb : GB_CONTEXT)
    (buf buf2 buf3 : Int → Nat) (sprite : Int) (hs : 0 ≤ sprite ∧ sprite < 40) :
    (spriteheight E gb.Memory = 8 ∨ spriteheight E gb.Memory = 16) ∧
    ∃ img imgf imgff : Int → Nat,
      GB_Debug_PrintSpriteAlpha E gb buf sprite = some img ∧
      GB_Debug_PrintSpriteAlpha E (toggle_sprite_info gb sprite.toNat 0x40) buf2 sprite =
        some imgf ∧
      GB_Debug_PrintSpriteAlpha E
        (toggle_sprite_info (toggle_sprite_info gb sprite.toNat 0x40) sprite.toNat 0x40)
        buf3 sprite = some imgff ∧
      (∀ x y k : Nat, x < 8 → y < spriteheight E gb.Memory → k < 4 →
        imgf (((y : Int) * 8 + x) * 4 + k) =
          img ((((spriteheight E gb.Memory - 1 - y : Nat) : Int) * 8 + x) * 4 + k) ∧
        imgff (((y : Int) * 8 + x) * 4 + k) = img (((y : Int) * 8 + x) * 4 + k)) ∧
      (spriteheight E gb.Memory = 16 →
        ((gb.Memory.ObjAttrMem sprite.toNat).Info % 256) &&& (1 <<< 6) ≠ 0 →
        ∀ x k : Nat, x < 8 → k < 4 →
          img ((((0 : Nat) : Int) * 8 + x) * 4 + k) =
            rgba_byte (sprite_rgba
              (sprite_resolve E gb ((gb.Memory.ObjAttrMem sprite.toNat).Info % 256))
              (tile_pixel_2bpp gb.Memory.VideoRAM
                ((if gb.Emulator.CGBEnabled ≠ 0 ∧
                    ((gb.Memory.ObjAttrMem sprite.toNat).Info % 256) &&& (1 <<< 3) ≠ 0
                  then 0x2000 else 0) +
                  16 * ((((gb.Memory.ObjAttrMem sprite.toNat).Tile % 256) &&& 0xFE) + 1))
                7
                (if ((gb.Memory.ObjAttrMem sprite.toNat).Info % 256) &&& (1 <<< 5) ≠ 0
                  then 7 - x else x))) k) := by
  refine ⟨spriteheight_cases E gb.Memory, ?_⟩
  obtain ⟨img, imgf, h1, h2, hm⟩ := PrintSpriteAlpha_yflip E gb buf buf2 sprite hs
  obtain ⟨imgf2, imgff, h3, h4, hm2⟩ :=
    PrintSpriteAlpha_yflip E (toggle_sprite_info gb sprite.toNat 0x40) buf2 buf3 sprite hs
  have hf : imgf2 = imgf := Option.some.inj (h3.symm.trans h2)
  subst hf
  refine ⟨img, imgf2, imgff, h1, h2, h4, ?_, ?_⟩
  · intro x y k hx hy hk
    refine ⟨hm x y k hx hy hk, ?_⟩
    have hh : spriteheight E (toggle_sprite_info gb sprite.toNat 0x40).Memory =
        spriteheight E gb.Memory := rfl
    have e := hm2 x y k hx hy hk
    rw [hh] at e
    rw [e, hm x (spriteheight E gb.Memory - 1 - y) k hx (by omega) hk]
    have : spriteheight E gb.Memory - 1 - (spriteheight E gb.Memory - 1 - y) = y := by omega
    rw [this]
  · intro h16 h6 x k hx hk
    obtain ⟨img2, h5, hp⟩ := PrintSpriteAlpha_pixel E gb buf sprite hs
    have hi : img2 = img := Option.some.inj (h5.symm.trans h1)
    subst hi
    rw [hp x 0 k hx (by omega) hk]
    have e : sprite_pixel_index E gb sprite.toNat 0 x =
        tile_pixel_2bpp gb.Memory.VideoRAM
          ((if gb.Emulator.CGBEnabled ≠ 0 ∧
              ((gb.Memory.ObjAttrMem sprite.toNat).Info % 256) &&& (1 <<< 3) ≠ 0
            then 0x2000 else 0) +
            16 * ((((gb.Memory.ObjAttrMem sprite.toNat).Tile % 256) &&& 0xFE) + 1))
          7
          (if ((gb.Memory.ObjAttrMem sprite.toNat).Info % 256) &&& (1 <<< 5) ≠ 0
            then 7 - x else x) := by
      rw [sprite_pixel_index, if_pos h6, if_pos h16, h16,
        show (16 - 1 - 0 : Nat) = 8 + 7 from rfl, tile_pixel_2bpp_next_tile, Nat.mul_add,
        Nat.mul_one, Nat.add_assoc]
    rw [e]

/-- Witness of C11: sprite 3 of the sample state in CGB mode, 16 pixels high. -/
theorem PrintSpriteAlpha_yflip_mirror_witness :
    ((0 : Int) ≤ 3 ∧ (3 : Int) < 40) ∧
    ∃ img imgf : Int → Nat,
      GB_Debug_PrintSpriteAlpha sampleExtern (sampleState 1 0) (fun _ => 0) 3 = some img ∧
      GB_Debug_PrintSpriteAlpha sampleExtern
        (toggle_sprite_info (sampleState 1 0) (3 : Int).toNat 0x40) (fun _ => 0) 3 =
        some imgf ∧
      ∀ x y k : Nat, x < 8 → y < 16 → k < 4 →
        imgf (((y : Int) * 8 + x) * 4 + k) = img ((((16 - 1 - y : Nat) : Int) * 8 + x) * 4 + k) := by
  refine ⟨by decide, ?_⟩
  obtain ⟨_, img, imgf, _, h1, h2, _, hm, _⟩ :=
    PrintSpriteAlpha_yflip_mirror sampleExtern (sampleState 1 0) (fun _ => 0) (fun _ => 0)
      (fun _ => 0) 3 (by decide)
  exact ⟨img, imgf, h1, h2, fun x y k hx hy hk => (hm x y k hx hy hk).1⟩

/-! ### The colour stored for a colour index -/

theorem sprite_palette_cgb_eq (gb : GB_CONTEXT) (Info : Nat) :
    sprite_palette_cgb gb Info =
      some [(gb.Emulator.spr_pal ((Info &&& 7) * 8) % 256) |||
          ((gb.Emulator.spr_pal ((Info &&& 7) * 8 + 1) % 256) <<< 8),
        (gb.Emulator.spr_pal ((Info &&& 7) * 8 + 2) % 256) |||
          ((gb.Emulator.spr_pal ((Info &&& 7) * 8 + 3) % 256) <<< 8),
        (gb.Emulator.spr_pal ((Info &&& 7) * 8 + 4) % 256) |||
          ((gb.Emulator.spr_pal ((Info &&& 7) * 8 + 5) % 256) <<< 8),
        (gb.Emulator.spr_pal ((Info &&& 7) * 8 + 6) % 256) |||
          ((gb.Emulator.spr_pal ((Info &&& 7) * 8 + 7) % 256) <<< 8)] := by
  have h : (Info &&& 7) * 8 + 7 ≤ 63 := by
    rw [and_0x7]; omega
  simp only [sprite_palette_cgb, read_u8_pal_nat _ ((Info &&& 7) * 8) (by omega),
    read_u8_pal_nat _ ((Info &&& 7) * 8 + 1) (by omega),
    read_u8_pal_nat _ ((Info &&& 7) * 8 + 2) (by omega),
    read_u8_pal_nat _ ((Info &&& 7) * 8 + 3) (by omega),
    read_u8_pal_nat _ ((Info &&& 7) * 8 + 4) (by omega),
    read_u8_pal_nat _ ((Info &&& 7) * 8 + 5) (by omega),
    read_u8_pal_nat _ ((Info &&& 7) * 8 + 6) (by omega),
    read_u8_pal_nat _ ((Info &&& 7) * 8 + 7) (by omega),
    Option.bind_eq_bind, Option.some_bind, Option.pure_def]

theorem cgb_entry_sprite (gb : GB_CONTEXT) (n c : Nat) :
    cgb_entry gb 1 (n : Int) (c : Int) =
      (gb.Emulator.spr_pal (n * 8 + c * 2) % 256) |||
        ((gb.Emulator.spr_pal (n * 8 + c * 2 + 1) % 256) <<< 8) := by
  have e1 : ((n : Int) * 8 + (c : Int) * 2).toNat = n * 8 + c * 2 := by omega
  have e2 : ((n : Int) * 8 + (c : Int) * 2 + 1).toNat = n * 8 + c * 2 + 1 := by omega
  simp only [cgb_entry, e1, e2, ne_eq, one_ne_zero, not_false_eq_true, if_true]

theorem sprite_resolve_cgb (E : Extern) (gb : GB_CONTEXT) (Info c : Nat)
    (hcgb : gb.Emulator.CGBEnabled ≠ 0) (hc : c < 4) :
    sprite_resolve E gb Info c =
      some (unpack15 (cgb_entry gb 1 ((Info &&& 7 : Nat) : Int) (c : Int))) := by
  rw [cgb_entry_sprite]
  simp only [sprite_resolve, if_pos hcgb, sprite_palette_cgb_eq, Option.getD_some]
  interval_cases c <;> rfl

theorem sprite_resolve_dmg (E : Extern) (gb : GB_CONTEXT) (Info c : Nat)
    (hcgb : gb.Emulator.CGBEnabled = 0) (hc : c < 4) :
    sprite_resolve E gb Info c =
      gb_pal_colors_rgb
        (((if Info &&& (1 <<< 4) ≠ 0 then read_io gb.Memory E.OBP1_REG
          else read_io gb.Memory E.OBP0_REG) >>> (2 * c)) &&& 3) := by
  have h : ¬ gb.Emulator.CGBEnabled ≠ 0 := not_not.mpr hcgb
  simp only [sprite_resolve, if_neg h, sprite_palette_dmg]
  interval_cases c <;> rfl

/-! ### Transparency in the RGBA sink -/

/-- C15: for every emulator state and sprite, `GB_Debug_PrintSpriteAlpha` returns
an image whose 8 x `spriteheight` pixels are all determined by the emulator
state, not by the initial buffer: the pixel `(x, y)` is (0,0,0,0) if and only if
the colour index of the sprite pixel is 0; otherwise its alpha byte is 255 and
its RGB bytes are the palette colour of that index, the unpacked entry of
sprite palette `Info & 7` in CGB mode and the gray level of the 2-bit field of
OBP1 (bit 4 of `Info` set) or OBP0 otherwise. -/
theorem PrintSpriteAlpha_alpha_iff_index (E : Extern) (gb : GB_CONTEXT) (buf : Int → Nat)
    (sprite : Int) (hs : 0 ≤ sprite ∧ sprite < 40) :
    ∃ img : Int → Nat,
      GB_Debug_PrintSpriteAlpha E gb buf sprite = some img ∧
      ∀ x y : Nat, x < 8 → y < spriteheight E gb.Memory →
        let Info := (gb.Memory.ObjAttrMem sprite.toNat).Info % 256
        let c := sprite_pixel_index E gb sprite.toNat y x
        let pixel := (img (((y : Int) * 8 + x) * 4 + 0), img (((y : Int) * 8 + x) * 4 + 1),
          img (((y : Int) * 8 + x) * 4 + 2), img (((y : Int) * 8 + x) * 4 + 3))
        c < 4 ∧
        (pixel = (0, 0, 0, 0) ↔ c = 0) ∧
        (c ≠ 0 → ∃ r g b : Nat,
          pixel = (r, g, b, 255) ∧
          (gb.Emulator.CGBEnabled ≠ 0 →
            (r, g, b) = unpack15 (cgb_entry gb 1 ((Info &&& 7 : Nat) : Int) (c : Int))) ∧
          (gb.Emulator.CGBEnabled = 0 →
            gb_pal_colors_rgb
              (((if Info &&& (1 <<< 4) ≠ 0 then read_io gb.Memory E.OBP1_REG
                else read_io gb.Memory E.OBP0_REG) >>> (2 * c)) &&& 3) = some (r, g, b))) := by
  obtain ⟨img, h1, hp⟩ := PrintSpriteAlpha_pixel E gb buf sprite hs
  refine ⟨img, h1, ?_⟩
  intro x y hx hy Info c pixel
  have hc : c < 4 := by
    show sprite_pixel_index E gb sprite.toNat y x < 4
    rw [← sprite_color_eq_pixel_index E gb sprite.toNat y x hy]
    exact sprite_color_lt _ _ _ _ _ _
  obtain ⟨r, g, b, hres⟩ := sprite_resolve_some E gb Info c hc
  have hpix : pixel = (rgba_byte (sprite_rgba (sprite_resolve E gb Info) c) 0,
      rgba_byte (sprite_rgba (sprite_resolve E gb Info) c) 1,
      rgba_byte (sprite_rgba (sprite_resolve E gb Info) c) 2,
      rgba_byte (sprite_rgba (sprite_resolve E gb Info) c) 3) := by
    have q0 := hp x y 0 hx hy (by decide)
    have q1 := hp x y 1 hx hy (by decide)
    have q2 := hp x y 2 hx hy (by decide)
    have q3 := hp x y 3 hx hy (by decide)
    simp only [Nat.cast_zero, Nat.cast_one, Nat.cast_ofNat] at q0 q1 q2 q3
    show (_, _, _, _) = _
    rw [q0, q1, q2, q3]
  refine ⟨hc, ?_, ?_⟩
  · rw [hpix]
    by_cases h0 : c = 0
    · simp [h0, sprite_rgba, rgba_byte]
    · simp [h0, sprite_rgba, rgba_byte, hres]
  · intro h0
    refine ⟨r, g, b, ?_, ?_, ?_⟩
    · rw [hpix]
      simp [h0, sprite_rgba, rgba_byte, hres]
    · intro hcgb
      have := sprite_resolve_cgb E gb Info c hcgb hc
      rw [hres] at this
      exact Option.some.inj this
    · intro hcgb
      rw [← sprite_resolve_dmg E gb Info c hcgb hc, hres]

/-- Witness of C15: sprite 3 of the sample state outside of CGB mode. -/
theorem PrintSpriteAlpha_alpha_iff_index_witness :
    ((0 : Int) ≤ 3 ∧ (3 : Int) < 40) ∧
    ∃ img : Int → Nat,
      GB_Debug_PrintSpriteAlpha sampleExtern (sampleState 0 0) (fun _ => 7) 3 = some img ∧
      ((img ((((2 : Nat) : Int) * 8 + (1 : Nat)) * 4 + 0),
        img ((((2 : Nat) : Int) * 8 + (1 : Nat)) * 4 + 1),
        img ((((2 : Nat) : Int) * 8 + (1 : Nat)) * 4 + 2),
        img ((((2 : Nat) : Int) * 8 + (1 : Nat)) * 4 + 3)) = (0, 0, 0, 0) ↔
        sprite_pixel_index sampleExtern (sampleState 0 0) (3 : Int).toNat 2 1 = 0) := by
  refine ⟨by decide, ?_⟩
  obtain ⟨img, h, hp⟩ := PrintSpriteAlpha_alpha_iff_index sampleExtern (sampleState 0 0)
    (fun _ => 7) 3 (by decide)
  exact ⟨img, h, (hp 1 2 (by decide) (by decide)).2.1⟩

/-! ## Loops that may skip a pixel -/

theorem pure_loop_upd (n : Nat) (g : Nat → (Int → Nat) → (Int → Nat)) (p : Int)
    (f : Nat → Nat) (i : Nat) (hi : i < n) (hset : ∀ s, g i s p = f (s p))
    (hother : ∀ j, j < n → j ≠ i → ∀ s, g j s p = s p) (s : Int → Nat) :
    pure_loop n g s p = f (s p) := by
  induction n with
  | zero => exact absurd hi (Nat.not_lt_zero i)
  | succ k ih =>
    simp only [pure_loop]
    by_cases hik : i = k
    · subst hik
      rw [hset, pure_loop_frame i g p
        (fun j hj s => hother j (Nat.lt_succ_of_lt hj) (Nat.ne_of_lt hj) s)]
    · rw [hother k (Nat.lt_succ_self k) (fun h => hik h.symm)]
      exact ih (by omega) (fun j hj hne s => hother j (Nat.lt_succ_of_lt hj) hne s)

theorem raster_frame (H W : Nat) (g : Nat → Nat → (Int → Nat) → (Int → Nat)) (p : Int)
    (h : ∀ y x, y < H → x < W → ∀ s, g y x s p = s p) (s : Int → Nat) :
    pure_loop H (fun y s => pure_loop W (fun x s => g y x s) s) s p = s p := by
  apply pure_loop_frame
  intro y hy s
  apply pure_loop_frame
  intro x hx s
  exact h y x hy hx s

theorem raster_upd (H W : Nat) (g : Nat → Nat → (Int → Nat) → (Int → Nat)) (p : Int)
    (f : Nat → Nat) (x y : Nat) (hx : x < W) (hy : y < H) (hset : ∀ s, g y x s p = f (s p))
    (hother : ∀ y2 x2, y2 < H → x2 < W → ¬(y2 = y ∧ x2 = x) → ∀ s, g y2 x2 s p = s p)
    (s : Int → Nat) :
    pure_loop H (fun y s => pure_loop W (fun x s => g y x s) s) s p = f (s p) := by
  apply pure_loop_upd H _ p f y hy
  · intro s
    apply pure_loop_upd W _ p f x hx hset
    intro j hj hne s
    exact hother y j hy hj (fun h => hne h.2) s
  · intro j hj hne s
    apply pure_loop_frame
    intro i hi s
    exact hother j i hj hi (fun h => hne h.1) s

/-- Four nested loops: the byte `p` is updated by the iteration `(y, x, i, j)`
only. -/
theorem raster4_upd (H W I J : Nat)
    (g : Nat → Nat → Nat → Nat → (Int → Nat) → (Int → Nat)) (p : Int) (f : Nat → Nat)
    (y x i j : Nat) (hy : y < H) (hx : x < W) (hi : i < I) (hj : j < J)
    (hset : ∀ s, g y x i j s p = f (s p))
    (hother : ∀ y2 x2 i2 j2, y2 < H → x2 < W → i2 < I → j2 < J →
      ¬(y2 = y ∧ x2 = x ∧ i2 = i ∧ j2 = j) → ∀ s, g y2 x2 i2 j2 s p = s p)
    (s : Int → Nat) :
    pure_loop H (fun y s => pure_loop W (fun x s =>
      pure_loop I (fun i s => pure_loop J (fun j s => g y x i j s) s) s) s) s p = f (s p) := by
  apply raster_upd H W
    (fun y x s => pure_loop I (fun i s => pure_loop J (fun j s => g y x i j s) s) s) p f x y hx hy
  · intro s
    apply raster_upd I J (fun i j s => g y x i j s) p f j i hj hi hset
    intro i2 j2 hi2 hj2 hne s
    exact hother y x i2 j2 hy hx hi2 hj2 (fun h => hne ⟨h.2.2.1, h.2.2.2⟩) s
  · intro y2 x2 hy2 hx2 hne s
    apply raster_frame
    intro i2 j2 hi2 hj2 s
    exact hother y2 x2 i2 j2 hy2 hx2 hi2 hj2 (fun h => hne ⟨h.1, h.2.1⟩) s

theorem store_opt_at (buf : Int → Nat) (i : Int) (w : Option RGB) (k : Nat) (hk : k < 3) :
    store_opt buf i w (i + k) = opt_byte w k (buf (i + k)) := by
  rcases w with _ | ⟨r, g, b⟩
  · rfl
  · simp only [store_opt, opt_byte]
    exact store_rgb_at buf i r g b k hk

theorem store_opt_other (buf : Int → Nat) (i p : Int) (w : Option RGB)
    (h : p < i ∨ i + 3 ≤ p) : store_opt buf i w p = buf p := by
  rcases w with _ | ⟨r, g, b⟩
  · rfl
  · exact store_rgb_other buf i p r g b h

/-! ## The sprite renderer `GB_Debug_PrintSprite` -/

theorem PrintSprite_pixel_eq (isvisible : Bool) (resolve : Nat → Option RGB)
    (bufw buff_x buff_y : Int) (c y x i j : Nat) (buf : Int → Nat)
    (hres : c ≠ 0 → ∃ r g b : Nat, resolve c = some (r, g, b)) :
    GB_Debug_PrintSprite_pixel isvisible resolve bufw buff_x buff_y c y x i j buf =
      some (store_opt buf (((buff_y + ((y * 2 : Nat) : Int) + (j : Int)) * bufw +
          (buff_x + ((x * 2 : Nat) : Int) + (i : Int))) * 3)
        (sprite_cell isvisible resolve c ((x * 2) + i) ((y * 2) + j))) := by
  unfold GB_Debug_PrintSprite_pixel sprite_cell
  by_cases hp : (!isvisible && (((((x * 2) + i) ^^^ ((y * 2) + j)) &&& 3) == 0)) = true
  · rw [if_pos hp, if_pos hp]
    rfl
  · rw [if_neg hp, if_neg hp]
    by_cases hc : c = 0
    · rw [if_neg (not_not.mpr hc), if_neg (not_not.mpr hc)]
      rfl
    · obtain ⟨r, g, b, hr⟩ := hres hc
      rw [if_pos hc, if_pos hc, hr]
      rfl

theorem PrintSprite_body_eq (mem : GB_MEMORY) (height Info spr_data : Nat) (isvisible : Bool)
    (resolve : Nat → Option RGB) (bufw buff_x buff_y : Int) (y x : Nat) (buf : Int → Nat)
    (hrow : ∀ r, r < height → spr_data + r * 2 + 1 < 0x4000) (hy : y < height)
    (hres : ∀ c, c < 4 → ∃ r g b : Nat, resolve c = some (r, g, b)) :
    GB_Debug_PrintSprite_body mem height Info spr_data isvisible resolve bufw buff_x buff_y
      y x buf =
    some (pure_loop 2 (fun i s => pure_loop 2 (fun j s =>
      store_opt s (((buff_y + ((y * 2 : Nat) : Int) + (j : Int)) * bufw +
          (buff_x + ((x * 2 : Nat) : Int) + (i : Int))) * 3)
        (sprite_cell isvisible resolve (sprite_color mem.VideoRAM height Info spr_data y x)
          ((x * 2) + i) ((y * 2) + j))) s) buf) := by
  simp only [GB_Debug_PrintSprite_body,
    sprite_color_index_eq mem height Info spr_data y x hrow hy, Option.bind_eq_bind,
    Option.some_bind]
  apply for_loop_eq_pure
  intro i _ s
  apply for_loop_eq_pure
  intro j _ s
  exact PrintSprite_pixel_eq isvisible resolve bufw buff_x buff_y _ y x i j s
    (fun _ => hres _ (sprite_color_lt _ _ _ _ _ _))

theorem sprite_loop_eq (mem : GB_MEMORY) (height Info spr_data : Nat) (isvisible : Bool)
    (resolve : Nat → Option RGB) (bufw buff_x buff_y : Int) (buf : Int → Nat)
    (hrow : ∀ r, r < height → spr_data + r * 2 + 1 < 0x4000)
    (hres : ∀ c, c < 4 → ∃ r g b : Nat, resolve c = some (r, g, b)) :
    for_loop height (fun y buf =>
      for_loop 8 (fun x buf =>
        GB_Debug_PrintSprite_body mem height Info spr_data isvisible resolve bufw buff_x buff_y
          y x buf) buf) buf =
    some (sprite_paint mem.VideoRAM height Info spr_data isvisible resolve bufw buff_x buff_y
      buf) := by
  apply for_loop_eq_pure
  intro y hy s
  apply for_loop_eq_pure
  intro x _ s
  exact PrintSprite_body_eq mem height Info spr_data isvisible resolve bufw buff_x buff_y y x s
    hrow hy hres

/-- The buffer `GB_Debug_PrintSprite` produces, as a loop of stores that cannot
fail. -/
theorem PrintSprite_eq (E : Extern) (gb : GB_CONTEXT) (buf : Int → Nat)
    (bufw buff_x buff_y sprite : Int) (h : 0 ≤ sprite ∧ sprite < 40) :
    GB_Debug_PrintSprite E gb buf bufw buff_x buff_y sprite =
      some (sprite_paint gb.Memory.VideoRAM (spriteheight E gb.Memory)
        ((gb.Memory.ObjAttrMem sprite.toNat).Info % 256)
        (sprite_data_offset E gb ((gb.Memory.ObjAttrMem sprite.toNat).Tile % 256)
          ((gb.Memory.ObjAttrMem sprite.toNat).Info % 256))
        (sprite_isvisible (spriteheight E gb.Memory)
          ((gb.Memory.ObjAttrMem sprite.toNat).X % 256)
          ((gb.Memory.ObjAttrMem sprite.toNat).Y % 256))
        (sprite_resolve E gb ((gb.Memory.ObjAttrMem sprite.toNat).Info % 256))
        bufw buff_x buff_y buf) := by
  have hrow : ∀ r, r < spriteheight E gb.Memory →
      sprite_data_offset E gb ((gb.Memory.ObjAttrMem sprite.toNat).Tile % 256)
        ((gb.Memory.ObjAttrMem sprite.toNat).Info % 256) + r * 2 + 1 < 0x4000 :=
    fun r hr => sprite_data_offset_lt E gb _ _ r (Nat.mod_lt _ (by decide)) hr
  have hres := sprite_resolve_some E gb ((gb.Memory.ObjAttrMem sprite.toNat).Info % 256)
  have hloop := sprite_loop_eq gb.Memory (spriteheight E gb.Memory)
    ((gb.Memory.ObjAttrMem sprite.toNat).Info % 256) _
    (sprite_isvisible (spriteheight E gb.Memory)
      ((gb.Memory.ObjAttrMem sprite.toNat).X % 256)
      ((gb.Memory.ObjAttrMem sprite.toNat).Y % 256)) _ bufw buff_x buff_y buf hrow hres
  rw [← hloop]
  obtain ⟨p0, p1, p2, p3, hp⟩ :=
    sprite_palette_cgb_some gb ((gb.Memory.ObjAttrMem sprite.toNat).Info % 256)
  by_cases hcgb : gb.Emulator.CGBEnabled ≠ 0
  · simp only [GB_Debug_PrintSprite, read_oam_some _ _ h, Option.bind_eq_bind,
      Option.some_bind, if_pos hcgb, hp, sprite_data_offset, sprite_resolve, Option.getD_some]
  · simp only [GB_Debug_PrintSprite, read_oam_some _ _ h, Option.bind_eq_bind,
      Option.some_bind, if_neg hcgb, sprite_data_offset, sprite_resolve]

theorem sprite_paint_pixel (vram : Nat → Nat) (height Info spr_data : Nat) (isvisible : Bool)
    (resolve : Nat → Option RGB) (bufw buff_x buff_y : Int) (hw : 16 ≤ bufw) (buf : Int → Nat)
    (y x i j k : Nat) (hy : y < height) (hx : x < 8) (hi : i < 2) (hj : j < 2) (hk : k < 3) :
    sprite_paint vram height Info spr_data isvisible resolve bufw buff_x buff_y buf
      (((buff_y + ((y * 2 : Nat) : Int) + (j : Int)) * bufw +
        (buff_x + ((x * 2 : Nat) : Int) + (i : Int))) * 3 + k) =
    opt_byte (sprite_cell isvisible resolve (sprite_color vram height Info spr_data y x)
        ((x * 2) + i) ((y * 2) + j)) k
      (buf (((buff_y + ((y * 2 : Nat) : Int) + (j : Int)) * bufw +
        (buff_x + ((x * 2 : Nat) : Int) + (i : Int))) * 3 + k)) := by
  unfold sprite_paint
  apply raster4_upd height 8 2 2
    (fun y x i j s => store_opt s (((buff_y + ((y * 2 : Nat) : Int) + (j : Int)) * bufw +
        (buff_x + ((x * 2 : Nat) : Int) + (i : Int))) * 3)
      (sprite_cell isvisible resolve (sprite_color vram height Info spr_data y x)
        ((x * 2) + i) ((y * 2) + j)))
    _ (fun old => opt_byte (sprite_cell isvisible resolve
      (sprite_color vram height Info spr_data y x) ((x * 2) + i) ((y * 2) + j)) k old)
    y x i j hy hx hi hj
  · intro s
    exact store_opt_at s _ _ k hk
  · intro y2 x2 i2 j2 _ hx2 hi2 hj2 hne s
    apply store_opt_other
    have hidx := raster_index_ne bufw 16 (by simpa using hw) (x * 2 + i) (y * 2 + j)
      (x2 * 2 + i2) (y2 * 2 + j2) (by omega) (by omega) (by omega)
    have e1 : (buff_y + ((y2 * 2 : Nat) : Int) + (j2 : Int)) * bufw +
        (buff_x + ((x2 * 2 : Nat) : Int) + (i2 : Int)) =
        (buff_y * bufw + buff_x) + (((y2 * 2 + j2 : Nat) : Int) * bufw + ((x2 * 2 + i2 : Nat) : Int)) := by
      push_cast; ring
    have e2 : (buff_y + ((y * 2 : Nat) : Int) + (j : Int)) * bufw +
        (buff_x + ((x * 2 : Nat) : Int) + (i : Int)) =
        (buff_y * bufw + buff_x) + (((y * 2 + j : Nat) : Int) * bufw + ((x * 2 + i : Nat) : Int)) := by
      push_cast; ring
    rw [e1, e2]
    omega

theorem sprite_isvisible_iff (height X Y : Nat) :
    sprite_isvisible height X Y = true ↔
      (0 < X ∧ X < 168) ∧ (if height = 16 then 0 < Y ∧ Y < 160 else 8 < Y ∧ Y < 160) := by
  unfold sprite_isvisible
  by_cases hX : X > 0 ∧ X < 168
  · rw [if_pos hX]
    by_cases h16 : height = 16
    · rw [if_pos h16, if_pos h16]
      by_cases hY : Y > 0 ∧ Y < 160
      · rw [if_pos hY]
        exact ⟨fun _ => ⟨hX, hY⟩, fun _ => rfl⟩
      · rw [if_neg hY]
        exact ⟨fun h => absurd h (by decide), fun h => absurd h.2 hY⟩
    · rw [if_neg h16, if_neg h16]
      by_cases hY : Y > 8 ∧ Y < 160
      · rw [if_pos hY]
        exact ⟨fun _ => ⟨hX, hY⟩, fun _ => rfl⟩
      · rw [if_neg hY]
        exact ⟨fun h => absurd h (by decide), fun h => absurd h.2 hY⟩
  · rw [if_neg hX]
    exact ⟨fun h => absurd h (by decide), fun h => absurd h.1 hX⟩

theorem sprite_resolve_ne_placeholder (E : Extern) (gb : GB_CONTEXT) (Info c r g b : Nat)
    (h : sprite_resolve E gb Info c = some (r, g, b)) : (r, g, b) ≠ (255, 0, 0) := by
  unfold sprite_resolve at h
  split at h
  · simp only [Option.map_eq_some'] at h
    obtain ⟨v, _, hv⟩ := h
    rw [unpack15_eq] at hv
    intro he
    rw [he] at hv
    have := congrArg Prod.fst hv
    simp only at this
    omega
  · simp only [Option.bind_eq_some] at h
    obtain ⟨v, _, hv⟩ := h
    intro he
    rw [he] at hv
    rcases v with _ | _ | _ | _ | v
    · exact absurd hv (by decide)
    · exact absurd hv (by decide)
    · exact absurd hv (by decide)
    · exact absurd hv (by decide)
    · simp [gb_pal_colors_rgb, gb_pal_colors_at, gb_pal_colors] at hv

theorem sprite_cell_placeholder (resolve : Nat → Option RGB) (c px py : Nat)
    (hp : (px ^^^ py) &&& 3 = 0) : sprite_cell false resolve c px py = some (255, 0, 0) := by
  simp [sprite_cell, hp]

theorem sprite_cell_other (isvisible : Bool) (resolve : Nat → Option RGB) (c px py : Nat)
    (h : isvisible = true ∨ (px ^^^ py) &&& 3 ≠ 0) :
    sprite_cell isvisible resolve c px py = if c ≠ 0 then resolve c else none := by
  unfold sprite_cell
  have hc : ¬ ((!isvisible && (((px ^^^ py) &&& 3) == 0)) = true) := by
    rcases h with h | h
    · simp [h]
    · simp [h]
  rw [if_neg hc]

/-- The bytes of the buffer of `GB_Debug_PrintSprite`, for a buffer at least 16
pixels wide: each position of the sprite cell holds what its own iteration
stored, or what it held before when the iteration stored nothing. -/
theorem PrintSprite_content (E : Extern) (gb : GB_CONTEXT) (buf : Int → Nat)
    (bufw buff_x buff_y sprite : Int) (hs : 0 ≤ sprite ∧ sprite < 40) :
    ∃ out : Int → Nat,
      GB_Debug_PrintSprite E gb buf bufw buff_x buff_y sprite = some out ∧
      (16 ≤ bufw → ∀ y x i j k : Nat, y < spriteheight E gb.Memory → x < 8 → i < 2 → j < 2 →
        k < 3 →
        out (((buff_y + ((y * 2 : Nat) : Int) + (j : Int)) * bufw +
          (buff_x + ((x * 2 : Nat) : Int) + (i : Int))) * 3 + k) =
        opt_byte (sprite_cell
            (sprite_isvisible (spriteheight E gb.Memory)
              ((gb.Memory.ObjAttrMem sprite.toNat).X % 256)
              ((gb.Memory.ObjAttrMem sprite.toNat).Y % 256))
            (sprite_resolve E gb ((gb.Memory.ObjAttrMem sprite.toNat).Info % 256))
            (sprite_pixel_index E gb sprite.toNat y x) ((x * 2) + i) ((y * 2) + j)) k
          (buf (((buff_y + ((y * 2 : Nat) : Int) + (j : Int)) * bufw +
            (buff_x + ((x * 2 : Nat) : Int) + (i : Int))) * 3 + k))) := by
  refine ⟨_, PrintSprite_eq E gb buf bufw buff_x buff_y sprite hs, ?_⟩
  intro hw y x i j k hy hx hi hj hk
  rw [sprite_paint_pixel _ _ _ _ _ _ bufw buff_x buff_y hw buf y x i j k hy hx hi hj hk,
    sprite_color_eq_pixel_index E gb sprite.toNat y x hy]

theorem opt_byte_some (r g b k old : Nat) (hr : r < 256) (hg : g < 256) (hb : b < 256) :
    opt_byte (some (r, g, b)) k old = if k = 0 then r else if k = 1 then g else b := by
  simp only [opt_byte]
  split_ifs <;> exact Nat.mod_eq_of_lt (by assumption)

theorem sprite_pixel_index_lt (E : Extern) (gb : GB_CONTEXT) (sprite y x : Nat)
    (hy : y < spriteheight E gb.Memory) : sprite_pixel_index E gb sprite y x < 4 := by
  rw [← sprite_color_eq_pixel_index E gb sprite y x hy]
  exact sprite_color_lt _ _ _ _ _ _

/-- C13: `GB_Debug_PrintSprite` treats a sprite as visible exactly when
`0 < X < 168` and (`0 < Y < 160` if the sprite is 16 high, `8 < Y < 160` if it is
8 high). When the sprite is not visible, the iteration of every position
`(px, py) = (2x+i, 2y+j)` with `((px ^ py) & 3) == 0` stores the placeholder
colour (255, 0, 0), which is what the buffer holds there afterwards if a line
of the buffer has at least 16 pixels; at every other position, and at every
position of a visible sprite, the iteration stores nothing or a palette
colour, which is never (255, 0, 0). -/
theorem PrintSprite_placeholder_iff_hidden (E : Extern) (gb : GB_CONTEXT) (buf : Int → Nat)
    (bufw buff_x buff_y sprite : Int) (hs : 0 ≤ sprite ∧ sprite < 40) :
    let h := spriteheight E gb.Memory
    let X := (gb.Memory.ObjAttrMem sprite.toNat).X % 256
    let Y := (gb.Memory.ObjAttrMem sprite.toNat).Y % 256
    let Info := (gb.Memory.ObjAttrMem sprite.toNat).Info % 256
    let visible : Prop :=
      (0 < X ∧ X < 168) ∧ (if h = 16 then 0 < Y ∧ Y < 160 else 8 < Y ∧ Y < 160)
    (sprite_isvisible h X Y = true ↔ visible) ∧
    ∃ out : Int → Nat,
      GB_Debug_PrintSprite E gb buf bufw buff_x buff_y sprite = some out ∧
      ∀ y x i j : Nat, y < h → x < 8 → i < 2 → j < 2 →
        let idx : Int := ((buff_y + ((y * 2 : Nat) : Int) + (j : Int)) * bufw +
          (buff_x + ((x * 2 : Nat) : Int) + (i : Int))) * 3
        let c := sprite_pixel_index E gb sprite.toNat y x
        (¬ visible → (((x * 2) + i) ^^^ ((y * 2) + j)) &&& 3 = 0 →
          (∀ s : Int → Nat,
            GB_Debug_PrintSprite_pixel (sprite_isvisible h X Y) (sprite_resolve E gb Info)
              bufw buff_x buff_y c y x i j s = some (store_rgb s idx 255 0 0)) ∧
          (16 ≤ bufw → out (idx + 0) = 255 ∧ out (idx + 1) = 0 ∧ out (idx + 2) = 0)) ∧
        (visible ∨ (((x * 2) + i) ^^^ ((y * 2) + j)) &&& 3 ≠ 0 →
          (∀ s : Int → Nat,
            GB_Debug_PrintSprite_pixel (sprite_isvisible h X Y) (sprite_resolve E gb Info)
              bufw buff_x buff_y c y x i j s = some s ∨
            ∃ r g b : Nat, (r, g, b) ≠ (255, 0, 0) ∧
              GB_Debug_PrintSprite_pixel (sprite_isvisible h X Y) (sprite_resolve E gb Info)
                bufw buff_x buff_y c y x i j s = some (store_rgb s idx r g b)) ∧
          (16 ≤ bufw →
            (out (idx + 0) = buf (idx + 0) ∧ out (idx + 1) = buf (idx + 1) ∧
              out (idx + 2) = buf (idx + 2)) ∨
            ∃ r g b : Nat, (r, g, b) ≠ (255, 0, 0) ∧
              out (idx + 0) = r ∧ out (idx + 1) = g ∧ out (idx + 2) = b)) := by
  intro h X Y Info visible
  have hvis : sprite_isvisible h X Y = true ↔ visible := sprite_isvisible_iff h X Y
  refine ⟨hvis, ?_⟩
  obtain ⟨out, hout, hcont⟩ := PrintSprite_content E gb buf bufw buff_x buff_y sprite hs
  refine ⟨out, hout, ?_⟩
  intro y x i j hy hx hi hj idx c
  have hc4 : c < 4 := sprite_pixel_index_lt E gb sprite.toNat y x hy
  have hres : c ≠ 0 → ∃ r g b : Nat, sprite_resolve E gb Info c = some (r, g, b) :=
    fun _ => sprite_resolve_some E gb Info c hc4
  have hpix := fun s => PrintSprite_pixel_eq (sprite_isvisible h X Y) (sprite_resolve E gb Info)
    bufw buff_x buff_y c y x i j s hres
  have hbytes := fun hw k hk => hcont hw y x i j k hy hx hi hj hk
  constructor
  · intro hnv hp
    have hfalse : sprite_isvisible h X Y = false := by
      rcases hb : sprite_isvisible h X Y with _ | _
      · rfl
      · exact absurd (hvis.mp hb) hnv
    have hcell := sprite_cell_placeholder (sprite_resolve E gb Info) c _ _ hp
    constructor
    · intro s
      rw [hpix s, hfalse, hcell]
      rfl
    · intro hw
      have q0 := hbytes hw 0 (by decide)
      have q1 := hbytes hw 1 (by decide)
      have q2 := hbytes hw 2 (by decide)
      simp only [Nat.cast_zero, Nat.cast_one, Nat.cast_ofNat] at q0 q1 q2
      rw [hfalse, hcell] at q0 q1 q2
      exact ⟨q0, q1, q2⟩
  · intro hor
    have hor2 : sprite_isvisible h X Y = true ∨ (((x * 2) + i) ^^^ ((y * 2) + j)) &&& 3 ≠ 0 :=
      hor.imp hvis.mpr id
    have hcell := sprite_cell_other (sprite_isvisible h X Y) (sprite_resolve E gb Info) c _ _ hor2
    by_cases hc0 : c = 0
    · rw [if_neg (not_not.mpr hc0)] at hcell
      constructor
      · intro s
        left
        rw [hpix s, hcell]
        rfl
      · intro hw
        left
        have q0 := hbytes hw 0 (by decide)
        have q1 := hbytes hw 1 (by decide)
        have q2 := hbytes hw 2 (by decide)
        simp only [Nat.cast_zero, Nat.cast_one, Nat.cast_ofNat] at q0 q1 q2
        rw [hcell] at q0 q1 q2
        exact ⟨q0, q1, q2⟩
    · rw [if_pos hc0] at hcell
      obtain ⟨r, g, b, hr⟩ := hres hc0
      have hne := sprite_resolve_ne_placeholder E gb Info c r g b hr
      have hlt := sprite_resolve_lt E gb Info c r g b hr
      rw [hr] at hcell
      constructor
      · intro s
        right
        refine ⟨r, g, b, hne, ?_⟩
        rw [hpix s, hcell]
        rfl
      · intro hw
        right
        have q0 := hbytes hw 0 (by decide)
        have q1 := hbytes hw 1 (by decide)
        have q2 := hbytes hw 2 (by decide)
        simp only [Nat.cast_zero, Nat.cast_one, Nat.cast_ofNat] at q0 q1 q2
        rw [hcell, opt_byte_some r g b _ _ hlt.1 hlt.2.1 hlt.2.2] at q0 q1 q2
        exact ⟨r, g, b, hne, q0, q1, q2⟩

/-- Witness of C13: sprite 0 of the blank state is not visible (`X` is 0), and the
position (0, 0) of its cell holds the placeholder colour although the colour
index of the sprite pixel is 0. -/
theorem PrintSprite_placeholder_iff_hidden_witness :
    ((0 : Int) ≤ 0 ∧ (0 : Int) < 40) ∧
    ∃ out : Int → Nat,
      GB_Debug_PrintSprite sampleExtern blankState (fun _ => 7) 16 0 0 0 = some out ∧
      out 0 = 255 ∧ out 1 = 0 ∧ out 2 = 0 := by
  refine ⟨by decide, ?_⟩
  obtain ⟨_, out, hout, hp⟩ := PrintSprite_placeholder_iff_hidden sampleExtern blankState
    (fun _ => 7) 16 0 0 0 (by decide)
  refine ⟨out, hout, ?_⟩
  have h := ((hp 0 0 0 0 (by decide) (by decide) (by decide) (by decide)).1
    (by decide) (by decide)).2 (by decide)
  simpa using h

/-! ### Colour index 0 in the RGB sink -/

/-- Counterexample to C14 as stated: sprite 0 of the blank state is not visible
and the colour index of its pixel (0, 0) is 0, yet `GB_Debug_PrintSprite`
replaces the byte 0 of the buffer, which belongs to that pixel and held 7, by
the red channel 255 of the placeholder colour. -/
theorem PrintSprite_index0_counterexample :
    sprite_pixel_index sampleExtern blankState 0 0 0 = 0 ∧
    ∃ out : Int → Nat,
      GB_Debug_PrintSprite sampleExtern blankState (fun _ => 7) 16 0 0 0 = some out ∧
      out 0 = 255 ∧ (fun _ => 7 : Int → Nat) 0 = 7 := by
  refine ⟨by decide, ?_⟩
  obtain ⟨out, hout, hp⟩ := PrintSprite_content sampleExtern blankState (fun _ => 7) 16 0 0 0
    (by decide)
  refine ⟨out, hout, ?_, rfl⟩
  have h := hp (by decide) 0 0 0 0 0 (by decide) (by decide) (by decide) (by decide) (by decide)
  have hcell : sprite_cell
      (sprite_isvisible (spriteheight sampleExtern blankState.Memory)
        ((blankState.Memory.ObjAttrMem (0 : Int).toNat).X % 256)
        ((blankState.Memory.ObjAttrMem (0 : Int).toNat).Y % 256))
      (sprite_resolve sampleExtern blankState
        ((blankState.Memory.ObjAttrMem (0 : Int).toNat).Info % 256))
      (sprite_pixel_index sampleExtern blankState (0 : Int).toNat 0 0) ((0 * 2) + 0)
      ((0 * 2) + 0) = some (255, 0, 0) := by decide
  rw [hcell] at h
  simpa using h

/-- C14, amended: for every emulator state, every sprite and every initial
content of the RGB destination buffer, `GB_Debug_PrintSprite` stores nothing for
a position of a sprite pixel whose colour index is 0, and the three bytes of
the position are left as they were if a line of the buffer has at least 16
pixels, provided that the sprite is visible or that the position `(px, py)`
is not a placeholder position (`((px ^ py) & 3) != 0`). -/
theorem PrintSprite_index0_untouched (E : Extern) (gb : GB_CONTEXT) (buf : Int → Nat)
    (bufw buff_x buff_y sprite : Int) (hs : 0 ≤ sprite ∧ sprite < 40) :
    ∃ out : Int → Nat,
      GB_Debug_PrintSprite E gb buf bufw buff_x buff_y sprite = some out ∧
      ∀ y x i j : Nat, y < spriteheight E gb.Memory → x < 8 → i < 2 → j < 2 →
        let h := spriteheight E gb.Memory
        let X := (gb.Memory.ObjAttrMem sprite.toNat).X % 256
        let Y := (gb.Memory.ObjAttrMem sprite.toNat).Y % 256
        let Info := (gb.Memory.ObjAttrMem sprite.toNat).Info % 256
        let visible : Prop :=
          (0 < X ∧ X < 168) ∧ (if h = 16 then 0 < Y ∧ Y < 160 else 8 < Y ∧ Y < 160)
        let idx : Int := ((buff_y + ((y * 2 : Nat) : Int) + (j : Int)) * bufw +
          (buff_x + ((x * 2 : Nat) : Int) + (i : Int))) * 3
        sprite_pixel_index E gb sprite.toNat y x = 0 →
        (visible ∨ (((x * 2) + i) ^^^ ((y * 2) + j)) &&& 3 ≠ 0) →
        (∀ s : Int → Nat,
          GB_Debug_PrintSprite_pixel (sprite_isvisible h X Y) (sprite_resolve E gb Info)
            bufw buff_x buff_y 0 y x i j s = some s) ∧
        (16 ≤ bufw → out (idx + 0) = buf (idx + 0) ∧ out (idx + 1) = buf (idx + 1) ∧
          out (idx + 2) = buf (idx + 2)) := by
  obtain ⟨out, hout, hcont⟩ := PrintSprite_content E gb buf bufw buff_x buff_y sprite hs
  refine ⟨out, hout, ?_⟩
  intro y x i j hy hx hi hj h X Y Info visible idx hc0 hor
  have hor2 : sprite_isvisible h X Y = true ∨ (((x * 2) + i) ^^^ ((y * 2) + j)) &&& 3 ≠ 0 :=
    hor.imp (sprite_isvisible_iff h X Y).mpr id
  have hcell := sprite_cell_other (sprite_isvisible h X Y) (sprite_resolve E gb Info) 0 _ _ hor2
  rw [if_neg (not_not.mpr rfl)] at hcell
  constructor
  · intro s
    rw [PrintSprite_pixel_eq (sprite_isvisible h X Y) (sprite_resolve E gb Info)
      bufw buff_x buff_y 0 y x i j s (fun h0 => absurd rfl h0), hcell]
    rfl
  · intro hw
    have q0 := hcont hw y x i j 0 hy hx hi hj (by decide)
    have q1 := hcont hw y x i j 1 hy hx hi hj (by decide)
    have q2 := hcont hw y x i j 2 hy hx hi hj (by decide)
    simp only [Nat.cast_zero, Nat.cast_one, Nat.cast_ofNat] at q0 q1 q2
    rw [hc0, hcell] at q0 q1 q2
    exact ⟨q0, q1, q2⟩

/-- Witness of C14, amended: sprite 3 of the sample state is visible and the
colour index of its pixel (0, 0) is 0; the byte 0 of the buffer keeps its
content 7. -/
theorem PrintSprite_index0_untouched_witness :
    ((0 : Int) ≤ 3 ∧ (3 : Int) < 40) ∧
    sprite_pixel_index sampleExtern (sampleState 0 0) (3 : Int).toNat 0 0 = 0 ∧
    ∃ out : Int → Nat,
      GB_Debug_PrintSprite sampleExtern (sampleState 0 0) (fun _ => 7) 16 0 0 3 = some out ∧
      out 0 = 7 := by
  refine ⟨by decide, by decide, ?_⟩
  obtain ⟨out, hout, hp⟩ := PrintSprite_index0_untouched sampleExtern (sampleState 0 0)
    (fun _ => 7) 16 0 0 3 (by decide)
  refine ⟨out, hout, ?_⟩
  have h := ((hp 0 0 0 0 (by decide) (by decide) (by decide) (by decide)) (by decide)
    (Or.inl (by decide))).2 (by decide)
  simpa using h.1

/-! ## The sprite renderer `GB_Debug_PrintZoomedSprite` -/

theorem PrintZoomedSprite_pixel_eq (resolve : Nat → Option RGB) (c y x i j : Nat)
    (buf : Int → Nat) (hres : c ≠ 0 → ∃ r g b : Nat, resolve c = some (r, g, b)) :
    GB_Debug_PrintZoomedSprite_pixel resolve c y x i j buf =
      some (store_opt buf (((((y * 8 : Nat) : Int) + (j : Int)) * (8 * 8) +
          (((x * 8 : Nat) : Int) + (i : Int))) * 3)
        (if c ≠ 0 then resolve c else none)) := by
  unfold GB_Debug_PrintZoomedSprite_pixel
  by_cases hc : c = 0
  · rw [if_neg (not_not.mpr hc), if_neg (not_not.mpr hc)]
    rfl
  · obtain ⟨r, g, b, hr⟩ := hres hc
    rw [if_pos hc, if_pos hc, hr]
    rfl

theorem PrintZoomedSprite_body_eq (mem : GB_MEMORY) (height Info spr_data : Nat)
    (resolve : Nat → Option RGB) (y x : Nat) (buf : Int → Nat)
    (hrow : ∀ r, r < height → spr_data + r * 2 + 1 < 0x4000) (hy : y < height)
    (hres : ∀ c, c < 4 → ∃ r g b : Nat, resolve c = some (r, g, b)) :
    GB_Debug_PrintZoomedSprite_body mem height Info spr_data resolve y x buf =
    some (pure_loop 8 (fun i s => pure_loop 8 (fun j s =>
      store_opt s (((((y * 8 : Nat) : Int) + (j : Int)) * (8 * 8) +
          (((x * 8 : Nat) : Int) + (i : Int))) * 3)
        (if sprite_color mem.VideoRAM height Info spr_data y x ≠ 0 then
          resolve (sprite_color mem.VideoRAM height Info spr_data y x) else none)) s) buf) := by
  simp only [GB_Debug_PrintZoomedSprite_body,
    sprite_color_index_eq mem height Info spr_data y x hrow hy, Option.bind_eq_bind,
    Option.some_bind]
  apply for_loop_eq_pure
  intro i _ s
  apply for_loop_eq_pure
  intro j _ s
  exact PrintZoomedSprite_pixel_eq resolve _ y x i j s
    (fun _ => hres _ (sprite_color_lt _ _ _ _ _ _))

theorem zoomed_loop_eq (mem : GB_MEMORY) (height Info spr_data : Nat)
    (resolve : Nat → Option RGB) (buf : Int → Nat)
    (hrow : ∀ r, r < height → spr_data + r * 2 + 1 < 0x4000)
    (hres : ∀ c, c < 4 → ∃ r g b : Nat, resolve c = some (r, g, b)) :
    (for_loop (16 * 8) (fun y buf =>
      for_loop (8 * 8) (fun x buf => some (GB_Debug_PrintZoomedSprite_fill y x buf)) buf)
      buf).bind (fun buf =>
    for_loop height (fun y buf =>
      for_loop 8 (fun x buf =>
        GB_Debug_PrintZoomedSprite_body mem height Info spr_data resolve y x buf) buf) buf) =
    some (zoomed_paint mem.VideoRAM height Info spr_data resolve buf) := by
  have hfill : for_loop (16 * 8) (fun y buf =>
      for_loop (8 * 8) (fun x buf => some (GB_Debug_PrintZoomedSprite_fill y x buf)) buf) buf =
      some (pure_loop (16 * 8) (fun y s => pure_loop (8 * 8) (fun x s =>
        GB_Debug_PrintZoomedSprite_fill y x s) s) buf) := by
    apply for_loop_eq_pure
    intro y _ s
    apply for_loop_eq_pure
    intro x _ s
    rfl
  rw [hfill, Option.some_bind]
  apply for_loop_eq_pure
  intro y hy s
  apply for_loop_eq_pure
  intro x _ s
  exact PrintZoomedSprite_body_eq mem height Info spr_data resolve y x s hrow hy hres

/-- The buffer `GB_Debug_PrintZoomedSprite` produces, as loops of stores that
cannot fail. -/
theorem PrintZoomedSprite_eq (E : Extern) (gb : GB_CONTEXT) (buf : Int → Nat)
    (sprite : Int) (h : 0 ≤ sprite ∧ sprite < 40) :
    GB_Debug_PrintZoomedSprite E gb buf sprite =
      some (zoomed_paint gb.Memory.VideoRAM (spriteheight E gb.Memory)
        ((gb.Memory.ObjAttrMem sprite.toNat).Info % 256)
        (sprite_data_offset E gb ((gb.Memory.ObjAttrMem sprite.toNat).Tile % 256)
          ((gb.Memory.ObjAttrMem sprite.toNat).Info % 256))
        (sprite_resolve E gb ((gb.Memory.ObjAttrMem sprite.toNat).Info % 256)) buf) := by
  have hrow : ∀ r, r < spriteheight E gb.Memory →
      sprite_data_offset E gb ((gb.Memory.ObjAttrMem sprite.toNat).Tile % 256)
        ((gb.Memory.ObjAttrMem sprite.toNat).Info % 256) + r * 2 + 1 < 0x4000 :=
    fun r hr => sprite_data_offset_lt E gb _ _ r (Nat.mod_lt _ (by decide)) hr
  have hres := sprite_resolve_some E gb ((gb.Memory.ObjAttrMem sprite.toNat).Info % 256)
  have hloop := zoomed_loop_eq gb.Memory (spriteheight E gb.Memory)
    ((gb.Memory.ObjAttrMem sprite.toNat).Info % 256) _ _ buf hrow hres
  rw [← hloop]
  obtain ⟨p0, p1, p2, p3, hp⟩ :=
    sprite_palette_cgb_some gb ((gb.Memory.ObjAttrMem sprite.toNat).Info % 256)
  by_cases hcgb : gb.Emulator.CGBEnabled ≠ 0
  · simp only [GB_Debug_PrintZoomedSprite, read_oam_some _ _ h, Option.bind_eq_bind,
      Option.some_bind, if_pos hcgb, hp, sprite_data_offset, sprite_resolve, Option.getD_some]
  · simp only [GB_Debug_PrintZoomedSprite, read_oam_some _ _ h, Option.bind_eq_bind,
      Option.some_bind, if_neg hcgb, sprite_data_offset, sprite_resolve]

/-! ### The height of a sprite and the tile of a sprite 16 high -/

theorem spriteheight_eq (E : Extern) (mem : GB_MEMORY) :
    spriteheight E mem = if (read_io mem E.LCDC_REG) &&& (1 <<< 2) ≠ 0 then 16 else 8 := by
  unfold spriteheight
  split <;> rfl

theorem and_0xFE_idem (t : Nat) : ((t &&& 0xFE) % 256) &&& 0xFE = t &&& 0xFE := by
  have h : t &&& 0xFE < 256 := Nat.lt_of_le_of_lt Nat.and_le_right (by decide)
  rw [Nat.mod_eq_of_lt h, Nat.and_assoc, Nat.and_self]

theorem sprite_data_offset_masked (E : Extern) (gb : GB_CONTEXT) (sprite Tile Info : Nat)
    (h16 : spriteheight E gb.Memory = 16) :
    sprite_data_offset E (set_sprite_tile gb sprite (Tile &&& 0xFE)) ((Tile &&& 0xFE) % 256) Info =
      sprite_data_offset E gb Tile Info := by
  have hh : spriteheight E (set_sprite_tile gb sprite (Tile &&& 0xFE)).Memory = 16 := h16
  have hc : (set_sprite_tile gb sprite (Tile &&& 0xFE)).Emulator.CGBEnabled =
      gb.Emulator.CGBEnabled := rfl
  simp only [sprite_data_offset, hh, h16, hc, if_true, and_0xFE_idem]

theorem set_sprite_tile_Tile (gb : GB_CONTEXT) (sprite tile : Nat) :
    ((set_sprite_tile gb sprite tile).Memory.ObjAttrMem sprite).Tile = tile := by
  simp only [set_sprite_tile, if_true]

theorem set_sprite_tile_Info (gb : GB_CONTEXT) (sprite tile : Nat) :
    ((set_sprite_tile gb sprite tile).Memory.ObjAttrMem sprite).Info =
      (gb.Memory.ObjAttrMem sprite).Info := by
  simp only [set_sprite_tile, if_true]

theorem set_sprite_tile_X (gb : GB_CONTEXT) (sprite tile : Nat) :
    ((set_sprite_tile gb sprite tile).Memory.ObjAttrMem sprite).X =
      (gb.Memory.ObjAttrMem sprite).X := by
  simp only [set_sprite_tile, if_true]

theorem set_sprite_tile_Y (gb : GB_CONTEXT) (sprite tile : Nat) :
    ((set_sprite_tile gb sprite tile).Memory.ObjAttrMem sprite).Y =
      (gb.Memory.ObjAttrMem sprite).Y := by
  simp only [set_sprite_tile, if_true]

theorem sprite_resolve_set_tile (E : Extern) (gb : GB_CONTEXT) (sprite tile Info : Nat) :
    sprite_resolve E (set_sprite_tile gb sprite tile) Info = sprite_resolve E gb Info := rfl


/-! ### The branch of `GB_Debug_MapPrint` outside of CGB mode -/

theorem map_bg_pal_get (E : Extern) (gb : GB_CONTEXT) (c : Nat) (hc : c < 4) :
    (map_bg_pal E gb)[c]? = some ((map_bg_pal E gb).getD c 0) ∧
    (map_bg_pal E gb).getD c 0 = gray (((read_io gb.Memory E.BGP_REG) >>> (2 * c)) &&& 3) 0 := by
  interval_cases c <;> exact ⟨rfl, rfl⟩

theorem map_data_dmg_eq (tiledata : Nat) (tile_base : Int) (t y : Nat)
    (htd : tiledata = if tile_base ≠ 0 then 0x0800 else 0x0000) (ht : t < 256) :
    (tiledata + (map_tile_number tile_base t <<< 4)) + ((y &&& 7) <<< 1) =
      (if tile_base ≠ 0 then (if t < 128 then 0x1000 + 16 * t else 16 * t) else 16 * t) +
        2 * (y &&& 7) := by
  rw [map_tile_number_eq tile_base t ht, Nat.shiftLeft_eq, Nat.shiftLeft_eq, htd]
  split_ifs <;> omega

theorem MapPrint_body_dmg_eq (E : Extern) (gb : GB_CONTEXT) (tiledata bgtilemap : Nat)
    (tile_base bufw : Int) (y x : Nat) (buffer : Int → Nat)
    (htd : tiledata = if tile_base ≠ 0 then 0x0800 else 0x0000) (hmap : bgtilemap ≤ 0x1C00) :
    GB_Debug_MapPrint_body_dmg gb tiledata bgtilemap tile_base bufw (map_bg_pal E gb) y x
      buffer =
      some (store_rgb buffer (((y : Int) * bufw + x) * 3)
        ((map_bg_pal E gb).getD (map_color_dmg gb tiledata bgtilemap tile_base y x) 0)
        ((map_bg_pal E gb).getD (map_color_dmg gb tiledata bgtilemap tile_base y x) 0)
        ((map_bg_pal E gb).getD (map_color_dmg gb tiledata bgtilemap tile_base y x) 0)) := by
  have hloc0 : bgtilemap + ((((y >>> 3) &&& 31) * 32) + ((x >>> 3) &&& 31)) < 0x4000 := by
    rw [and_31, and_31]; omega
  have r1 : read_vram gb.Memory (bgtilemap + ((((y >>> 3) &&& 31) * 32) + ((x >>> 3) &&& 31))) =
      some (map_tile gb bgtilemap y x) := read_vram_lt _ _ hloc0
  have ht : map_tile gb bgtilemap y x < 256 := Nat.mod_lt _ (by decide)
  have hd : (tiledata + (map_tile_number tile_base (map_tile gb bgtilemap y x) <<< 4)) +
      ((y &&& 7) <<< 1) + 1 < 0x4000 := by
    rw [map_data_dmg_eq tiledata tile_base _ y htd ht, and_0x7]
    split_ifs <;> omega
  have r3 := read_vram_lt gb.Memory _ (Nat.lt_of_succ_lt hd)
  have r4 := read_vram_lt gb.Memory _ hd
  have r5 := (map_bg_pal_get E gb (map_color_dmg gb tiledata bgtilemap tile_base y x)
    (color_index_lt _ _ _)).1
  simp only [map_color_dmg] at r5
  unfold GB_Debug_MapPrint_body_dmg
  simp only [Option.bind_eq_bind]
  rw [r1, Option.some_bind, r3, Option.some_bind, r4, Option.some_bind, r5, Option.some_bind]
  rfl

theorem MapPrint_dmg_eq (E : Extern) (gb : GB_CONTEXT) (buffer : Int → Nat)
    (bufw map tile_base : Int) (hcgb : gb.Emulator.CGBEnabled = 0) :
    GB_Debug_MapPrint E gb buffer bufw map tile_base =
      some (map_paint_dmg E gb (if tile_base ≠ 0 then 0x0800 else 0x0000)
        (if map ≠ 0 then 0x1C00 else 0x1800) tile_base bufw buffer) := by
  have hmap : (if map ≠ 0 then 0x1C00 else 0x1800 : Nat) ≤ 0x1C00 := by
    split_ifs <;> decide
  have hn : ¬ gb.Emulator.CGBEnabled ≠ 0 := not_not.mpr hcgb
  have g0 := (gray_row ((read_io gb.Memory E.BGP_REG) &&& 0x3) (and_3_lt _)).2.1
  have g1 := (gray_row (((read_io gb.Memory E.BGP_REG) >>> 2) &&& 0x3) (and_3_lt _)).2.1
  have g2 := (gray_row (((read_io gb.Memory E.BGP_REG) >>> 4) &&& 0x3) (and_3_lt _)).2.1
  have g3 := (gray_row (((read_io gb.Memory E.BGP_REG) >>> 6) &&& 0x3) (and_3_lt _)).2.1
  unfold GB_Debug_MapPrint
  simp only [if_neg hn]
  simp only [Option.bind_eq_bind]
  rw [g0, Option.some_bind, g1, Option.some_bind, g2, Option.some_bind, g3, Option.some_bind]
  apply for_loop_eq_pure
  intro y _ s
  apply for_loop_eq_pure
  intro x _ s
  exact MapPrint_body_dmg_eq E gb _ _ tile_base bufw y x s rfl hmap

theorem map_paint_dmg_pixel (E : Extern) (gb : GB_CONTEXT) (tiledata bgtilemap : Nat)
    (tile_base bufw : Int) (hw : 256 ≤ bufw) (buffer : Int → Nat) (x y k : Nat) (hx : x < 256)
    (hy : y < 256) (hk : k < 3) :
    map_paint_dmg E gb tiledata bgtilemap tile_base bufw buffer (((y : Int) * bufw + x) * 3 + k) =
      (map_bg_pal E gb).getD (map_color_dmg gb tiledata bgtilemap tile_base y x) 0 := by
  have h := raster_rgb 256 256 bufw (by simpa using hw)
    (fun y x _ => (map_bg_pal E gb).getD (map_color_dmg gb tiledata bgtilemap tile_base y x) 0)
    x y k hx hy hk buffer
  rw [map_paint_dmg, h]
  apply Nat.mod_eq_of_lt
  have hc : map_color_dmg gb tiledata bgtilemap tile_base y x < 4 := color_index_lt _ _ _
  rw [(map_bg_pal_get E gb _ hc).2]
  exact gray_lt _ _

theorem map_color_dmg_eq (gb : GB_CONTEXT) (tiledata bgtilemap : Nat) (tile_base : Int)
    (y x : Nat) (htd : tiledata = if tile_base ≠ 0 then 0x0800 else 0x0000) :
    map_color_dmg gb tiledata bgtilemap tile_base y x =
      tile_pixel_2bpp gb.Memory.VideoRAM
        (if tile_base ≠ 0 then
          (if map_tile gb bgtilemap y x < 128 then 0x1000 + 16 * map_tile gb bgtilemap y x
            else 16 * map_tile gb bgtilemap y x)
          else 16 * map_tile gb bgtilemap y x)
        (y &&& 7) (x &&& 7) := by
  have ht : map_tile gb bgtilemap y x < 256 := Nat.mod_lt _ (by decide)
  rw [map_color_dmg, color_index_eq, map_data_dmg_eq tiledata tile_base _ y htd ht,
    tile_pixel_2bpp]

theorem map_cell_eq (bgtilemap x y : Nat) (hx : x < 256) (hy : y < 256) :
    bgtilemap + (32 * (y >>> 3) + (x >>> 3)) =
      bgtilemap + ((((y >>> 3) &&& 31) * 32) + ((x >>> 3) &&& 31)) := by
  rw [shr3_and_31 y hy, shr3_and_31 x hx]
  omega

/-- The pixel `(x, y)` of the map in CGB mode: the colour that the iteration
stores and that the buffer holds afterwards. -/
theorem MapPrint_cgb_pixel_facts (E : Extern) (gb : GB_CONTEXT) (buffer : Int → Nat)
    (bufw map tile_base : Int) (hcgb : gb.Emulator.CGBEnabled ≠ 0) (x y : Nat)
    (hx : x < 256) (hy : y < 256) :
    let cell := (if map ≠ 0 then 0x1C00 else 0x1800) + (32 * (y >>> 3) + (x >>> 3))
    let t := gb.Memory.VideoRAM cell % 256
    let attr := gb.Memory.VideoRAM (cell + 0x2000) % 256
    let tile_addr :=
      if tile_base ≠ 0 then (if t < 128 then 0x1000 + 16 * t else 16 * t) else 16 * t
    let bank := if attr &&& (1 <<< 3) ≠ 0 then 0x2000 else 0
    let row := if attr &&& (1 <<< 6) ≠ 0 then 7 - (y &&& 7) else y &&& 7
    let col := if attr &&& (1 <<< 5) ≠ 0 then 7 - (x &&& 7) else x &&& 7
    let c := tile_pixel_2bpp gb.Memory.VideoRAM (bank + tile_addr) row col
    ∃ r g b : Nat,
      GB_Debug_GetPalette E gb 0 ((attr &&& 7 : Nat) : Int) ((c : Nat) : Int) = some (r, g, b) ∧
      (∀ buf : Int → Nat,
        GB_Debug_MapPrint_body_cgb gb (if tile_base ≠ 0 then 0x0800 else 0x0000)
          (if map ≠ 0 then 0x1C00 else 0x1800) tile_base bufw y x buf =
        some (store_rgb buf (((y : Int) * bufw + x) * 3) r g b)) ∧
      (256 ≤ bufw →
        map_paint_cgb gb (if tile_base ≠ 0 then 0x0800 else 0x0000)
          (if map ≠ 0 then 0x1C00 else 0x1800) tile_base bufw buffer
          (((y : Int) * bufw + x) * 3 + 0) = r ∧
        map_paint_cgb gb (if tile_base ≠ 0 then 0x0800 else 0x0000)
          (if map ≠ 0 then 0x1C00 else 0x1800) tile_base bufw buffer
          (((y : Int) * bufw + x) * 3 + 1) = g ∧
        map_paint_cgb gb (if tile_base ≠ 0 then 0x0800 else 0x0000)
          (if map ≠ 0 then 0x1C00 else 0x1800) tile_base bufw buffer
          (((y : Int) * bufw + x) * 3 + 2) = b) := by
  intro cell t attr tile_addr bank row col c
  have hmap : (if map ≠ 0 then 0x1C00 else 0x1800 : Nat) ≤ 0x1C00 := by
    split_ifs <;> decide
  have hcell : cell = (if map ≠ 0 then 0x1C00 else 0x1800) +
      ((((y >>> 3) &&& 31) * 32) + ((x >>> 3) &&& 31)) := map_cell_eq _ x y hx hy
  have ht : t = map_tile gb (if map ≠ 0 then 0x1C00 else 0x1800) y x := by
    show gb.Memory.VideoRAM cell % 256 = _
    rw [hcell, map_tile]
  have hattr : attr = map_tileinfo gb (if map ≠ 0 then 0x1C00 else 0x1800) y x := by
    show gb.Memory.VideoRAM (cell + 0x2000) % 256 = _
    rw [hcell, map_tileinfo, Nat.add_assoc]
  have hc : c = map_color_cgb gb (if tile_base ≠ 0 then 0x0800 else 0x0000)
      (if map ≠ 0 then 0x1C00 else 0x1800) tile_base y x := by
    rw [map_color_cgb_eq gb _ _ tile_base y x rfl, ← ht, ← hattr]
  have hnum : (0 : Int) ≤ ((attr &&& 7 : Nat) : Int) ∧ ((attr &&& 7 : Nat) : Int) ≤ 7 := by
    have : attr &&& 7 ≤ 7 := Nat.and_le_right
    omega
  have hcol : (0 : Int) ≤ ((c : Nat) : Int) ∧ ((c : Nat) : Int) ≤ 3 := by
    have : c < 4 := by rw [hc]; exact color_index_lt _ _ _
    omega
  refine ⟨(unpack15 (map_packed_cgb gb (if tile_base ≠ 0 then 0x0800 else 0x0000)
      (if map ≠ 0 then 0x1C00 else 0x1800) tile_base y x)).1,
    (unpack15 (map_packed_cgb gb (if tile_base ≠ 0 then 0x0800 else 0x0000)
      (if map ≠ 0 then 0x1C00 else 0x1800) tile_base y x)).2.1,
    (unpack15 (map_packed_cgb gb (if tile_base ≠ 0 then 0x0800 else 0x0000)
      (if map ≠ 0 then 0x1C00 else 0x1800) tile_base y x)).2.2, ?_, ?_, ?_⟩
  · rw [GetPalette_cgb_eq E gb 0 _ _ hcgb hnum hcol, hc, hattr, ← map_packed_cgb_entry]
  · intro buf
    exact MapPrint_body_cgb_eq gb _ _ tile_base bufw y x buf rfl hmap
  · intro hw
    have h := map_paint_cgb_pixel gb (if tile_base ≠ 0 then 0x0800 else 0x0000)
      (if map ≠ 0 then 0x1C00 else 0x1800) tile_base bufw hw buffer x y hx hy
    have h2 := Option.some.inj h
    exact ⟨congrArg Prod.fst h2, congrArg (fun p => p.2.1) h2, congrArg (fun p => p.2.2) h2⟩

/-- C16: in every hardware mode `GB_Debug_MapPrint` returns, and the iteration of
every pixel `(x, y)` with `x, y < 256` stores all three bytes of the pixel,
whatever its colour index `c` is: in CGB mode the triple
`GB_Debug_GetPalette(0, attr & 7, c)` and otherwise the gray level
`gb_pal_colors[(BGP >> (2*c)) & 3][0]` in all three channels, for `c = 0` the
level `gb_pal_colors[BGP & 3][0]`; no pixel is skipped. These are the bytes the
buffer holds afterwards if a line of the buffer has at least 256 pixels. -/
theorem MapPrint_writes_every_pixel (E : Extern) (gb : GB_CONTEXT) (buffer : Int → Nat)
    (bufw map tile_base : Int) :
    ∃ out : Int → Nat,
      GB_Debug_MapPrint E gb buffer bufw map tile_base = some out ∧
      ∀ x y : Nat, x < 256 → y < 256 →
        let cell := (if map ≠ 0 then 0x1C00 else 0x1800) + (32 * (y >>> 3) + (x >>> 3))
        let t := gb.Memory.VideoRAM cell % 256
        let attr := gb.Memory.VideoRAM (cell + 0x2000) % 256
        let tile_addr :=
          if tile_base ≠ 0 then (if t < 128 then 0x1000 + 16 * t else 16 * t) else 16 * t
        let bank := if attr &&& (1 <<< 3) ≠ 0 then 0x2000 else 0
        let row := if attr &&& (1 <<< 6) ≠ 0 then 7 - (y &&& 7) else y &&& 7
        let col := if attr &&& (1 <<< 5) ≠ 0 then 7 - (x &&& 7) else x &&& 7
        let c_cgb := tile_pixel_2bpp gb.Memory.VideoRAM (bank + tile_addr) row col
        let c_dmg := tile_pixel_2bpp gb.Memory.VideoRAM tile_addr (y &&& 7) (x &&& 7)
        let bgp := read_io gb.Memory E.BGP_REG
        (gb.Emulator.CGBEnabled ≠ 0 →
          ∃ r g b : Nat,
            GB_Debug_GetPalette E gb 0 ((attr &&& 7 : Nat) : Int) ((c_cgb : Nat) : Int) =
              some (r, g, b) ∧
            (∀ buf : Int → Nat,
              GB_Debug_MapPrint_body_cgb gb (if tile_base ≠ 0 then 0x0800 else 0x0000)
                (if map ≠ 0 then 0x1C00 else 0x1800) tile_base bufw y x buf =
              some (store_rgb buf (((y : Int) * bufw + x) * 3) r g b)) ∧
            (256 ≤ bufw →
              out (((y : Int) * bufw + x) * 3 + 0) = r ∧
              out (((y : Int) * bufw + x) * 3 + 1) = g ∧
              out (((y : Int) * bufw + x) * 3 + 2) = b)) ∧
        (gb.Emulator.CGBEnabled = 0 →
          ∃ v : Nat,
            gb_pal_colors_at ((bgp >>> (2 * c_dmg)) &&& 3) 0 = some v ∧
            (c_dmg = 0 → gb_pal_colors_at (bgp &&& 3) 0 = some v) ∧
            (∀ buf : Int → Nat,
              GB_Debug_MapPrint_body_dmg gb (if tile_base ≠ 0 then 0x0800 else 0x0000)
                (if map ≠ 0 then 0x1C00 else 0x1800) tile_base bufw (map_bg_pal E gb) y x buf =
              some (store_rgb buf (((y : Int) * bufw + x) * 3) v v v)) ∧
            (256 ≤ bufw →
              out (((y : Int) * bufw + x) * 3 + 0) = v ∧
              out (((y : Int) * bufw + x) * 3 + 1) = v ∧
              out (((y : Int) * bufw + x) * 3 + 2) = v)) := by
  by_cases hcgb : gb.Emulator.CGBEnabled ≠ 0
  · refine ⟨_, MapPrint_cgb_eq E gb buffer bufw map tile_base hcgb, ?_⟩
    intro x y hx hy cell t attr tile_addr bank row col c_cgb c_dmg bgp
    refine ⟨fun _ => MapPrint_cgb_pixel_facts E gb buffer bufw map tile_base hcgb x y hx hy,
      fun h0 => absurd h0 hcgb⟩
  · have hcgb0 : gb.Emulator.CGBEnabled = 0 := not_not.mp hcgb
    refine ⟨_, MapPrint_dmg_eq E gb buffer bufw map tile_base hcgb0, ?_⟩
    intro x y hx hy cell t attr tile_addr bank row col c_cgb c_dmg bgp
    refine ⟨fun h1 => absurd h1 hcgb, fun _ => ?_⟩
    have hmap : (if map ≠ 0 then 0x1C00 else 0x1800 : Nat) ≤ 0x1C00 := by
      split_ifs <;> decide
    have hcell : cell = (if map ≠ 0 then 0x1C00 else 0x1800) +
        ((((y >>> 3) &&& 31) * 32) + ((x >>> 3) &&& 31)) := map_cell_eq _ x y hx hy
    have ht : t = map_tile gb (if map ≠ 0 then 0x1C00 else 0x1800) y x := by
      show gb.Memory.VideoRAM cell % 256 = _
      rw [hcell, map_tile]
    have hc : c_dmg = map_color_dmg gb (if tile_base ≠ 0 then 0x0800 else 0x0000)
        (if map ≠ 0 then 0x1C00 else 0x1800) tile_base y x := by
      rw [map_color_dmg_eq gb _ _ tile_base y x rfl, ← ht]
    have hc4 : c_dmg < 4 := by rw [hc]; exact color_index_lt _ _ _
    have hget := map_bg_pal_get E gb c_dmg hc4
    have hgray := (gray_row ((bgp >>> (2 * c_dmg)) &&& 3) (and_3_lt _)).2.1
    refine ⟨(map_bg_pal E gb).getD c_dmg 0, ?_, ?_, ?_, ?_⟩
    · rw [hget.2]
      exact hgray
    · intro h0
      rw [hget.2, h0]
      exact (gray_row (bgp &&& 3) (and_3_lt _)).2.1
    · intro buf
      rw [hc]
      exact MapPrint_body_dmg_eq E gb _ _ tile_base bufw y x buf rfl hmap
    · intro hw
      have p := fun k hk => map_paint_dmg_pixel E gb (if tile_base ≠ 0 then 0x0800 else 0x0000)
        (if map ≠ 0 then 0x1C00 else 0x1800) tile_base bufw hw buffer x y k hx hy hk
      have q0 := p 0 (by decide)
      have q1 := p 1 (by decide)
      have q2 := p 2 (by decide)
      simp only [Nat.cast_zero, Nat.cast_one, Nat.cast_ofNat] at q0 q1 q2
      rw [hc]
      exact ⟨q0, q1, q2⟩

/-- Witness of C16: the map of the blank state, outside of CGB mode; every
colour index is 0 and BGP is 0, so the pixel (20, 9) is white. -/
theorem MapPrint_writes_every_pixel_witness :
    ∃ out : Int → Nat,
      GB_Debug_MapPrint sampleExtern blankState (fun _ => 7) 256 0 0 = some out ∧
      out ((((9 : Nat) : Int) * 256 + (20 : Nat)) * 3 + 0) = 255 ∧
      out ((((9 : Nat) : Int) * 256 + (20 : Nat)) * 3 + 1) = 255 ∧
      out ((((9 : Nat) : Int) * 256 + (20 : Nat)) * 3 + 2) = 255 := by
  obtain ⟨out, h, hp⟩ := MapPrint_writes_every_pixel sampleExtern blankState (fun _ => 7)
    256 0 0
  refine ⟨out, h, ?_⟩
  obtain ⟨v, hv, _, _, hout⟩ := (hp 20 9 (by decide) (by decide)).2 rfl
  have hv2 : some (255 : Nat) = some v := Eq.trans (Eq.symm (by decide)) hv
  have hv255 : v = 255 := (Option.some.inj hv2).symm
  obtain ⟨h0, h1, h2⟩ := hout (by decide)
  rw [h0, h1, h2, hv255]
  exact ⟨rfl, rfl, rfl⟩

/-! ## The external RAM of the camera -/

theorem shiftRight_and (a b i : Nat) : (a &&& b) >>> i = (a >>> i) &&& (b >>> i) := by
  apply Nat.eq_of_testBit_eq
  intro j
  simp only [Nat.testBit_shiftRight, Nat.testBit_and]

theorem and_s32_nat (a m : Nat) (ha : a < 2 ^ 32) : and_s32 (a : Int) m = a &&& m := by
  have h : ((a : Int) % 2 ^ 32).toNat = a := by omega
  rw [and_s32, h]

theorem camera_split_nat (a : Nat) (ha : a < 2 ^ 32) :
    camera_bank (a : Int) = a / 8192 % 16 ∧ camera_bankaddr (a : Int) = a % 8192 := by
  constructor
  · rw [camera_bank, and_s32_nat a _ ha, shiftRight_and,
      show (0x1E000 >>> 13 : Nat) = 2 ^ 4 - 1 from rfl, Nat.and_pow_two_sub_one_eq_mod,
      Nat.shiftRight_eq_div_pow]
  · rw [camera_bankaddr, and_s32_nat a _ ha, show (0x1FFF : Nat) = 2 ^ 13 - 1 from rfl,
      Nat.and_pow_two_sub_one_eq_mod]

/-- C17: for every flat address `addr` in `0..0x1FFFF`, the split used by the
camera renderers, bank `(addr & 0x1E000) >> 13` and offset `addr & 0x1FFF`, has
bank below 16, offset below `0x2000` and `bank*0x2000 + offset = addr`; `0x2E00`
is bank 1, offset `0x0E00` and `0x0100` is bank 0, offset `0x0100`. -/
theorem camera_bank_split (addr : Nat) (h : addr ≤ 0x1FFFF) :
    camera_bank (addr : Int) = (addr &&& 0x1E000) >>> 13 ∧
    camera_bankaddr (addr : Int) = addr &&& 0x1FFF ∧
    camera_bank (addr : Int) < 16 ∧
    camera_bankaddr (addr : Int) < 0x2000 ∧
    camera_bank (addr : Int) * 0x2000 + camera_bankaddr (addr : Int) = addr ∧
    (camera_bank 0x2E00 = 1 ∧ camera_bankaddr 0x2E00 = 0x0E00) ∧
    (camera_bank 0x0100 = 0 ∧ camera_bankaddr 0x0100 = 0x0100) := by
  have ha : addr < 2 ^ 32 := by
    have : (2 : Nat) ^ 32 = 4294967296 := by norm_num
    omega
  obtain ⟨hb, ho⟩ := camera_split_nat addr ha
  refine ⟨?_, ?_, ?_, ?_, ?_, ⟨by decide, by decide⟩, ⟨by decide, by decide⟩⟩
  · rw [camera_bank, and_s32_nat addr _ ha]
  · rw [camera_bankaddr, and_s32_nat addr _ ha]
  · rw [hb]; omega
  · rw [ho]; omega
  · rw [hb, ho]; omega

/-- Witness of C17: the last byte `0x1FFFF` of the external RAM is the last byte
of bank 15. -/
theorem camera_bank_split_witness :
    (0x1FFFF : Nat) ≤ 0x1FFFF ∧
    camera_bank ((0x1FFFF : Nat) : Int) * 0x2000 + camera_bankaddr ((0x1FFFF : Nat) : Int) =
      0x1FFFF :=
  ⟨by decide, (camera_bank_split 0x1FFFF (by decide)).2.2.2.2.1⟩

theorem read_extern_ram_lt (mem : GB_MEMORY) (bank addr : Nat) (hb : bank < 16)
    (ha : addr < 0x2000) :
    read_extern_ram mem bank addr = some (mem.ExternRAM bank addr % 256) := by
  have h : bank < EXTERN_RAM_BANKS ∧ addr < EXTERN_RAM_BANK_SIZE := ⟨hb, ha⟩
  rw [read_extern_ram, if_pos h]

theorem extern_flat_bank (mem : GB_MEMORY) (bank off a : Nat) (ho : off < 0x2000)
    (ha : a = bank * 0x2000 + off) : extern_flat mem a = mem.ExternRAM bank off := by
  have h1 : a / 0x2000 = bank := by omega
  have h2 : a % 0x2000 = off := by omega
  rw [extern_flat, h1, h2]

theorem camera_pixel_eq (gb : GB_CONTEXT) (tiles bank bankaddr y x : Nat)
    (hfit : bankaddr + 16 * ((y >>> 3) * tiles + (x >>> 3)) + 16 ≤ 0x2000) :
    camera_pixel gb tiles (bank * 0x2000 + bankaddr) y x =
      color_index
        (gb.Memory.ExternRAM bank
          (bankaddr + ((((y >>> 3) * tiles) + (x >>> 3)) * 16) + ((y &&& 7) <<< 1)) % 256)
        (gb.Memory.ExternRAM bank
          (bankaddr + ((((y >>> 3) * tiles) + (x >>> 3)) * 16) + ((y &&& 7) <<< 1) + 1) % 256)
        (7 - (x &&& 7)) := by
  have hr : (y &&& 7) <<< 1 = 2 * (y % 8) := by
    rw [and_0x7, Nat.shiftLeft_eq]; omega
  have h7 : y &&& 7 = y % 8 := and_0x7 y
  have e0 := extern_flat_bank gb.Memory bank
    (bankaddr + ((((y >>> 3) * tiles) + (x >>> 3)) * 16) + ((y &&& 7) <<< 1))
    (bank * 0x2000 + bankaddr + 16 * ((y >>> 3) * tiles + (x >>> 3)) + 2 * (y &&& 7))
    (by rw [hr]; omega) (by rw [hr, h7]; omega)
  have e1 := extern_flat_bank gb.Memory bank
    (bankaddr + ((((y >>> 3) * tiles) + (x >>> 3)) * 16) + ((y &&& 7) <<< 1) + 1)
    (bank * 0x2000 + bankaddr + 16 * ((y >>> 3) * tiles + (x >>> 3)) + 2 * (y &&& 7) + 1)
    (by rw [hr]; omega) (by rw [hr, h7]; omega)
  rw [color_index_eq, camera_pixel, tile_pixel_2bpp, e0, e1]

theorem camera_body_eq (gb : GB_CONTEXT) (tiles bank bankaddr : Nat) (bufw posx posy : Int)
    (y x : Nat) (buf : Int → Nat) (hb : bank < 16)
    (hfit : bankaddr + 16 * ((y >>> 3) * tiles + (x >>> 3)) + 16 ≤ 0x2000) :
    GB_Debug_GBCameraPhotoPrint_body gb tiles bank bankaddr bufw posx posy y x buf =
      some (store_rgb buf ((((y : Int) + posy) * bufw + ((x : Int) + posx)) * 3)
        (gray (camera_pixel gb tiles (bank * 0x2000 + bankaddr) y x) 0)
        (gray (camera_pixel gb tiles (bank * 0x2000 + bankaddr) y x) 0)
        (gray (camera_pixel gb tiles (bank * 0x2000 + bankaddr) y x) 0)) := by
  have hr : (y &&& 7) <<< 1 = 2 * (y % 8) := by
    rw [and_0x7, Nat.shiftLeft_eq]; omega
  have ha : bankaddr + ((((y >>> 3) * tiles) + (x >>> 3)) * 16) + ((y &&& 7) <<< 1) + 1 <
      0x2000 := by
    rw [hr]; omega
  have hc := gray_row (camera_pixel gb tiles (bank * 0x2000 + bankaddr) y x)
    (by rw [camera_pixel_eq gb tiles bank bankaddr y x hfit]; exact color_index_lt _ _ _)
  rw [camera_pixel_eq gb tiles bank bankaddr y x hfit] at hc ⊢
  simp only [GB_Debug_GBCameraPhotoPrint_body,
    read_extern_ram_lt _ _ _ hb (Nat.lt_of_succ_lt ha), read_extern_ram_lt _ _ _ hb ha, hc.2.1,
    Option.bind_eq_bind, Option.some_bind, Option.pure_def]

theorem camera_tile_fits (tiles rows bankaddr y x : Nat) (hy : y < rows * 8) (hx : x < tiles * 8)
    (hfit : bankaddr + 16 * (rows * tiles) ≤ 0x2000) :
    bankaddr + 16 * ((y >>> 3) * tiles + (x >>> 3)) + 16 ≤ 0x2000 := by
  have h1 : y >>> 3 + 1 ≤ rows := by
    rw [Nat.shiftRight_eq_div_pow]; omega
  have h2 : x >>> 3 < tiles := by
    rw [Nat.shiftRight_eq_div_pow]; omega
  have h3 : (y >>> 3 + 1) * tiles ≤ rows * tiles := Nat.mul_le_mul_right tiles h1
  have h4 : (y >>> 3 + 1) * tiles = (y >>> 3) * tiles + tiles := by ring
  omega

theorem camera_loop_eq (gb : GB_CONTEXT) (tiles rows bank bankaddr : Nat) (bufw posx posy : Int)
    (buf : Int → Nat) (hb : bank < 16) (hfit : bankaddr + 16 * (rows * tiles) ≤ 0x2000) :
    for_loop (rows * 8) (fun y buffer =>
      for_loop (tiles * 8) (fun x buffer =>
        GB_Debug_GBCameraPhotoPrint_body gb tiles bank bankaddr bufw posx posy y x buffer)
        buffer) buf =
      some (camera_paint gb tiles (rows * 8) (tiles * 8) (bank * 0x2000 + bankaddr) bufw posx
        posy buf) := by
  apply for_loop_eq_pure
  intro y hy s
  apply for_loop_eq_pure
  intro x hx s
  exact camera_body_eq gb tiles bank bankaddr bufw posx posy y x s hb
    (camera_tile_fits tiles rows bankaddr y x hy hx hfit)

theorem raster_rgb_off (H W : Nat) (bufw c : Int) (hw : (W : Int) ≤ bufw)
    (col : Nat → Nat → Nat → Nat) (idx : Nat → Nat → Int)
    (hidx : ∀ y x : Nat, idx y x = ((y : Int) * bufw + x) * 3 + c)
    (x y k : Nat) (hx : x < W) (hy : y < H) (hk : k < 3) (s : Int → Nat) :
    pure_loop H (fun y s => pure_loop W (fun x s =>
      store_rgb s (idx y x) (col y x 0) (col y x 1) (col y x 2)) s) s (idx y x + k) =
      col y x k % 256 := by
  apply raster_at H W (fun y x s => store_rgb s (idx y x) (col y x 0) (col y x 1) (col y x 2))
    _ _ x y hx hy
  · intro s
    rw [store_rgb_at _ _ _ _ _ k hk]
    interval_cases k <;> simp
  · intro y2 x2 _ hx2 hne s
    apply store_rgb_other
    have hn := raster_index_ne bufw W hw x y x2 y2 hx hx2 hne
    rw [hidx, hidx]
    omega

theorem camera_paint_pixel (gb : GB_CONTEXT) (tiles H W start : Nat) (bufw posx posy : Int)
    (hw : (W : Int) ≤ bufw) (buf : Int → Nat) (x y k : Nat) (hx : x < W) (hy : y < H)
    (hk : k < 3) :
    camera_paint gb tiles H W start bufw posx posy buf
      ((((y : Int) + posy) * bufw + ((x : Int) + posx)) * 3 + k) =
      gray (camera_pixel gb tiles start y x) 0 := by
  have h := raster_rgb_off H W bufw ((posy * bufw + posx) * 3) hw
    (fun y x _ => gray (camera_pixel gb tiles start y x) 0)
    (fun y x => (((y : Int) + posy) * bufw + ((x : Int) + posx)) * 3)
    (fun y x => by ring) x y k hx hy hk buf
  rw [camera_paint, h]
  exact Nat.mod_eq_of_lt (gray_lt _ _)

theorem camera_pixel_bank (gb : GB_CONTEXT) (tiles bank bankaddr start y x : Nat)
    (hs : start = bank * 0x2000 + bankaddr)
    (hfit : bankaddr + 16 * ((y >>> 3) * tiles + (x >>> 3)) + 16 ≤ 0x2000) :
    camera_pixel gb tiles start y x =
      tile_pixel_2bpp (gb.Memory.ExternRAM bank)
        (bankaddr + 16 * ((y >>> 3) * tiles + (x >>> 3))) (y &&& 7) (x &&& 7) := by
  have h7 : y &&& 7 = y % 8 := and_0x7 y
  have e0 := extern_flat_bank gb.Memory bank
    (bankaddr + 16 * ((y >>> 3) * tiles + (x >>> 3)) + 2 * (y &&& 7))
    (start + 16 * ((y >>> 3) * tiles + (x >>> 3)) + 2 * (y &&& 7))
    (by rw [h7]; omega) (by rw [hs]; omega)
  have e1 := extern_flat_bank gb.Memory bank
    (bankaddr + 16 * ((y >>> 3) * tiles + (x >>> 3)) + 2 * (y &&& 7) + 1)
    (start + 16 * ((y >>> 3) * tiles + (x >>> 3)) + 2 * (y &&& 7) + 1)
    (by rw [h7]; omega) (by rw [hs]; omega)
  rw [camera_pixel, tile_pixel_2bpp, tile_pixel_2bpp, e0, e1]

theorem camera_split_photo (i : Nat) (hi : i ≤ 29) :
    camera_bank ((i : Int) * 0x1000 + 0x2000) = 1 + i / 2 ∧
    camera_bankaddr ((i : Int) * 0x1000 + 0x2000) = (i % 2) * 0x1000 := by
  have h32 : (2 : Nat) ^ 32 = 4294967296 := by norm_num
  have hc : ((i : Int) * 0x1000 + 0x2000) = ((i * 0x1000 + 0x2000 : Nat) : Int) := by
    push_cast; ring
  obtain ⟨hb, ho⟩ := camera_split_nat (i * 0x1000 + 0x2000) (by omega)
  rw [hc, hb, ho]
  constructor <;> omega

theorem camera_split_mini (i : Nat) (hi : i ≤ 29) :
    camera_bank ((i : Int) * 0x1000 + 0x2E00) = 1 + i / 2 ∧
    camera_bankaddr ((i : Int) * 0x1000 + 0x2E00) = (i % 2) * 0x1000 + 0x0E00 := by
  have h32 : (2 : Nat) ^ 32 = 4294967296 := by norm_num
  have hc : ((i : Int) * 0x1000 + 0x2E00) = ((i * 0x1000 + 0x2E00 : Nat) : Int) := by
    push_cast; ring
  obtain ⟨hb, ho⟩ := camera_split_nat (i * 0x1000 + 0x2E00) (by omega)
  rw [hc, hb, ho]
  constructor <;> omega

theorem CameraPhotoPrint_eq (gb : GB_CONTEXT) (buffer : Int → Nat) (bufw : Int) (i : Nat)
    (hi : i ≤ 29) :
    GB_Debug_GBCameraPhotoPrint gb buffer bufw (i : Int) =
      some (camera_paint gb 16 (14 * 8) (16 * 8) (0x2000 + i * 0x1000) bufw 0 0 buffer) := by
  have hne : ¬ ((i : Int) = -1) := by omega
  obtain ⟨hb, ho⟩ := camera_split_photo i hi
  have hs : (1 + i / 2) * 0x2000 + (i % 2) * 0x1000 = 0x2000 + i * 0x1000 := by omega
  have h := camera_loop_eq gb 16 14 (1 + i / 2) ((i % 2) * 0x1000) bufw 0 0 buffer (by omega)
    (by omega)
  rw [hs] at h
  simp only [GB_Debug_GBCameraPhotoPrint, if_neg hne]
  rw [hb, ho]
  exact h

theorem CameraPhotoPrint_last_eq (gb : GB_CONTEXT) (buffer : Int → Nat) (bufw : Int) :
    GB_Debug_GBCameraPhotoPrint gb buffer bufw (-1) =
      some (camera_paint gb 16 (14 * 8) (16 * 8) 0x0100 bufw 0 0 buffer) := by
  have hb : camera_bank 0x0100 = 0 := by decide
  have ho : camera_bankaddr 0x0100 = 0x0100 := by decide
  have h := camera_loop_eq gb 16 14 0 0x0100 bufw 0 0 buffer (by omega) (by omega)
  simp only [GB_Debug_GBCameraPhotoPrint, eq_self_iff_true, if_true]
  rw [hb, ho]
  exact h

theorem CameraMiniPhotoPrint_eq (gb : GB_CONTEXT) (buffer : Int → Nat) (bufw posx posy : Int)
    (i : Nat) (hi : i ≤ 29) :
    GB_Debug_GBCameraMiniPhotoPrint gb buffer bufw posx posy (i : Int) =
      some (camera_paint gb 4 (4 * 8) (4 * 8) (0x2E00 + i * 0x1000) bufw posx posy buffer) := by
  obtain ⟨hb, ho⟩ := camera_split_mini i hi
  have hs : (1 + i / 2) * 0x2000 + ((i % 2) * 0x1000 + 0x0E00) = 0x2E00 + i * 0x1000 := by omega
  have h := camera_loop_eq gb 4 4 (1 + i / 2) ((i % 2) * 0x1000 + 0x0E00) bufw posx posy buffer
    (by omega) (by omega)
  rw [hs] at h
  simp only [GB_Debug_GBCameraMiniPhotoPrint]
  rw [hb, ho]
  exact h

theorem camera_facts (gb : GB_CONTEXT) (tiles rows bank bankaddr start : Nat)
    (bufw posx posy : Int) (hb : bank < 16) (hfit : bankaddr + 16 * (rows * tiles) ≤ 0x2000)
    (hs : start = bank * 0x2000 + bankaddr) (x y k : Nat) (hx : x < tiles * 8)
    (hy : y < rows * 8) (hk : k < 3) :
    camera_pixel gb tiles start y x =
      tile_pixel_2bpp (gb.Memory.ExternRAM bank)
        (bankaddr + 16 * ((y >>> 3) * tiles + (x >>> 3))) (y &&& 7) (x &&& 7) ∧
    (∀ buf : Int → Nat,
      GB_Debug_GBCameraPhotoPrint_body gb tiles bank bankaddr bufw posx posy y x buf =
        some (store_rgb buf ((((y : Int) + posy) * bufw + ((x : Int) + posx)) * 3)
          (gray (camera_pixel gb tiles start y x) 0) (gray (camera_pixel gb tiles start y x) 0)
          (gray (camera_pixel gb tiles start y x) 0))) ∧
    (((tiles * 8 : Nat) : Int) ≤ bufw → ∀ buf : Int → Nat,
      camera_paint gb tiles (rows * 8) (tiles * 8) start bufw posx posy buf
        ((((y : Int) + posy) * bufw + ((x : Int) + posx)) * 3 + k) =
        gray (camera_pixel gb tiles start y x) 0) := by
  have hf := camera_tile_fits tiles rows bankaddr y x hy hx hfit
  refine ⟨camera_pixel_bank gb tiles bank bankaddr start y x hs hf, ?_, ?_⟩
  · intro buf
    rw [hs]
    exact camera_body_eq gb tiles bank bankaddr bufw posx posy y x buf hb hf
  · intro hw buf
    exact camera_paint_pixel gb tiles (rows * 8) (tiles * 8) start bufw posx posy hw buf x y k
      hx hy hk

/-- C18: for every photo index `i` in `0..29`, `GB_Debug_GBCameraPhotoPrint`
splits the flat address `0x2000 + i*0x1000` into the bank `1 + i/2` and the
offset `(i mod 2)*0x1000`, returns, and decodes the pixel `(x, y)` of its
`128 x 112` picture from the tile `(y/8)*16 + x/8` counted from that offset of
that bank; `GB_Debug_GBCameraMiniPhotoPrint` does the same for its `32 x 32`
picture from `0x2E00 + i*0x1000`, bank `1 + i/2`, offset
`(i mod 2)*0x1000 + 0x0E00`; and `GB_Debug_GBCameraPhotoPrint` with index `-1`
decodes from the flat address `0x0100`, bank 0, offset `0x0100`. Each iteration
stores the gray of the decoded index for every line width, and the final buffer
holds it when a line has room for the picture. -/
theorem camera_photo_start_address (gb : GB_CONTEXT) (buffer : Int → Nat)
    (bufw posx posy : Int) (i : Nat) (hi : i ≤ 29) :
    (camera_bank ((i : Int) * 0x1000 + 0x2000) = 1 + i / 2 ∧
      camera_bankaddr ((i : Int) * 0x1000 + 0x2000) = (i % 2) * 0x1000 ∧
      (1 + i / 2) * 0x2000 + (i % 2) * 0x1000 = 0x2000 + i * 0x1000) ∧
    (camera_bank ((i : Int) * 0x1000 + 0x2E00) = 1 + i / 2 ∧
      camera_bankaddr ((i : Int) * 0x1000 + 0x2E00) = (i % 2) * 0x1000 + 0x0E00 ∧
      (1 + i / 2) * 0x2000 + ((i % 2) * 0x1000 + 0x0E00) = 0x2E00 + i * 0x1000) ∧
    (camera_bank 0x0100 = 0 ∧ camera_bankaddr 0x0100 = 0x0100) ∧
    (∃ out, GB_Debug_GBCameraPhotoPrint gb buffer bufw (i : Int) = some out ∧
      ∀ x y k : Nat, x < 128 → y < 112 → k < 3 →
        camera_pixel gb 16 (0x2000 + i * 0x1000) y x =
          tile_pixel_2bpp (gb.Memory.ExternRAM (1 + i / 2))
            ((i % 2) * 0x1000 + 16 * ((y >>> 3) * 16 + (x >>> 3))) (y &&& 7) (x &&& 7) ∧
        (∀ buf : Int → Nat,
          GB_Debug_GBCameraPhotoPrint_body gb 16 (camera_bank ((i : Int) * 0x1000 + 0x2000))
            (camera_bankaddr ((i : Int) * 0x1000 + 0x2000)) bufw 0 0 y x buf =
            some (store_rgb buf (((y : Int) * bufw + x) * 3)
              (gray (camera_pixel gb 16 (0x2000 + i * 0x1000) y x) 0)
              (gray (camera_pixel gb 16 (0x2000 + i * 0x1000) y x) 0)
              (gray (camera_pixel gb 16 (0x2000 + i * 0x1000) y x) 0))) ∧
        (128 ≤ bufw → out (((y : Int) * bufw + x) * 3 + k) =
          gray (camera_pixel gb 16 (0x2000 + i * 0x1000) y x) 0)) ∧
    (∃ out, GB_Debug_GBCameraMiniPhotoPrint gb buffer bufw posx posy (i : Int) = some out ∧
      ∀ x y k : Nat, x < 32 → y < 32 → k < 3 →
        camera_pixel gb 4 (0x2E00 + i * 0x1000) y x =
          tile_pixel_2bpp (gb.Memory.ExternRAM (1 + i / 2))
            ((i % 2) * 0x1000 + 0x0E00 + 16 * ((y >>> 3) * 4 + (x >>> 3))) (y &&& 7)
            (x &&& 7) ∧
        (∀ buf : Int → Nat,
          GB_Debug_GBCameraPhotoPrint_body gb 4 (camera_bank ((i : Int) * 0x1000 + 0x2E00))
            (camera_bankaddr ((i : Int) * 0x1000 + 0x2E00)) bufw posx posy y x buf =
            some (store_rgb buf ((((y : Int) + posy) * bufw + ((x : Int) + posx)) * 3)
              (gray (camera_pixel gb 4 (0x2E00 + i * 0x1000) y x) 0)
              (gray (camera_pixel gb 4 (0x2E00 + i * 0x1000) y x) 0)
              (gray (camera_pixel gb 4 (0x2E00 + i * 0x1000) y x) 0))) ∧
        (32 ≤ bufw → out ((((y : Int) + posy) * bufw + ((x : Int) + posx)) * 3 + k) =
          gray (camera_pixel gb 4 (0x2E00 + i * 0x1000) y x) 0)) ∧
    (∃ out, GB_Debug_GBCameraPhotoPrint gb buffer bufw (-1) = some out ∧
      ∀ x y k : Nat, x < 128 → y < 112 → k < 3 →
        camera_pixel gb 16 0x0100 y x =
          tile_pixel_2bpp (gb.Memory.ExternRAM 0)
            (0x0100 + 16 * ((y >>> 3) * 16 + (x >>> 3))) (y &&& 7) (x &&& 7) ∧
        (∀ buf : Int → Nat,
          GB_Debug_GBCameraPhotoPrint_body gb 16 (camera_bank 0x0100) (camera_bankaddr 0x0100)
            bufw 0 0 y x buf =
            some (store_rgb buf (((y : Int) * bufw + x) * 3)
              (gray (camera_pixel gb 16 0x0100 y x) 0) (gray (camera_pixel gb 16 0x0100 y x) 0)
              (gray (camera_pixel gb 16 0x0100 y x) 0))) ∧
        (128 ≤ bufw → out (((y : Int) * bufw + x) * 3 + k) =
          gray (camera_pixel gb 16 0x0100 y x) 0)) := by
  obtain ⟨hbP, hoP⟩ := camera_split_photo i hi
  obtain ⟨hbM, hoM⟩ := camera_split_mini i hi
  have hbL : camera_bank 0x0100 = 0 := by decide
  have hoL : camera_bankaddr 0x0100 = 0x0100 := by decide
  have hsP : (1 + i / 2) * 0x2000 + (i % 2) * 0x1000 = 0x2000 + i * 0x1000 := by omega
  have hsM : (1 + i / 2) * 0x2000 + ((i % 2) * 0x1000 + 0x0E00) = 0x2E00 + i * 0x1000 := by
    omega
  have hidx : ∀ x y : Nat, (((y : Int) + 0) * bufw + ((x : Int) + 0)) * 3 =
      ((y : Int) * bufw + x) * 3 := by
    intro x y; simp
  refine ⟨⟨hbP, hoP, hsP⟩, ⟨hbM, hoM, hsM⟩, ⟨hbL, hoL⟩,
    ⟨_, CameraPhotoPrint_eq gb buffer bufw i hi, ?_⟩,
    ⟨_, CameraMiniPhotoPrint_eq gb buffer bufw posx posy i hi, ?_⟩,
    ⟨_, CameraPhotoPrint_last_eq gb buffer bufw, ?_⟩⟩
  · intro x y k hx hy hk
    obtain ⟨h1, h2, h3⟩ := camera_facts gb 16 14 (1 + i / 2) ((i % 2) * 0x1000)
      (0x2000 + i * 0x1000) bufw 0 0 (by omega) (by omega) hsP.symm x y k (by omega) (by omega) hk
    rw [hbP, hoP]
    simp only [hidx] at h2 h3
    exact ⟨h1, h2, fun hw => h3 (by push_cast; omega) buffer⟩
  · intro x y k hx hy hk
    obtain ⟨h1, h2, h3⟩ := camera_facts gb 4 4 (1 + i / 2) ((i % 2) * 0x1000 + 0x0E00)
      (0x2E00 + i * 0x1000) bufw posx posy (by omega) (by omega) hsM.symm x y k (by omega)
      (by omega) hk
    rw [hbM, hoM]
    exact ⟨h1, h2, fun hw => h3 (by push_cast; omega) buffer⟩
  · intro x y k hx hy hk
    obtain ⟨h1, h2, h3⟩ := camera_facts gb 16 14 0 0x0100 0x0100 bufw 0 0 (by omega) (by omega)
      (by omega) x y k (by omega) (by omega) hk
    rw [hbL, hoL]
    simp only [hidx] at h2 h3
    exact ⟨h1, h2, fun hw => h3 (by push_cast; omega) buffer⟩

/-- Witness of C18: the last photo slot, index 29, lies in bank 15 at the offsets
`0x1000` and `0x1E00`. -/
theorem camera_photo_start_address_witness :
    (29 : Nat) ≤ 29 ∧
    camera_bank (((29 : Nat) : Int) * 0x1000 + 0x2000) = 1 + 29 / 2 ∧
    camera_bankaddr (((29 : Nat) : Int) * 0x1000 + 0x2E00) = (29 % 2) * 0x1000 + 0x0E00 :=
  ⟨by decide,
    (camera_photo_start_address (sampleState 0 0) (fun _ => 0) 128 0 0 29 (by decide)).1.1,
    (camera_photo_start_address (sampleState 0 0) (fun _ => 0) 128 0 0 29 (by decide)).2.1.2.1⟩

/-! ## The sprite renderers outside of CGB mode -/

theorem pure_loop_congr {σ : Type} (n : Nat) (f g : Nat → σ → σ)
    (h : ∀ i, i < n → ∀ s, f i s = g i s) (s : σ) : pure_loop n f s = pure_loop n g s := by
  induction n with
  | zero => rfl
  | succ k ih =>
    simp only [pure_loop]
    rw [ih (fun i hi s => h i (Nat.lt_succ_of_lt hi) s), h k (Nat.lt_succ_self k)]

theorem or8_and (a b m : Nat) (h : a ||| 8 = b ||| 8) (hm : 8 &&& m = 0) :
    a &&& m = b &&& m := by
  have hc : ∀ c : Nat, (c ||| 8) &&& m = c &&& m := by
    intro c
    rw [Nat.and_comm, Nat.and_or_distrib_left, Nat.and_comm m 8, hm, Nat.or_zero, Nat.and_comm]
  rw [← hc a, h, hc b]

theorem sprite_data_offset_dmg (E : Extern) (gb : GB_CONTEXT) (Tile Info : Nat)
    (hcgb : gb.Emulator.CGBEnabled = 0) :
    sprite_data_offset E gb Tile Info =
      (Tile &&& (if spriteheight E gb.Memory = 16 then 0xFE else 0xFF)) <<< 4 := by
  have h : ¬ gb.Emulator.CGBEnabled ≠ 0 := not_not.mpr hcgb
  simp only [sprite_data_offset, if_neg h]

theorem sprite_data_offset_dmg_lt (E : Extern) (gb : GB_CONTEXT) (Tile Info y : Nat)
    (hcgb : gb.Emulator.CGBEnabled = 0) (hT : Tile < 256) (hy : y < spriteheight E gb.Memory) :
    sprite_data_offset E gb Tile Info + y * 2 + 1 < 0x1000 := by
  have hFE : Tile &&& 0xFE ≤ 0xFE := Nat.and_le_right
  have hFF : Tile &&& 0xFF ≤ Tile := Nat.and_le_left
  rw [sprite_data_offset_dmg E gb Tile Info hcgb]
  rcases spriteheight_cases E gb.Memory with h8 | h16
  · rw [h8] at hy ⊢
    simp only [Nat.shiftLeft_eq]
    split_ifs <;> omega
  · rw [h16] at hy ⊢
    simp only [Nat.shiftLeft_eq]
    split_ifs <;> omega

theorem sprite_color_congr (v1 v2 : Nat → Nat) (h I1 I2 off y x : Nat)
    (hv : ∀ a, a < 0x2000 → v1 a = v2 a)
    (h5 : I1 &&& (1 <<< 5) = I2 &&& (1 <<< 5)) (h6 : I1 &&& (1 <<< 6) = I2 &&& (1 <<< 6))
    (hoff : ∀ r, r < h → off + r * 2 + 1 < 0x2000) (hy : y < h) :
    sprite_color v1 h I1 off y x = sprite_color v2 h I2 off y x := by
  have ha : ∀ r, r < h →
      v1 (off + r * 2) = v2 (off + r * 2) ∧ v1 (off + r * 2 + 1) = v2 (off + r * 2 + 1) :=
    fun r hr => ⟨hv _ (Nat.lt_of_succ_lt (hoff r hr)), hv _ (hoff r hr)⟩
  unfold sprite_color
  rw [h5, h6]
  by_cases hb : I2 &&& (1 <<< 6) ≠ 0
  · simp only [if_pos hb]
    rw [(ha (h - y - 1) (by omega)).1, (ha (h - y - 1) (by omega)).2]
  · simp only [if_neg hb]
    rw [(ha y hy).1, (ha y hy).2]

theorem sprite_paint_congr (v1 v2 : Nat → Nat) (h I1 I2 off : Nat) (isvisible : Bool)
    (resolve : Nat → Option RGB) (bufw buff_x buff_y : Int) (buf : Int → Nat)
    (hc : ∀ y x, y < h → sprite_color v1 h I1 off y x = sprite_color v2 h I2 off y x) :
    sprite_paint v1 h I1 off isvisible resolve bufw buff_x buff_y buf =
      sprite_paint v2 h I2 off isvisible resolve bufw buff_x buff_y buf := by
  unfold sprite_paint
  apply pure_loop_congr
  intro y hy s
  apply pure_loop_congr
  intro x _ s
  rw [hc y x hy]

theorem zoomed_paint_congr (v1 v2 : Nat → Nat) (h I1 I2 off : Nat)
    (resolve : Nat → Option RGB) (buf : Int → Nat)
    (hc : ∀ y x, y < h → sprite_color v1 h I1 off y x = sprite_color v2 h I2 off y x) :
    zoomed_paint v1 h I1 off resolve buf = zoomed_paint v2 h I2 off resolve buf := by
  unfold zoomed_paint
  apply pure_loop_congr
  intro y hy s
  apply pure_loop_congr
  intro x _ s
  rw [hc y x hy]

theorem sprite_alpha_paint_congr (v1 v2 : Nat → Nat) (h I1 I2 off : Nat)
    (resolve : Nat → Option RGB) (buf : Int → Nat)
    (hc : ∀ y x, y < h → sprite_color v1 h I1 off y x = sprite_color v2 h I2 off y x) :
    sprite_alpha_paint v1 h I1 off resolve buf = sprite_alpha_paint v2 h I2 off resolve buf := by
  unfold sprite_alpha_paint
  apply pure_loop_congr
  intro y hy s
  apply pure_loop_congr
  intro x _ s
  rw [hc y x hy]

/-- C19: outside of CGB mode (`CGBEnabled == 0`) the output of
`GB_Debug_PrintSprite`, `GB_Debug_PrintZoomedSprite` and
`GB_Debug_PrintSpriteAlpha` depends neither on bit 3 of the byte `Info` of the
sprite nor on the bytes of `VideoRAM` from offset `0x2000` on: for two emulator
states outside of CGB mode that have the same I/O registers, the same bytes of
`VideoRAM` below `0x2000`, and the same bytes `X`, `Y`, `Tile` of the sprite and
bytes `Info` that agree outside of bit 3, each of the three renderers returns,
and returns the same buffer in both states. -/
theorem sprite_renderers_bank0_outside_cgb (E : Extern) (gb1 gb2 : GB_CONTEXT)
    (buf : Int → Nat) (bufw buff_x buff_y sprite : Int) (hs : 0 ≤ sprite ∧ sprite < 40)
    (h1 : gb1.Emulator.CGBEnabled = 0) (h2 : gb2.Emulator.CGBEnabled = 0)
    (hio : ∀ i, gb1.Memory.IO_Ports i = gb2.Memory.IO_Ports i)
    (hv : ∀ a, a < 0x2000 → gb1.Memory.VideoRAM a = gb2.Memory.VideoRAM a)
    (hX : (gb1.Memory.ObjAttrMem sprite.toNat).X = (gb2.Memory.ObjAttrMem sprite.toNat).X)
    (hY : (gb1.Memory.ObjAttrMem sprite.toNat).Y = (gb2.Memory.ObjAttrMem sprite.toNat).Y)
    (hT : (gb1.Memory.ObjAttrMem sprite.toNat).Tile =
      (gb2.Memory.ObjAttrMem sprite.toNat).Tile)
    (hI : ((gb1.Memory.ObjAttrMem sprite.toNat).Info % 256) ||| (1 <<< 3) =
      ((gb2.Memory.ObjAttrMem sprite.toNat).Info % 256) ||| (1 <<< 3)) :
    (∃ out, GB_Debug_PrintSprite E gb1 buf bufw buff_x buff_y sprite = some out ∧
      GB_Debug_PrintSprite E gb2 buf bufw buff_x buff_y sprite = some out) ∧
    (∃ out, GB_Debug_PrintZoomedSprite E gb1 buf sprite = some out ∧
      GB_Debug_PrintZoomedSprite E gb2 buf sprite = some out) ∧
    (∃ out, GB_Debug_PrintSpriteAlpha E gb1 buf sprite = some out ∧
      GB_Debug_PrintSpriteAlpha E gb2 buf sprite = some out) := by
  have hn1 : ¬ gb1.Emulator.CGBEnabled ≠ 0 := not_not.mpr h1
  have hn2 : ¬ gb2.Emulator.CGBEnabled ≠ 0 := not_not.mpr h2
  have hI8 : ((gb1.Memory.ObjAttrMem sprite.toNat).Info % 256) ||| 8 =
      ((gb2.Memory.ObjAttrMem sprite.toNat).Info % 256) ||| 8 := hI
  have hH : spriteheight E gb1.Memory = spriteheight E gb2.Memory := by
    simp only [spriteheight, read_io, hio]
  have h4 := or8_and _ _ (1 <<< 4) hI8 (by decide)
  have h5 := or8_and _ _ (1 <<< 5) hI8 (by decide)
  have h6 := or8_and _ _ (1 <<< 6) hI8 (by decide)
  have hoff : sprite_data_offset E gb1 ((gb1.Memory.ObjAttrMem sprite.toNat).Tile % 256)
        ((gb1.Memory.ObjAttrMem sprite.toNat).Info % 256) =
      sprite_data_offset E gb2 ((gb2.Memory.ObjAttrMem sprite.toNat).Tile % 256)
        ((gb2.Memory.ObjAttrMem sprite.toNat).Info % 256) := by
    rw [sprite_data_offset_dmg _ _ _ _ h1, sprite_data_offset_dmg _ _ _ _ h2, hH, hT]
  have hres : sprite_resolve E gb1 ((gb1.Memory.ObjAttrMem sprite.toNat).Info % 256) =
      sprite_resolve E gb2 ((gb2.Memory.ObjAttrMem sprite.toNat).Info % 256) := by
    simp only [sprite_resolve, if_neg hn1, if_neg hn2, sprite_palette_dmg, read_io, hio, h4]
  have hc : ∀ y x, y < spriteheight E gb2.Memory →
      sprite_color gb1.Memory.VideoRAM (spriteheight E gb2.Memory)
        ((gb1.Memory.ObjAttrMem sprite.toNat).Info % 256)
        (sprite_data_offset E gb2 ((gb2.Memory.ObjAttrMem sprite.toNat).Tile % 256)
          ((gb2.Memory.ObjAttrMem sprite.toNat).Info % 256)) y x =
      sprite_color gb2.Memory.VideoRAM (spriteheight E gb2.Memory)
        ((gb2.Memory.ObjAttrMem sprite.toNat).Info % 256)
        (sprite_data_offset E gb2 ((gb2.Memory.ObjAttrMem sprite.toNat).Tile % 256)
          ((gb2.Memory.ObjAttrMem sprite.toNat).Info % 256)) y x :=
    fun y x hy => sprite_color_congr _ _ _ _ _ _ y x hv h5 h6
      (fun r hr => by
        have := sprite_data_offset_dmg_lt E gb2
          ((gb2.Memory.ObjAttrMem sprite.toNat).Tile % 256)
          ((gb2.Memory.ObjAttrMem sprite.toNat).Info % 256) r h2 (Nat.mod_lt _ (by decide)) hr
        omega) hy
  refine ⟨⟨_, PrintSprite_eq E gb1 buf bufw buff_x buff_y sprite hs, ?_⟩,
    ⟨_, PrintZoomedSprite_eq E gb1 buf sprite hs, ?_⟩,
    ⟨_, PrintSpriteAlpha_eq E gb1 buf sprite hs, ?_⟩⟩
  · rw [PrintSprite_eq E gb2 buf bufw buff_x buff_y sprite hs, hH, hoff, hres, hX, hY]
    exact congrArg some (sprite_paint_congr _ _ _ _ _ _ _ _ _ _ _ _ hc).symm
  · rw [PrintZoomedSprite_eq E gb2 buf sprite hs, hH, hoff, hres]
    exact congrArg some (zoomed_paint_congr _ _ _ _ _ _ _ _ hc).symm
  · rw [PrintSpriteAlpha_eq E gb2 buf sprite hs, hH, hoff, hres]
    exact congrArg some (sprite_alpha_paint_congr _ _ _ _ _ _ _ _ hc).symm

/-- Witness of C19: the sample state outside of CGB mode and the state that
differs from it in bank 1 of the video RAM and in bit 3 of the byte `Info` give
the same three pictures of sprite 3. -/
theorem sprite_renderers_bank0_outside_cgb_witness :
    sampleStateBank1.Memory.VideoRAM 0x2003 ≠ (sampleState 0 0).Memory.VideoRAM 0x2003 ∧
    (sampleStateBank1.Memory.ObjAttrMem 3).Info ≠ ((sampleState 0 0).Memory.ObjAttrMem 3).Info ∧
    (∃ out, GB_Debug_PrintSprite sampleExtern (sampleState 0 0) (fun _ => 0) 160 0 0 3 =
        some out ∧
      GB_Debug_PrintSprite sampleExtern sampleStateBank1 (fun _ => 0) 160 0 0 3 = some out) ∧
    (∃ out, GB_Debug_PrintZoomedSprite sampleExtern (sampleState 0 0) (fun _ => 0) 3 =
        some out ∧
      GB_Debug_PrintZoomedSprite sampleExtern sampleStateBank1 (fun _ => 0) 3 = some out) ∧
    (∃ out, GB_Debug_PrintSpriteAlpha sampleExtern (sampleState 0 0) (fun _ => 0) 3 =
        some out ∧
      GB_Debug_PrintSpriteAlpha sampleExtern sampleStateBank1 (fun _ => 0) 3 = some out) :=
  ⟨by decide, by decide,
    sprite_renderers_bank0_outside_cgb sampleExtern (sampleState 0 0) sampleStateBank1
      (fun _ => 0) 160 0 0 3 (by decide) rfl rfl (fun _ => rfl)
      (fun a ha => by simp [sampleState, sampleStateBank1, ha]) rfl rfl rfl (by decide)⟩

/-! ## The tile viewer `GB_Debug_TileDrawZoomed64x64` -/

theorem read_u8_vram_int (t : Nat → Nat) (a : Int) (n : Nat) (ha : a = (n : Int))
    (hn : n < 0x4000) : read_u8 VIDEO_RAM_SIZE t a = some (t n % 256) := by
  have h : 0 ≤ a ∧ a < ((VIDEO_RAM_SIZE : Nat) : Int) := by
    simp only [VIDEO_RAM_SIZE]; omega
  have hn2 : a.toNat = n := by omega
  rw [read_u8, if_pos h, hn2]

theorem tile_pixel_2bpp_lt (vram : Nat → Nat) (base row col : Nat) :
    tile_pixel_2bpp vram base row col < 4 := by
  rw [tile_pixel_2bpp, and_one, and_one]
  omega

theorem TileDrawZoomed64x64_decode_eq (gb : GB_CONTEXT) (base y x : Nat) (t : Int → Nat)
    (hb : base + 16 ≤ 0x4000) (hy : y < 8) (hx : x < 8) :
    GB_Debug_TileDrawZoomed64x64_decode gb (base : Int) y x t =
      some (store_s32 t ((x + y * 8 : Nat) : Int)
        (tile_packed (tile_pixel_2bpp gb.Memory.VideoRAM base y x))) := by
  have hy7 : y &&& 7 = y := by rw [and_0x7]; omega
  have hx7 : x &&& 7 = x := by rw [and_0x7]; omega
  have r0 := read_u8_vram_int gb.Memory.VideoRAM ((base : Int) + ((y * 2 : Nat) : Int))
    (base + 2 * y) (by push_cast; omega) (by omega)
  have r1 := read_u8_vram_int gb.Memory.VideoRAM ((base : Int) + ((y * 2 : Nat) : Int) + 1)
    (base + 2 * y + 1) (by push_cast; omega) (by omega)
  have hc := gray_row (tile_pixel_2bpp gb.Memory.VideoRAM base y x) (tile_pixel_2bpp_lt _ _ _ _)
  have he : color_index (gb.Memory.VideoRAM (base + 2 * y) % 256)
      (gb.Memory.VideoRAM (base + 2 * y + 1) % 256) (7 - x) =
      tile_pixel_2bpp gb.Memory.VideoRAM base y x := by
    rw [color_index_eq, tile_pixel_2bpp]
  unfold GB_Debug_TileDrawZoomed64x64_decode
  simp only [Option.bind_eq_bind, hy7, hx7]
  rw [r0, Option.some_bind, r1, Option.some_bind, he, hc.2.1, Option.some_bind, hc.2.2.1,
    Option.some_bind, hc.2.2.2.1, Option.some_bind]
  rfl

theorem TileDrawZoomed64x64_decode_loop (gb : GB_CONTEXT) (base : Nat) (t : Int → Nat)
    (hb : base + 16 ≤ 0x4000) :
    for_loop 8 (fun y t =>
      for_loop 8 (fun x t => GB_Debug_TileDrawZoomed64x64_decode gb (base : Int) y x t) t) t =
      some (tile_temp_paint gb.Memory.VideoRAM base t) := by
  apply for_loop_eq_pure
  intro y hy s
  apply for_loop_eq_pure
  intro x hx s
  exact TileDrawZoomed64x64_decode_eq gb base y x s hb hy hx

theorem TileDrawZoomed64x64_expand_loop (temp buffer : Int → Nat) :
    for_loop 64 (fun i buffer =>
      for_loop 64 (fun j buffer =>
        GB_Debug_TileDrawZoomed64x64_expand temp i j buffer) buffer) buffer =
      some (zoomed64_paint temp buffer) := by
  apply for_loop_eq_pure
  intro i hi s
  apply for_loop_eq_pure
  intro j hj s
  have h : (j / 8) * 8 + (i / 8) < 8 * 8 := by omega
  simp only [GB_Debug_TileDrawZoomed64x64_expand, read_temp, if_pos h, Option.bind_eq_bind,
    Option.some_bind, Option.pure_def]

theorem TileDrawZoomed64x64_eq (gb : GB_CONTEXT) (buffer : Int → Nat) (tile bank : Int)
    (ht : 0 ≤ tile ∧ tile < 512) :
    GB_Debug_TileDrawZoomed64x64 gb buffer tile bank =
      some (zoomed64_paint
        (tile_temp_paint gb.Memory.VideoRAM (zoomed64_base tile bank) (fun _ => 0)) buffer) := by
  have hb : (if bank ≠ 0 then tile * 16 + 0x2000 else tile * 16) =
      ((zoomed64_base tile bank : Nat) : Int) := by
    unfold zoomed64_base
    split_ifs <;> push_cast <;> omega
  have hlt : zoomed64_base tile bank + 16 ≤ 0x4000 := by
    unfold zoomed64_base
    split_ifs <;> omega
  simp only [GB_Debug_TileDrawZoomed64x64, Option.bind_eq_bind]
  rw [hb, TileDrawZoomed64x64_decode_loop gb _ _ hlt, Option.some_bind]
  exact TileDrawZoomed64x64_expand_loop _ buffer

theorem store_s32_same (buf : Int → Nat) (i : Int) (v : Nat) :
    store_s32 buf i v i = v % 2 ^ 32 := by
  simp [store_s32]

theorem store_s32_other (buf : Int → Nat) (i p : Int) (v : Nat) (h : p ≠ i) :
    store_s32 buf i v p = buf p := by
  simp [store_s32, h]

theorem tile_temp_paint_at (vram : Nat → Nat) (base : Nat) (t0 : Int → Nat) (x y : Nat)
    (hx : x < 8) (hy : y < 8) :
    tile_temp_paint vram base t0 ((x + y * 8 : Nat) : Int) =
      tile_packed (tile_pixel_2bpp vram base y x) % 2 ^ 32 := by
  apply raster_at 8 8 (fun y x t =>
    store_s32 t ((x + y * 8 : Nat) : Int) (tile_packed (tile_pixel_2bpp vram base y x)))
    _ _ x y hx hy
  · intro s
    exact store_s32_same _ _ _
  · intro y2 x2 _ hx2 hne s
    apply store_s32_other
    intro h
    apply hne
    omega

theorem tile_packed_channel (c k : Nat) (hc : c < 4) (hk : k < 3) :
    (if k = 0 then tile_packed c % 2 ^ 32 &&& 0xFF
      else if k = 1 then ((tile_packed c % 2 ^ 32) >>> 8) &&& 0xFF
      else ((tile_packed c % 2 ^ 32) >>> 16) &&& 0xFF) % 256 = gray c (2 - k) := by
  interval_cases c <;> interval_cases k <;> decide

theorem zoomed64_paint_pixel (temp buffer : Int → Nat) (i j k : Nat) (hi : i < 64)
    (hj : j < 64) (hk : k < 3) :
    zoomed64_paint temp buffer (((j * 64 + i : Nat) : Int) * 3 + k) =
      (if k = 0 then temp (((j / 8) * 8 + (i / 8) : Nat) : Int) &&& 0xFF
        else if k = 1 then (temp (((j / 8) * 8 + (i / 8) : Nat) : Int) >>> 8) &&& 0xFF
        else (temp (((j / 8) * 8 + (i / 8) : Nat) : Int) >>> 16) &&& 0xFF) % 256 := by
  apply raster_at 64 64 (fun i j b =>
    store_rgb b (((j * 64 + i : Nat) : Int) * 3)
      (temp (((j / 8) * 8 + (i / 8) : Nat) : Int) &&& 0xFF)
      ((temp (((j / 8) * 8 + (i / 8) : Nat) : Int) >>> 8) &&& 0xFF)
      ((temp (((j / 8) * 8 + (i / 8) : Nat) : Int) >>> 16) &&& 0xFF))
    _ _ j i hj hi
  · intro s
    exact store_rgb_at _ _ _ _ _ k hk
  · intro i2 j2 _ hj2 hne s
    apply store_rgb_other
    have h : j2 * 64 + i2 ≠ j * 64 + i := by
      intro h
      apply hne
      omega
    omega

theorem TileDrawZoomed64x64_pixel (gb : GB_CONTEXT) (buffer : Int → Nat) (base i j k : Nat)
    (hi : i < 64) (hj : j < 64) (hk : k < 3) :
    zoomed64_paint (tile_temp_paint gb.Memory.VideoRAM base (fun _ => 0)) buffer
      (((j * 64 + i : Nat) : Int) * 3 + k) =
      gray (tile_pixel_2bpp gb.Memory.VideoRAM base (j / 8) (i / 8)) (2 - k) := by
  have ht := tile_temp_paint_at gb.Memory.VideoRAM base (fun _ => 0) (i / 8) (j / 8)
    (by omega) (by omega)
  have he : ((j / 8) * 8 + (i / 8) : Nat) = i / 8 + (j / 8) * 8 := by omega
  rw [zoomed64_paint_pixel _ buffer i j k hi hj hk, he, ht]
  exact tile_packed_channel _ k (tile_pixel_2bpp_lt _ _ _ _) hk

/-- Counterexample to C20: in the state `sampleStateBank1`, which is outside of
CGB mode, tile 0 of bank 0 starts with the bytes `0x00 0x01` and tile 0 of
bank 1 with `0xAA 0xAA`; `GB_Debug_TileDrawZoomed64x64` with `bank == 1` writes 0
(colour index 3) to the first byte of the image and with `bank == 0` writes 255
(colour index 0). -/
theorem TileDrawZoomed64x64_bank_counterexample :
    sampleStateBank1.Emulator.CGBEnabled = 0 ∧
    ∃ out0 out1 : Int → Nat,
      GB_Debug_TileDrawZoomed64x64 sampleStateBank1 (fun _ => 0) 0 0 = some out0 ∧
      GB_Debug_TileDrawZoomed64x64 sampleStateBank1 (fun _ => 0) 0 1 = some out1 ∧
      out0 0 = 255 ∧ out1 0 = 0 := by
  refine ⟨rfl, _, _, TileDrawZoomed64x64_eq sampleStateBank1 (fun _ => 0) 0 0 (by decide),
    TileDrawZoomed64x64_eq sampleStateBank1 (fun _ => 0) 0 1 (by decide), ?_, ?_⟩
  · have h := TileDrawZoomed64x64_pixel sampleStateBank1 (fun _ => 0) (zoomed64_base 0 0) 0 0 0
      (by decide) (by decide) (by decide)
    exact h.trans (by decide)
  · have h := TileDrawZoomed64x64_pixel sampleStateBank1 (fun _ => 0) (zoomed64_base 0 1) 0 0 0
      (by decide) (by decide) (by decide)
    exact h.trans (by decide)

/-- C20, amended: `GB_Debug_TileDrawZoomed64x64` honours its argument `bank` in
every mode, the mode `CGBEnabled == 0` included. For every tile number in
`0..511` it returns, and the byte `k` of the pixel `(i, j)` of the 64x64 image is
the gray level of the colour index at row `j/8`, column `i/8` of the tile whose
16 bytes start at the offset `16*tile` of `VideoRAM` when `bank == 0` and at
`0x2000 + 16*tile` when `bank != 0`; the image is the same in every state with
the same `VideoRAM`, whatever its mode. -/
theorem TileDrawZoomed64x64_bank_every_mode (gb : GB_CONTEXT) (buffer : Int → Nat)
    (tile bank : Int) (ht : 0 ≤ tile ∧ tile < 512) :
    ∃ out : Int → Nat,
      GB_Debug_TileDrawZoomed64x64 gb buffer tile bank = some out ∧
      (∀ i j k : Nat, i < 64 → j < 64 → k < 3 →
        out (((j * 64 + i : Nat) : Int) * 3 + k) =
          gray (tile_pixel_2bpp gb.Memory.VideoRAM
            (16 * tile.toNat + (if bank ≠ 0 then 0x2000 else 0)) (j / 8) (i / 8)) (2 - k)) ∧
      (∀ gb2 : GB_CONTEXT, gb2.Memory.VideoRAM = gb.Memory.VideoRAM →
        GB_Debug_TileDrawZoomed64x64 gb2 buffer tile bank = some out) := by
  refine ⟨_, TileDrawZoomed64x64_eq gb buffer tile bank ht, ?_, ?_⟩
  · intro i j k hi hj hk
    exact TileDrawZoomed64x64_pixel gb buffer (zoomed64_base tile bank) i j k hi hj hk
  · intro gb2 hv
    rw [TileDrawZoomed64x64_eq gb2 buffer tile bank ht, hv]

/-- Witness of the amended C20: tile 5 of bank 1 in the sample state outside of
CGB mode. -/
theorem TileDrawZoomed64x64_bank_every_mode_witness :
    ((0 : Int) ≤ 5 ∧ (5 : Int) < 512) ∧
    ∃ out : Int → Nat,
      GB_Debug_TileDrawZoomed64x64 (sampleState 0 0) (fun _ => 0) 5 1 = some out :=
  ⟨by decide,
    (TileDrawZoomed64x64_bank_every_mode (sampleState 0 0) (fun _ => 0) 5 1 (by decide)).imp
      (fun _ h => h.1)⟩

/-! ## The palette RAM outside of CGB mode -/

theorem map_paint_dmg_memory (E : Extern) (gb1 gb2 : GB_CONTEXT) (tiledata bgtilemap : Nat)
    (tile_base bufw : Int) (buffer : Int → Nat) (hM : gb1.Memory = gb2.Memory) :
    map_paint_dmg E gb1 tiledata bgtilemap tile_base bufw buffer =
      map_paint_dmg E gb2 tiledata bgtilemap tile_base bufw buffer := by
  simp only [map_paint_dmg, map_bg_pal, map_color_dmg, map_tile, hM]

theorem sprite_data_offset_memory (E : Extern) (gb1 gb2 : GB_CONTEXT) (Tile Info : Nat)
    (h1 : gb1.Emulator.CGBEnabled = 0) (h2 : gb2.Emulator.CGBEnabled = 0)
    (hM : gb1.Memory = gb2.Memory) :
    sprite_data_offset E gb1 Tile Info = sprite_data_offset E gb2 Tile Info := by
  rw [sprite_data_offset_dmg _ _ _ _ h1, sprite_data_offset_dmg _ _ _ _ h2, hM]

theorem sprite_resolve_memory (E : Extern) (gb1 gb2 : GB_CONTEXT) (Info : Nat)
    (h1 : gb1.Emulator.CGBEnabled = 0) (h2 : gb2.Emulator.CGBEnabled = 0)
    (hM : gb1.Memory = gb2.Memory) :
    sprite_resolve E gb1 Info = sprite_resolve E gb2 Info := by
  have hn1 : ¬ gb1.Emulator.CGBEnabled ≠ 0 := not_not.mpr h1
  have hn2 : ¬ gb2.Emulator.CGBEnabled ≠ 0 := not_not.mpr h2
  simp only [sprite_resolve, if_neg hn1, if_neg hn2, hM]

/-- C21: two emulator states outside of CGB mode (`CGBEnabled == 0`) that have
the same `GameBoy.Memory` (video RAM, sprite attribute table, I/O registers),
whatever the contents of their palette RAM arrays `spr_pal` and `bg_pal`, give
the same output buffer for `GB_Debug_MapPrint`, for `GB_Debug_PrintSprite` and
for `GB_Debug_PrintSpriteAlpha`, and each of the three returns. -/
theorem renderers_ignore_palette_ram_outside_cgb (E : Extern) (gb1 gb2 : GB_CONTEXT)
    (buffer : Int → Nat) (bufw map tile_base buff_x buff_y sprite : Int)
    (hs : 0 ≤ sprite ∧ sprite < 40)
    (h1 : gb1.Emulator.CGBEnabled = 0) (h2 : gb2.Emulator.CGBEnabled = 0)
    (hM : gb1.Memory = gb2.Memory) :
    (∃ out, GB_Debug_MapPrint E gb1 buffer bufw map tile_base = some out ∧
      GB_Debug_MapPrint E gb2 buffer bufw map tile_base = some out) ∧
    (∃ out, GB_Debug_PrintSprite E gb1 buffer bufw buff_x buff_y sprite = some out ∧
      GB_Debug_PrintSprite E gb2 buffer bufw buff_x buff_y sprite = some out) ∧
    (∃ out, GB_Debug_PrintSpriteAlpha E gb1 buffer sprite = some out ∧
      GB_Debug_PrintSpriteAlpha E gb2 buffer sprite = some out) := by
  refine ⟨⟨_, MapPrint_dmg_eq E gb1 buffer bufw map tile_base h1, ?_⟩,
    ⟨_, PrintSprite_eq E gb1 buffer bufw buff_x buff_y sprite hs, ?_⟩,
    ⟨_, PrintSpriteAlpha_eq E gb1 buffer sprite hs, ?_⟩⟩
  · rw [MapPrint_dmg_eq E gb2 buffer bufw map tile_base h2,
      map_paint_dmg_memory E gb1 gb2 _ _ _ _ _ hM]
  · rw [PrintSprite_eq E gb2 buffer bufw buff_x buff_y sprite hs,
      sprite_data_offset_memory E gb1 gb2 _ _ h1 h2 hM,
      sprite_resolve_memory E gb1 gb2 _ h1 h2 hM, hM]
  · rw [PrintSpriteAlpha_eq E gb2 buffer sprite hs,
      sprite_data_offset_memory E gb1 gb2 _ _ h1 h2 hM,
      sprite_resolve_memory E gb1 gb2 _ h1 h2 hM, hM]

/-- Witness of C21: the sample state outside of CGB mode and the state with
other palette RAM contents. -/
theorem renderers_ignore_palette_ram_outside_cgb_witness :
    sampleStatePalettes.Emulator.spr_pal 1 ≠ (sampleState 0 0).Emulator.spr_pal 1 ∧
    sampleStatePalettes.Emulator.bg_pal 1 ≠ (sampleState 0 0).Emulator.bg_pal 1 ∧
    (∃ out, GB_Debug_MapPrint sampleExtern (sampleState 0 0) (fun _ => 0) 256 0 0 = some out ∧
      GB_Debug_MapPrint sampleExtern sampleStatePalettes (fun _ => 0) 256 0 0 = some out) ∧
    (∃ out, GB_Debug_PrintSprite sampleExtern (sampleState 0 0) (fun _ => 0) 256 0 0 3 =
        some out ∧
      GB_Debug_PrintSprite sampleExtern sampleStatePalettes (fun _ => 0) 256 0 0 3 =
        some out) ∧
    (∃ out, GB_Debug_PrintSpriteAlpha sampleExtern (sampleState 0 0) (fun _ => 0) 3 =
        some out ∧
      GB_Debug_PrintSpriteAlpha sampleExtern sampleStatePalettes (fun _ => 0) 3 = some out) :=
  ⟨by decide, by decide,
    renderers_ignore_palette_ram_outside_cgb sampleExtern (sampleState 0 0) sampleStatePalettes
      (fun _ => 0) 256 0 0 0 0 3 (by decide) rfl rfl rfl⟩

/-! ## The cursor of the SGB packet engine -/

theorem SGB_bit_step (P : SGB_PROTOCOL) (s : SGB_INFO) (w b p k : Nat)
    (hw : P.classify w = SGB_WRITE.bit b) (hsend : s.sending = 1) (hp : s.currpacket = p)
    (hp7 : p < 7) (hbit : s.currbit < 8) (hbyte : s.currbyte < 16)
    (hk : 8 * s.currbyte + s.currbit = k) (hk127 : k < 127) :
    ∃ s1, SGB_WriteP1 P s w = some s1 ∧ s1.sending = 1 ∧ s1.currpacket = p ∧
      s1.currbit < 8 ∧ s1.currbyte < 16 ∧ 8 * s1.currbyte + s1.currbit = k + 1 ∧
      s1.numpackets = s.numpackets := by
  have h0 : ¬ s.sending = 0 := by omega
  have hin : s.currpacket < 7 ∧ s.currbyte < 16 := ⟨by omega, hbyte⟩
  simp only [SGB_WriteP1, hw, SGB_MAX_PACKETS, SGB_BYTES_PER_PACKET, if_neg h0, if_pos hin]
  by_cases h8 : s.currbit + 1 = 8
  · have h16 : ¬ s.currbyte + 1 = 16 := by omega
    rw [if_pos h8, if_neg h16]
    exact ⟨_, rfl, hsend, hp, Nat.zero_lt_succ 7, by show s.currbyte + 1 < 16; omega,
      by show 8 * (s.currbyte + 1) + 0 = k + 1; omega, rfl⟩
  · rw [if_neg h8]
    exact ⟨_, rfl, hsend, hp, by show s.currbit + 1 < 8; omega, hbyte,
      by show 8 * s.currbyte + (s.currbit + 1) = k + 1; omega, rfl⟩

theorem SGB_last_bit_step (P : SGB_PROTOCOL) (s : SGB_INFO) (w b p : Nat)
    (hw : P.classify w = SGB_WRITE.bit b) (hsend : s.sending = 1) (hp : s.currpacket = p)
    (hp7 : p < 7) (hbit : s.currbit = 7) (hbyte : s.currbyte = 15) :
    ∃ s1, SGB_WriteP1 P s w = some s1 ∧ s1.currbit = 0 ∧ s1.currbyte = 0 ∧
      s1.currpacket = p + 1 ∧ (s1.currpacket = s1.numpackets → s1.sending = 0) ∧
      (s1.currpacket ≠ s1.numpackets → s1.sending = 1) := by
  have h0 : ¬ s.sending = 0 := by omega
  have hin : s.currpacket < 7 ∧ s.currbyte < 16 := ⟨by omega, by omega⟩
  have h8 : s.currbit + 1 = 8 := by omega
  have h16 : s.currbyte + 1 = 16 := by omega
  simp only [SGB_WriteP1, hw, SGB_MAX_PACKETS, SGB_BYTES_PER_PACKET, if_neg h0, if_pos hin,
    if_pos h8, if_pos h16]
  split
  · rename_i heq
    exact ⟨_, rfl, rfl, rfl, by show s.currpacket + 1 = p + 1; omega, fun _ => rfl,
      fun hne => absurd heq hne⟩
  · rename_i hne
    exact ⟨_, rfl, rfl, rfl, by show s.currpacket + 1 = p + 1; omega,
      fun heq => absurd heq hne, fun _ => hsend⟩

theorem SGB_packet_bits (P : SGB_PROTOCOL) (ws : List Nat) :
    ∀ (s : SGB_INFO) (p k : Nat), s.sending = 1 → s.currpacket = p → p < 7 →
      s.currbit < 8 → s.currbyte < 16 → 8 * s.currbyte + s.currbit = k →
      k + ws.length = 128 → (∀ w, w ∈ ws → ∃ b, P.classify w = SGB_WRITE.bit b) →
      ∃ s1, SGB_WriteP1_seq P s ws = some s1 ∧ s1.currbit = 0 ∧ s1.currbyte = 0 ∧
        s1.currpacket = p + 1 ∧ (s1.currpacket = s1.numpackets → s1.sending = 0) ∧
        (s1.currpacket ≠ s1.numpackets → s1.sending = 1) := by
  induction ws with
  | nil =>
    intro s p k _ _ _ hbit hbyte hk hlen _
    simp only [List.length_nil] at hlen
    omega
  | cons w ws ih =>
    intro s p k hsend hp hp7 hbit hbyte hk hlen hall
    obtain ⟨b, hw⟩ := hall w (List.mem_cons_self w ws)
    simp only [List.length_cons] at hlen
    by_cases hlast : k = 127
    · have hnil : ws = [] := List.eq_nil_of_length_eq_zero (by omega)
      obtain ⟨s1, h1, hrest⟩ := SGB_last_bit_step P s w b p hw hsend hp hp7 (by omega) (by omega)
      refine ⟨s1, ?_, hrest⟩
      rw [hnil, SGB_WriteP1_seq, h1]
      rfl
    · obtain ⟨s1, h1, hs1, hp1, hbit1, hbyte1, hk1, _⟩ :=
        SGB_bit_step P s w b p k hw hsend hp hp7 hbit hbyte hk (by omega)
      obtain ⟨s2, h2, hrest⟩ := ih s1 p (k + 1) hs1 hp1 hp7 hbit1 hbyte1 hk1 (by omega)
        (fun v hv => hall v (List.mem_cons_of_mem w hv))
      refine ⟨s2, ?_, hrest⟩
      rw [SGB_WriteP1_seq, h1]
      exact h2

/-- C22: in the packet engine modelled after spec §4.4, a start-of-transfer
write leaves `sending == 1` and the cursor at bit 0 of byte 0 of packet 0; from
there, and from the start of every later packet `p < 7` of a transfer, the
`16 x 8` writes that each carry one bit all succeed and leave `currbit == 0`,
`currbyte == 0` and `currpacket` increased by exactly 1; if `currpacket` has
then reached `numpackets` the engine is idle, `sending == 0`, and otherwise the
transfer is still active. -/
theorem SGB_packet_cursor (P : SGB_PROTOCOL) (s0 : SGB_INFO) (w0 : Nat) (ws : List Nat)
    (hw0 : P.classify w0 = SGB_WRITE.start) (hlen : ws.length = 16 * 8)
    (hbits : ∀ w, w ∈ ws → ∃ b, P.classify w = SGB_WRITE.bit b) :
    (∃ s1, SGB_WriteP1 P s0 w0 = some s1 ∧
      s1.sending = 1 ∧ s1.currbit = 0 ∧ s1.currbyte = 0 ∧ s1.currpacket = 0 ∧
      ∃ s2, SGB_WriteP1_seq P s1 ws = some s2 ∧
        s2.currbit = 0 ∧ s2.currbyte = 0 ∧ s2.currpacket = s1.currpacket + 1 ∧
        (s2.currpacket = s2.numpackets → s2.sending = 0) ∧
        (s2.currpacket ≠ s2.numpackets → s2.sending = 1)) ∧
    (∀ s : SGB_INFO, s.sending = 1 → s.currbit = 0 → s.currbyte = 0 →
      s.currpacket < SGB_MAX_PACKETS →
      ∃ s2, SGB_WriteP1_seq P s ws = some s2 ∧
        s2.currbit = 0 ∧ s2.currbyte = 0 ∧ s2.currpacket = s.currpacket + 1 ∧
        (s2.currpacket = s2.numpackets → s2.sending = 0) ∧
        (s2.currpacket ≠ s2.numpackets → s2.sending = 1)) := by
  have hgen : ∀ s : SGB_INFO, s.sending = 1 → s.currbit = 0 → s.currbyte = 0 →
      s.currpacket < SGB_MAX_PACKETS →
      ∃ s2, SGB_WriteP1_seq P s ws = some s2 ∧
        s2.currbit = 0 ∧ s2.currbyte = 0 ∧ s2.currpacket = s.currpacket + 1 ∧
        (s2.currpacket = s2.numpackets → s2.sending = 0) ∧
        (s2.currpacket ≠ s2.numpackets → s2.sending = 1) := by
    intro s hsend hbit hbyte hp
    exact SGB_packet_bits P ws s s.currpacket 0 hsend rfl hp (by omega) (by omega) (by omega)
      (by omega) hbits
  refine ⟨?_, hgen⟩
  have h1 : SGB_WriteP1 P s0 w0 =
      some { s0 with currbit := 0, currbyte := 0, currpacket := 0, sending := 1 } := by
    simp only [SGB_WriteP1, hw0]
  exact ⟨_, h1, rfl, rfl, rfl, rfl, hgen _ rfl rfl rfl (Nat.zero_lt_succ 6)⟩

/-- Witness of C22: in the sample protocol, a start write `0x00` and 128 writes of
`0x20`, each a bit 0, from the idle sample state. -/
theorem SGB_packet_cursor_witness :
    ∃ s1, SGB_WriteP1 sampleProtocol sampleSGB 0x00 = some s1 ∧
      ∃ s2, SGB_WriteP1_seq sampleProtocol s1 (List.replicate 128 0x20) = some s2 ∧
        s2.currbit = 0 ∧ s2.currbyte = 0 ∧ s2.currpacket = 1 := by
  obtain ⟨s1, h1, _, _, _, hp, s2, h2, hb, hy, hp2, _⟩ :=
    (SGB_packet_cursor sampleProtocol sampleSGB 0x00 (List.replicate 128 0x20) rfl
      (List.length_replicate 128 0x20)
      (fun w hw => ⟨0, by rw [List.eq_of_mem_replicate hw]; rfl⟩)).1
  exact ⟨s1, h1, s2, h2, hb, hy, by omega⟩

/-! ## The sprite colours and `GB_Debug_GetPalette` -/

/-- Counterexample to C23 as stated: in the sample state in GBC-in-GB
compatibility mode (`CGBEnabled == 0`, `gbc_in_gb_mode != 0`) the pixel (2, 0) of
sprite 3 has the colour index 3 and the sprite uses OBP0 (`p = 0`);
`GB_Debug_GetPalette(1, 0, 3)` returns (224, 248, 248), the colour of the
compatibility lookup, while `GB_Debug_PrintSpriteAlpha` writes the gray
(0, 0, 0) for that pixel. -/
theorem PrintSpriteAlpha_compat_counterexample :
    (sampleState 0 1).Emulator.CGBEnabled = 0 ∧
    (sampleState 0 1).Emulator.gbc_in_gb_mode ≠ 0 ∧
    sprite_pixel_index sampleExtern (sampleState 0 1) 3 0 2 = 3 ∧
    sprite_palette_number (sampleState 0 1)
      (((sampleState 0 1).Memory.ObjAttrMem 3).Info % 256) = 0 ∧
    GB_Debug_GetPalette sampleExtern (sampleState 0 1) 1 0 3 = some (224, 248, 248) ∧
    ∃ img : Int → Nat,
      GB_Debug_PrintSpriteAlpha sampleExtern (sampleState 0 1) (fun _ => 0) 3 = some img ∧
      (img 8, img 9, img 10) = (0, 0, 0) := by
  refine ⟨rfl, by decide, by decide, by decide, by decide, ?_⟩
  obtain ⟨img, h1, hp⟩ := PrintSpriteAlpha_pixel sampleExtern (sampleState 0 1) (fun _ => 0) 3
    (by decide)
  refine ⟨img, h1, ?_⟩
  have q0 := hp 2 0 0 (by decide) (by decide) (by decide)
  have q1 := hp 2 0 1 (by decide) (by decide) (by decide)
  have q2 := hp 2 0 2 (by decide) (by decide) (by decide)
  have e0 : img 8 = 0 := q0.trans (by decide)
  have e1 : img 9 = 0 := q1.trans (by decide)
  have e2 : img 10 = 0 := q2.trans (by decide)
  rw [e0, e1, e2]

/-- C23, amended: in CGB mode and in DMG mode (`CGBEnabled == 0` and
`gbc_in_gb_mode == 0`) the RGB bytes that `GB_Debug_PrintSpriteAlpha` writes for
a sprite pixel with a colour index `c` that is not 0 are the triple that
`GB_Debug_GetPalette(1, p, c)` returns in the same state, with `p = Info & 7` in
CGB mode and `p` = bit 4 of `Info` otherwise. In every mode with
`CGBEnabled == 0`, the GBC-in-GB compatibility mode included, the bytes are the
gray level `gb_pal_colors[(OBPp >> 2c) & 3]` of the OBP0 or OBP1 register: the
renderer does not use the compatibility lookup. -/
theorem PrintSpriteAlpha_color_eq_GetPalette (E : Extern) (gb : GB_CONTEXT)
    (buf : Int → Nat) (sprite : Int) (hs : 0 ≤ sprite ∧ sprite < 40) :
    ∃ img : Int → Nat,
      GB_Debug_PrintSpriteAlpha E gb buf sprite = some img ∧
      ∀ x y : Nat, x < 8 → y < spriteheight E gb.Memory →
        let Info := (gb.Memory.ObjAttrMem sprite.toNat).Info % 256
        let c := sprite_pixel_index E gb sprite.toNat y x
        let p := sprite_palette_number gb Info
        c ≠ 0 →
        ∃ r g b : Nat,
          (img (((y : Int) * 8 + x) * 4 + 0), img (((y : Int) * 8 + x) * 4 + 1),
            img (((y : Int) * 8 + x) * 4 + 2)) = (r, g, b) ∧
          (gb.Emulator.CGBEnabled ≠ 0 ∨ gb.Emulator.gbc_in_gb_mode = 0 →
            GB_Debug_GetPalette E gb 1 (p : Int) (c : Int) = some (r, g, b)) ∧
          (gb.Emulator.CGBEnabled = 0 →
            gb_pal_colors_rgb
              (((if Info &&& (1 <<< 4) ≠ 0 then read_io gb.Memory E.OBP1_REG
                else read_io gb.Memory E.OBP0_REG) >>> (2 * c)) &&& 3) = some (r, g, b)) := by
  obtain ⟨img, h1, hp⟩ := PrintSpriteAlpha_pixel E gb buf sprite hs
  refine ⟨img, h1, ?_⟩
  intro x y hx hy Info c p hc0
  have hc : c < 4 := sprite_pixel_index_lt E gb sprite.toNat y x hy
  obtain ⟨r, g, b, hres⟩ := sprite_resolve_some E gb Info c hc
  have hq : sprite_rgba (sprite_resolve E gb Info) c = (r, g, b, 255) := by
    simp only [sprite_rgba, if_pos hc0, hres]
  have q0 := hp x y 0 hx hy (by decide)
  have q1 := hp x y 1 hx hy (by decide)
  have q2 := hp x y 2 hx hy (by decide)
  simp only [Nat.cast_zero, Nat.cast_one, Nat.cast_ofNat] at q0 q1 q2
  have hcI : (0 : Int) ≤ (c : Int) ∧ (c : Int) ≤ 3 := by omega
  have h2c : (2 * (c : Int)).toNat = 2 * c := by omega
  refine ⟨r, g, b, ?_, ?_, ?_⟩
  · show (_, _, _) = _
    rw [q0, q1, q2]
    show (rgba_byte (sprite_rgba (sprite_resolve E gb Info) c) 0,
      rgba_byte (sprite_rgba (sprite_resolve E gb Info) c) 1,
      rgba_byte (sprite_rgba (sprite_resolve E gb Info) c) 2) = _
    rw [hq]
    rfl
  · intro hmode
    show GB_Debug_GetPalette E gb 1 ((sprite_palette_number gb Info : Nat) : Int) (c : Int) = _
    by_cases hcgb : gb.Emulator.CGBEnabled ≠ 0
    · have h7 : Info &&& 7 ≤ 7 := Nat.and_le_right
      rw [sprite_palette_number, if_pos hcgb,
        GetPalette_cgb_eq E gb 1 _ _ hcgb (by omega) hcI,
        ← sprite_resolve_cgb E gb Info c hcgb hc, hres]
    · have hcgb0 : gb.Emulator.CGBEnabled = 0 := not_not.mp hcgb
      have hcompat : gb.Emulator.gbc_in_gb_mode = 0 := by
        rcases hmode with h | h
        · exact absurd h hcgb
        · exact h
      have hd := sprite_resolve_dmg E gb Info c hcgb0 hc
      rw [hres] at hd
      rw [sprite_palette_number, if_neg hcgb]
      by_cases h4 : Info &&& (1 <<< 4) ≠ 0
      · rw [if_pos h4] at hd ⊢
        rw [show (((1 : Nat) : Int)) = 1 from rfl,
          GetPalette_dmg_obp1 E gb 1 _ hcgb0 hcompat (by decide) hcI, h2c, hd]
      · rw [if_neg h4] at hd ⊢
        rw [show (((0 : Nat) : Int)) = 0 from rfl,
          GetPalette_dmg_obp0 E gb 1 _ hcgb0 hcompat (by decide) hcI, h2c, hd]
  · intro hcgb0
    rw [← sprite_resolve_dmg E gb Info c hcgb0 hc, hres]

/-- Witness of the amended C23: the pixel (2, 0) of sprite 3 of the sample state
in DMG mode has the colour index 3. -/
theorem PrintSpriteAlpha_color_eq_GetPalette_witness :
    ((0 : Int) ≤ 3 ∧ (3 : Int) < 40) ∧
    sprite_pixel_index sampleExtern (sampleState 0 0) 3 0 2 ≠ 0 ∧
    ∃ img : Int → Nat,
      GB_Debug_PrintSpriteAlpha sampleExtern (sampleState 0 0) (fun _ => 0) 3 = some img ∧
      GB_Debug_GetPalette sampleExtern (sampleState 0 0) 1 0 3 = some (img 8, img 9, img 10) := by
  refine ⟨by decide, by decide, ?_⟩
  obtain ⟨img, h1, hp⟩ := PrintSpriteAlpha_color_eq_GetPalette sampleExtern (sampleState 0 0)
    (fun _ => 0) 3 (by decide)
  obtain ⟨r, g, b, hpix, hget, _⟩ := hp 2 0 (by decide) (by decide) (by decide)
  refine ⟨img, h1, ?_⟩
  have hpix2 : (img 8, img 9, img 10) = (r, g, b) := hpix
  rw [hpix2]
  exact hget (Or.inr rfl)

/-! ## The reads of the photo renderers -/

theorem camera_baselineaddr_lt (tiles rows bankaddr y x : Nat) (hy : y < rows * 8)
    (hx : x < tiles * 8) (hfit : bankaddr + 16 * (rows * tiles) ≤ 0x2000) :
    camera_baselineaddr tiles bankaddr y x + 1 < 0x2000 := by
  have hf := camera_tile_fits tiles rows bankaddr y x hy hx hfit
  have hr : (y &&& 7) <<< 1 = 2 * (y % 8) := by
    rw [and_0x7, Nat.shiftLeft_eq]; omega
  rw [camera_baselineaddr, hr]
  omega

theorem camera_reads (gb : GB_CONTEXT) (tiles rows bank bankaddr y x : Nat) (hb : bank ≤ 15)
    (hy : y < rows * 8) (hx : x < tiles * 8) (hfit : bankaddr + 16 * (rows * tiles) ≤ 0x2000) :
    bank ≤ 15 ∧ camera_baselineaddr tiles bankaddr y x + 1 < 0x2000 ∧
    read_extern_ram gb.Memory bank (camera_baselineaddr tiles bankaddr y x) =
      some (gb.Memory.ExternRAM bank (camera_baselineaddr tiles bankaddr y x) % 256) ∧
    read_extern_ram gb.Memory bank (camera_baselineaddr tiles bankaddr y x + 1) =
      some (gb.Memory.ExternRAM bank (camera_baselineaddr tiles bankaddr y x + 1) % 256) := by
  have h := camera_baselineaddr_lt tiles rows bankaddr y x hy hx hfit
  exact ⟨hb, h, read_extern_ram_lt _ _ _ (by omega) (by omega),
    read_extern_ram_lt _ _ _ (by omega) h⟩

/-- C24: with `ExternRAM` of 16 banks of `0x2000` bytes, for every index in
`-1..29` `GB_Debug_GBCameraPhotoPrint` returns, and for every pixel `(x, y)` of
its `128 x 112` picture the bank is at most 15 and the two offsets
`baselineaddr` and `baselineaddr + 1` are below `0x2000`, so both reads are
inside the bank; the same holds for `GB_Debug_GBCameraMiniPhotoPrint` and its
`32 x 32` picture for every index in `0..29`. -/
theorem camera_reads_in_bounds (gb : GB_CONTEXT) (buffer : Int → Nat)
    (bufw posx posy index : Int) (hi : -1 ≤ index ∧ index ≤ 29) :
    ((∃ out, GB_Debug_GBCameraPhotoPrint gb buffer bufw index = some out) ∧
      ∀ y x : Nat, y < 14 * 8 → x < 16 * 8 →
        let ramaddr : Int := if index = -1 then 0x0100 else index * 0x1000 + 0x2000
        let bank := camera_bank ramaddr
        let baselineaddr := camera_baselineaddr 16 (camera_bankaddr ramaddr) y x
        bank ≤ 15 ∧ baselineaddr + 1 < 0x2000 ∧
        read_extern_ram gb.Memory bank baselineaddr =
          some (gb.Memory.ExternRAM bank baselineaddr % 256) ∧
        read_extern_ram gb.Memory bank (baselineaddr + 1) =
          some (gb.Memory.ExternRAM bank (baselineaddr + 1) % 256)) ∧
    (0 ≤ index →
      (∃ out, GB_Debug_GBCameraMiniPhotoPrint gb buffer bufw posx posy index = some out) ∧
      ∀ y x : Nat, y < 4 * 8 → x < 4 * 8 →
        let ramaddr : Int := index * 0x1000 + 0x2E00
        let bank := camera_bank ramaddr
        let baselineaddr := camera_baselineaddr 4 (camera_bankaddr ramaddr) y x
        bank ≤ 15 ∧ baselineaddr + 1 < 0x2000 ∧
        read_extern_ram gb.Memory bank baselineaddr =
          some (gb.Memory.ExternRAM bank baselineaddr % 256) ∧
        read_extern_ram gb.Memory bank (baselineaddr + 1) =
          some (gb.Memory.ExternRAM bank (baselineaddr + 1) % 256)) := by
  have hbL : camera_bank 0x0100 = 0 := by decide
  have hoL : camera_bankaddr 0x0100 = 0x0100 := by decide
  by_cases hneg : index = -1
  · subst hneg
    refine ⟨⟨⟨_, CameraPhotoPrint_last_eq gb buffer bufw⟩, ?_⟩, fun h => absurd h (by decide)⟩
    intro y x hy hx
    simp only [eq_self_iff_true, if_true]
    rw [hbL, hoL]
    exact camera_reads gb 16 14 0 0x0100 y x (by omega) hy hx (by omega)
  · obtain ⟨i, rfl⟩ : ∃ i : Nat, index = (i : Int) := ⟨index.toNat, by omega⟩
    have hi29 : i ≤ 29 := by omega
    obtain ⟨hbP, hoP⟩ := camera_split_photo i hi29
    obtain ⟨hbM, hoM⟩ := camera_split_mini i hi29
    refine ⟨⟨⟨_, CameraPhotoPrint_eq gb buffer bufw i hi29⟩, ?_⟩,
      fun _ => ⟨⟨_, CameraMiniPhotoPrint_eq gb buffer bufw posx posy i hi29⟩, ?_⟩⟩
    · intro y x hy hx
      simp only [if_neg hneg]
      rw [hbP, hoP]
      exact camera_reads gb 16 14 (1 + i / 2) ((i % 2) * 0x1000) y x (by omega) hy hx (by omega)
    · intro y x hy hx
      simp only []
      rw [hbM, hoM]
      exact camera_reads gb 4 4 (1 + i / 2) ((i % 2) * 0x1000 + 0x0E00) y x (by omega) hy hx
        (by omega)

/-- Witness of C24: the last pixel of the thumbnail of the last photo slot is
read from the offsets `0x1EFE` and `0x1EFF` of bank 15. -/
theorem camera_reads_in_bounds_witness :
    ((-1 : Int) ≤ 29 ∧ (29 : Int) ≤ 29) ∧
    camera_bank (29 * 0x1000 + 0x2E00) = 15 ∧
    camera_baselineaddr 4 (camera_bankaddr (29 * 0x1000 + 0x2E00)) 31 31 = 0x1EFE ∧
    read_extern_ram (sampleState 0 0).Memory 15 0x1EFF =
      some ((sampleState 0 0).Memory.ExternRAM 15 0x1EFF % 256) := by
  refine ⟨by decide, by decide, by decide, ?_⟩
  exact ((camera_reads_in_bounds (sampleState 0 0) (fun _ => 0) 32 0 0 29 (by decide)).2
    (by decide)).2 31 31 (by decide) (by decide) |>.2.2.2

/-! ## The reads of the palette RAM -/

theorem pal_index_le (a c : Nat) (hc : c ≤ 3) : (a &&& 7) * 8 + 2 * c + 1 ≤ 63 := by
  rw [and_0x7]; omega

/-- C25: for every attribute byte `a` (every number, in fact, since only
`a & 7` is used) and every colour index `c` in `0..3`, the
palette RAM indices `(a & 7)*8 + 2*c` and `(a & 7)*8 + 2*c + 1` that the sprite
and map renderers use are at most 63, the reads of `spr_pal` and `bg_pal` at
them are inside the 64-byte tables, the four entries of the local array
`palette` of the sprite renderers are read, and `GB_Debug_MapPrint`,
`GB_Debug_PrintSprite` and `GB_Debug_PrintSpriteAlpha` return in CGB mode, which
they could not do after a read outside of a table. -/
theorem palette_ram_reads_in_bounds (E : Extern) (gb : GB_CONTEXT) (buffer : Int → Nat)
    (bufw map tile_base buff_x buff_y sprite : Int) (a c : Nat) (hc : c ≤ 3)
    (hs : 0 ≤ sprite ∧ sprite < 40) (hcgb : gb.Emulator.CGBEnabled ≠ 0) :
    (a &&& 7) * 8 + 2 * c ≤ 63 ∧ (a &&& 7) * 8 + 2 * c + 1 ≤ 63 ∧
    (∀ pal : Nat → Nat,
      read_u8 PAL_RAM_SIZE pal (((a &&& 7) * 8 + 2 * c : Nat) : Int) =
        some (pal ((a &&& 7) * 8 + 2 * c) % 256) ∧
      read_u8 PAL_RAM_SIZE pal (((a &&& 7) * 8 + 2 * c + 1 : Nat) : Int) =
        some (pal ((a &&& 7) * 8 + 2 * c + 1) % 256)) ∧
    (∃ p0 p1 p2 p3 : Nat, sprite_palette_cgb gb a = some [p0, p1, p2, p3]) ∧
    (∃ out, GB_Debug_MapPrint E gb buffer bufw map tile_base = some out) ∧
    (∃ out, GB_Debug_PrintSprite E gb buffer bufw buff_x buff_y sprite = some out) ∧
    (∃ out, GB_Debug_PrintSpriteAlpha E gb buffer sprite = some out) := by
  have h := pal_index_le a c hc
  exact ⟨by omega, h,
    fun pal => ⟨read_u8_pal_nat pal _ (by omega), read_u8_pal_nat pal _ h⟩,
    sprite_palette_cgb_some gb a,
    ⟨_, MapPrint_cgb_eq E gb buffer bufw map tile_base hcgb⟩,
    ⟨_, PrintSprite_eq E gb buffer bufw buff_x buff_y sprite hs⟩,
    ⟨_, PrintSpriteAlpha_eq E gb buffer sprite hs⟩⟩

/-- Witness of C25: the attribute byte `0xFF` and the colour index 3 give the
last two bytes, 62 and 63, of the table. -/
theorem palette_ram_reads_in_bounds_witness :
    (3 : Nat) ≤ 3 ∧
    (sampleState 1 0).Emulator.CGBEnabled ≠ 0 ∧
    ((0xFF : Nat) &&& 7) * 8 + 2 * 3 + 1 ≤ 63 ∧
    ∃ out, GB_Debug_PrintSprite sampleExtern (sampleState 1 0) (fun _ => 0) 256 0 0 39 =
      some out :=
  ⟨by decide, by decide,
    (palette_ram_reads_in_bounds sampleExtern (sampleState 1 0) (fun _ => 0) 256 0 0 0 0 39
      0xFF 3 (by decide) (by decide) (by decide)).2.1,
    (palette_ram_reads_in_bounds sampleExtern (sampleState 1 0) (fun _ => 0) 256 0 0 0 0 39
      0xFF 3 (by decide) (by decide) (by decide)).2.2.2.2.2.1⟩

/-! ## The reads of `GB_Debug_MapPrint` -/

theorem MapPrint_returns (E : Extern) (gb : GB_CONTEXT) (buffer : Int → Nat)
    (bufw map tile_base : Int) :
    ∃ out, GB_Debug_MapPrint E gb buffer bufw map tile_base = some out := by
  by_cases hcgb : gb.Emulator.CGBEnabled ≠ 0
  · exact ⟨_, MapPrint_cgb_eq E gb buffer bufw map tile_base hcgb⟩
  · exact ⟨_, MapPrint_dmg_eq E gb buffer bufw map tile_base (not_not.mp hcgb)⟩

theorem map_data_cgb_range (tiledata : Nat) (tile_base : Int) (t attr y : Nat)
    (htd : tiledata = if tile_base ≠ 0 then 0x0800 else 0x0000) (ht : t < 256) :
    if attr &&& (1 <<< 3) ≠ 0 then
      0x2000 ≤ map_data_cgb tiledata tile_base t attr y ∧
        map_data_cgb tiledata tile_base t attr y + 1 ≤ 0x37FF
    else map_data_cgb tiledata tile_base t attr y + 1 ≤ 0x17FF := by
  unfold map_data_cgb
  rw [and_s32_seven, and_0x7, map_tile_number_eq tile_base t ht, Nat.shiftLeft_eq, htd]
  split_ifs <;> omega

theorem map_data_dmg_range (tiledata : Nat) (tile_base : Int) (t y : Nat)
    (htd : tiledata = if tile_base ≠ 0 then 0x0800 else 0x0000) (ht : t < 256) :
    (tiledata + (map_tile_number tile_base t <<< 4)) + ((y &&& 7) <<< 1) + 1 ≤ 0x17FF := by
  rw [map_data_dmg_eq tiledata tile_base t y htd ht, and_0x7]
  split_ifs <;> omega

/-- C26: for every video RAM content, map selector, `tile_base` selector and
mode, `GB_Debug_MapPrint` returns, so that every read it makes is inside the
`0x4000` bytes of `VideoRAM`; for every pixel `(x, y)` the tile number is read
at an offset in `0x1800..0x1FFF`, the CGB attribute at an offset in
`0x3800..0x3FFF`, and the two bytes of the tile row at offsets in
`0x0000..0x17FF`, or in `0x2000..0x37FF` in the CGB branch when bit 3 of the
attribute is set. -/
theorem MapPrint_reads_in_VideoRAM (E : Extern) (gb : GB_CONTEXT) (buffer : Int → Nat)
    (bufw map tile_base : Int) :
    (∃ out, GB_Debug_MapPrint E gb buffer bufw map tile_base = some out) ∧
    ∀ x y : Nat, x < 256 → y < 256 →
      let tiledata : Nat := if tile_base ≠ 0 then 0x0800 else 0x0000
      let bgtilemap : Nat := if map ≠ 0 then 0x1C00 else 0x1800
      let tile_location := (((y >>> 3) &&& 31) * 32) + ((x >>> 3) &&& 31)
      let tile := map_tile gb bgtilemap y x
      let tileinfo := map_tileinfo gb bgtilemap y x
      let data_cgb := map_data_cgb tiledata tile_base tile tileinfo y
      let data_dmg := (tiledata + (map_tile_number tile_base tile <<< 4)) + ((y &&& 7) <<< 1)
      (0x1800 ≤ bgtilemap + tile_location ∧ bgtilemap + tile_location ≤ 0x1FFF ∧
        read_vram gb.Memory (bgtilemap + tile_location) = some tile) ∧
      (0x3800 ≤ bgtilemap + (tile_location + 0x2000) ∧
        bgtilemap + (tile_location + 0x2000) ≤ 0x3FFF ∧
        read_vram gb.Memory (bgtilemap + (tile_location + 0x2000)) = some tileinfo) ∧
      (if tileinfo &&& (1 <<< 3) ≠ 0 then 0x2000 ≤ data_cgb ∧ data_cgb + 1 ≤ 0x37FF
        else data_cgb + 1 ≤ 0x17FF) ∧
      (∃ d0 d1, read_vram gb.Memory data_cgb = some d0 ∧
        read_vram gb.Memory (data_cgb + 1) = some d1) ∧
      data_dmg + 1 ≤ 0x17FF ∧
      (∃ d0 d1, read_vram gb.Memory data_dmg = some d0 ∧
        read_vram gb.Memory (data_dmg + 1) = some d1) := by
  refine ⟨MapPrint_returns E gb buffer bufw map tile_base, ?_⟩
  intro x y _ _ tiledata bgtilemap tile_location tile tileinfo data_cgb data_dmg
  have hmap : 0x1800 ≤ bgtilemap ∧ bgtilemap ≤ 0x1C00 := by
    show 0x1800 ≤ (if map ≠ 0 then 0x1C00 else 0x1800 : Nat) ∧
      (if map ≠ 0 then 0x1C00 else 0x1800 : Nat) ≤ 0x1C00
    split_ifs <;> exact ⟨by decide, by decide⟩
  have hloc : tile_location ≤ 1023 := by
    show (((y >>> 3) &&& 31) * 32) + ((x >>> 3) &&& 31) ≤ 1023
    rw [and_31, and_31]; omega
  have ht : tile < 256 := Nat.mod_lt _ (by decide)
  have hc := map_data_cgb_range tiledata tile_base tile tileinfo y rfl ht
  have hc2 : data_cgb + 1 < 0x4000 := map_data_cgb_lt tiledata tile_base tile tileinfo y rfl ht
  have hd : data_dmg + 1 ≤ 0x17FF := map_data_dmg_range tiledata tile_base tile y rfl ht
  refine ⟨⟨by omega, by omega, read_vram_lt _ _ (by omega)⟩,
    ⟨by omega, by omega, ?_⟩, hc,
    ⟨_, _, read_vram_lt _ _ (by omega), read_vram_lt _ _ hc2⟩, hd,
    ⟨_, _, read_vram_lt _ _ (by omega), read_vram_lt _ _ (by omega)⟩⟩
  have h := read_vram_lt gb.Memory (bgtilemap + (tile_location + 0x2000)) (by omega)
  rw [h]
  rfl

/-- Witness of C26: the pixel (255, 255) of the second map with tile data at
`0x8800` in the sample state in CGB mode. -/
theorem MapPrint_reads_in_VideoRAM_witness :
    (∃ out, GB_Debug_MapPrint sampleExtern (sampleState 1 0) (fun _ => 0) 256 1 1 = some out) ∧
    read_vram (sampleState 1 0).Memory (0x1C00 + 1023) =
      some (map_tile (sampleState 1 0) 0x1C00 255 255) :=
  ⟨(MapPrint_reads_in_VideoRAM sampleExtern (sampleState 1 0) (fun _ => 0) 256 1 1).1,
    ((MapPrint_reads_in_VideoRAM sampleExtern (sampleState 1 0) (fun _ => 0) 256 1 1).2
      255 255 (by decide) (by decide)).1.2.2⟩

/-! ## The map renderer `GB_Debug_MapPrintBW` -/

theorem MapPrintBW_body_cgb_eq (gb : GB_CONTEXT) (tiledata bgtilemap : Nat)
    (tile_base bufw : Int) (y x : Nat) (buffer : Int → Nat)
    (htd : tiledata = if tile_base ≠ 0 then 0x0800 else 0x0000) (hmap : bgtilemap ≤ 0x1C00) :
    GB_Debug_MapPrintBW_body_cgb gb tiledata bgtilemap tile_base bufw y x buffer =
      some (store_rgb buffer (((y : Int) * bufw + x) * 3)
        (gray (map_color_cgb gb tiledata bgtilemap tile_base y x) 0)
        (gray (map_color_cgb gb tiledata bgtilemap tile_base y x) 1)
        (gray (map_color_cgb gb tiledata bgtilemap tile_base y x) 2)) := by
  have hloc : bgtilemap + ((((y >>> 3) &&& 31) * 32) + ((x >>> 3) &&& 31) + 0x2000) < 0x4000 := by
    rw [and_31, and_31]; omega
  have hloc0 : bgtilemap + ((((y >>> 3) &&& 31) * 32) + ((x >>> 3) &&& 31)) < 0x4000 := by
    omega
  have r1 : read_vram gb.Memory (bgtilemap + ((((y >>> 3) &&& 31) * 32) + ((x >>> 3) &&& 31))) =
      some (map_tile gb bgtilemap y x) := read_vram_lt _ _ hloc0
  have r2 : read_vram gb.Memory
      (bgtilemap + ((((y >>> 3) &&& 31) * 32) + ((x >>> 3) &&& 31) + 0x2000)) =
      some (map_tileinfo gb bgtilemap y x) := read_vram_lt _ _ hloc
  have hd := map_data_cgb_lt tiledata tile_base (map_tile gb bgtilemap y x)
    (map_tileinfo gb bgtilemap y x) y htd (Nat.mod_lt _ (by decide))
  have r3 := read_vram_lt gb.Memory _ (Nat.lt_of_succ_lt hd)
  have r4 := read_vram_lt gb.Memory _ hd
  have hc := gray_row (map_color_cgb gb tiledata bgtilemap tile_base y x) (color_index_lt _ _ _)
  simp only [map_color_cgb] at hc
  simp only [map_data_cgb] at r3 r4 hc
  unfold GB_Debug_MapPrintBW_body_cgb
  simp only [Option.bind_eq_bind]
  rw [r1, Option.some_bind, r2, Option.some_bind, r3, Option.some_bind, r4, Option.some_bind,
    hc.2.1, Option.some_bind, hc.2.2.1, Option.some_bind, hc.2.2.2.1, Option.some_bind]
  rfl

theorem MapPrintBW_body_dmg_eq (gb : GB_CONTEXT) (tiledata bgtilemap : Nat)
    (tile_base bufw : Int) (y x : Nat) (buffer : Int → Nat)
    (htd : tiledata = if tile_base ≠ 0 then 0x0800 else 0x0000) (hmap : bgtilemap ≤ 0x1C00) :
    GB_Debug_MapPrintBW_body_dmg gb tiledata bgtilemap tile_base bufw y x buffer =
      some (store_rgb buffer (((y : Int) * bufw + x) * 3)
        (gray (map_color_dmg gb tiledata bgtilemap tile_base y x) 0)
        (gray (map_color_dmg gb tiledata bgtilemap tile_base y x) 1)
        (gray (map_color_dmg gb tiledata bgtilemap tile_base y x) 2)) := by
  have hloc0 : bgtilemap + ((((y >>> 3) &&& 31) * 32) + ((x >>> 3) &&& 31)) < 0x4000 := by
    rw [and_31, and_31]; omega
  have r1 : read_vram gb.Memory (bgtilemap + ((((y >>> 3) &&& 31) * 32) + ((x >>> 3) &&& 31))) =
      some (map_tile gb bgtilemap y x) := read_vram_lt _ _ hloc0
  have ht : map_tile gb bgtilemap y x < 256 := Nat.mod_lt _ (by decide)
  have hd := map_data_dmg_range tiledata tile_base (map_tile gb bgtilemap y x) y htd ht
  have r3 := read_vram_lt gb.Memory _ (show (tiledata +
    (map_tile_number tile_base (map_tile gb bgtilemap y x) <<< 4)) + ((y &&& 7) <<< 1) < 0x4000
    by omega)
  have r4 := read_vram_lt gb.Memory _ (show (tiledata +
    (map_tile_number tile_base (map_tile gb bgtilemap y x) <<< 4)) + ((y &&& 7) <<< 1) + 1 <
    0x4000 by omega)
  have hc := gray_row (map_color_dmg gb tiledata bgtilemap tile_base y x) (color_index_lt _ _ _)
  simp only [map_color_dmg] at hc
  unfold GB_Debug_MapPrintBW_body_dmg
  simp only [Option.bind_eq_bind]
  rw [r1, Option.some_bind, r3, Option.some_bind, r4, Option.some_bind,
    hc.2.1, Option.some_bind, hc.2.2.1, Option.some_bind, hc.2.2.2.1, Option.some_bind]
  rfl

theorem MapPrintBW_eq (gb : GB_CONTEXT) (buffer : Int → Nat) (bufw map tile_base : Int) :
    GB_Debug_MapPrintBW gb buffer bufw map tile_base =
      some (map_paint_bw gb (if tile_base ≠ 0 then 0x0800 else 0x0000)
        (if map ≠ 0 then 0x1C00 else 0x1800) tile_base bufw buffer) := by
  have hmap : (if map ≠ 0 then 0x1C00 else 0x1800 : Nat) ≤ 0x1C00 := by
    split_ifs <;> decide
  by_cases hcgb : gb.Emulator.CGBEnabled ≠ 0
  · simp only [GB_Debug_MapPrintBW, if_pos hcgb, map_paint_bw, map_color]
    apply for_loop_eq_pure
    intro y _ s
    apply for_loop_eq_pure
    intro x _ s
    exact MapPrintBW_body_cgb_eq gb _ _ tile_base bufw y x s rfl hmap
  · simp only [GB_Debug_MapPrintBW, if_neg hcgb, map_paint_bw, map_color]
    apply for_loop_eq_pure
    intro y _ s
    apply for_loop_eq_pure
    intro x _ s
    exact MapPrintBW_body_dmg_eq gb _ _ tile_base bufw y x s rfl hmap

theorem map_paint_bw_pixel (gb : GB_CONTEXT) (tiledata bgtilemap : Nat)
    (tile_base bufw : Int) (hw : 256 ≤ bufw) (buffer : Int → Nat) (x y k : Nat) (hx : x < 256)
    (hy : y < 256) (hk : k < 3) :
    map_paint_bw gb tiledata bgtilemap tile_base bufw buffer (((y : Int) * bufw + x) * 3 + k) =
      gray (map_color gb tiledata bgtilemap tile_base y x) k := by
  have h := raster_rgb 256 256 bufw (by simpa using hw)
    (fun y x k => gray (map_color gb tiledata bgtilemap tile_base y x) k) x y k hx hy hk buffer
  rw [map_paint_bw, h]
  exact Nat.mod_eq_of_lt (gray_lt _ _)

/-! ### The tile data of a map at `0x8800` -/

theorem xor_0x80 (t : Nat) (ht : t < 256) :
    t ^^^ 0x80 = if t < 128 then t + 128 else t - 128 := by
  interval_cases t <;> rfl

theorem map_tile_offset_eq (tile_base : Int) (t : Nat) (ht : t < 256) :
    map_tile_offset tile_base t =
      if tile_base ≠ 0 then (if t < 128 then 0x1000 + 16 * t else 16 * t) else 16 * t := by
  rw [map_tile_offset, xor_0x80 t ht]
  split_ifs <;> omega

theorem map_tile_offset_code (tile_base : Int) (t : Nat) (ht : t < 256) :
    (if tile_base ≠ 0 then 0x0800 else 0x0000) + (map_tile_number tile_base t <<< 4) =
      map_tile_offset tile_base t := by
  rw [map_tile_offset_eq tile_base t ht, map_tile_number_eq tile_base t ht, Nat.shiftLeft_eq]
  split_ifs <;> omega

theorem map_tile_offset_signed (tile_base : Int) (t : Nat) (ht : t < 256)
    (hb : tile_base ≠ 0) :
    ((map_tile_offset tile_base t : Nat) : Int) = 0x1000 + 16 * signed8 t := by
  rw [map_tile_offset_eq tile_base t ht, if_pos hb, signed8]
  split_ifs <;> push_cast <;> omega


/-! ### The row of a tile that is flipped vertically -/

theorem map_data_cgb_vflip (tiledata : Nat) (tile_base : Int) (t attr y : Nat)
    (h6 : attr &&& (1 <<< 6) ≠ 0) :
    map_data_cgb tiledata tile_base t attr y =
      tiledata + ((map_tile_number tile_base t <<< 4) +
        (if attr &&& (1 <<< 3) ≠ 0 then 0x2000 else 0)) + 2 * (7 - y % 8) := by
  rw [map_data_cgb, if_pos h6, and_s32_seven]
  omega


/-! ## The sprite sheet `GB_Debug_PrintSprites` -/

theorem for_loop_counter {β : Type} (n step : Nat)
    (body : Nat → β × Nat → Option (β × Nat)) (G : Nat → Nat → β → Option β) (c0 : Nat)
    (b0 : β)
    (hbody : ∀ i, i < n → ∀ b, body i (b, c0 + step * i) =
      (G i (c0 + step * i) b).map (fun b1 => (b1, c0 + step * (i + 1)))) :
    for_loop n body (b0, c0) =
      (for_loop n (fun i b => G i (c0 + step * i) b) b0).map (fun b => (b, c0 + step * n)) := by
  induction n with
  | zero => simp [for_loop]
  | succ k ih =>
    have hk := ih (fun i hi b => hbody i (Nat.lt_succ_of_lt hi) b)
    simp only [for_loop, hk]
    cases for_loop k (fun i b => G i (c0 + step * i) b) b0 with
    | none => rfl
    | some b =>
      simp only [Option.map_some', Option.some_bind]
      exact hbody k (Nat.lt_succ_self k) b

theorem PrintSprites_row (E : Extern) (gb : GB_CONTEXT) (y : Nat) (hy : y < 5)
    (b : Int → Nat) :
    for_loop 8 (fun x st => GB_Debug_PrintSprites_body E gb y x st) (b, 0 + 8 * y) =
      (for_loop 8 (fun x b =>
        GB_Debug_PrintSprite E gb b 256 (8 + ((x : Int) * 32)) (10 + ((y : Int) * 52))
          ((8 * y + x : Nat) : Int)) b).map (fun b1 => (b1, 0 + 8 * (y + 1))) := by
  have h := for_loop_counter 8 1 (fun x st => GB_Debug_PrintSprites_body E gb y x st)
    (fun x c b => GB_Debug_PrintSprite E gb b 256 (8 + ((x : Int) * 32)) (10 + ((y : Int) * 52))
      (c : Int)) (0 + 8 * y) b
    (fun x hx b => by
      have e : (0 + 8 * y + 1 * x + 1) % 2 ^ 32 = 0 + 8 * y + 1 * (x + 1) := by
        have h32 : (2 : Nat) ^ 32 = 4294967296 := by norm_num
        omega
      simp only [GB_Debug_PrintSprites_body, e, Option.bind_eq_bind, Option.pure_def]
      cases GB_Debug_PrintSprite E gb b 256 (8 + ((x : Int) * 32)) (10 + ((y : Int) * 52))
        ((0 + 8 * y + 1 * x : Nat) : Int) <;> rfl)
  have e1 : ∀ x : Nat, 0 + 8 * y + 1 * x = 8 * y + x := fun x => by omega
  have e2 : 0 + 8 * y + 1 * 8 = 0 + 8 * (y + 1) := by omega
  simp only [e1] at h
  rw [h, ← e2]
  simp only [e1]

theorem PrintSprite_nat_eq (E : Extern) (gb : GB_CONTEXT) (buf : Int → Nat)
    (bufw buff_x buff_y : Int) (n : Nat) (hn : n < 40) :
    GB_Debug_PrintSprite E gb buf bufw buff_x buff_y (n : Int) =
      some (sprite_paint gb.Memory.VideoRAM (spriteheight E gb.Memory)
        ((gb.Memory.ObjAttrMem n).Info % 256)
        (sprite_data_offset E gb ((gb.Memory.ObjAttrMem n).Tile % 256)
          ((gb.Memory.ObjAttrMem n).Info % 256))
        (sprite_isvisible (spriteheight E gb.Memory)
          ((gb.Memory.ObjAttrMem n).X % 256)
          ((gb.Memory.ObjAttrMem n).Y % 256))
        (sprite_resolve E gb ((gb.Memory.ObjAttrMem n).Info % 256))
        bufw buff_x buff_y buf) := by
  have h := PrintSprite_eq E gb buf bufw buff_x buff_y (n : Int) ⟨by omega, by omega⟩
  rw [Int.toNat_ofNat] at h
  exact h

theorem PrintSprites_loops (E : Extern) (gb : GB_CONTEXT) (buf : Int → Nat) :
    GB_Debug_PrintSprites E gb buf =
      for_loop 5 (fun y b => for_loop 8 (fun x b =>
        GB_Debug_PrintSprite E gb b 256 (8 + ((x : Int) * 32)) (10 + ((y : Int) * 52))
          ((8 * y + x : Nat) : Int)) b) (sprites_fill_paint buf) := by
  have hfill : for_loop 256 (fun y buf =>
      for_loop 256 (fun x buf => some (GB_Debug_PrintSprites_fill y x buf)) buf) buf =
      some (sprites_fill_paint buf) := by
    apply for_loop_eq_pure
    intro y _ s
    apply for_loop_eq_pure
    intro x _ s
    rfl
  have hcount := for_loop_counter 5 8
    (fun y st => for_loop 8 (fun x st => GB_Debug_PrintSprites_body E gb y x st) st)
    (fun y _ b => for_loop 8 (fun x b =>
      GB_Debug_PrintSprite E gb b 256 (8 + ((x : Int) * 32)) (10 + ((y : Int) * 52))
        ((8 * y + x : Nat) : Int)) b) 0 (sprites_fill_paint buf)
    (fun y hy b => PrintSprites_row E gb y hy b)
  unfold GB_Debug_PrintSprites
  simp only [Option.bind_eq_bind]
  rw [hfill, Option.some_bind, hcount]
  cases for_loop 5 (fun y b => for_loop 8 (fun x b =>
        GB_Debug_PrintSprite E gb b 256 (8 + ((x : Int) * 32)) (10 + ((y : Int) * 52))
          ((8 * y + x : Nat) : Int)) b) (sprites_fill_paint buf) <;> rfl

theorem PrintSprites_eq (E : Extern) (gb : GB_CONTEXT) (buf : Int → Nat) :
    GB_Debug_PrintSprites E gb buf = some (sprites_sheet_paint E gb buf) := by
  rw [PrintSprites_loops]
  apply for_loop_eq_pure
  intro y hy s
  apply for_loop_eq_pure
  intro x hx s
  exact PrintSprite_nat_eq E gb s 256 _ _ (8 * y + x) (by omega)

theorem sprite_paint_frame (vram : Nat → Nat) (height Info spr_data : Nat) (isvisible : Bool)
    (resolve : Nat → Option RGB) (bufw buff_x buff_y : Int) (buf : Int → Nat) (p : Int)
    (h : ∀ y x i j : Nat, y < height → x < 8 → i < 2 → j < 2 →
      p < ((buff_y + ((y * 2 : Nat) : Int) + (j : Int)) * bufw +
          (buff_x + ((x * 2 : Nat) : Int) + (i : Int))) * 3 ∨
      ((buff_y + ((y * 2 : Nat) : Int) + (j : Int)) * bufw +
          (buff_x + ((x * 2 : Nat) : Int) + (i : Int))) * 3 + 3 ≤ p) :
    sprite_paint vram height Info spr_data isvisible resolve bufw buff_x buff_y buf p =
      buf p := by
  unfold sprite_paint
  apply raster_frame
  intro y x hy hx s
  apply raster_frame
  intro i j hi hj s
  exact store_opt_other _ _ _ _ (h y x i j hy hx hi hj)

theorem sheet_index_range (X Y y x i j : Nat) (hX : X < 8) (hY : Y < 5) (hy : y < 16)
    (hx : x < 8) (hi : i < 2) (hj : j < 2) :
    0 ≤ sheet_index X Y y x i j ∧ sheet_index X Y y x i j + 3 ≤ 256 * 256 * 3 := by
  unfold sheet_index
  constructor <;> omega

theorem sheet_index_ne (X Y y x i j X2 Y2 y2 x2 i2 j2 : Nat) (hy : y < 16) (hx : x < 8)
    (hi : i < 2) (hj : j < 2) (hy2 : y2 < 16) (hx2 : x2 < 8) (hi2 : i2 < 2) (hj2 : j2 < 2)
    (hX : X < 8) (hX2 : X2 < 8) (hne : ¬(X = X2 ∧ Y = Y2)) :
    sheet_index X Y y x i j + 3 ≤ sheet_index X2 Y2 y2 x2 i2 j2 ∨
      sheet_index X2 Y2 y2 x2 i2 j2 + 3 ≤ sheet_index X Y y x i j := by
  unfold sheet_index
  by_cases hYY : Y = Y2
  · have hXX : X ≠ X2 := fun h => hne ⟨h, hYY⟩
    subst hYY
    omega
  · omega

theorem sprites_fill_paint_frame (buf : Int → Nat) (p : Int)
    (hp : p < 0 ∨ 256 * 256 * 3 ≤ p) : sprites_fill_paint buf p = buf p := by
  unfold sprites_fill_paint
  apply raster_frame
  intro y x hy hx s
  exact store_rgb_other _ _ _ _ _ _ (by omega)

theorem sprites_sheet_paint_frame (E : Extern) (gb : GB_CONTEXT) (buf : Int → Nat) (p : Int)
    (hp : p < 0 ∨ 256 * 256 * 3 ≤ p) : sprites_sheet_paint E gb buf p = buf p := by
  have h16 : spriteheight E gb.Memory ≤ 16 := by
    rcases spriteheight_cases E gb.Memory with h | h <;> omega
  unfold sprites_sheet_paint
  rw [raster_frame 5 8 _ p _ (sprites_fill_paint buf)]
  · exact sprites_fill_paint_frame buf p hp
  · intro Y X hY hX s
    apply sprite_paint_frame
    intro y x i j hy hx hi hj
    have h := sheet_index_range X Y y x i j hX hY (by omega) hx hi hj
    unfold sheet_index at h
    omega

/-- C29: `GB_Debug_PrintSprites` returns; after the checkerboard it is the 40
calls of `GB_Debug_PrintSprite`, one for each OAM entry `8*y + x` with `y < 5`,
`x < 8` in increasing order, with the corner `(8 + 32*x, 10 + 52*y)` in a buffer
256 pixels wide, so that the entry `i` is drawn once, at
`(8 + 32*(i mod 8), 10 + 52*(i div 8))`. For both sprite heights every byte
offset that a call computes is at least 0 and below `256*256*3`, no byte outside
of these `256*256*3` bytes is changed, and the bytes written for two different
sprites are disjoint. -/
theorem PrintSprites_sheet (E : Extern) (gb : GB_CONTEXT) (buf : Int → Nat) :
    (∃ out, GB_Debug_PrintSprites E gb buf = some out ∧
      for_loop 5 (fun y b => for_loop 8 (fun x b =>
        GB_Debug_PrintSprite E gb b 256 (8 + ((x : Int) * 32)) (10 + ((y : Int) * 52))
          ((8 * y + x : Nat) : Int)) b) (sprites_fill_paint buf) = some out ∧
      ∀ p : Int, p < 0 ∨ 256 * 256 * 3 ≤ p → out p = buf p) ∧
    (∀ i : Nat, i < 40 →
      i / 8 < 5 ∧ i % 8 < 8 ∧
      ∀ y x : Nat, y < 5 → x < 8 → (8 * y + x = i ↔ x = i % 8 ∧ y = i / 8)) ∧
    (∀ X Y y x i j : Nat, X < 8 → Y < 5 → y < spriteheight E gb.Memory → x < 8 → i < 2 →
      j < 2 →
      (∀ (isvisible : Bool) (Info c : Nat) (s : Int → Nat), c < 4 →
        GB_Debug_PrintSprite_pixel isvisible (sprite_resolve E gb Info) 256
            (8 + ((X : Int) * 32)) (10 + ((Y : Int) * 52)) c y x i j s =
          some (store_opt s (sheet_index X Y y x i j)
            (sprite_cell isvisible (sprite_resolve E gb Info) c ((x * 2) + i) ((y * 2) + j)))) ∧
      0 ≤ sheet_index X Y y x i j ∧ sheet_index X Y y x i j + 3 ≤ 256 * 256 * 3 ∧
      ∀ X2 Y2 y2 x2 i2 j2 : Nat, X2 < 8 → Y2 < 5 → y2 < spriteheight E gb.Memory → x2 < 8 →
        i2 < 2 → j2 < 2 → ¬(X = X2 ∧ Y = Y2) →
        sheet_index X Y y x i j + 3 ≤ sheet_index X2 Y2 y2 x2 i2 j2 ∨
          sheet_index X2 Y2 y2 x2 i2 j2 + 3 ≤ sheet_index X Y y x i j) := by
  have h16 : spriteheight E gb.Memory ≤ 16 := by
    rcases spriteheight_cases E gb.Memory with h | h <;> omega
  refine ⟨⟨_, PrintSprites_eq E gb buf, ?_, ?_⟩, ?_, ?_⟩
  · rw [← PrintSprites_loops]
    exact PrintSprites_eq E gb buf
  · intro p hp
    exact sprites_sheet_paint_frame E gb buf p hp
  · intro i hi
    refine ⟨by omega, by omega, ?_⟩
    intro y x hy hx
    constructor
    · intro h; constructor <;> omega
    · intro h; omega
  · intro X Y y x i j hX hY hy hx hi hj
    have hr := sheet_index_range X Y y x i j hX hY (by omega) hx hi hj
    refine ⟨?_, hr.1, hr.2, ?_⟩
    · intro isvisible Info c s hc
      exact PrintSprite_pixel_eq isvisible (sprite_resolve E gb Info) 256 _ _ c y x i j s
        (fun _ => sprite_resolve_some E gb Info c hc)
    · intro X2 Y2 y2 x2 i2 j2 hX2 _ hy2 hx2 hi2 hj2 hne
      exact sheet_index_ne X Y y x i j X2 Y2 y2 x2 i2 j2 (by omega) hx hi hj (by omega) hx2 hi2
        hj2 hX hX2 hne

/-- Witness of C29: the last byte offset of the last sprite, entry 39 in the cell
of column 7 and row 4 of the sheet, 16 pixels high, is below `256*256*3`. -/
theorem PrintSprites_sheet_witness :
    spriteheight sampleExtern (sampleState 0 0).Memory = 16 ∧
    sheet_index 7 4 15 7 1 1 = (249 * 256 + 247) * 3 ∧
    sheet_index 7 4 15 7 1 1 + 3 ≤ 256 * 256 * 3 ∧
    (39 / 8 < 5 ∧ 39 % 8 < 8) :=
  ⟨by decide, by decide,
    ((PrintSprites_sheet sampleExtern (sampleState 0 0) (fun _ => 0)).2.2 7 4 15 7 1 1
      (by decide) (by decide) (by decide) (by decide) (by decide) (by decide)).2.2.1,
    ⟨((PrintSprites_sheet sampleExtern (sampleState 0 0) (fun _ => 0)).2.1 39 (by decide)).1,
      ((PrintSprites_sheet sampleExtern (sampleState 0 0) (fun _ => 0)).2.1 39
        (by decide)).2.1⟩⟩

/-! ## The reads of the sprite renderers -/

theorem sprite_data_offset_bank (E : Extern) (gb : GB_CONTEXT) (Tile Info : Nat) :
    sprite_data_offset E gb Tile Info =
      (if gb.Emulator.CGBEnabled ≠ 0 ∧ Info &&& (1 <<< 3) ≠ 0 then 0x2000 else 0) +
        16 * (Tile &&& (if spriteheight E gb.Memory = 16 then 0xFE else 0xFF)) := by
  have e4 : ∀ v : Nat, v <<< 4 = v * 16 := fun v => by rw [Nat.shiftLeft_eq]
  unfold sprite_data_offset
  simp only [e4]
  by_cases hc : gb.Emulator.CGBEnabled ≠ 0
  · by_cases h3 : Info &&& (1 <<< 3) ≠ 0
    · have hb : gb.Emulator.CGBEnabled ≠ 0 ∧ Info &&& (1 <<< 3) ≠ 0 := ⟨hc, h3⟩
      rw [if_pos hc, if_pos h3, if_pos hb]; omega
    · have hb : ¬(gb.Emulator.CGBEnabled ≠ 0 ∧ Info &&& (1 <<< 3) ≠ 0) := fun h => h3 h.2
      rw [if_pos hc, if_neg h3, if_neg hb]; omega
  · have hb : ¬(gb.Emulator.CGBEnabled ≠ 0 ∧ Info &&& (1 <<< 3) ≠ 0) := fun h => hc h.1
    rw [if_neg hc, if_neg hb]; omega

theorem sprite_row_offset_range (E : Extern) (gb : GB_CONTEXT) (Tile Info y : Nat)
    (hT : Tile < 256) (hy : y < spriteheight E gb.Memory) :
    (if gb.Emulator.CGBEnabled ≠ 0 ∧ Info &&& (1 <<< 3) ≠ 0 then 0x2000 else 0) ≤
      sprite_row_offset (spriteheight E gb.Memory) Info (sprite_data_offset E gb Tile Info) y ∧
    sprite_row_offset (spriteheight E gb.Memory) Info (sprite_data_offset E gb Tile Info) y + 1 ≤
      (if gb.Emulator.CGBEnabled ≠ 0 ∧ Info &&& (1 <<< 3) ≠ 0 then 0x2000 else 0) + 0x0FFF := by
  have hFE : Tile &&& 0xFE ≤ 0xFE := Nat.and_le_right
  have hFF : Tile &&& 0xFF ≤ Tile := Nat.and_le_left
  rw [sprite_data_offset_bank, sprite_row_offset]
  rcases spriteheight_cases E gb.Memory with h8 | h16
  · rw [h8] at hy ⊢
    have hn : ¬ (8 : Nat) = 16 := by decide
    rw [if_neg hn]
    split_ifs <;> omega
  · rw [h16] at hy ⊢
    rw [if_pos rfl]
    split_ifs <;> omega

theorem sprite_row_offset_0xFF (E : Extern) (gb : GB_CONTEXT) (Info y : Nat)
    (h16 : spriteheight E gb.Memory = 16) (hy : y < 16) :
    sprite_row_offset (spriteheight E gb.Memory) Info (sprite_data_offset E gb 0xFF Info) y =
      (if gb.Emulator.CGBEnabled ≠ 0 ∧ Info &&& (1 <<< 3) ≠ 0 then 0x2000 else 0) +
        16 * 0xFE + 2 * (if Info &&& (1 <<< 6) ≠ 0 then 15 - y else y) := by
  have hFE : (0xFF : Nat) &&& 0xFE = 0xFE := by decide
  rw [sprite_data_offset_bank, sprite_row_offset, h16, if_pos rfl, hFE]
  split_ifs <;> omega

theorem sprite_color_index_reads (E : Extern) (gb : GB_CONTEXT) (Tile Info y x : Nat)
    (hT : Tile < 256) (hy : y < spriteheight E gb.Memory) :
    sprite_color_index gb.Memory (spriteheight E gb.Memory) Info
        (sprite_data_offset E gb Tile Info) y x =
      some (color_index
        (gb.Memory.VideoRAM (sprite_row_offset (spriteheight E gb.Memory) Info
          (sprite_data_offset E gb Tile Info) y) % 256)
        (gb.Memory.VideoRAM (sprite_row_offset (spriteheight E gb.Memory) Info
          (sprite_data_offset E gb Tile Info) y + 1) % 256)
        (7 - (if Info &&& (1 <<< 5) ≠ 0 then 7 - x else x))) := by
  rw [sprite_color_index_eq gb.Memory _ Info _ y x
    (fun r hr => sprite_data_offset_lt E gb Tile Info r hT hr) hy]
  rfl


/-! ## The characters of the GBA memory viewer -/

/-- C38: with `char` a signed 8-bit type, for every `c` in `-128..127`
`win_gba_memviewer_character_fix(c)` is `c` when `0x2D <= c <= 0x5F` or
`c >= 0x61` and `0x2E` otherwise; the result is never NUL, never `0x25`, never
below `0x2D`, it is again a `char`, the function is idempotent, and every byte
from `0x80` on, converted to `char`, is shown as `0x2E`. -/
theorem character_fix_spec (c : Int) (h : -128 ≤ c ∧ c ≤ 127) :
    win_gba_memviewer_character_fix c =
      (if (0x2D ≤ c ∧ c ≤ 0x5F) ∨ 0x61 ≤ c then c else 0x2E) ∧
    win_gba_memviewer_character_fix c ≠ 0 ∧
    win_gba_memviewer_character_fix c ≠ 0x25 ∧
    0x2D ≤ win_gba_memviewer_character_fix c ∧
    win_gba_memviewer_character_fix c ≤ 127 ∧
    win_gba_memviewer_character_fix (win_gba_memviewer_character_fix c) =
      win_gba_memviewer_character_fix c ∧
    ∀ v : Nat, 0x80 ≤ v → v ≤ 0xFF →
      (-128 ≤ char_of_u8 v ∧ char_of_u8 v ≤ -1) ∧
      win_gba_memviewer_character_fix (char_of_u8 v) = 0x2E := by
  have hfix : ∀ d : Int, win_gba_memviewer_character_fix d =
      (if (0x2D ≤ d ∧ d ≤ 0x5F) ∨ 0x61 ≤ d then d else 0x2E) := by
    intro d
    unfold win_gba_memviewer_character_fix
    split_ifs <;> omega
  have hv : ∀ v : Nat, 0x80 ≤ v → v ≤ 0xFF → -128 ≤ char_of_u8 v ∧ char_of_u8 v ≤ -1 := by
    intro v h1 h2
    unfold char_of_u8
    split_ifs <;> omega
  refine ⟨hfix c, ?_, ?_, ?_, ?_, ?_, ?_⟩
  · rw [hfix]; split_ifs <;> omega
  · rw [hfix]; split_ifs <;> omega
  · rw [hfix]; split_ifs <;> omega
  · rw [hfix]; split_ifs <;> omega
  · rw [hfix (win_gba_memviewer_character_fix c), hfix c]; split_ifs <;> omega
  · intro v h1 h2
    refine ⟨hv v h1 h2, ?_⟩
    have := hv v h1 h2
    rw [hfix]; split_ifs <;> omega

/-- Witness of C38: the byte `0x25` (the percent sign) is replaced and the byte
`0x41` is kept. -/
theorem character_fix_spec_witness :
    ((-128 : Int) ≤ 0x25 ∧ (0x25 : Int) ≤ 127) ∧
    win_gba_memviewer_character_fix 0x25 = 0x2E ∧
    win_gba_memviewer_character_fix 0x41 = 0x41 ∧
    win_gba_memviewer_character_fix (win_gba_memviewer_character_fix 0x25) =
      win_gba_memviewer_character_fix 0x25 :=
  ⟨by decide, by decide, by decide, (character_fix_spec 0x25 (by decide)).2.2.2.2.2.1⟩

/-! ## The constant `SGB_PACKET_DELAY` -/

/-- Counterexample to C39 as stated: 60 ms at 4194304 Hz are 251658.24 clock
cycles, so `SGB_PACKET_DELAY` clock cycles are not 60 ms: the cycles in 1000
times the delay differ from the cycles in 60 seconds, and the delay is more
than 66 ms. -/
theorem SGB_PACKET_DELAY_counterexample :
    ¬ (SGB_PACKET_DELAY * 1000 = 60 * 4194304) ∧ 66 * 4194304 < SGB_PACKET_DELAY * 1000 := by
  decide

/-- C39, amended: `SGB_PACKET_DELAY` is the number of clock cycles of exactly 4
frames, `4 * 154` scanlines of 456 clocks, that is `4 * 70224`; at the
4194304 Hz clock this is between 66 and 67 ms, not the 60 ms of the comment. -/
theorem SGB_PACKET_DELAY_four_frames :
    SGB_PACKET_DELAY = 4 * 154 * 456 ∧ SGB_PACKET_DELAY = 4 * 70224 ∧
    154 * 456 = 70224 ∧
    66 * 4194304 < SGB_PACKET_DELAY * 1000 ∧ SGB_PACKET_DELAY * 1000 < 67 * 4194304 := by
  decide

/-! ## The photo slots of the camera -/

theorem camera_baselineaddr_bounds (tiles rows bankaddr y x : Nat) (hy : y < rows * 8)
    (hx : x < tiles * 8) :
    bankaddr ≤ camera_baselineaddr tiles bankaddr y x ∧
    camera_baselineaddr tiles bankaddr y x + 1 < bankaddr + 16 * (rows * tiles) := by
  have h1 : y >>> 3 + 1 ≤ rows := by
    rw [Nat.shiftRight_eq_div_pow]; omega
  have h2 : x >>> 3 < tiles := by
    rw [Nat.shiftRight_eq_div_pow]; omega
  have h3 : (y >>> 3 + 1) * tiles ≤ rows * tiles := Nat.mul_le_mul_right tiles h1
  have h4 : (y >>> 3 + 1) * tiles = (y >>> 3) * tiles + tiles := by ring
  have hr : (y &&& 7) <<< 1 = 2 * (y % 8) := by
    rw [and_0x7, Nat.shiftLeft_eq]; omega
  rw [camera_baselineaddr, hr]
  constructor <;> omega

/-- C35: for every photo index `i` in `0..29`, the two bytes that
`GB_Debug_GBCameraPhotoPrint(i)` reads for a pixel are at flat addresses
(`bank*0x2000 + offset`) in `[0x2000 + i*0x1000, 0x2000 + i*0x1000 + 0x0E00)` and
those of `GB_Debug_GBCameraMiniPhotoPrint(i)` in
`[0x2E00 + i*0x1000, 0x2E00 + i*0x1000 + 0x0100)`; the second range starts where
the first ends and ends below the next slot, so the thumbnail of a slot does not
overlap its photo and the reads of two different slots do not overlap. Both
functions return. -/
theorem camera_slots_disjoint (gb : GB_CONTEXT) (buffer : Int → Nat) (bufw posx posy : Int)
    (i : Nat) (hi : i ≤ 29) :
    ((∃ out, GB_Debug_GBCameraPhotoPrint gb buffer bufw (i : Int) = some out) ∧
      ∀ y x : Nat, y < 14 * 8 → x < 16 * 8 →
        let bank := camera_bank ((i : Int) * 0x1000 + 0x2000)
        let baselineaddr :=
          camera_baselineaddr 16 (camera_bankaddr ((i : Int) * 0x1000 + 0x2000)) y x
        baselineaddr + 1 < 0x2000 ∧
        0x2000 + i * 0x1000 ≤ bank * 0x2000 + baselineaddr ∧
        bank * 0x2000 + (baselineaddr + 1) < 0x2000 + i * 0x1000 + 0x0E00 ∧
        read_extern_ram gb.Memory bank baselineaddr =
          some (extern_flat gb.Memory (bank * 0x2000 + baselineaddr) % 256) ∧
        read_extern_ram gb.Memory bank (baselineaddr + 1) =
          some (extern_flat gb.Memory (bank * 0x2000 + (baselineaddr + 1)) % 256)) ∧
    ((∃ out, GB_Debug_GBCameraMiniPhotoPrint gb buffer bufw posx posy (i : Int) = some out) ∧
      ∀ y x : Nat, y < 4 * 8 → x < 4 * 8 →
        let bank := camera_bank ((i : Int) * 0x1000 + 0x2E00)
        let baselineaddr :=
          camera_baselineaddr 4 (camera_bankaddr ((i : Int) * 0x1000 + 0x2E00)) y x
        baselineaddr + 1 < 0x2000 ∧
        0x2E00 + i * 0x1000 ≤ bank * 0x2000 + baselineaddr ∧
        bank * 0x2000 + (baselineaddr + 1) < 0x2E00 + i * 0x1000 + 0x0100 ∧
        read_extern_ram gb.Memory bank baselineaddr =
          some (extern_flat gb.Memory (bank * 0x2000 + baselineaddr) % 256) ∧
        read_extern_ram gb.Memory bank (baselineaddr + 1) =
          some (extern_flat gb.Memory (bank * 0x2000 + (baselineaddr + 1)) % 256)) ∧
    0x2000 + i * 0x1000 + 0x0E00 ≤ 0x2E00 + i * 0x1000 ∧
    (∀ j : Nat, i < j →
      0x2E00 + i * 0x1000 + 0x0100 ≤ 0x2000 + j * 0x1000 ∧
      0x2000 + i * 0x1000 + 0x0E00 ≤ 0x2E00 + j * 0x1000) := by
  obtain ⟨hbP, hoP⟩ := camera_split_photo i hi
  obtain ⟨hbM, hoM⟩ := camera_split_mini i hi
  refine ⟨⟨⟨_, CameraPhotoPrint_eq gb buffer bufw i hi⟩, ?_⟩,
    ⟨⟨_, CameraMiniPhotoPrint_eq gb buffer bufw posx posy i hi⟩, ?_⟩, by omega,
    fun j hj => ⟨by omega, by omega⟩⟩
  · intro y x hy hx
    simp only []
    rw [hbP, hoP]
    have hb := camera_baselineaddr_bounds 16 14 ((i % 2) * 0x1000) y x hy hx
    have h0 : camera_baselineaddr 16 ((i % 2) * 0x1000) y x + 1 < 0x2000 := by omega
    refine ⟨h0, by omega, by omega, ?_, ?_⟩
    · rw [read_extern_ram_lt _ _ _ (by omega) (by omega),
        extern_flat_bank gb.Memory (1 + i / 2) _ _ (by omega) rfl]
    · rw [read_extern_ram_lt _ _ _ (by omega) h0,
        extern_flat_bank gb.Memory (1 + i / 2) _ _ h0 rfl]
  · intro y x hy hx
    simp only []
    rw [hbM, hoM]
    have hb := camera_baselineaddr_bounds 4 4 ((i % 2) * 0x1000 + 0x0E00) y x hy hx
    have h0 : camera_baselineaddr 4 ((i % 2) * 0x1000 + 0x0E00) y x + 1 < 0x2000 := by omega
    refine ⟨h0, by omega, by omega, ?_, ?_⟩
    · rw [read_extern_ram_lt _ _ _ (by omega) (by omega),
        extern_flat_bank gb.Memory (1 + i / 2) _ _ (by omega) rfl]
    · rw [read_extern_ram_lt _ _ _ (by omega) h0,
        extern_flat_bank gb.Memory (1 + i / 2) _ _ h0 rfl]

/-- Witness of C35: the last bytes read for the photo and for the thumbnail of
slot 29 are at the flat addresses `0x1FDFF` and `0x1FEFF`. -/
theorem camera_slots_disjoint_witness :
    (29 : Nat) ≤ 29 ∧
    camera_bank (((29 : Nat) : Int) * 0x1000 + 0x2000) * 0x2000 +
      (camera_baselineaddr 16 (camera_bankaddr (((29 : Nat) : Int) * 0x1000 + 0x2000)) 111 127
        + 1) < 0x2000 + 29 * 0x1000 + 0x0E00 ∧
    camera_bank (((29 : Nat) : Int) * 0x1000 + 0x2E00) * 0x2000 +
      (camera_baselineaddr 4 (camera_bankaddr (((29 : Nat) : Int) * 0x1000 + 0x2E00)) 31 31
        + 1) < 0x2E00 + 29 * 0x1000 + 0x0100 :=
  ⟨by decide,
    ((camera_slots_disjoint (sampleState 0 0) (fun _ => 0) 128 0 0 29 (by decide)).1.2 111 127
      (by decide) (by decide)).2.2.1,
    ((camera_slots_disjoint (sampleState 0 0) (fun _ => 0) 128 0 0 29 (by decide)).2.1.2 31 31
      (by decide) (by decide)).2.2.1⟩

/-! ## The start address of the GBA memory viewer -/

theorem u32_of_int_lt (a : Int) : u32_of_int a < 2 ^ 32 := by
  unfold u32_of_int
  omega

theorem mem_view_scan_iff (last : Int) (w : Nat) (step : Int) (hs : last < step)
    (n : Nat) :
    ∀ (xtile : Int) (a A : Nat), a < 2 ^ 32 →
      (win_gba_mem_view_scan last w step n xtile a = some A ↔
        ∃ k : Nat, k < n ∧ step * k ≤ xtile ∧ xtile ≤ step * k + last ∧
          A = (a + w * k) % 2 ^ 32) := by
  induction n with
  | zero =>
    intro xtile a A _
    simp [win_gba_mem_view_scan]
  | succ n ih =>
    intro xtile a A ha
    unfold win_gba_mem_view_scan
    by_cases hx : (xtile ≥ 0) ∧ (xtile ≤ last)
    · rw [if_pos hx]
      constructor
      · intro h
        refine ⟨0, Nat.succ_pos n, by simpa using hx.1, by simpa using hx.2, ?_⟩
        have : a = A := Option.some.inj h
        rw [← this, Nat.mul_zero, Nat.add_zero, Nat.mod_eq_of_lt ha]
      · rintro ⟨k, _, h1, h2, h3⟩
        have hk : k = 0 := by
          by_contra hne
          have hk1 : (1 : Int) ≤ (k : Int) := by omega
          have : step * 1 ≤ step * (k : Int) := Int.mul_le_mul_of_nonneg_left hk1 (by omega)
          omega
        subst hk
        rw [h3, Nat.mul_zero, Nat.add_zero, Nat.mod_eq_of_lt ha]
    · rw [if_neg hx, ih (xtile - step) ((a + w) % 2 ^ 32) A (Nat.mod_lt _ (by norm_num))]
      constructor
      · rintro ⟨k, hk, h1, h2, h3⟩
        have e : step * ((k + 1 : Nat) : Int) = step * k + step := by push_cast; ring
        refine ⟨k + 1, by omega, by omega, by omega, ?_⟩
        rw [h3, Nat.mod_add_mod, Nat.mul_add, Nat.mul_one]
        congr 1
        omega
      · rintro ⟨k, hk, h1, h2, h3⟩
        have hk0 : k ≠ 0 := by
          intro h0
          subst h0
          apply hx
          simp only [Nat.cast_zero, Int.mul_zero, Int.zero_add] at h1 h2
          exact ⟨h1, h2⟩
        obtain ⟨j, rfl⟩ : ∃ j, k = j + 1 := ⟨k - 1, by omega⟩
        have e : step * ((j + 1 : Nat) : Int) = step * j + step := by push_cast; ring
        refine ⟨j, by omega, by omega, by omega, ?_⟩
        rw [h3, Nat.mod_add_mod, Nat.mul_add, Nat.mul_one]
        congr 1
        omega

theorem mem_view_line_base (start : Nat) (r : Int) (w k : Nat) :
    (u32_of_int ((start : Int) + s32_wrap (r * GBA_MEMVIEWER_ADDRESS_JUMP_LINE)) + w * k) % 2 ^ 32 =
      u32_of_int ((start : Int) + 16 * r + ((w * k : Nat) : Int)) := by
  unfold u32_of_int s32_wrap GBA_MEMVIEWER_ADDRESS_JUMP_LINE
  generalize w * k = m
  omega

/-- The click scan of one mode: value `k` occupies the columns `11 + (d + 1) * k + q`. -/
theorem mem_view_scan_columns (w n d : Nat) (start : Nat) (c r : Int) (A : Nat) (hd : 0 < d) :
    (win_gba_mem_view_scan ((d : Int) - 1) w ((d : Int) + 1) n (c - 11)
        (u32_of_int ((start : Int) + s32_wrap (r * GBA_MEMVIEWER_ADDRESS_JUMP_LINE))) = some A ↔
      ∃ k q : Nat, k < n ∧ q < d ∧ c = 11 + ((d : Int) + 1) * k + q ∧
        A = u32_of_int ((start : Int) + 16 * r + ((w * k : Nat) : Int))) := by
  rw [mem_view_scan_iff _ w _ (by omega) n _ _ A (u32_of_int_lt _)]
  constructor
  · rintro ⟨k, hk, h1, h2, h3⟩
    refine ⟨k, (c - 11 - ((d : Int) + 1) * k).toNat, hk, by omega, by omega, ?_⟩
    rw [h3, mem_view_line_base]
  · rintro ⟨k, q, hk, hq, h1, h2⟩
    refine ⟨k, hk, by omega, by omega, ?_⟩
    rw [h2, mem_view_line_base]

theorem snprintf_0X_length (d v : Nat) : (snprintf_0X d v).length = d := by
  simp [snprintf_0X]

theorem flatten_drop_take {α : Type} (f : Nat → List α) (d : Nat)
    (hlen : ∀ j, (f j).length = d + 1) (n : Nat) :
    ((List.range n).map f).flatten.length = (d + 1) * n ∧
    ∀ (k : Nat) (rest : List α), k < n →
      ((((List.range n).map f).flatten ++ rest).drop ((d + 1) * k)).take d = (f k).take d := by
  induction n with
  | zero => simp
  | succ n ih =>
    have e : ((List.range (n + 1)).map f).flatten = ((List.range n).map f).flatten ++ f n := by
      rw [List.range_succ, List.map_append, List.flatten_append]
      simp
    refine ⟨?_, ?_⟩
    · rw [e, List.length_append, ih.1, hlen, Nat.mul_add, Nat.mul_one]
    · intro k rest hk
      rw [e, List.append_assoc]
      by_cases hkn : k < n
      · exact ih.2 k (f n ++ rest) hkn
      · have : k = n := by omega
        subst this
        rw [← ih.1, List.drop_left, List.take_append_of_le_length (by rw [hlen]; omega)]

theorem mem_view_clicked_iff (s : GBA_MEMVIEWER) (w n d : Nat) (c r : Int) (A : Nat)
    (hmode : (s.gba_memviewer_mode = GBA_MEMVIEWER_32 ∧ w = 4 ∧ n = 4 ∧ d = 8) ∨
      (s.gba_memviewer_mode = GBA_MEMVIEWER_16 ∧ w = 2 ∧ n = 8 ∧ d = 4) ∨
      (s.gba_memviewer_mode = GBA_MEMVIEWER_8 ∧ w = 1 ∧ n = 16 ∧ d = 2)) :
    (win_gba_mem_view_clicked s c r = some A ↔
      ∃ k q : Nat, k < n ∧ q < d ∧ c = 11 + ((d : Int) + 1) * k + q ∧
        A = u32_of_int ((s.gba_memviewer_start_address : Int) + 16 * r + ((w * k : Nat) : Int))) := by
  have h16 : ¬ (GBA_MEMVIEWER_16 = GBA_MEMVIEWER_32) := by decide
  have h8 : ¬ (GBA_MEMVIEWER_8 = GBA_MEMVIEWER_32) := by decide
  have h8' : ¬ (GBA_MEMVIEWER_8 = GBA_MEMVIEWER_16) := by decide
  rcases hmode with ⟨hm, rfl, rfl, rfl⟩ | ⟨hm, rfl, rfl, rfl⟩ | ⟨hm, rfl, rfl, rfl⟩
  · have h := mem_view_scan_columns 4 4 8 s.gba_memviewer_start_address c r A (by decide)
    have e1 : ((8 : Nat) : Int) - 1 = 7 := by norm_num
    have e2 : ((8 : Nat) : Int) + 1 = 9 := by norm_num
    rw [e1, e2] at h
    rw [e2, ← h]
    simp only [win_gba_mem_view_clicked, hm, if_true]
  · have h := mem_view_scan_columns 2 8 4 s.gba_memviewer_start_address c r A (by decide)
    have e1 : ((4 : Nat) : Int) - 1 = 3 := by norm_num
    have e2 : ((4 : Nat) : Int) + 1 = 5 := by norm_num
    rw [e1, e2] at h
    rw [e2, ← h]
    simp only [win_gba_mem_view_clicked, hm, if_neg h16, if_true]
  · have h := mem_view_scan_columns 1 16 2 s.gba_memviewer_start_address c r A (by decide)
    have e1 : ((2 : Nat) : Int) - 1 = 1 := by norm_num
    have e2 : ((2 : Nat) : Int) + 1 = 3 := by norm_num
    rw [e1, e2] at h
    rw [e2, ← h]
    simp only [win_gba_mem_view_clicked, hm, if_neg h8, if_neg h8', if_true]

theorem Update_line_values (R : GBA_MEMORY) (mode : Int) (w n d : Nat) (read : Nat → Nat)
    (address : Nat)
    (hmode : (mode = GBA_MEMVIEWER_32 ∧ w = 4 ∧ n = 4 ∧ d = 8 ∧
        read = R.GBA_MemoryReadFast32) ∨
      (mode = GBA_MEMVIEWER_16 ∧ w = 2 ∧ n = 8 ∧ d = 4 ∧ read = R.GBA_MemoryReadFast16) ∨
      (mode = GBA_MEMVIEWER_8 ∧ w = 1 ∧ n = 16 ∧ d = 2 ∧ read = R.GBA_MemoryReadFast8)) :
    Win_GBAMemViewerUpdate_line R mode address =
      snprintf_0X 8 address ++ [' ', ':', ' '] ++
        Win_GBAMemViewerUpdate_values read w n d address ++ [':', ' '] ++
        Win_GBAMemViewerUpdate_ascii R address := by
  have h16 : ¬ (GBA_MEMVIEWER_16 = GBA_MEMVIEWER_32) := by decide
  have h8 : ¬ (GBA_MEMVIEWER_8 = GBA_MEMVIEWER_32) := by decide
  have h8' : ¬ (GBA_MEMVIEWER_8 = GBA_MEMVIEWER_16) := by decide
  rcases hmode with ⟨hm, rfl, rfl, rfl, rfl⟩ | ⟨hm, rfl, rfl, rfl, rfl⟩ | ⟨hm, rfl, rfl, rfl, rfl⟩
  · simp only [Win_GBAMemViewerUpdate_line, hm, if_true]
  · simp only [Win_GBAMemViewerUpdate_line, hm, if_neg h16, if_true]
  · simp only [Win_GBAMemViewerUpdate_line, hm, if_neg h8, if_neg h8', if_true]

theorem Update_line_columns (R : GBA_MEMORY) (read : Nat → Nat) (w n d : Nat) (address : Nat)
    (k : Nat) (hk : k < n) :
    ((snprintf_0X 8 address ++ [' ', ':', ' '] ++
        Win_GBAMemViewerUpdate_values read w n d address ++ [':', ' '] ++
        Win_GBAMemViewerUpdate_ascii R address).drop (11 + (d + 1) * k)).take d =
      snprintf_0X d (read ((address + w * k) % 2 ^ 32) % 16 ^ d) := by
  have hl : (snprintf_0X 8 address ++ [' ', ':', ' ']).length = 11 := by
    rw [List.length_append, snprintf_0X_length]
    rfl
  rw [List.append_assoc, List.append_assoc, List.append_assoc,
    ← List.append_assoc (snprintf_0X 8 address), ← hl, ← List.drop_drop, List.drop_left]
  unfold Win_GBAMemViewerUpdate_values
  rw [(flatten_drop_take _ d (fun j => by
    rw [List.length_append, snprintf_0X_length]
    rfl) n).2 k _ hk]
  rw [List.take_append_of_le_length (by rw [snprintf_0X_length]), List.take_of_length_le
    (by rw [snprintf_0X_length])]

theorem mem_view_clicked_nat (s : GBA_MEMVIEWER) (w n d : Nat) (c r : Nat) (A : Nat)
    (hmode : (s.gba_memviewer_mode = GBA_MEMVIEWER_32 ∧ w = 4 ∧ n = 4 ∧ d = 8) ∨
      (s.gba_memviewer_mode = GBA_MEMVIEWER_16 ∧ w = 2 ∧ n = 8 ∧ d = 4) ∨
      (s.gba_memviewer_mode = GBA_MEMVIEWER_8 ∧ w = 1 ∧ n = 16 ∧ d = 2)) :
    (win_gba_mem_view_clicked s c r = some A ↔
      ∃ k q : Nat, k < n ∧ q < d ∧ c = 11 + (d + 1) * k + q ∧
        A = (s.gba_memviewer_start_address + 16 * r + w * k) % 2 ^ 32) := by
  rw [mem_view_clicked_iff s w n d c r A hmode]
  have e : ∀ k : Nat, u32_of_int ((s.gba_memviewer_start_address : Int) + 16 * (r : Int) +
      ((w * k : Nat) : Int)) = (s.gba_memviewer_start_address + 16 * r + w * k) % 2 ^ 32 := by
    intro k
    unfold u32_of_int
    generalize w * k = m
    omega
  have e2 : ∀ k q : Nat, ((c : Int) = 11 + ((d : Int) + 1) * k + q) ↔ c = 11 + (d + 1) * k + q := by
    intro k q
    constructor
    · intro h
      exact_mod_cast h
    · intro h
      exact_mod_cast h
  simp only [e, e2]

/-- C37: in the memory viewer a click on the text column `c` of line `r` selects a value exactly
when `c = 11 + (d + 1) * k + q` with `k < n` and `q < d`, where `(w, n, d)` is `(4, 4, 8)` in
32-bit mode, `(2, 8, 4)` in 16-bit mode and `(1, 16, 2)` in 8-bit mode, and the selected address
is `start_address + 16 * r + w * k` modulo `2 ^ 32`; the address field, the separators and the
ASCII field select nothing; and on the 20 lines `Win_GBAMemViewerUpdate` prints, the `d` columns
from `11 + (d + 1) * k` of line `r` hold the digits of the value read at that address. -/
theorem memviewer_click_selects_printed_value (R : GBA_MEMORY)
    (FONT_WIDTH FONT_HEIGHT running_gba : Int) (s : GBA_MEMVIEWER) (w n d : Nat)
    (read : Nat → Nat) (c r : Nat)
    (hmode : (s.gba_memviewer_mode = GBA_MEMVIEWER_32 ∧ w = 4 ∧ n = 4 ∧ d = 8 ∧
        read = R.GBA_MemoryReadFast32) ∨
      (s.gba_memviewer_mode = GBA_MEMVIEWER_16 ∧ w = 2 ∧ n = 8 ∧ d = 4 ∧
        read = R.GBA_MemoryReadFast16) ∨
      (s.gba_memviewer_mode = GBA_MEMVIEWER_8 ∧ w = 1 ∧ n = 16 ∧ d = 2 ∧
        read = R.GBA_MemoryReadFast8)) :
    (∀ A : Nat, win_gba_mem_view_clicked s c r = some A ↔
      ∃ k q : Nat, k < n ∧ q < d ∧ c = 11 + (d + 1) * k + q ∧
        A = (s.gba_memviewer_start_address + 16 * r + w * k) % 2 ^ 32) ∧
    (c < 11 → win_gba_mem_view_clicked s c r = none) ∧
    (∀ k : Nat, c = 11 + (d + 1) * k + d → win_gba_mem_view_clicked s c r = none) ∧
    (11 + (d + 1) * n ≤ c → win_gba_mem_view_clicked s c r = none) ∧
    (∀ x y : Int, Int.tdiv x FONT_WIDTH = c → Int.tdiv y FONT_HEIGHT = r →
      (∀ A : Nat, win_gba_mem_view_clicked s c r = some A →
        win_gba_mem_view_textbox_callback FONT_WIDTH FONT_HEIGHT s x y =
          { s with gba_memviewer_clicked_address := A, gba_memviewer_inputwindow_is_goto := 0 }) ∧
      (win_gba_mem_view_clicked s c r = none →
        win_gba_mem_view_textbox_callback FONT_WIDTH FONT_HEIGHT s x y = s)) ∧
    (s.GBAMemViewerCreated ≠ 0 → running_gba ≠ 0 → r < GBA_MEMVIEWER_MAX_LINES →
      ∃ lines line, Win_GBAMemViewerUpdate R running_gba s = some lines ∧
        lines[r]? = some line ∧
        line.take 8 = snprintf_0X 8 ((s.gba_memviewer_start_address + 16 * r) % 2 ^ 32) ∧
        ∀ k : Nat, k < n → (line.drop (11 + (d + 1) * k)).take d =
          snprintf_0X d
            (read ((s.gba_memviewer_start_address + 16 * r + w * k) % 2 ^ 32) % 16 ^ d)) := by
  have hm3 : (s.gba_memviewer_mode = GBA_MEMVIEWER_32 ∧ w = 4 ∧ n = 4 ∧ d = 8) ∨
      (s.gba_memviewer_mode = GBA_MEMVIEWER_16 ∧ w = 2 ∧ n = 8 ∧ d = 4) ∨
      (s.gba_memviewer_mode = GBA_MEMVIEWER_8 ∧ w = 1 ∧ n = 16 ∧ d = 2) := by
    rcases hmode with ⟨h1, h2, h3, h4, _⟩ | ⟨h1, h2, h3, h4, _⟩ | ⟨h1, h2, h3, h4, _⟩
    · exact Or.inl ⟨h1, h2, h3, h4⟩
    · exact Or.inr (Or.inl ⟨h1, h2, h3, h4⟩)
    · exact Or.inr (Or.inr ⟨h1, h2, h3, h4⟩)
  have key := fun A => mem_view_clicked_nat s w n d c r A hm3
  have hnone : (∀ k q : Nat, k < n → q < d → c ≠ 11 + (d + 1) * k + q) →
      win_gba_mem_view_clicked s c r = none := by
    intro h
    cases hcl : win_gba_mem_view_clicked s c r with
    | none => rfl
    | some A =>
      obtain ⟨k, q, hk, hq, hc, _⟩ := (key A).1 hcl
      exact absurd hc (h k q hk hq)
  refine ⟨key, ?_, ?_, ?_, ?_, ?_⟩
  · intro hc
    apply hnone
    intro k q _ _
    omega
  · intro k hc
    apply hnone
    intro k' q _ hq
    rcases hm3 with ⟨_, _, _, rfl⟩ | ⟨_, _, _, rfl⟩ | ⟨_, _, _, rfl⟩ <;> omega
  · intro hc
    apply hnone
    intro k q hk hq
    rcases hm3 with ⟨_, _, rfl, rfl⟩ | ⟨_, _, rfl, rfl⟩ | ⟨_, _, rfl, rfl⟩ <;> omega
  · intro x y hx hy
    constructor
    · intro A hA
      simp only [win_gba_mem_view_textbox_callback, hx, hy, hA]
    · intro hA
      simp only [win_gba_mem_view_textbox_callback, hx, hy, hA]
  · intro hcr hrun hr
    have hvalid : s.gba_memviewer_mode = GBA_MEMVIEWER_32 ∨
        s.gba_memviewer_mode = GBA_MEMVIEWER_16 ∨ s.gba_memviewer_mode = GBA_MEMVIEWER_8 := by
      rcases hm3 with ⟨h, _⟩ | ⟨h, _⟩ | ⟨h, _⟩
      · exact Or.inl h
      · exact Or.inr (Or.inl h)
      · exact Or.inr (Or.inr h)
    refine ⟨(List.range GBA_MEMVIEWER_MAX_LINES).map (fun i =>
        Win_GBAMemViewerUpdate_line R s.gba_memviewer_mode
          ((s.gba_memviewer_start_address + 16 * i) % 2 ^ 32)),
      Win_GBAMemViewerUpdate_line R s.gba_memviewer_mode
        ((s.gba_memviewer_start_address + 16 * r) % 2 ^ 32), ?_, ?_, ?_, ?_⟩
    · simp only [Win_GBAMemViewerUpdate, if_neg hcr, if_neg hrun, if_pos hvalid]
    · rw [List.getElem?_map, List.getElem?_range hr]
      rfl
    · rw [Update_line_values R _ w n d read _ hmode]
      rw [List.append_assoc, List.append_assoc, List.append_assoc,
        List.take_append_of_le_length (by rw [snprintf_0X_length]),
        List.take_of_length_le (by rw [snprintf_0X_length])]
    · intro k hk
      rw [Update_line_values R _ w n d read _ hmode, Update_line_columns R read w n d _ k hk,
        Nat.mod_add_mod]

theorem memviewer_click_selects_printed_value_witness :
    win_gba_mem_view_clicked sampleViewer ((21 : Nat) : Int) ((2 : Nat) : Int) =
      some 0x03000024 ∧
    ∃ lines line, Win_GBAMemViewerUpdate sampleMemory 1 sampleViewer = some lines ∧
      lines[2]? = some line ∧
      (line.drop (11 + (8 + 1) * 1)).take 8 =
        snprintf_0X 8 (sampleMemory.GBA_MemoryReadFast32
          ((sampleViewer.gba_memviewer_start_address + 16 * 2 + 4 * 1) % 2 ^ 32) % 16 ^ 8) := by
  have h := memviewer_click_selects_printed_value sampleMemory 8 12 1 sampleViewer 4 4 8
    sampleMemory.GBA_MemoryReadFast32 21 2 (Or.inl ⟨rfl, rfl, rfl, rfl, rfl⟩)
  refine ⟨(h.1 _).2 ⟨1, 1, by decide, by decide, by decide, by decide⟩, ?_⟩
  obtain ⟨lines, line, h1, h2, _, h4⟩ := h.2.2.2.2.2 (by decide) (by decide) (by decide)
  exact ⟨lines, line, h1, h2, h4 1 (by decide)⟩

/-! ## The Paletted tile viewers -/

theorem shl_or_add (a b i : Nat) (h : b < 2 ^ i) : a <<< i ||| b = a * 2 ^ i + b := by
  rw [Nat.shiftLeft_eq, Nat.mul_comm, ← Nat.mul_add_lt_is_or h]

theorem pack_rgb_eq (r g b : Nat) (hr : r < 256) (hg : g < 256) :
    (b <<< 16 ||| g <<< 8 ||| r) = b * 65536 + g * 256 + r := by
  have h1 : g <<< 8 ||| r = g * 2 ^ 8 + r := shl_or_add g r 8 (by omega)
  rw [Nat.or_assoc, h1, shl_or_add b _ 16 (by omega)]
  omega

theorem rgb16to32_channel (c : Nat) :
    rgb16to32 c &&& 0xFF = (unpack15 c).1 ∧
    (rgb16to32 c >>> 8) &&& 0xFF = (unpack15 c).2.1 ∧
    (rgb16to32 c >>> 16) &&& 0xFF = (unpack15 c).2.2 := by
  have h := unpack15_lt c
  have e : rgb16to32 c =
      ((unpack15 c).2.2 * 65536 + (unpack15 c).2.1 * 256 + (unpack15 c).1) % 2 ^ 32 := by
    rw [← pack_rgb_eq _ _ _ h.1 h.2.1]
    rfl
  rw [e]
  simp only [and_0xFF, Nat.shiftRight_eq_div_pow]
  omega

theorem gray3_channel (v : Nat) (hv : v < 256) :
    ((v ||| (v <<< 8) ||| (v <<< 16)) % 2 ^ 32) &&& 0xFF = v ∧
    (((v ||| (v <<< 8) ||| (v <<< 16)) % 2 ^ 32) >>> 8) &&& 0xFF = v ∧
    (((v ||| (v <<< 8) ||| (v <<< 16)) % 2 ^ 32) >>> 16) &&& 0xFF = v := by
  have e : v ||| (v <<< 8) ||| (v <<< 16) = v * 65536 + v * 256 + v := by
    rw [Nat.or_comm (v ||| v <<< 8), Nat.or_comm v, ← Nat.or_assoc]
    exact pack_rgb_eq v v v hv hv
  have d1 : (v * 65536 + v * 256 + v) / 2 ^ 8 = v * 256 + v := by omega
  have d2 : (v * 65536 + v * 256 + v) / 2 ^ 16 = v := by omega
  rw [e, Nat.mod_eq_of_lt (by omega)]
  simp only [and_0xFF, Nat.shiftRight_eq_div_pow, d1, d2]
  omega

theorem Paletted_color_eq (E : Extern) (gb : GB_CONTEXT) (pal pal_is_spr : Int) (c : Nat)
    (hpal : gb.Emulator.CGBEnabled ≠ 0 → 0 ≤ pal ∧ pal ≤ 7) (hc : c < 4) :
    GB_Debug_Paletted_color gb (map_bg_pal E gb) pal pal_is_spr c =
      some (paletted_value E gb pal pal_is_spr c) := by
  by_cases hcgb : gb.Emulator.CGBEnabled ≠ 0
  · have hp := hpal hcgb
    have hi : u32_of_int ((pal * 8) + ((2 * c : Nat) : Int)) = (pal * 8 + (c : Int) * 2).toNat := by
      unfold u32_of_int
      push_cast
      omega
    have hi1 : ((pal * 8 + (c : Int) * 2).toNat + 1) % 2 ^ 32 =
        (pal * 8 + (c : Int) * 2 + 1).toNat := by
      omega
    have hb : (pal * 8 + (c : Int) * 2).toNat ≤ 63 := by omega
    have hb1 : (pal * 8 + (c : Int) * 2 + 1).toNat ≤ 63 := by omega
    simp only [GB_Debug_Paletted_color, paletted_value, cgb_entry, if_pos hcgb, hi, hi1]
    by_cases hs : pal_is_spr ≠ 0
    · simp only [if_pos hs, Option.bind_eq_bind, read_u8_pal_nat _ _ hb, read_u8_pal_nat _ _ hb1,
        Option.some_bind, Option.pure_def]
    · simp only [if_neg hs, Option.bind_eq_bind, read_u8_pal_nat _ _ hb, read_u8_pal_nat _ _ hb1,
        Option.some_bind, Option.pure_def]
  · unfold GB_Debug_Paletted_color paletted_value
    rw [if_neg hcgb, if_neg hcgb]
    simp only [Option.bind_eq_bind, (map_bg_pal_get E gb c hc).1, Option.some_bind,
      Option.pure_def]

theorem paletted_value_cgb (E : Extern) (gb : GB_CONTEXT) (pal pal_is_spr : Int) (c : Nat)
    (hcgb : gb.Emulator.CGBEnabled ≠ 0) :
    paletted_value E gb pal pal_is_spr c &&& 0xFF = (unpack15 (cgb_entry gb pal_is_spr pal c)).1 ∧
    (paletted_value E gb pal pal_is_spr c >>> 8) &&& 0xFF =
      (unpack15 (cgb_entry gb pal_is_spr pal c)).2.1 ∧
    (paletted_value E gb pal pal_is_spr c >>> 16) &&& 0xFF =
      (unpack15 (cgb_entry gb pal_is_spr pal c)).2.2 := by
  rw [paletted_value, if_pos hcgb]
  exact rgb16to32_channel _

theorem paletted_value_dmg (E : Extern) (gb : GB_CONTEXT) (pal pal_is_spr : Int) (c : Nat)
    (hcgb : gb.Emulator.CGBEnabled = 0) (hc : c < 4) :
    paletted_value E gb pal pal_is_spr c &&& 0xFF =
      gray (((read_io gb.Memory E.BGP_REG) >>> (2 * c)) &&& 3) 0 ∧
    (paletted_value E gb pal pal_is_spr c >>> 8) &&& 0xFF =
      gray (((read_io gb.Memory E.BGP_REG) >>> (2 * c)) &&& 3) 0 ∧
    (paletted_value E gb pal pal_is_spr c >>> 16) &&& 0xFF =
      gray (((read_io gb.Memory E.BGP_REG) >>> (2 * c)) &&& 3) 0 := by
  rw [paletted_value, if_neg (not_not.mpr hcgb), (map_bg_pal_get E gb c hc).2]
  exact gray3_channel _ (gray_lt _ _)

theorem Paletted_bg_pal (E : Extern) (gb : GB_CONTEXT) :
    gb_pal_colors_at ((read_io gb.Memory E.BGP_REG) &&& 0x3) 0 =
      some (gray ((read_io gb.Memory E.BGP_REG) &&& 0x3) 0) ∧
    gb_pal_colors_at (((read_io gb.Memory E.BGP_REG) >>> 2) &&& 0x3) 0 =
      some (gray (((read_io gb.Memory E.BGP_REG) >>> 2) &&& 0x3) 0) ∧
    gb_pal_colors_at (((read_io gb.Memory E.BGP_REG) >>> 4) &&& 0x3) 0 =
      some (gray (((read_io gb.Memory E.BGP_REG) >>> 4) &&& 0x3) 0) ∧
    gb_pal_colors_at (((read_io gb.Memory E.BGP_REG) >>> 6) &&& 0x3) 0 =
      some (gray (((read_io gb.Memory E.BGP_REG) >>> 6) &&& 0x3) 0) :=
  ⟨(gray_row _ (and_3_lt _)).2.1, (gray_row _ (and_3_lt _)).2.1, (gray_row _ (and_3_lt _)).2.1,
    (gray_row _ (and_3_lt _)).2.1⟩

theorem TileVRAMDrawPaletted_body_eq (E : Extern) (gb : GB_CONTEXT) (off : Nat)
    (hoff : off ≤ 0x2000) (bufw pal pal_is_spr : Int)
    (hpal : gb.Emulator.CGBEnabled ≠ 0 → 0 ≤ pal ∧ pal ≤ 7)
    (y x : Nat) (hx : x < 128) (hy : y < 192) (s : Int → Nat) :
    GB_Debug_TileVRAMDrawPaletted_body gb (map_bg_pal E gb) off bufw pal pal_is_spr y x s =
      some (store_rgb s (((y : Int) * bufw + x) * 3)
        (paletted_value E gb pal pal_is_spr (GB_Debug_TileVRAMDraw_color gb off y x) &&& 0xFF)
        ((paletted_value E gb pal pal_is_spr (GB_Debug_TileVRAMDraw_color gb off y x) >>> 8)
          &&& 0xFF)
        ((paletted_value E gb pal pal_is_spr (GB_Debug_TileVRAMDraw_color gb off y x) >>> 16)
          &&& 0xFF)) := by
  have ha : (((x >>> 3) + ((y >>> 3) * 16)) <<< 4) + off + ((y &&& 7) * 2) + 1 < 0x4000 := by
    simp only [Nat.shiftRight_eq_div_pow, Nat.shiftLeft_eq, and_0x7]
    omega
  have hc := Paletted_color_eq E gb pal pal_is_spr (GB_Debug_TileVRAMDraw_color gb off y x) hpal
    (color_index_lt _ _ _)
  simp only [GB_Debug_TileVRAMDraw_color] at hc
  simp only [GB_Debug_TileVRAMDrawPaletted_body, GB_Debug_TileVRAMDraw_color,
    read_vram_lt _ _ (Nat.lt_of_succ_lt ha), read_vram_lt _ _ ha, hc,
    Option.bind_eq_bind, Option.some_bind, Option.pure_def]

theorem TileVRAMDrawPaletted_loop_eq (E : Extern) (gb : GB_CONTEXT) (off : Nat)
    (hoff : off ≤ 0x2000) (bufw pal pal_is_spr : Int)
    (hpal : gb.Emulator.CGBEnabled ≠ 0 → 0 ≤ pal ∧ pal ≤ 7) (s : Int → Nat) :
    for_loop 192 (fun y buffer =>
      for_loop 128 (fun x buffer =>
        GB_Debug_TileVRAMDrawPaletted_body gb (map_bg_pal E gb) off bufw pal pal_is_spr y x
          buffer) buffer) s =
    some (TileVRAMDrawPaletted_paint E gb off bufw pal pal_is_spr s) := by
  apply for_loop_eq_pure
  intro y hy s
  apply for_loop_eq_pure
  intro x hx s
  exact TileVRAMDrawPaletted_body_eq E gb off hoff bufw pal pal_is_spr hpal y x hx hy s

theorem TileVRAMDrawPaletted_eq (E : Extern) (gb : GB_CONTEXT) (buffer0 buffer1 : Int → Nat)
    (bufw0 bufw1 pal pal_is_spr : Int)
    (hpal : gb.Emulator.CGBEnabled ≠ 0 → 0 ≤ pal ∧ pal ≤ 7) :
    GB_Debug_TileVRAMDrawPaletted E gb buffer0 bufw0 buffer1 bufw1 pal pal_is_spr =
      some (TileVRAMDrawPaletted_paint E gb 0 bufw0 pal pal_is_spr buffer0,
        TileVRAMDrawPaletted_paint E gb 0x2000 bufw0 pal pal_is_spr buffer1) := by
  have g := Paletted_bg_pal E gb
  have l0 := TileVRAMDrawPaletted_loop_eq E gb 0 (by decide) bufw0 pal pal_is_spr hpal buffer0
  have l1 := TileVRAMDrawPaletted_loop_eq E gb 0x2000 (by decide) bufw0 pal pal_is_spr hpal buffer1
  unfold map_bg_pal at l0 l1
  unfold GB_Debug_TileVRAMDrawPaletted
  simp only [Option.bind_eq_bind]
  rw [g.1, Option.some_bind, g.2.1, Option.some_bind, g.2.2.1, Option.some_bind, g.2.2.2,
    Option.some_bind, l0, Option.some_bind, l1, Option.some_bind]
  rfl

theorem TileVRAMDrawPaletted_paint_pixel (E : Extern) (gb : GB_CONTEXT) (off : Nat)
    (bufw pal pal_is_spr : Int) (hw : 128 ≤ bufw) (s : Int → Nat) (x y k : Nat) (hx : x < 128)
    (hy : y < 192) (hk : k < 3) :
    TileVRAMDrawPaletted_paint E gb off bufw pal pal_is_spr s (((y : Int) * bufw + x) * 3 + k) =
      (if k = 0 then
          paletted_value E gb pal pal_is_spr (GB_Debug_TileVRAMDraw_color gb off y x) &&& 0xFF
        else if k = 1 then
          (paletted_value E gb pal pal_is_spr (GB_Debug_TileVRAMDraw_color gb off y x) >>> 8)
            &&& 0xFF
        else
          (paletted_value E gb pal pal_is_spr (GB_Debug_TileVRAMDraw_color gb off y x) >>> 16)
            &&& 0xFF) % 256 := by
  have h := raster_rgb 192 128 bufw (by simpa using hw)
    (fun y x k => if k = 0 then
          paletted_value E gb pal pal_is_spr (GB_Debug_TileVRAMDraw_color gb off y x) &&& 0xFF
        else if k = 1 then
          (paletted_value E gb pal pal_is_spr (GB_Debug_TileVRAMDraw_color gb off y x) >>> 8)
            &&& 0xFF
        else
          (paletted_value E gb pal pal_is_spr (GB_Debug_TileVRAMDraw_color gb off y x) >>> 16)
            &&& 0xFF) x y k hx hy hk s
  simp only [Nat.zero_ne_one, if_true, if_false, Nat.succ_ne_zero, OfNat.ofNat_ne_zero,
    OfNat.ofNat_ne_one] at h
  rw [TileVRAMDrawPaletted_paint]
  exact h

theorem TileDrawZoomedPaletted64x64_decode_eq (E : Extern) (gb : GB_CONTEXT) (base y x : Nat)
    (pal pal_is_spr : Int) (hpal : gb.Emulator.CGBEnabled ≠ 0 → 0 ≤ pal ∧ pal ≤ 7)
    (t : Int → Nat) (hb : base + 16 ≤ 0x4000) (hy : y < 8) (hx : x < 8) :
    GB_Debug_TileDrawZoomedPaletted64x64_decode gb (map_bg_pal E gb) (base : Int) pal pal_is_spr
        y x t =
      some (store_s32 t ((x + y * 8 : Nat) : Int)
        (paletted_value E gb pal pal_is_spr (tile_pixel_2bpp gb.Memory.VideoRAM base y x))) := by
  have hy7 : y &&& 7 = y := by rw [and_0x7]; omega
  have hx7 : x &&& 7 = x := by rw [and_0x7]; omega
  have r0 := read_u8_vram_int gb.Memory.VideoRAM ((base : Int) + ((y * 2 : Nat) : Int))
    (base + 2 * y) (by push_cast; omega) (by omega)
  have r1 := read_u8_vram_int gb.Memory.VideoRAM ((base : Int) + ((y * 2 : Nat) : Int) + 1)
    (base + 2 * y + 1) (by push_cast; omega) (by omega)
  have hc := Paletted_color_eq E gb pal pal_is_spr (tile_pixel_2bpp gb.Memory.VideoRAM base y x)
    hpal (tile_pixel_2bpp_lt _ _ _ _)
  have he : color_index (gb.Memory.VideoRAM (base + 2 * y) % 256)
      (gb.Memory.VideoRAM (base + 2 * y + 1) % 256) (7 - x) =
      tile_pixel_2bpp gb.Memory.VideoRAM base y x := by
    rw [color_index_eq, tile_pixel_2bpp]
  unfold GB_Debug_TileDrawZoomedPaletted64x64_decode
  simp only [Option.bind_eq_bind, hy7, hx7]
  rw [r0, Option.some_bind, r1, Option.some_bind, he, hc, Option.some_bind]
  rfl

theorem TileDrawZoomedPaletted64x64_eq (E : Extern) (gb : GB_CONTEXT) (buffer : Int → Nat)
    (tile bank pal pal_is_spr : Int) (ht : 0 ≤ tile ∧ tile < 512)
    (hpal : gb.Emulator.CGBEnabled ≠ 0 → 0 ≤ pal ∧ pal ≤ 7) :
    GB_Debug_TileDrawZoomedPaletted64x64 E gb buffer tile bank pal pal_is_spr =
      some (zoomed64_paint
        (paletted_temp_paint E gb (zoomed64_base tile bank) pal pal_is_spr (fun _ => 0))
        buffer) := by
  have hb : (if bank ≠ 0 then tile * 16 + 0x2000 else tile * 16) =
      ((zoomed64_base tile bank : Nat) : Int) := by
    unfold zoomed64_base
    split_ifs <;> push_cast <;> omega
  have hlt : zoomed64_base tile bank + 16 ≤ 0x4000 := by
    unfold zoomed64_base
    split_ifs <;> omega
  have g := Paletted_bg_pal E gb
  have l : for_loop 8 (fun y t =>
      for_loop 8 (fun x t =>
        GB_Debug_TileDrawZoomedPaletted64x64_decode gb (map_bg_pal E gb)
          ((zoomed64_base tile bank : Nat) : Int) pal pal_is_spr y x t) t) (fun _ => 0) =
      some (paletted_temp_paint E gb (zoomed64_base tile bank) pal pal_is_spr (fun _ => 0)) := by
    apply for_loop_eq_pure
    intro y hy s
    apply for_loop_eq_pure
    intro x hx s
    exact TileDrawZoomedPaletted64x64_decode_eq E gb _ y x pal pal_is_spr hpal s hlt hy hx
  unfold map_bg_pal at l
  unfold GB_Debug_TileDrawZoomedPaletted64x64
  simp only [Option.bind_eq_bind]
  rw [g.1, Option.some_bind, g.2.1, Option.some_bind, g.2.2.1, Option.some_bind, g.2.2.2,
    Option.some_bind, hb, l, Option.some_bind]
  exact TileDrawZoomed64x64_expand_loop _ buffer

theorem paletted_temp_paint_at (E : Extern) (gb : GB_CONTEXT) (base : Nat) (pal pal_is_spr : Int)
    (t0 : Int → Nat) (x y : Nat) (hx : x < 8) (hy : y < 8) :
    paletted_temp_paint E gb base pal pal_is_spr t0 ((x + y * 8 : Nat) : Int) =
      paletted_value E gb pal pal_is_spr (tile_pixel_2bpp gb.Memory.VideoRAM base y x)
        % 2 ^ 32 := by
  apply raster_at 8 8 (fun y x t =>
    store_s32 t ((x + y * 8 : Nat) : Int)
      (paletted_value E gb pal pal_is_spr (tile_pixel_2bpp gb.Memory.VideoRAM base y x)))
    _ _ x y hx hy
  · intro s
    exact store_s32_same _ _ _
  · intro y2 x2 _ hx2 hne s
    apply store_s32_other
    intro h
    apply hne
    omega

theorem paletted_value_lt (E : Extern) (gb : GB_CONTEXT) (pal pal_is_spr : Int) (c : Nat) :
    paletted_value E gb pal pal_is_spr c < 2 ^ 32 := by
  unfold paletted_value rgb16to32
  split_ifs
  · exact Nat.mod_lt _ (by norm_num)
  · exact Nat.mod_lt _ (by norm_num)

theorem TileDrawZoomedPaletted64x64_pixel (E : Extern) (gb : GB_CONTEXT) (buffer : Int → Nat)
    (base : Nat) (pal pal_is_spr : Int) (i j k : Nat) (hi : i < 64) (hj : j < 64) (hk : k < 3) :
    zoomed64_paint (paletted_temp_paint E gb base pal pal_is_spr (fun _ => 0)) buffer
      (((j * 64 + i : Nat) : Int) * 3 + k) =
      (if k = 0 then
          paletted_value E gb pal pal_is_spr
            (tile_pixel_2bpp gb.Memory.VideoRAM base (j / 8) (i / 8)) &&& 0xFF
        else if k = 1 then
          (paletted_value E gb pal pal_is_spr
            (tile_pixel_2bpp gb.Memory.VideoRAM base (j / 8) (i / 8)) >>> 8) &&& 0xFF
        else
          (paletted_value E gb pal pal_is_spr
            (tile_pixel_2bpp gb.Memory.VideoRAM base (j / 8) (i / 8)) >>> 16) &&& 0xFF)
        % 256 := by
  have ht := paletted_temp_paint_at E gb base pal pal_is_spr (fun _ => 0) (i / 8) (j / 8)
    (by omega) (by omega)
  have he : ((j / 8) * 8 + (i / 8) : Nat) = i / 8 + (j / 8) * 8 := by omega
  rw [zoomed64_paint_pixel _ buffer i j k hi hj hk, he, ht,
    Nat.mod_eq_of_lt (paletted_value_lt E gb pal pal_is_spr _)]

/-- C31: in CGB mode, for every palette number in `0..7`, either palette kind, every tile in
`0..511`, either bank and every video RAM content, `GB_Debug_TileDrawZoomedPaletted64x64`
returns, and the bytes 0, 1, 2 of its pixel `(i, j)` are the triple `(R, G, B)` that
`GB_Debug_GetPalette(is_sprite_palette, palette, c)` returns, where `c` is the colour index of
the tile pixel in column `i / 8` of row `j / 8`; the three bytes taken from `rgb16to32(v)` are
red, green and blue of `v`, in this order. -/
theorem TileDrawZoomedPaletted64x64_eq_GetPalette (E : Extern) (gb : GB_CONTEXT)
    (buffer : Int → Nat) (tile bank palette is_sprite_palette : Int)
    (hcgb : gb.Emulator.CGBEnabled ≠ 0) (ht : 0 ≤ tile ∧ tile < 512)
    (hp : 0 ≤ palette ∧ palette ≤ 7) :
    (∃ out, GB_Debug_TileDrawZoomedPaletted64x64 E gb buffer tile bank palette
        is_sprite_palette = some out ∧
      ∀ i j : Nat, i < 64 → j < 64 →
        ∃ r g b : Nat,
          GB_Debug_GetPalette E gb is_sprite_palette palette
            ((tile_pixel_2bpp gb.Memory.VideoRAM (zoomed64_base tile bank) (j / 8) (i / 8) : Nat) :
              Int) = some (r, g, b) ∧
          out (((j * 64 + i : Nat) : Int) * 3 + 0) = r ∧
          out (((j * 64 + i : Nat) : Int) * 3 + 1) = g ∧
          out (((j * 64 + i : Nat) : Int) * 3 + 2) = b) ∧
    ∀ v : Nat, (rgb16to32 v &&& 0xFF, (rgb16to32 v >>> 8) &&& 0xFF,
      (rgb16to32 v >>> 16) &&& 0xFF) = unpack15 v := by
  have hpal : gb.Emulator.CGBEnabled ≠ 0 → 0 ≤ palette ∧ palette ≤ 7 := fun _ => hp
  refine ⟨⟨_, TileDrawZoomedPaletted64x64_eq E gb buffer tile bank palette is_sprite_palette ht
    hpal, ?_⟩, ?_⟩
  · intro i j hi hj
    have hc := tile_pixel_2bpp_lt gb.Memory.VideoRAM (zoomed64_base tile bank) (j / 8) (i / 8)
    have hv := paletted_value_cgb E gb palette is_sprite_palette
      (tile_pixel_2bpp gb.Memory.VideoRAM (zoomed64_base tile bank) (j / 8) (i / 8)) hcgb
    have hl := unpack15_lt (cgb_entry gb is_sprite_palette palette
      ((tile_pixel_2bpp gb.Memory.VideoRAM (zoomed64_base tile bank) (j / 8) (i / 8) : Nat) : Int))
    have p0 := TileDrawZoomedPaletted64x64_pixel E gb buffer (zoomed64_base tile bank) palette
      is_sprite_palette i j 0 hi hj (by decide)
    have p1 := TileDrawZoomedPaletted64x64_pixel E gb buffer (zoomed64_base tile bank) palette
      is_sprite_palette i j 1 hi hj (by decide)
    have p2 := TileDrawZoomedPaletted64x64_pixel E gb buffer (zoomed64_base tile bank) palette
      is_sprite_palette i j 2 hi hj (by decide)
    refine ⟨_, _, _, GetPalette_cgb_eq E gb is_sprite_palette palette _ hcgb hp
      ⟨by omega, by omega⟩, ?_, ?_, ?_⟩
    · rw [show ((0 : Int)) = ((0 : Nat) : Int) from rfl, p0, if_pos rfl, hv.1]
      exact Nat.mod_eq_of_lt hl.1
    · rw [show ((1 : Int)) = ((1 : Nat) : Int) from rfl, p1, if_neg (by decide), if_pos rfl,
        hv.2.1]
      exact Nat.mod_eq_of_lt hl.2.1
    · rw [show ((2 : Int)) = ((2 : Nat) : Int) from rfl, p2, if_neg (by decide),
        if_neg (by decide), hv.2.2]
      exact Nat.mod_eq_of_lt hl.2.2
  · intro v
    have h := rgb16to32_channel v
    exact Prod.ext h.1 (Prod.ext h.2.1 h.2.2)

/-- Witness of C31: tile 3 of bank 1 with the sprite palette 5 in the sample state in CGB
mode. -/
theorem TileDrawZoomedPaletted64x64_eq_GetPalette_witness :
    ∃ out, GB_Debug_TileDrawZoomedPaletted64x64 sampleExtern (sampleState 1 0) (fun _ => 0) 3 1 5
        1 = some out ∧
      ∀ i j : Nat, i < 64 → j < 64 →
        ∃ r g b : Nat,
          GB_Debug_GetPalette sampleExtern (sampleState 1 0) 1 5
            ((tile_pixel_2bpp (sampleState 1 0).Memory.VideoRAM (zoomed64_base 3 1) (j / 8)
              (i / 8) : Nat) : Int) = some (r, g, b) ∧
          out (((j * 64 + i : Nat) : Int) * 3 + 0) = r ∧
          out (((j * 64 + i : Nat) : Int) * 3 + 1) = g ∧
          out (((j * 64 + i : Nat) : Int) * 3 + 2) = b :=
  (TileDrawZoomedPaletted64x64_eq_GetPalette sampleExtern (sampleState 1 0) (fun _ => 0) 3 1 5 1
    (by decide) (by decide) (by decide)).1

theorem paletted_value_dmg_indep (E : Extern) (gb : GB_CONTEXT) (pal pal_is_spr pal2 spr2 : Int)
    (hcgb : gb.Emulator.CGBEnabled = 0) :
    paletted_value E gb pal pal_is_spr = paletted_value E gb pal2 spr2 := by
  funext c
  rw [paletted_value, paletted_value, if_neg (not_not.mpr hcgb), if_neg (not_not.mpr hcgb)]

theorem paletted_dmg_byte (E : Extern) (gb : GB_CONTEXT) (pal pal_is_spr : Int) (c k : Nat)
    (hcgb : gb.Emulator.CGBEnabled = 0) (hc : c < 4) :
    (if k = 0 then paletted_value E gb pal pal_is_spr c &&& 0xFF
      else if k = 1 then (paletted_value E gb pal pal_is_spr c >>> 8) &&& 0xFF
      else (paletted_value E gb pal pal_is_spr c >>> 16) &&& 0xFF) % 256 =
      gray (((read_io gb.Memory E.BGP_REG) >>> (2 * c)) &&& 3) 0 := by
  have h := paletted_value_dmg E gb pal pal_is_spr c hcgb hc
  rw [h.1, h.2.1, h.2.2]
  simp only [ite_self]
  exact Nat.mod_eq_of_lt (gray_lt _ _)

/-- C32: when CGB mode is not enabled, `GB_Debug_TileDrawZoomedPaletted64x64` and
`GB_Debug_TileVRAMDrawPaletted` return the same images for every two palette numbers and every
two is-sprite-palette arguments, and each of the three bytes of every pixel with the colour
index `c` is `v = gb_pal_colors[(BGP >> (2*c)) & 3][0]`, the gray `(v, v, v)`. -/
theorem Paletted_ignore_palette_outside_cgb (E : Extern) (gb : GB_CONTEXT)
    (buffer buffer0 buffer1 : Int → Nat) (tile bank bufw0 bufw1 : Int)
    (pal pal_is_spr pal2 pal_is_spr2 : Int)
    (hcgb : gb.Emulator.CGBEnabled = 0) (ht : 0 ≤ tile ∧ tile < 512) (hw : 128 ≤ bufw0) :
    (∃ out,
      GB_Debug_TileDrawZoomedPaletted64x64 E gb buffer tile bank pal pal_is_spr = some out ∧
      GB_Debug_TileDrawZoomedPaletted64x64 E gb buffer tile bank pal2 pal_is_spr2 = some out ∧
      ∀ i j k : Nat, i < 64 → j < 64 → k < 3 →
        out (((j * 64 + i : Nat) : Int) * 3 + k) =
          gray (((read_io gb.Memory E.BGP_REG) >>>
            (2 * tile_pixel_2bpp gb.Memory.VideoRAM (zoomed64_base tile bank) (j / 8) (i / 8)))
            &&& 3) 0) ∧
    (∃ out0 out1,
      GB_Debug_TileVRAMDrawPaletted E gb buffer0 bufw0 buffer1 bufw1 pal pal_is_spr =
        some (out0, out1) ∧
      GB_Debug_TileVRAMDrawPaletted E gb buffer0 bufw0 buffer1 bufw1 pal2 pal_is_spr2 =
        some (out0, out1) ∧
      ∀ x y k : Nat, x < 128 → y < 192 → k < 3 →
        out0 (((y : Int) * bufw0 + x) * 3 + k) =
          gray (((read_io gb.Memory E.BGP_REG) >>>
            (2 * GB_Debug_TileVRAMDraw_color gb 0 y x)) &&& 3) 0 ∧
        out1 (((y : Int) * bufw0 + x) * 3 + k) =
          gray (((read_io gb.Memory E.BGP_REG) >>>
            (2 * GB_Debug_TileVRAMDraw_color gb 0x2000 y x)) &&& 3) 0) := by
  have hpal : ∀ p : Int, gb.Emulator.CGBEnabled ≠ 0 → 0 ≤ p ∧ p ≤ 7 :=
    fun _ h => absurd hcgb h
  have hi := paletted_value_dmg_indep E gb pal2 pal_is_spr2 pal pal_is_spr hcgb
  constructor
  · refine ⟨_, TileDrawZoomedPaletted64x64_eq E gb buffer tile bank pal pal_is_spr ht (hpal _),
      ?_, ?_⟩
    · rw [TileDrawZoomedPaletted64x64_eq E gb buffer tile bank pal2 pal_is_spr2 ht (hpal _)]
      simp only [paletted_temp_paint, hi]
    · intro i j k hi hj hk
      rw [TileDrawZoomedPaletted64x64_pixel E gb buffer _ pal pal_is_spr i j k hi hj hk]
      exact paletted_dmg_byte E gb pal pal_is_spr _ k hcgb (tile_pixel_2bpp_lt _ _ _ _)
  · refine ⟨_, _, TileVRAMDrawPaletted_eq E gb buffer0 buffer1 bufw0 bufw1 pal pal_is_spr
      (hpal _), ?_, ?_⟩
    · rw [TileVRAMDrawPaletted_eq E gb buffer0 buffer1 bufw0 bufw1 pal2 pal_is_spr2 (hpal _)]
      simp only [TileVRAMDrawPaletted_paint, hi]
    · intro x y k hx hy hk
      constructor
      · rw [TileVRAMDrawPaletted_paint_pixel E gb 0 bufw0 pal pal_is_spr hw buffer0 x y k hx hy
          hk]
        exact paletted_dmg_byte E gb pal pal_is_spr _ k hcgb (color_index_lt _ _ _)
      · rw [TileVRAMDrawPaletted_paint_pixel E gb 0x2000 bufw0 pal pal_is_spr hw buffer1 x y k
          hx hy hk]
        exact paletted_dmg_byte E gb pal pal_is_spr _ k hcgb (color_index_lt _ _ _)

/-- Witness of C32: in the sample state outside of CGB mode, the background palette 0 and the
sprite palette 7 give the same images of tile 3 of bank 1 and of the two banks. -/
theorem Paletted_ignore_palette_outside_cgb_witness :
    (∃ out,
      GB_Debug_TileDrawZoomedPaletted64x64 sampleExtern (sampleState 0 0) (fun _ => 0) 3 1 0 0 =
        some out ∧
      GB_Debug_TileDrawZoomedPaletted64x64 sampleExtern (sampleState 0 0) (fun _ => 0) 3 1 7 1 =
        some out) ∧
    (∃ out0 out1,
      GB_Debug_TileVRAMDrawPaletted sampleExtern (sampleState 0 0) (fun _ => 0) 128 (fun _ => 0)
        128 0 0 = some (out0, out1) ∧
      GB_Debug_TileVRAMDrawPaletted sampleExtern (sampleState 0 0) (fun _ => 0) 128 (fun _ => 0)
        128 7 1 = some (out0, out1)) := by
  have h := Paletted_ignore_palette_outside_cgb sampleExtern (sampleState 0 0) (fun _ => 0)
    (fun _ => 0) (fun _ => 0) 3 1 128 128 0 0 7 1 rfl (by decide) (by decide)
  obtain ⟨⟨out, h1, h2, _⟩, ⟨out0, out1, h3, h4, _⟩⟩ := h
  exact ⟨⟨out, h1, h2⟩, ⟨out0, out1, h3, h4⟩⟩

theorem TileVRAMDrawPaletted_paint_frame (E : Extern) (gb : GB_CONTEXT) (off : Nat)
    (pal pal_is_spr : Int) (s : Int → Nat) (p : Int) (hp : (192 * 128) * 3 ≤ p) :
    TileVRAMDrawPaletted_paint E gb off 128 pal pal_is_spr s p = s p := by
  apply raster_frame
  intro y x hy hx s
  apply store_rgb_other
  omega

/-- C33, the code at a failing input: `GB_Debug_TileVRAMDrawPaletted` never reads `bufw1`; with
`bufw0 = 128`, `bufw1 = 256` and both buffers filled with the byte 7, in the blank state, the
byte at offset `(191*256 + 0)*3` of `buffer1`, where the bank-1 pixel `(0, 191)` should be, is
still 7, and the pixel is at offset `(191*128 + 0)*3`, whereas `GB_Debug_TileVRAMDraw` with the
same arguments writes it at `(191*256 + 0)*3`. -/
theorem TileVRAMDrawPaletted_buffer1_stride :
    (∀ (E : Extern) (gb : GB_CONTEXT) (buffer0 buffer1 : Int → Nat)
      (bufw0 bufw1 bufw2 pal pal_is_spr : Int),
      GB_Debug_TileVRAMDrawPaletted E gb buffer0 bufw0 buffer1 bufw1 pal pal_is_spr =
        GB_Debug_TileVRAMDrawPaletted E gb buffer0 bufw0 buffer1 bufw2 pal pal_is_spr) ∧
    (∃ out0 out1,
      GB_Debug_TileVRAMDrawPaletted sampleExtern blankState (fun _ => 7) 128 (fun _ => 7) 256 0 0 =
        some (out0, out1) ∧
      out1 ((191 * 256 + 0) * 3) = 7 ∧ out1 ((191 * 128 + 0) * 3) = 255) ∧
    (∃ d0 d1,
      GB_Debug_TileVRAMDraw blankState (fun _ => 7) 128 (fun _ => 7) 256 = some (d0, d1) ∧
      d1 ((191 * 256 + 0) * 3) = 255) := by
  refine ⟨fun _ _ _ _ _ _ _ _ _ => rfl, ⟨_, _, TileVRAMDrawPaletted_eq sampleExtern blankState _ _
    128 256 0 0 (fun h => absurd rfl h), ?_, ?_⟩, ⟨_, _, TileVRAMDraw_eq blankState _ _ 128 256,
    ?_⟩⟩
  · exact TileVRAMDrawPaletted_paint_frame sampleExtern blankState 0x2000 0 0 _ _ (by decide)
  · have h := TileVRAMDrawPaletted_paint_pixel sampleExtern blankState 0x2000 128 0 0
      (by decide) (fun _ => 7) 0 191 0 (by decide) (by decide) (by decide)
    have e := paletted_dmg_byte sampleExtern blankState 0 0
      (GB_Debug_TileVRAMDraw_color blankState 0x2000 191 0) 0 rfl (color_index_lt _ _ _)
    rw [e] at h
    exact h.trans (by decide)
  · have h := TileVRAMDraw_paint_pixel blankState 0x2000 256 (by decide) (fun _ => 7) 0 191 0
      (by decide) (by decide) (by decide)
    exact h.trans (by decide)

/-! ## The sprite sheet `GB_Debug_PrintSpritesAlpha` -/

theorem alpha_at_pixel_eq (resolve : Nat → Option RGB) (bufw buff_x buff_y : Int)
    (c y x i j : Nat) (s : Int → Nat)
    (hres : ∃ r g b : Nat, resolve c = some (r, g, b)) :
    gb_debug_print_sprite_alpha_at_position_pixel resolve bufw buff_x buff_y c y x i j s =
      some (store_rgba s (((buff_y + ((y * 2 : Nat) : Int) + (j : Int)) * bufw +
          (buff_x + ((x * 2 : Nat) : Int) + (i : Int))) * 4)
        (sprite_rgba resolve c).1 (sprite_rgba resolve c).2.1 (sprite_rgba resolve c).2.2.1
        (sprite_rgba resolve c).2.2.2) := by
  obtain ⟨r, g, b, hr⟩ := hres
  simp only [gb_debug_print_sprite_alpha_at_position_pixel, sprite_rgba, hr]
  by_cases hc : c = 0
  · simp [hc]
  · simp [hc]

theorem alpha_at_body_eq (mem : GB_MEMORY) (height Info spr_data : Nat)
    (resolve : Nat → Option RGB) (bufw buff_x buff_y : Int) (y x : Nat) (buf : Int → Nat)
    (hrow : ∀ r, r < height → spr_data + r * 2 + 1 < 0x4000) (hy : y < height)
    (hres : ∀ c, c < 4 → ∃ r g b : Nat, resolve c = some (r, g, b)) :
    gb_debug_print_sprite_alpha_at_position_body mem height Info spr_data resolve bufw buff_x
        buff_y y x buf =
      some (pure_loop 2 (fun i s => pure_loop 2 (fun j s =>
        store_rgba s (((buff_y + ((y * 2 : Nat) : Int) + (j : Int)) * bufw +
            (buff_x + ((x * 2 : Nat) : Int) + (i : Int))) * 4)
          (sprite_rgba resolve (sprite_color mem.VideoRAM height Info spr_data y x)).1
          (sprite_rgba resolve (sprite_color mem.VideoRAM height Info spr_data y x)).2.1
          (sprite_rgba resolve (sprite_color mem.VideoRAM height Info spr_data y x)).2.2.1
          (sprite_rgba resolve (sprite_color mem.VideoRAM height Info spr_data y x)).2.2.2) s)
        buf) := by
  have hr := hres _ (sprite_color_lt mem.VideoRAM height Info spr_data y x)
  simp only [gb_debug_print_sprite_alpha_at_position_body,
    sprite_color_index_eq mem height Info spr_data y x hrow hy, Option.bind_eq_bind,
    Option.some_bind]
  apply for_loop_eq_pure
  intro i _ s
  apply for_loop_eq_pure
  intro j _ s
  exact alpha_at_pixel_eq resolve bufw buff_x buff_y _ y x i j s hr

theorem alpha_at_loop_eq (mem : GB_MEMORY) (height Info spr_data : Nat)
    (resolve : Nat → Option RGB) (bufw buff_x buff_y : Int) (buf : Int → Nat)
    (hrow : ∀ r, r < height → spr_data + r * 2 + 1 < 0x4000)
    (hres : ∀ c, c < 4 → ∃ r g b : Nat, resolve c = some (r, g, b)) :
    for_loop height (fun y buf =>
      for_loop 8 (fun x buf =>
        gb_debug_print_sprite_alpha_at_position_body mem height Info spr_data resolve bufw
          buff_x buff_y y x buf) buf) buf =
    some (sprite_alpha_at_paint mem.VideoRAM height Info spr_data resolve bufw buff_x buff_y
      buf) := by
  apply for_loop_eq_pure
  intro y hy s
  apply for_loop_eq_pure
  intro x _ s
  exact alpha_at_body_eq mem height Info spr_data resolve bufw buff_x buff_y y x s hrow hy hres

theorem alpha_at_eq (E : Extern) (gb : GB_CONTEXT) (buf : Int → Nat)
    (bufw buff_x buff_y : Int) (n : Nat) (hn : n < 40) :
    gb_debug_print_sprite_alpha_at_position E gb buf bufw buff_x buff_y (n : Int) =
      some (sprite_alpha_at_paint gb.Memory.VideoRAM (spriteheight E gb.Memory)
        ((gb.Memory.ObjAttrMem n).Info % 256)
        (sprite_data_offset E gb ((gb.Memory.ObjAttrMem n).Tile % 256)
          ((gb.Memory.ObjAttrMem n).Info % 256))
        (sprite_resolve E gb ((gb.Memory.ObjAttrMem n).Info % 256))
        bufw buff_x buff_y buf) := by
  have hrow : ∀ r, r < spriteheight E gb.Memory →
      sprite_data_offset E gb ((gb.Memory.ObjAttrMem n).Tile % 256)
        ((gb.Memory.ObjAttrMem n).Info % 256) + r * 2 + 1 < 0x4000 :=
    fun r hr => sprite_data_offset_lt E gb _ _ r (Nat.mod_lt _ (by decide)) hr
  have hres := sprite_resolve_some E gb ((gb.Memory.ObjAttrMem n).Info % 256)
  have hloop := alpha_at_loop_eq gb.Memory (spriteheight E gb.Memory)
    ((gb.Memory.ObjAttrMem n).Info % 256) _ _ bufw buff_x buff_y buf hrow hres
  rw [← hloop]
  obtain ⟨p0, p1, p2, p3, hp⟩ :=
    sprite_palette_cgb_some gb ((gb.Memory.ObjAttrMem n).Info % 256)
  have hoam := read_oam_some gb.Memory (n : Int) ⟨by omega, by omega⟩
  rw [Int.toNat_ofNat] at hoam
  by_cases hcgb : gb.Emulator.CGBEnabled ≠ 0
  · simp only [gb_debug_print_sprite_alpha_at_position, hoam, Option.bind_eq_bind,
      Option.some_bind, if_pos hcgb, hp, sprite_data_offset, sprite_resolve, Option.getD_some]
  · simp only [gb_debug_print_sprite_alpha_at_position, hoam, Option.bind_eq_bind,
      Option.some_bind, if_neg hcgb, sprite_data_offset, sprite_resolve]

theorem PrintSpritesAlpha_row (E : Extern) (gb : GB_CONTEXT) (y : Nat) (hy : y < 5)
    (b : Int → Nat) :
    for_loop 8 (fun x st => GB_Debug_PrintSpritesAlpha_body E gb y x st) (b, 0 + 8 * y) =
      (for_loop 8 (fun x b =>
        gb_debug_print_sprite_alpha_at_position E gb b 256 (8 + ((x : Int) * 32))
          (10 + ((y : Int) * 52)) ((8 * y + x : Nat) : Int)) b).map
        (fun b1 => (b1, 0 + 8 * (y + 1))) := by
  have h := for_loop_counter 8 1 (fun x st => GB_Debug_PrintSpritesAlpha_body E gb y x st)
    (fun x c b => gb_debug_print_sprite_alpha_at_position E gb b 256 (8 + ((x : Int) * 32))
      (10 + ((y : Int) * 52)) (c : Int)) (0 + 8 * y) b
    (fun x hx b => by
      have e : (0 + 8 * y + 1 * x + 1) % 2 ^ 32 = 0 + 8 * y + 1 * (x + 1) := by
        have h32 : (2 : Nat) ^ 32 = 4294967296 := by norm_num
        omega
      simp only [GB_Debug_PrintSpritesAlpha_body, e, Option.bind_eq_bind, Option.pure_def]
      cases gb_debug_print_sprite_alpha_at_position E gb b 256 (8 + ((x : Int) * 32))
        (10 + ((y : Int) * 52)) ((0 + 8 * y + 1 * x : Nat) : Int) <;> rfl)
  have e1 : ∀ x : Nat, 0 + 8 * y + 1 * x = 8 * y + x := fun x => by omega
  have e2 : 0 + 8 * y + 1 * 8 = 0 + 8 * (y + 1) := by omega
  simp only [e1] at h
  rw [h, ← e2]
  simp only [e1]

theorem PrintSpritesAlpha_loops (E : Extern) (gb : GB_CONTEXT) (buf : Int → Nat) :
    GB_Debug_PrintSpritesAlpha E gb buf =
      for_loop 5 (fun y b => for_loop 8 (fun x b =>
        gb_debug_print_sprite_alpha_at_position E gb b 256 (8 + ((x : Int) * 32))
          (10 + ((y : Int) * 52)) ((8 * y + x : Nat) : Int)) b)
        (memset buf 0 (256 * 256 * 4)) := by
  have hcount := for_loop_counter 5 8
    (fun y st => for_loop 8 (fun x st => GB_Debug_PrintSpritesAlpha_body E gb y x st) st)
    (fun y _ b => for_loop 8 (fun x b =>
      gb_debug_print_sprite_alpha_at_position E gb b 256 (8 + ((x : Int) * 32))
        (10 + ((y : Int) * 52)) ((8 * y + x : Nat) : Int)) b) 0 (memset buf 0 (256 * 256 * 4))
    (fun y hy b => PrintSpritesAlpha_row E gb y hy b)
  unfold GB_Debug_PrintSpritesAlpha
  simp only [Option.bind_eq_bind]
  rw [hcount]
  cases for_loop 5 (fun y b => for_loop 8 (fun x b =>
        gb_debug_print_sprite_alpha_at_position E gb b 256 (8 + ((x : Int) * 32))
          (10 + ((y : Int) * 52)) ((8 * y + x : Nat) : Int)) b)
        (memset buf 0 (256 * 256 * 4)) <;> rfl

theorem PrintSpritesAlpha_eq (E : Extern) (gb : GB_CONTEXT) (buf : Int → Nat) :
    GB_Debug_PrintSpritesAlpha E gb buf = some (sprites_alpha_sheet_paint E gb buf) := by
  rw [PrintSpritesAlpha_loops]
  apply for_loop_eq_pure
  intro y hy s
  apply for_loop_eq_pure
  intro x hx s
  exact alpha_at_eq E gb s 256 _ _ (8 * y + x) (by omega)

theorem sprite_alpha_at_paint_frame (vram : Nat → Nat) (height Info spr_data : Nat)
    (resolve : Nat → Option RGB) (bufw buff_x buff_y : Int) (buf : Int → Nat) (p : Int)
    (h : ∀ y x i j : Nat, y < height → x < 8 → i < 2 → j < 2 →
      p < ((buff_y + ((y * 2 : Nat) : Int) + (j : Int)) * bufw +
          (buff_x + ((x * 2 : Nat) : Int) + (i : Int))) * 4 ∨
      ((buff_y + ((y * 2 : Nat) : Int) + (j : Int)) * bufw +
          (buff_x + ((x * 2 : Nat) : Int) + (i : Int))) * 4 + 4 ≤ p) :
    sprite_alpha_at_paint vram height Info spr_data resolve bufw buff_x buff_y buf p =
      buf p := by
  unfold sprite_alpha_at_paint
  apply raster_frame
  intro y x hy hx s
  apply raster_frame
  intro i j hi hj s
  exact store_rgba_other _ _ _ _ _ _ _ (h y x i j hy hx hi hj)

theorem sprite_alpha_at_paint_pixel (vram : Nat → Nat) (height Info spr_data : Nat)
    (resolve : Nat → Option RGB) (bufw buff_x buff_y : Int) (hw : 16 ≤ bufw) (buf : Int → Nat)
    (y x i j k : Nat) (hy : y < height) (hx : x < 8) (hi : i < 2) (hj : j < 2) (hk : k < 4) :
    sprite_alpha_at_paint vram height Info spr_data resolve bufw buff_x buff_y buf
      (((buff_y + ((y * 2 : Nat) : Int) + (j : Int)) * bufw +
        (buff_x + ((x * 2 : Nat) : Int) + (i : Int))) * 4 + k) =
    rgba_byte (sprite_rgba resolve (sprite_color vram height Info spr_data y x)) k % 256 := by
  unfold sprite_alpha_at_paint
  apply raster4_upd height 8 2 2
    (fun y x i j s => store_rgba s (((buff_y + ((y * 2 : Nat) : Int) + (j : Int)) * bufw +
        (buff_x + ((x * 2 : Nat) : Int) + (i : Int))) * 4)
      (sprite_rgba resolve (sprite_color vram height Info spr_data y x)).1
      (sprite_rgba resolve (sprite_color vram height Info spr_data y x)).2.1
      (sprite_rgba resolve (sprite_color vram height Info spr_data y x)).2.2.1
      (sprite_rgba resolve (sprite_color vram height Info spr_data y x)).2.2.2)
    _ (fun _ => rgba_byte (sprite_rgba resolve (sprite_color vram height Info spr_data y x)) k
      % 256)
    y x i j hy hx hi hj
  · intro s
    exact store_rgba_at s _ _ _ _ _ k hk
  · intro y2 x2 i2 j2 _ hx2 hi2 hj2 hne s
    apply store_rgba_other
    have hidx := raster_index_ne bufw 16 (by simpa using hw) (x * 2 + i) (y * 2 + j)
      (x2 * 2 + i2) (y2 * 2 + j2) (by omega) (by omega) (by omega)
    have e1 : (buff_y + ((y2 * 2 : Nat) : Int) + (j2 : Int)) * bufw +
        (buff_x + ((x2 * 2 : Nat) : Int) + (i2 : Int)) =
        (buff_y * bufw + buff_x) + (((y2 * 2 + j2 : Nat) : Int) * bufw + ((x2 * 2 + i2 : Nat) : Int)) := by
      push_cast; ring
    have e2 : (buff_y + ((y * 2 : Nat) : Int) + (j : Int)) * bufw +
        (buff_x + ((x * 2 : Nat) : Int) + (i : Int)) =
        (buff_y * bufw + buff_x) + (((y * 2 + j : Nat) : Int) * bufw + ((x * 2 + i : Nat) : Int)) := by
      push_cast; ring
    rw [e1, e2]
    omega

theorem sprites_alpha_sheet_paint_cell (E : Extern) (gb : GB_CONTEXT) (buf : Int → Nat)
    (X Y y x i j k : Nat) (hX : X < 8) (hY : Y < 5) (hy : y < spriteheight E gb.Memory)
    (hx : x < 8) (hi : i < 2) (hj : j < 2) (hk : k < 4) :
    sprites_alpha_sheet_paint E gb buf
      (((10 + ((Y : Int) * 52) + ((y * 2 : Nat) : Int) + (j : Int)) * 256 +
        (8 + ((X : Int) * 32) + ((x * 2 : Nat) : Int) + (i : Int))) * 4 + k) =
    rgba_byte (sprite_rgba (sprite_resolve E gb ((gb.Memory.ObjAttrMem (8 * Y + X)).Info % 256))
      (sprite_color gb.Memory.VideoRAM (spriteheight E gb.Memory)
        ((gb.Memory.ObjAttrMem (8 * Y + X)).Info % 256)
        (sprite_data_offset E gb ((gb.Memory.ObjAttrMem (8 * Y + X)).Tile % 256)
          ((gb.Memory.ObjAttrMem (8 * Y + X)).Info % 256)) y x)) k % 256 := by
  have h16 : spriteheight E gb.Memory ≤ 16 := by
    rcases spriteheight_cases E gb.Memory with h | h <;> omega
  unfold sprites_alpha_sheet_paint
  apply raster_at 5 8 (fun y x s =>
    sprite_alpha_at_paint gb.Memory.VideoRAM (spriteheight E gb.Memory)
      ((gb.Memory.ObjAttrMem (8 * y + x)).Info % 256)
      (sprite_data_offset E gb ((gb.Memory.ObjAttrMem (8 * y + x)).Tile % 256)
        ((gb.Memory.ObjAttrMem (8 * y + x)).Info % 256))
      (sprite_resolve E gb ((gb.Memory.ObjAttrMem (8 * y + x)).Info % 256))
      256 (8 + ((x : Int) * 32)) (10 + ((y : Int) * 52)) s) _ _ X Y hX hY
  · intro s
    exact sprite_alpha_at_paint_pixel _ _ _ _ _ 256 _ _ (by decide) s y x i j k hy hx hi hj hk
  · intro Y2 X2 hY2 hX2 hne s
    apply sprite_alpha_at_paint_frame
    intro y2 x2 i2 j2 hy2 hx2 hi2 hj2
    by_cases hYY : Y2 = Y
    · have hXX : X2 ≠ X := fun h => hne ⟨hYY, h⟩
      subst hYY
      omega
    · omega

theorem sprites_alpha_sheet_paint_outside (E : Extern) (gb : GB_CONTEXT) (buf : Int → Nat)
    (px py k : Nat) (hpx : px < 256) (hpy : py < 256) (hk : k < 4)
    (hout : ∀ X Y y x i j : Nat, X < 8 → Y < 5 → y < spriteheight E gb.Memory → x < 8 →
      i < 2 → j < 2 → ¬(px = 8 + 32 * X + 2 * x + i ∧ py = 10 + 52 * Y + 2 * y + j)) :
    sprites_alpha_sheet_paint E gb buf ((((py : Int) * 256 + px) * 4) + k) = 0 := by
  unfold sprites_alpha_sheet_paint
  rw [raster_frame 5 8 _ _ _ (memset buf 0 (256 * 256 * 4))]
  · have h : 0 ≤ (((py : Int) * 256 + px) * 4) + k ∧
        (((py : Int) * 256 + px) * 4) + k < ((256 * 256 * 4 : Nat) : Int) := by
      constructor <;> omega
    simp only [memset, if_pos h]
  · intro Y X hY hX s
    apply sprite_alpha_at_paint_frame
    intro y x i j hy hx hi hj
    have hne := hout X Y y x i j hX hY hy hx hi hj
    have h16 : spriteheight E gb.Memory ≤ 16 := by
      rcases spriteheight_cases E gb.Memory with h | h <;> omega
    by_cases hyy : py = 10 + 52 * Y + 2 * y + j
    · have hxx : px ≠ 8 + 32 * X + 2 * x + i := fun h => hne ⟨h, hyy⟩
      omega
    · omega

/-- C34: for every emulator state, `GB_Debug_PrintSpritesAlpha` returns a 256x256 RGBA sheet
that is the 2x enlargement of the single-sprite images: for every sprite `n` in `0..39`,
`x < 8`, `y < spriteheight` and `a, b` in `{0, 1}`, the four bytes of the sheet pixel at
`(8 + 32*(n mod 8) + 2x + a, 10 + 52*(n div 8) + 2y + b)` are those of the pixel `(x, y)` of
the image of `GB_Debug_PrintSpriteAlpha(n)`, and every byte of a sheet pixel that is at none of
these positions is 0. -/
theorem PrintSpritesAlpha_sheet (E : Extern) (gb : GB_CONTEXT) (buf img0 : Int → Nat) :
    ∃ out, GB_Debug_PrintSpritesAlpha E gb buf = some out ∧
      (∀ n : Nat, n < 40 →
        ∃ img, GB_Debug_PrintSpriteAlpha E gb img0 (n : Int) = some img ∧
          ∀ x y a b k : Nat, x < 8 → y < spriteheight E gb.Memory → a < 2 → b < 2 → k < 4 →
            out ((((10 + 52 * (n / 8) + 2 * y + b : Nat) : Int) * 256 +
              ((8 + 32 * (n % 8) + 2 * x + a : Nat) : Int)) * 4 + k) =
              img (((y : Int) * 8 + x) * 4 + k)) ∧
      (∀ px py k : Nat, px < 256 → py < 256 → k < 4 →
        (∀ n x y a b : Nat, n < 40 → x < 8 → y < spriteheight E gb.Memory → a < 2 → b < 2 →
          ¬(px = 8 + 32 * (n % 8) + 2 * x + a ∧ py = 10 + 52 * (n / 8) + 2 * y + b)) →
        out (((py : Int) * 256 + px) * 4 + k) = 0) := by
  refine ⟨_, PrintSpritesAlpha_eq E gb buf, ?_, ?_⟩
  · intro n hn
    have himg := PrintSpriteAlpha_eq E gb img0 (n : Int) ⟨by omega, by omega⟩
    rw [Int.toNat_ofNat] at himg
    refine ⟨_, himg, ?_⟩
    intro x y a b k hx hy ha hb hk
    have e : 8 * (n / 8) + n % 8 = n := by omega
    have hc := sprites_alpha_sheet_paint_cell E gb buf (n % 8) (n / 8) y x a b k (by omega)
      (by omega) hy hx ha hb hk
    rw [e] at hc
    have ei : (((10 + 52 * (n / 8) + 2 * y + b : Nat) : Int) * 256 +
        ((8 + 32 * (n % 8) + 2 * x + a : Nat) : Int)) * 4 + (k : Int) =
        ((10 + (((n / 8 : Nat) : Int) * 52) + ((y * 2 : Nat) : Int) + (b : Int)) * 256 +
          (8 + (((n % 8 : Nat) : Int) * 32) + ((x * 2 : Nat) : Int) + (a : Int))) * 4 + k := by
      push_cast
      ring
    rw [ei, hc, sprite_alpha_paint_pixel _ _ _ _ _ _ x y k hx hy hk]
  · intro px py k hpx hpy hk hout
    apply sprites_alpha_sheet_paint_outside E gb buf px py k hpx hpy hk
    intro X Y y x i j hX hY hy hx hi hj
    have h := hout (8 * Y + X) x y i j (by omega) hx hy hi hj
    have e1 : (8 * Y + X) % 8 = X := by omega
    have e2 : (8 * Y + X) / 8 = Y := by omega
    rw [e1, e2] at h
    exact h

/-- Witness of C34: in the sample state, whose sprites are 16 pixels high, the alpha byte of
the sheet pixel `(8 + 32*7 + 2*7 + 1, 10 + 52*4 + 2*2 + 1)` is the alpha byte of the pixel
`(7, 2)` of the image of sprite 39, and the first byte of the sheet is 0. -/
theorem PrintSpritesAlpha_sheet_witness :
    ∃ out, GB_Debug_PrintSpritesAlpha sampleExtern (sampleState 0 0) (fun _ => 7) = some out ∧
      (∃ img, GB_Debug_PrintSpriteAlpha sampleExtern (sampleState 0 0) (fun _ => 7)
          ((39 : Nat) : Int) = some img ∧
        out ((((10 + 52 * (39 / 8) + 2 * 2 + 1 : Nat) : Int) * 256 +
          ((8 + 32 * (39 % 8) + 2 * 7 + 1 : Nat) : Int)) * 4 + ((3 : Nat) : Int)) =
          img ((((2 : Nat) : Int) * 8 + ((7 : Nat) : Int)) * 4 + ((3 : Nat) : Int))) ∧
      out ((((0 : Nat) : Int) * 256 + ((0 : Nat) : Int)) * 4 + ((0 : Nat) : Int)) = 0 := by
  obtain ⟨out, h1, h2, h3⟩ := PrintSpritesAlpha_sheet sampleExtern (sampleState 0 0)
    (fun _ => 7) (fun _ => 7)
  obtain ⟨img, h4, h5⟩ := h2 39 (by decide)
  refine ⟨out, h1, ⟨img, h4, h5 7 2 1 1 3 (by decide) (by decide) (by decide) (by decide)
    (by decide)⟩, h3 0 0 0 (by decide) (by decide) (by decide) ?_⟩
  intro n x y a b _ _ _ _ _ h
  omega

/-! ## The bytes of the picture of `GB_Debug_PrintZoomedSprite` -/

theorem zoomed_fill_pixel (buf : Int → Nat) (y x i j k : Nat) (hy : y < 16) (hx : x < 8)
    (hi : i < 8) (hj : j < 8) (hk : k < 3) :
    pure_loop (16 * 8) (fun y s => pure_loop (8 * 8) (fun x s =>
        GB_Debug_PrintZoomedSprite_fill y x s) s) buf
      (((((y * 8 : Nat) : Int) + (j : Int)) * (8 * 8) +
        (((x * 8 : Nat) : Int) + (i : Int))) * 3 + k) =
      if ((x * 8 + i) ^^^ (y * 8 + j)) &&& 4 ≠ 0 then 192 else 128 := by
  have h := raster_rgb 128 64 64 (by decide)
    (fun y x _ => if (x ^^^ y) &&& 4 ≠ 0 then 192 else 128) (x * 8 + i) (y * 8 + j) k
    (by omega) (by omega) hk buf
  have e : ∀ (y x : Nat) (s : Int → Nat), GB_Debug_PrintZoomedSprite_fill y x s =
      store_rgb s (((y : Int) * 64 + x) * 3) (if (x ^^^ y) &&& 4 ≠ 0 then 192 else 128)
        (if (x ^^^ y) &&& 4 ≠ 0 then 192 else 128)
        (if (x ^^^ y) &&& 4 ≠ 0 then 192 else 128) := by
    intro y x s
    unfold GB_Debug_PrintZoomedSprite_fill
    norm_num
  have ei : ((((y * 8 : Nat) : Int) + (j : Int)) * (8 * 8) +
      (((x * 8 : Nat) : Int) + (i : Int))) * 3 + (k : Int) =
      (((y * 8 + j : Nat) : Int) * 64 + ((x * 8 + i : Nat) : Int)) * 3 + k := by
    push_cast
    ring
  simp only [e]
  rw [ei]
  have h2 : (if ((x * 8 + i) ^^^ (y * 8 + j)) &&& 4 ≠ 0 then 192 else 128) % 256 =
      if ((x * 8 + i) ^^^ (y * 8 + j)) &&& 4 ≠ 0 then 192 else 128 := by
    split_ifs <;> rfl
  rw [← h2]
  exact h

theorem zoomed_paint_pixel (vram : Nat → Nat) (height Info spr_data : Nat)
    (resolve : Nat → Option RGB) (buf : Int → Nat) (y x i j k : Nat) (hy : y < height)
    (hh : height ≤ 16) (hx : x < 8) (hi : i < 8) (hj : j < 8) (hk : k < 3) :
    zoomed_paint vram height Info spr_data resolve buf
      (((((y * 8 : Nat) : Int) + (j : Int)) * (8 * 8) +
        (((x * 8 : Nat) : Int) + (i : Int))) * 3 + k) =
    opt_byte (if sprite_color vram height Info spr_data y x ≠ 0 then
        resolve (sprite_color vram height Info spr_data y x) else none) k
      (if ((x * 8 + i) ^^^ (y * 8 + j)) &&& 4 ≠ 0 then 192 else 128) := by
  unfold zoomed_paint
  rw [raster4_upd height 8 8 8
    (fun y x i j s => store_opt s (((((y * 8 : Nat) : Int) + (j : Int)) * (8 * 8) +
        (((x * 8 : Nat) : Int) + (i : Int))) * 3)
      (if sprite_color vram height Info spr_data y x ≠ 0 then
        resolve (sprite_color vram height Info spr_data y x) else none))
    _ (fun old => opt_byte (if sprite_color vram height Info spr_data y x ≠ 0 then
        resolve (sprite_color vram height Info spr_data y x) else none) k old)
    y x i j hy hx hi hj]
  · rw [zoomed_fill_pixel buf y x i j k (by omega) hx hi hj hk]
  · intro s
    exact store_opt_at s _ _ k hk
  · intro y2 x2 i2 j2 hy2 hx2 hi2 hj2 hne s
    apply store_opt_other
    have hne2 : ¬(y2 * 8 + j2 = y * 8 + j ∧ x2 * 8 + i2 = x * 8 + i) := by
      intro h
      apply hne
      omega
    have e1 : (((y2 * 8 : Nat) : Int) + (j2 : Int)) * (8 * 8) +
        (((x2 * 8 : Nat) : Int) + (i2 : Int)) =
        ((y2 * 8 + j2 : Nat) : Int) * 64 + ((x2 * 8 + i2 : Nat) : Int) := by
      push_cast; ring
    have e2 : (((y * 8 : Nat) : Int) + (j : Int)) * (8 * 8) +
        (((x * 8 : Nat) : Int) + (i : Int)) =
        ((y * 8 + j : Nat) : Int) * 64 + ((x * 8 + i : Nat) : Int) := by
      push_cast; ring
    rw [e1, e2]
    omega

/-- The bytes of the buffer of `GB_Debug_PrintZoomedSprite`: each position of the
picture holds what its own iteration stored, or the checkerboard when the
iteration stored nothing. -/
theorem PrintZoomedSprite_content (E : Extern) (gb : GB_CONTEXT) (buf : Int → Nat)
    (sprite : Int) (hs : 0 ≤ sprite ∧ sprite < 40) :
    ∃ out : Int → Nat,
      GB_Debug_PrintZoomedSprite E gb buf sprite = some out ∧
      ∀ y x i j k : Nat, y < spriteheight E gb.Memory → x < 8 → i < 8 → j < 8 → k < 3 →
        out (((((y * 8 : Nat) : Int) + (j : Int)) * (8 * 8) +
          (((x * 8 : Nat) : Int) + (i : Int))) * 3 + k) =
        opt_byte (if sprite_pixel_index E gb sprite.toNat y x ≠ 0 then
            sprite_resolve E gb ((gb.Memory.ObjAttrMem sprite.toNat).Info % 256)
              (sprite_pixel_index E gb sprite.toNat y x) else none) k
          (if ((x * 8 + i) ^^^ (y * 8 + j)) &&& 4 ≠ 0 then 192 else 128) := by
  have h16 : spriteheight E gb.Memory ≤ 16 := by
    rcases spriteheight_cases E gb.Memory with h | h <;> omega
  refine ⟨_, PrintZoomedSprite_eq E gb buf sprite hs, ?_⟩
  intro y x i j k hy hx hi hj hk
  rw [zoomed_paint_pixel _ _ _ _ _ buf y x i j k hy h16 hx hi hj hk,
    sprite_color_eq_pixel_index E gb sprite.toNat y x hy]

/-- The colour index of a sprite pixel in a row that is not flipped vertically:
for a sprite 16 high the rows 0..7 are those of the tile `t & 0xFE` and the rows
8..15 those of the tile `(t & 0xFE) + 1`; for a sprite 8 high the tile is `t`. -/
theorem sprite_pixel_index_tiles (E : Extern) (gb : GB_CONTEXT) (sprite y x : Nat)
    (h6 : ((gb.Memory.ObjAttrMem sprite).Info % 256) &&& (1 <<< 6) = 0) :
    sprite_pixel_index E gb sprite y x =
      tile_pixel_2bpp gb.Memory.VideoRAM
        ((if gb.Emulator.CGBEnabled ≠ 0 ∧
            ((gb.Memory.ObjAttrMem sprite).Info % 256) &&& (1 <<< 3) ≠ 0 then 0x2000 else 0) +
          16 * (if spriteheight E gb.Memory = 16 then
            (if y < 8 then ((gb.Memory.ObjAttrMem sprite).Tile % 256) &&& 0xFE
              else (((gb.Memory.ObjAttrMem sprite).Tile % 256) &&& 0xFE) + 1)
            else (gb.Memory.ObjAttrMem sprite).Tile % 256))
        (if spriteheight E gb.Memory = 16 then (if y < 8 then y else y - 8) else y)
        (if ((gb.Memory.ObjAttrMem sprite).Info % 256) &&& (1 <<< 5) ≠ 0 then 7 - x else x) := by
  rw [sprite_pixel_index, if_neg (not_not.mpr h6)]
  rcases spriteheight_cases E gb.Memory with h8 | h16
  · simp only [h8, if_neg (show ¬ (8 = 16) by decide)]
  · by_cases hy8 : y < 8
    · simp only [h16, if_true, if_pos hy8]
    · have hyr : y = 8 + (y - 8) := by omega
      simp only [h16, if_true, if_neg hy8]
      rw [Nat.mul_add, Nat.mul_one, ← Nat.add_assoc, ← tile_pixel_2bpp_next_tile, ← hyr]

/-! ### The height of a sprite and the tile of a sprite 16 high, in the three pictures -/

/-- C12: the sprite height is 16 when bit 2 of the LCDC register is set and 8
otherwise. When it is 16 the three sprite renderers produce for a sprite with
the tile byte `t` what they produce for the tile byte `t & 0xFE` (5 is treated
as 4). For a sprite that is not flipped vertically, the pictures of
`GB_Debug_PrintSpriteAlpha`, of `GB_Debug_PrintSprite` (in a buffer at least 16
pixels wide) and of `GB_Debug_PrintZoomedSprite` show at every position of the
sprite pixel `(x, y)` the colour index of the tile data at `(t & 0xFE) << 4` of
the bank of the sprite: in the rows 0..7 that of the tile `t & 0xFE` and in the
rows 8..15 that of the tile `(t & 0xFE) + 1`; when the height is 8 the index is
that of the tile `t`, not masked. -/
theorem sprite_height_and_tile_mask (E : Extern) (gb : GB_CONTEXT) (buf : Int → Nat)
    (bufw buff_x buff_y sprite : Int) (hs : 0 ≤ sprite ∧ sprite < 40) :
    let h := spriteheight E gb.Memory
    let t := (gb.Memory.ObjAttrMem sprite.toNat).Tile % 256
    let Info := (gb.Memory.ObjAttrMem sprite.toNat).Info % 256
    let gbm := set_sprite_tile gb sprite.toNat (t &&& 0xFE)
    let bank := if gb.Emulator.CGBEnabled ≠ 0 ∧ Info &&& (1 <<< 3) ≠ 0 then 0x2000 else 0
    let index := fun (x y : Nat) =>
      tile_pixel_2bpp gb.Memory.VideoRAM
        (bank + 16 * (if h = 16 then (if y < 8 then t &&& 0xFE else (t &&& 0xFE) + 1) else t))
        (if h = 16 then (if y < 8 then y else y - 8) else y)
        (if Info &&& (1 <<< 5) ≠ 0 then 7 - x else x)
    (h = if (read_io gb.Memory E.LCDC_REG) &&& (1 <<< 2) ≠ 0 then 16 else 8) ∧
    ((5 : Nat) &&& 0xFE = 4) ∧
    (h = 16 →
      GB_Debug_PrintSpriteAlpha E gbm buf sprite = GB_Debug_PrintSpriteAlpha E gb buf sprite ∧
      GB_Debug_PrintSprite E gbm buf bufw buff_x buff_y sprite =
        GB_Debug_PrintSprite E gb buf bufw buff_x buff_y sprite ∧
      GB_Debug_PrintZoomedSprite E gbm buf sprite = GB_Debug_PrintZoomedSprite E gb buf sprite) ∧
    (∃ img : Int → Nat,
      GB_Debug_PrintSpriteAlpha E gb buf sprite = some img ∧
      ∀ x y k : Nat, x < 8 → y < h → k < 4 → Info &&& (1 <<< 6) = 0 →
        img (((y : Int) * 8 + x) * 4 + k) =
          rgba_byte (sprite_rgba (sprite_resolve E gb Info) (index x y)) k) ∧
    (∃ out : Int → Nat,
      GB_Debug_PrintSprite E gb buf bufw buff_x buff_y sprite = some out ∧
      (16 ≤ bufw → ∀ y x i j k : Nat, y < h → x < 8 → i < 2 → j < 2 → k < 3 →
        Info &&& (1 <<< 6) = 0 →
        out (((buff_y + ((y * 2 : Nat) : Int) + (j : Int)) * bufw +
          (buff_x + ((x * 2 : Nat) : Int) + (i : Int))) * 3 + k) =
        opt_byte (sprite_cell
            (sprite_isvisible h ((gb.Memory.ObjAttrMem sprite.toNat).X % 256)
              ((gb.Memory.ObjAttrMem sprite.toNat).Y % 256))
            (sprite_resolve E gb Info) (index x y) ((x * 2) + i) ((y * 2) + j)) k
          (buf (((buff_y + ((y * 2 : Nat) : Int) + (j : Int)) * bufw +
            (buff_x + ((x * 2 : Nat) : Int) + (i : Int))) * 3 + k)))) ∧
    (∃ out : Int → Nat,
      GB_Debug_PrintZoomedSprite E gb buf sprite = some out ∧
      ∀ y x i j k : Nat, y < h → x < 8 → i < 8 → j < 8 → k < 3 →
        Info &&& (1 <<< 6) = 0 →
        out (((((y * 8 : Nat) : Int) + (j : Int)) * (8 * 8) +
          (((x * 8 : Nat) : Int) + (i : Int))) * 3 + k) =
        opt_byte (if index x y ≠ 0 then sprite_resolve E gb Info (index x y) else none) k
          (if ((x * 8 + i) ^^^ (y * 8 + j)) &&& 4 ≠ 0 then 192 else 128)) := by
  intro h t Info gbm bank index
  have hidx : ∀ x y : Nat, Info &&& (1 <<< 6) = 0 →
      sprite_pixel_index E gb sprite.toNat y x = index x y :=
    fun x y h6 => sprite_pixel_index_tiles E gb sprite.toNat y x h6
  refine ⟨spriteheight_eq E gb.Memory, by decide, ?_, ?_, ?_, ?_⟩
  · intro h16
    have hT : (gbm.Memory.ObjAttrMem sprite.toNat).Tile = t &&& 0xFE :=
      set_sprite_tile_Tile gb sprite.toNat _
    have hI : (gbm.Memory.ObjAttrMem sprite.toNat).Info =
        (gb.Memory.ObjAttrMem sprite.toNat).Info := set_sprite_tile_Info gb sprite.toNat _
    have hX : (gbm.Memory.ObjAttrMem sprite.toNat).X =
        (gb.Memory.ObjAttrMem sprite.toNat).X := set_sprite_tile_X gb sprite.toNat _
    have hY : (gbm.Memory.ObjAttrMem sprite.toNat).Y =
        (gb.Memory.ObjAttrMem sprite.toNat).Y := set_sprite_tile_Y gb sprite.toNat _
    have hv : gbm.Memory.VideoRAM = gb.Memory.VideoRAM := rfl
    have hh : spriteheight E gbm.Memory = spriteheight E gb.Memory := rfl
    have hsd := sprite_data_offset_masked E gb sprite.toNat t Info h16
    refine ⟨?_, ?_, ?_⟩
    · rw [PrintSpriteAlpha_eq E gbm buf sprite hs, PrintSpriteAlpha_eq E gb buf sprite hs,
        hT, hI, hv, hh, hsd, sprite_resolve_set_tile]
    · rw [PrintSprite_eq E gbm buf bufw buff_x buff_y sprite hs,
        PrintSprite_eq E gb buf bufw buff_x buff_y sprite hs,
        hT, hI, hX, hY, hv, hh, hsd, sprite_resolve_set_tile]
    · rw [PrintZoomedSprite_eq E gbm buf sprite hs, PrintZoomedSprite_eq E gb buf sprite hs,
        hT, hI, hv, hh, hsd, sprite_resolve_set_tile]
  · obtain ⟨img, h1, hp⟩ := PrintSpriteAlpha_pixel E gb buf sprite hs
    refine ⟨img, h1, ?_⟩
    intro x y k hx hy hk h6
    rw [hp x y k hx hy hk, hidx x y h6]
  · obtain ⟨out, h1, hp⟩ := PrintSprite_content E gb buf bufw buff_x buff_y sprite hs
    refine ⟨out, h1, ?_⟩
    intro hw y x i j k hy hx hi hj hk h6
    rw [hp hw y x i j k hy hx hi hj hk, hidx x y h6]
  · obtain ⟨out, h1, hp⟩ := PrintZoomedSprite_content E gb buf sprite hs
    refine ⟨out, h1, ?_⟩
    intro y x i j k hy hx hi hj hk h6
    rw [hp y x i j k hy hx hi hj hk, hidx x y h6]

/-- Witness of C12: sprite 5 of the sample state (16 pixels high, tile byte 5)
is drawn as with the tile byte 4; its pixel `(1, 8)` is the pixel `(1, 0)` of the
tile 5, of colour index 3, which is black in the pictures of
`GB_Debug_PrintSprite` and of `GB_Debug_PrintZoomedSprite`. -/
theorem sprite_height_and_tile_mask_witness :
    ((0 : Int) ≤ 5 ∧ (5 : Int) < 40) ∧
    spriteheight sampleExtern (sampleState 0 0).Memory = 16 ∧
    GB_Debug_PrintSpriteAlpha sampleExtern
        (set_sprite_tile (sampleState 0 0) (5 : Int).toNat
          ((((sampleState 0 0).Memory.ObjAttrMem (5 : Int).toNat).Tile % 256) &&& 0xFE))
        (fun _ => 0) 5 =
      GB_Debug_PrintSpriteAlpha sampleExtern (sampleState 0 0) (fun _ => 0) 5 ∧
    (∃ out, GB_Debug_PrintSprite sampleExtern (sampleState 0 0) (fun _ => 7) 16 0 0 5 =
        some out ∧
      out (((0 + ((8 * 2 : Nat) : Int) + ((0 : Nat) : Int)) * 16 +
        (0 + ((1 * 2 : Nat) : Int) + ((0 : Nat) : Int))) * 3 + ((0 : Nat) : Int)) = 0) ∧
    (∃ out, GB_Debug_PrintZoomedSprite sampleExtern (sampleState 0 0) (fun _ => 7) 5 =
        some out ∧
      out (((((8 * 8 : Nat) : Int) + ((0 : Nat) : Int)) * (8 * 8) +
        (((1 * 8 : Nat) : Int) + ((0 : Nat) : Int))) * 3 + ((0 : Nat) : Int)) = 0) := by
  have h := sprite_height_and_tile_mask sampleExtern (sampleState 0 0) (fun _ => 0) 16 0 0 5
    (by decide)
  have h7 := sprite_height_and_tile_mask sampleExtern (sampleState 0 0) (fun _ => 7) 16 0 0 5
    (by decide)
  obtain ⟨_, _, h3, _, _, _⟩ := h
  obtain ⟨_, _, _, _, ⟨o1, h5, p5⟩, ⟨o2, h6, p6⟩⟩ := h7
  refine ⟨by decide, by decide, (h3 (by decide)).1, ⟨o1, h5, ?_⟩, ⟨o2, h6, ?_⟩⟩
  · exact (p5 (by decide) 8 1 0 0 0 (by decide) (by decide) (by decide) (by decide) (by decide)
      (by decide)).trans (by decide)
  · exact (p6 8 1 0 0 0 (by decide) (by decide) (by decide) (by decide) (by decide)
      (by decide)).trans (by decide)

/-! ## The tile data and the tile rows of the map renderers -/

theorem map_color_cgb_tile (gb : GB_CONTEXT) (map tile_base : Int) (x y : Nat) (hx : x < 256)
    (hy : y < 256) :
    let cell := (if map ≠ 0 then 0x1C00 else 0x1800) + (32 * (y >>> 3) + (x >>> 3))
    let t := gb.Memory.VideoRAM cell % 256
    let attr := gb.Memory.VideoRAM (cell + 0x2000) % 256
    map_tile gb (if map ≠ 0 then 0x1C00 else 0x1800) y x = t ∧
    map_tileinfo gb (if map ≠ 0 then 0x1C00 else 0x1800) y x = attr ∧
    map_color_cgb gb (if tile_base ≠ 0 then 0x0800 else 0x0000)
        (if map ≠ 0 then 0x1C00 else 0x1800) tile_base y x =
      tile_pixel_2bpp gb.Memory.VideoRAM
        ((if attr &&& (1 <<< 3) ≠ 0 then 0x2000 else 0) +
          (if tile_base ≠ 0 then 0x0800 + 16 * (t ^^^ 0x80) else 16 * t))
        (if attr &&& (1 <<< 6) ≠ 0 then 7 - (y &&& 7) else y &&& 7)
        (if attr &&& (1 <<< 5) ≠ 0 then 7 - (x &&& 7) else x &&& 7) ∧
    map_color_dmg gb (if tile_base ≠ 0 then 0x0800 else 0x0000)
        (if map ≠ 0 then 0x1C00 else 0x1800) tile_base y x =
      tile_pixel_2bpp gb.Memory.VideoRAM
        (if tile_base ≠ 0 then 0x0800 + 16 * (t ^^^ 0x80) else 16 * t) (y &&& 7) (x &&& 7) := by
  intro cell t attr
  have hcell : cell = (if map ≠ 0 then 0x1C00 else 0x1800) +
      ((((y >>> 3) &&& 31) * 32) + ((x >>> 3) &&& 31)) := map_cell_eq _ x y hx hy
  have ht : map_tile gb (if map ≠ 0 then 0x1C00 else 0x1800) y x = t := by
    show _ = gb.Memory.VideoRAM cell % 256
    rw [hcell, map_tile]
  have hattr : map_tileinfo gb (if map ≠ 0 then 0x1C00 else 0x1800) y x = attr := by
    have h : attr = map_tileinfo gb (if map ≠ 0 then 0x1C00 else 0x1800) y x := by
      show gb.Memory.VideoRAM (cell + 0x2000) % 256 = _
      rw [hcell, map_tileinfo, Nat.add_assoc]
    exact h.symm
  have ht256 : t < 256 := Nat.mod_lt _ (by decide)
  have hoff : (if tile_base ≠ 0 then (if t < 128 then 0x1000 + 16 * t else 16 * t)
      else 16 * t) = (if tile_base ≠ 0 then 0x0800 + 16 * (t ^^^ 0x80) else 16 * t) := by
    rw [← map_tile_offset_eq tile_base t ht256, map_tile_offset]
  refine ⟨ht, hattr, ?_, ?_⟩
  · rw [map_color_cgb_eq gb _ _ tile_base y x rfl, ht, hattr, hoff]
  · rw [map_color_dmg_eq gb _ _ tile_base y x rfl, ht, hoff]

/-- The bytes of the pixel `(x, y)` in the pictures of `GB_Debug_MapPrint` and
`GB_Debug_MapPrintBW`, for a buffer at least 256 pixels wide, in terms of the
colour index that the branch taken decodes. -/
theorem MapPrint_both_pixels (E : Extern) (gb : GB_CONTEXT) (buffer : Int → Nat)
    (bufw map tile_base : Int) (hw : 256 ≤ bufw) :
    ∃ out outbw : Int → Nat,
      GB_Debug_MapPrint E gb buffer bufw map tile_base = some out ∧
      GB_Debug_MapPrintBW gb buffer bufw map tile_base = some outbw ∧
      ∀ x y : Nat, x < 256 → y < 256 →
        (gb.Emulator.CGBEnabled ≠ 0 →
          (out (((y : Int) * bufw + x) * 3 + 0), out (((y : Int) * bufw + x) * 3 + 1),
            out (((y : Int) * bufw + x) * 3 + 2)) =
            unpack15 (cgb_entry gb 0
              ((map_tileinfo gb (if map ≠ 0 then 0x1C00 else 0x1800) y x &&& 7 : Nat) : Int)
              ((map_color_cgb gb (if tile_base ≠ 0 then 0x0800 else 0x0000)
                (if map ≠ 0 then 0x1C00 else 0x1800) tile_base y x : Nat) : Int)) ∧
          ∀ k : Nat, k < 3 → outbw (((y : Int) * bufw + x) * 3 + k) =
            gray (map_color_cgb gb (if tile_base ≠ 0 then 0x0800 else 0x0000)
              (if map ≠ 0 then 0x1C00 else 0x1800) tile_base y x) k) ∧
        (gb.Emulator.CGBEnabled = 0 →
          ∀ k : Nat, k < 3 →
            out (((y : Int) * bufw + x) * 3 + k) =
              gray (((read_io gb.Memory E.BGP_REG) >>>
                (2 * map_color_dmg gb (if tile_base ≠ 0 then 0x0800 else 0x0000)
                  (if map ≠ 0 then 0x1C00 else 0x1800) tile_base y x)) &&& 3) 0 ∧
            outbw (((y : Int) * bufw + x) * 3 + k) =
              gray (map_color_dmg gb (if tile_base ≠ 0 then 0x0800 else 0x0000)
                (if map ≠ 0 then 0x1C00 else 0x1800) tile_base y x) k) := by
  have hbw : ∀ x y k : Nat, x < 256 → y < 256 → k < 3 →
      map_paint_bw gb (if tile_base ≠ 0 then 0x0800 else 0x0000)
        (if map ≠ 0 then 0x1C00 else 0x1800) tile_base bufw buffer
        (((y : Int) * bufw + x) * 3 + k) =
      gray (map_color gb (if tile_base ≠ 0 then 0x0800 else 0x0000)
        (if map ≠ 0 then 0x1C00 else 0x1800) tile_base y x) k :=
    fun x y k hx hy hk => map_paint_bw_pixel gb _ _ tile_base bufw hw buffer x y k hx hy hk
  by_cases hcgb : gb.Emulator.CGBEnabled ≠ 0
  · refine ⟨_, _, MapPrint_cgb_eq E gb buffer bufw map tile_base hcgb,
      MapPrintBW_eq gb buffer bufw map tile_base, ?_⟩
    intro x y hx hy
    refine ⟨fun _ => ⟨?_, ?_⟩, fun h0 => absurd h0 hcgb⟩
    · have h := map_paint_cgb_pixel gb (if tile_base ≠ 0 then 0x0800 else 0x0000)
        (if map ≠ 0 then 0x1C00 else 0x1800) tile_base bufw hw buffer x y hx hy
      rw [← map_packed_cgb_entry]
      exact Option.some.inj h
    · intro k hk
      rw [hbw x y k hx hy hk, map_color, if_pos hcgb]
  · have hcgb0 : gb.Emulator.CGBEnabled = 0 := not_not.mp hcgb
    refine ⟨_, _, MapPrint_dmg_eq E gb buffer bufw map tile_base hcgb0,
      MapPrintBW_eq gb buffer bufw map tile_base, ?_⟩
    intro x y hx hy
    refine ⟨fun h1 => absurd h1 hcgb, fun _ k hk => ⟨?_, ?_⟩⟩
    · rw [map_paint_dmg_pixel E gb _ _ tile_base bufw hw buffer x y k hx hy hk]
      exact (map_bg_pal_get E gb _ (color_index_lt _ _ _)).2
    · rw [hbw x y k hx hy hk, map_color, if_neg hcgb]

/-- C27: in the pictures that `GB_Debug_MapPrint` and `GB_Debug_MapPrintBW`
return (buffer at least 256 pixels wide), every pixel `(x, y)` shows the colour
index decoded from the data of the tile `t` of its map cell at the offset
`16*t` of the bank when `tile_base == 0` and at `0x0800 + 16*(t XOR 0x80)` when
`tile_base != 0`, which is `0x1000 + 16*s` for `t` read as the signed 8-bit
integer `s` in `-128..127`; in CGB mode the bank is bank 1 (`0x2000` higher)
when bit 3 of the attribute is set. `GB_Debug_MapPrintBW` shows the gray level of
the index, `GB_Debug_MapPrint` the palette colour of the index. -/
theorem map_tile_data_offset (E : Extern) (gb : GB_CONTEXT) (buffer : Int → Nat)
    (bufw map tile_base : Int) (hw : 256 ≤ bufw) :
    ∃ out outbw : Int → Nat,
      GB_Debug_MapPrint E gb buffer bufw map tile_base = some out ∧
      GB_Debug_MapPrintBW gb buffer bufw map tile_base = some outbw ∧
      ∀ x y : Nat, x < 256 → y < 256 →
        let cell := (if map ≠ 0 then 0x1C00 else 0x1800) + (32 * (y >>> 3) + (x >>> 3))
        let t := gb.Memory.VideoRAM cell % 256
        let attr := gb.Memory.VideoRAM (cell + 0x2000) % 256
        let tile_addr := if tile_base ≠ 0 then 0x0800 + 16 * (t ^^^ 0x80) else 16 * t
        let c_cgb := tile_pixel_2bpp gb.Memory.VideoRAM
          ((if attr &&& (1 <<< 3) ≠ 0 then 0x2000 else 0) + tile_addr)
          (if attr &&& (1 <<< 6) ≠ 0 then 7 - (y &&& 7) else y &&& 7)
          (if attr &&& (1 <<< 5) ≠ 0 then 7 - (x &&& 7) else x &&& 7)
        let c_dmg := tile_pixel_2bpp gb.Memory.VideoRAM tile_addr (y &&& 7) (x &&& 7)
        (tile_base ≠ 0 →
          ((tile_addr : Nat) : Int) = 0x1000 + 16 * signed8 t ∧
          -128 ≤ signed8 t ∧ signed8 t ≤ 127) ∧
        (tile_base = 0 → tile_addr = 16 * t) ∧
        (gb.Emulator.CGBEnabled ≠ 0 →
          (out (((y : Int) * bufw + x) * 3 + 0), out (((y : Int) * bufw + x) * 3 + 1),
            out (((y : Int) * bufw + x) * 3 + 2)) =
            unpack15 (cgb_entry gb 0 ((attr &&& 7 : Nat) : Int) ((c_cgb : Nat) : Int)) ∧
          ∀ k : Nat, k < 3 → outbw (((y : Int) * bufw + x) * 3 + k) = gray c_cgb k) ∧
        (gb.Emulator.CGBEnabled = 0 →
          ∀ k : Nat, k < 3 →
            out (((y : Int) * bufw + x) * 3 + k) =
              gray (((read_io gb.Memory E.BGP_REG) >>> (2 * c_dmg)) &&& 3) 0 ∧
            outbw (((y : Int) * bufw + x) * 3 + k) = gray c_dmg k) := by
  obtain ⟨out, outbw, h1, h2, hp⟩ := MapPrint_both_pixels E gb buffer bufw map tile_base hw
  refine ⟨out, outbw, h1, h2, ?_⟩
  intro x y hx hy cell t attr tile_addr c_cgb c_dmg
  obtain ⟨_, hattr, hc, hd⟩ := map_color_cgb_tile gb map tile_base x y hx hy
  have ht256 : t < 256 := Nat.mod_lt _ (by decide)
  have hq := hp x y hx hy
  rw [hattr, hc, hd] at hq
  refine ⟨fun hb => ⟨?_, ?_, ?_⟩, fun hb => ?_, hq.1, hq.2⟩
  · have h := map_tile_offset_signed tile_base t ht256 hb
    rw [map_tile_offset] at h
    exact h
  · unfold signed8
    split_ifs <;> omega
  · unfold signed8
    split_ifs <;> omega
  · show (if tile_base ≠ 0 then 0x0800 + 16 * (t ^^^ 0x80) else 16 * t) = 16 * t
    rw [if_neg (not_not.mpr hb)]

/-- Witness of C27: the pixel `(22, 9)` of the first map of the sample state
outside of CGB mode with tile data at `0x8800`: the tile number is `0x22`, its
data is at `0x1220 = 0x1000 + 16*0x22`, the colour index is 3 and both pictures
show black. -/
theorem map_tile_data_offset_witness :
    ((256 : Int) ≤ 256) ∧
    ∃ out outbw : Int → Nat,
      GB_Debug_MapPrint sampleExtern (sampleState 0 0) (fun _ => 7) 256 0 1 = some out ∧
      GB_Debug_MapPrintBW (sampleState 0 0) (fun _ => 7) 256 0 1 = some outbw ∧
      out ((((9 : Nat) : Int) * 256 + ((22 : Nat) : Int)) * 3 + ((0 : Nat) : Int)) = 0 ∧
      outbw ((((9 : Nat) : Int) * 256 + ((22 : Nat) : Int)) * 3 + ((0 : Nat) : Int)) = 0 := by
  refine ⟨by decide, ?_⟩
  obtain ⟨out, outbw, h1, h2, hp⟩ := map_tile_data_offset sampleExtern (sampleState 0 0)
    (fun _ => 7) 256 0 1 (by decide)
  have h := (hp 22 9 (by decide) (by decide)).2.2.2 rfl 0 (by decide)
  exact ⟨out, outbw, h1, h2, h.1.trans (by decide), h.2.trans (by decide)⟩

/-- C28: for every `y`, the row `((7 - y) & 7)` that the CGB branches of
`GB_Debug_MapPrint` and `GB_Debug_MapPrintBW` compute for a tile flipped
vertically, on 32-bit two's complement integers, is `7 - (y & 7) = 7 - (y mod 8)`,
also when `7 - y` is negative, and its two bytes are inside the 16 bytes of the
tile; in the pictures that both functions return in CGB mode (buffer at least
256 pixels wide), every pixel `(x, y)` of a map cell whose attribute has bit 6
set shows the colour index of the row `7 - (y mod 8)` of the tile of the
cell. -/
theorem map_vflip_row (E : Extern) (gb : GB_CONTEXT) (buffer : Int → Nat)
    (bufw map tile_base : Int) (hcgb : gb.Emulator.CGBEnabled ≠ 0) (hw : 256 ≤ bufw) :
    ∃ out outbw : Int → Nat,
      GB_Debug_MapPrint E gb buffer bufw map tile_base = some out ∧
      GB_Debug_MapPrintBW gb buffer bufw map tile_base = some outbw ∧
      ∀ x y : Nat, x < 256 → y < 256 →
        let cell := (if map ≠ 0 then 0x1C00 else 0x1800) + (32 * (y >>> 3) + (x >>> 3))
        let t := gb.Memory.VideoRAM cell % 256
        let attr := gb.Memory.VideoRAM (cell + 0x2000) % 256
        let tile_start := (if attr &&& (1 <<< 3) ≠ 0 then 0x2000 else 0) +
          (if tile_base ≠ 0 then 0x0800 + 16 * (t ^^^ 0x80) else 16 * t)
        let c := tile_pixel_2bpp gb.Memory.VideoRAM tile_start (7 - y % 8)
          (if attr &&& (1 <<< 5) ≠ 0 then 7 - (x &&& 7) else x &&& 7)
        (and_s32 (7 - (y : Int)) 7 = 7 - (y &&& 7) ∧ 7 - (y &&& 7) = 7 - y % 8 ∧
          (7 < y → 7 - (y : Int) < 0) ∧
          tile_start + 2 * (7 - y % 8) + 1 ≤ tile_start + 15) ∧
        (attr &&& (1 <<< 6) ≠ 0 →
          (out (((y : Int) * bufw + x) * 3 + 0), out (((y : Int) * bufw + x) * 3 + 1),
            out (((y : Int) * bufw + x) * 3 + 2)) =
            unpack15 (cgb_entry gb 0 ((attr &&& 7 : Nat) : Int) ((c : Nat) : Int)) ∧
          ∀ k : Nat, k < 3 → outbw (((y : Int) * bufw + x) * 3 + k) = gray c k) := by
  obtain ⟨out, outbw, h1, h2, hp⟩ := MapPrint_both_pixels E gb buffer bufw map tile_base hw
  refine ⟨out, outbw, h1, h2, ?_⟩
  intro x y hx hy cell t attr tile_start c
  obtain ⟨_, hattr, hc, _⟩ := map_color_cgb_tile gb map tile_base x y hx hy
  have hq := (hp x y hx hy).1 hcgb
  rw [hattr, hc] at hq
  refine ⟨⟨by rw [and_s32_seven, and_0x7], by rw [and_0x7], fun h => by omega, by omega⟩, ?_⟩
  intro h6
  have h6' : gb.Memory.VideoRAM ((if map ≠ 0 then 0x1C00 else 0x1800) +
      (32 * (y >>> 3) + (x >>> 3)) + 0x2000) % 256 &&& (1 <<< 6) ≠ 0 := h6
  have e : 7 - (y &&& 7) = 7 - y % 8 := by rw [and_0x7]
  rw [if_pos h6', e] at hq
  exact hq

/-- Witness of C28: the pixel `(4, 83)` of the first map of the sample state in
CGB mode; the attribute of its cell is `0x40`, `7 - 83` is negative, and the
pixel shows the colour index 3 of the row 4 of the tile `0x40`. -/
theorem map_vflip_row_witness :
    (sampleState 1 0).Emulator.CGBEnabled ≠ 0 ∧ ((256 : Int) ≤ 256) ∧
    and_s32 (7 - ((83 : Nat) : Int)) 7 = 4 ∧
    ∃ out outbw : Int → Nat,
      GB_Debug_MapPrint sampleExtern (sampleState 1 0) (fun _ => 7) 256 0 0 = some out ∧
      GB_Debug_MapPrintBW (sampleState 1 0) (fun _ => 7) 256 0 0 = some outbw ∧
      out ((((83 : Nat) : Int) * 256 + ((4 : Nat) : Int)) * 3 + 0) = 248 ∧
      outbw ((((83 : Nat) : Int) * 256 + ((4 : Nat) : Int)) * 3 + ((0 : Nat) : Int)) = 0 := by
  refine ⟨by decide, by decide, by decide, ?_⟩
  obtain ⟨out, outbw, h1, h2, hp⟩ := map_vflip_row sampleExtern (sampleState 1 0)
    (fun _ => 7) 256 0 0 (by decide) (by decide)
  have h := (hp 4 83 (by decide) (by decide)).2 (by decide)
  refine ⟨out, outbw, h1, h2, ?_, (h.2 0 (by decide)).trans (by decide)⟩
  exact (congrArg Prod.fst h.1).trans (by decide)

/-! ## The tile data that the sprite renderers read -/

theorem sprite_color_congr_range (v1 v2 : Nat → Nat) (h Info off lo hi y x : Nat)
    (hv : ∀ a, lo ≤ a → a < hi → v1 a = v2 a)
    (hoff : ∀ r, r < h → lo ≤ off + r * 2 ∧ off + r * 2 + 1 < hi) (hy : y < h) :
    sprite_color v1 h Info off y x = sprite_color v2 h Info off y x := by
  have ha : ∀ r, r < h →
      v1 (off + r * 2) = v2 (off + r * 2) ∧ v1 (off + r * 2 + 1) = v2 (off + r * 2 + 1) :=
    fun r hr => ⟨hv _ (hoff r hr).1 (by have := (hoff r hr).2; omega),
      hv _ (by have := (hoff r hr).1; omega) (hoff r hr).2⟩
  unfold sprite_color
  by_cases hb : Info &&& (1 <<< 6) ≠ 0
  · simp only [if_pos hb]
    rw [(ha (h - y - 1) (by omega)).1, (ha (h - y - 1) (by omega)).2]
  · simp only [if_neg hb]
    rw [(ha y hy).1, (ha y hy).2]

theorem sprite_tile_range (E : Extern) (gb : GB_CONTEXT) (Tile Info : Nat) (hT : Tile < 256) :
    let height := spriteheight E gb.Memory
    let bank := if gb.Emulator.CGBEnabled ≠ 0 ∧ Info &&& (1 <<< 3) ≠ 0 then 0x2000 else 0
    let first := bank + 16 * (Tile &&& (if height = 16 then 0xFE else 0xFF))
    sprite_data_offset E gb Tile Info = first ∧
    bank ≤ first ∧ first + 2 * height ≤ bank + 0x1000 ∧
    (height = 16 → Tile = 0xFF →
      first = bank + 16 * 0xFE ∧ first + 2 * height = bank + 16 * 0xFF + 16) := by
  intro height bank first
  have hFE : Tile &&& 0xFE ≤ 0xFE := Nat.and_le_right
  have hFF : Tile &&& 0xFF ≤ Tile := Nat.and_le_left
  refine ⟨sprite_data_offset_bank E gb Tile Info, Nat.le_add_right _ _, ?_, ?_⟩
  · show bank + 16 * (Tile &&& (if spriteheight E gb.Memory = 16 then 0xFE else 0xFF)) +
      2 * spriteheight E gb.Memory ≤ bank + 0x1000
    rcases spriteheight_cases E gb.Memory with h8 | h16
    · rw [h8, if_neg (by decide)]; omega
    · rw [h16, if_pos rfl]; omega
  · intro h16 hT2
    have h16' : spriteheight E gb.Memory = 16 := h16
    have hm : (0xFF : Nat) &&& 0xFE = 0xFE := by decide
    show bank + 16 * (Tile &&& (if spriteheight E gb.Memory = 16 then 0xFE else 0xFF)) = _ ∧
      bank + 16 * (Tile &&& (if spriteheight E gb.Memory = 16 then 0xFE else 0xFF)) +
        2 * spriteheight E gb.Memory = _
    rw [h16', if_pos rfl, hT2, hm]
    exact ⟨rfl, rfl⟩

theorem sprite_pixel_index_first (E : Extern) (gb : GB_CONTEXT) (sprite y x : Nat) :
    sprite_pixel_index E gb sprite y x =
      tile_pixel_2bpp gb.Memory.VideoRAM
        ((if gb.Emulator.CGBEnabled ≠ 0 ∧
            ((gb.Memory.ObjAttrMem sprite).Info % 256) &&& (1 <<< 3) ≠ 0 then 0x2000 else 0) +
          16 * (((gb.Memory.ObjAttrMem sprite).Tile % 256) &&&
            (if spriteheight E gb.Memory = 16 then 0xFE else 0xFF)))
        (if ((gb.Memory.ObjAttrMem sprite).Info % 256) &&& (1 <<< 6) ≠ 0
          then spriteheight E gb.Memory - 1 - y else y)
        (if ((gb.Memory.ObjAttrMem sprite).Info % 256) &&& (1 <<< 5) ≠ 0 then 7 - x else x) := by
  have hT : (gb.Memory.ObjAttrMem sprite).Tile % 256 < 256 := Nat.mod_lt _ (by decide)
  have e : (if spriteheight E gb.Memory = 16 then ((gb.Memory.ObjAttrMem sprite).Tile % 256) &&& 0xFE
      else (gb.Memory.ObjAttrMem sprite).Tile % 256) =
      ((gb.Memory.ObjAttrMem sprite).Tile % 256) &&&
        (if spriteheight E gb.Memory = 16 then 0xFE else 0xFF) := by
    split_ifs
    · rfl
    · rw [and_0xFF, Nat.mod_eq_of_lt hT]
  rw [sprite_pixel_index, e]

/-- The output of the three sprite renderers when the video RAM is replaced by a
content that agrees with it on the bytes of the tile data of the sprite. -/
theorem sprite_renderers_set_video_ram (E : Extern) (gb : GB_CONTEXT) (buf : Int → Nat)
    (bufw buff_x buff_y sprite : Int) (hs : 0 ≤ sprite ∧ sprite < 40) (v : Nat → Nat)
    (hv : ∀ a,
      sprite_data_offset E gb ((gb.Memory.ObjAttrMem sprite.toNat).Tile % 256)
        ((gb.Memory.ObjAttrMem sprite.toNat).Info % 256) ≤ a →
      a < sprite_data_offset E gb ((gb.Memory.ObjAttrMem sprite.toNat).Tile % 256)
        ((gb.Memory.ObjAttrMem sprite.toNat).Info % 256) + 2 * spriteheight E gb.Memory →
      v a = gb.Memory.VideoRAM a) :
    GB_Debug_PrintSprite E (set_video_ram gb v) buf bufw buff_x buff_y sprite =
      GB_Debug_PrintSprite E gb buf bufw buff_x buff_y sprite ∧
    GB_Debug_PrintZoomedSprite E (set_video_ram gb v) buf sprite =
      GB_Debug_PrintZoomedSprite E gb buf sprite ∧
    GB_Debug_PrintSpriteAlpha E (set_video_ram gb v) buf sprite =
      GB_Debug_PrintSpriteAlpha E gb buf sprite := by
  have e1 : (set_video_ram gb v).Memory.VideoRAM = v := rfl
  have e2 : (set_video_ram gb v).Memory.ObjAttrMem = gb.Memory.ObjAttrMem := rfl
  have e3 : spriteheight E (set_video_ram gb v).Memory = spriteheight E gb.Memory := rfl
  have e4 : ∀ T I, sprite_data_offset E (set_video_ram gb v) T I =
      sprite_data_offset E gb T I := fun _ _ => rfl
  have e5 : ∀ I, sprite_resolve E (set_video_ram gb v) I = sprite_resolve E gb I :=
    fun _ => rfl
  have hc : ∀ y x, y < spriteheight E gb.Memory →
      sprite_color v (spriteheight E gb.Memory) ((gb.Memory.ObjAttrMem sprite.toNat).Info % 256)
        (sprite_data_offset E gb ((gb.Memory.ObjAttrMem sprite.toNat).Tile % 256)
          ((gb.Memory.ObjAttrMem sprite.toNat).Info % 256)) y x =
      sprite_color gb.Memory.VideoRAM (spriteheight E gb.Memory)
        ((gb.Memory.ObjAttrMem sprite.toNat).Info % 256)
        (sprite_data_offset E gb ((gb.Memory.ObjAttrMem sprite.toNat).Tile % 256)
          ((gb.Memory.ObjAttrMem sprite.toNat).Info % 256)) y x :=
    fun y x hy => sprite_color_congr_range _ _ _ _ _ _ _ y x hv
      (fun r hr => by constructor <;> omega) hy
  refine ⟨?_, ?_, ?_⟩
  · rw [PrintSprite_eq E (set_video_ram gb v) buf bufw buff_x buff_y sprite hs,
      PrintSprite_eq E gb buf bufw buff_x buff_y sprite hs, e1, e2, e3, e4, e5]
    exact congrArg some (sprite_paint_congr _ _ _ _ _ _ _ _ _ _ _ _ hc)
  · rw [PrintZoomedSprite_eq E (set_video_ram gb v) buf sprite hs,
      PrintZoomedSprite_eq E gb buf sprite hs, e1, e2, e3, e4, e5]
    exact congrArg some (zoomed_paint_congr _ _ _ _ _ _ _ _ hc)
  · rw [PrintSpriteAlpha_eq E (set_video_ram gb v) buf sprite hs,
      PrintSpriteAlpha_eq E gb buf sprite hs, e1, e2, e3, e4, e5]
    exact congrArg some (sprite_alpha_paint_congr _ _ _ _ _ _ _ _ hc)

/-- C30: for every OAM entry (any bytes `Tile` and `Info`), every LCDC value and
every mode, the tile data of the sprite is the `2 * spriteheight` bytes from
`first = bank + 16 * (Tile & mask)`, where `bank` is `0x2000` when CGB mode is
enabled and bit 3 of `Info` is set and 0 otherwise; these bytes are at the
offsets `0x0000..0x0FFF` of the bank, and for a sprite 16 high with
`Tile == 0xFF` they are the tiles `0xFE` and `0xFF`, up to the offset `0x0FFF` of
the bank. The three sprite renderers return; every position of their pictures
shows the colour index decoded from the two bytes at `first + 2*row` and
`first + 2*row + 1`, which are among these bytes; and the pictures do not change
when any other byte of the video RAM changes. -/
theorem sprite_reads_in_bank (E : Extern) (gb : GB_CONTEXT) (buf : Int → Nat)
    (bufw buff_x buff_y sprite : Int) (hs : 0 ≤ sprite ∧ sprite < 40) :
    let Tile := (gb.Memory.ObjAttrMem sprite.toNat).Tile % 256
    let Info := (gb.Memory.ObjAttrMem sprite.toNat).Info % 256
    let height := spriteheight E gb.Memory
    let bank := if gb.Emulator.CGBEnabled ≠ 0 ∧ Info &&& (1 <<< 3) ≠ 0 then 0x2000 else 0
    let first := bank + 16 * (Tile &&& (if height = 16 then 0xFE else 0xFF))
    let row := fun (y : Nat) => if Info &&& (1 <<< 6) ≠ 0 then height - 1 - y else y
    let index := fun (x y : Nat) =>
      tile_pixel_2bpp gb.Memory.VideoRAM first (row y)
        (if Info &&& (1 <<< 5) ≠ 0 then 7 - x else x)
    (bank ≤ first ∧ first + 2 * height ≤ bank + 0x1000 ∧
      (height = 16 → Tile = 0xFF →
        first = bank + 16 * 0xFE ∧ first + 2 * height = bank + 16 * 0xFF + 16)) ∧
    (∀ y : Nat, y < height →
      first ≤ first + 2 * row y ∧ first + 2 * row y + 1 < first + 2 * height ∧
      bank ≤ first + 2 * row y ∧ first + 2 * row y + 1 ≤ bank + 0x0FFF) ∧
    (∃ img : Int → Nat,
      GB_Debug_PrintSpriteAlpha E gb buf sprite = some img ∧
      ∀ x y k : Nat, x < 8 → y < height → k < 4 →
        img (((y : Int) * 8 + x) * 4 + k) =
          rgba_byte (sprite_rgba (sprite_resolve E gb Info) (index x y)) k) ∧
    (∃ out : Int → Nat,
      GB_Debug_PrintSprite E gb buf bufw buff_x buff_y sprite = some out ∧
      (16 ≤ bufw → ∀ y x i j k : Nat, y < height → x < 8 → i < 2 → j < 2 → k < 3 →
        out (((buff_y + ((y * 2 : Nat) : Int) + (j : Int)) * bufw +
          (buff_x + ((x * 2 : Nat) : Int) + (i : Int))) * 3 + k) =
        opt_byte (sprite_cell
            (sprite_isvisible height ((gb.Memory.ObjAttrMem sprite.toNat).X % 256)
              ((gb.Memory.ObjAttrMem sprite.toNat).Y % 256))
            (sprite_resolve E gb Info) (index x y) ((x * 2) + i) ((y * 2) + j)) k
          (buf (((buff_y + ((y * 2 : Nat) : Int) + (j : Int)) * bufw +
            (buff_x + ((x * 2 : Nat) : Int) + (i : Int))) * 3 + k)))) ∧
    (∃ out : Int → Nat,
      GB_Debug_PrintZoomedSprite E gb buf sprite = some out ∧
      ∀ y x i j k : Nat, y < height → x < 8 → i < 8 → j < 8 → k < 3 →
        out (((((y * 8 : Nat) : Int) + (j : Int)) * (8 * 8) +
          (((x * 8 : Nat) : Int) + (i : Int))) * 3 + k) =
        opt_byte (if index x y ≠ 0 then sprite_resolve E gb Info (index x y) else none) k
          (if ((x * 8 + i) ^^^ (y * 8 + j)) &&& 4 ≠ 0 then 192 else 128)) ∧
    (∀ v : Nat → Nat,
      (∀ a : Nat, first ≤ a → a < first + 2 * height → v a = gb.Memory.VideoRAM a) →
      GB_Debug_PrintSprite E (set_video_ram gb v) buf bufw buff_x buff_y sprite =
        GB_Debug_PrintSprite E gb buf bufw buff_x buff_y sprite ∧
      GB_Debug_PrintZoomedSprite E (set_video_ram gb v) buf sprite =
        GB_Debug_PrintZoomedSprite E gb buf sprite ∧
      GB_Debug_PrintSpriteAlpha E (set_video_ram gb v) buf sprite =
        GB_Debug_PrintSpriteAlpha E gb buf sprite) := by
  intro Tile Info height bank first row index
  have hT : Tile < 256 := Nat.mod_lt _ (by decide)
  obtain ⟨hoff, hr1, hr2, hr3⟩ := sprite_tile_range E gb Tile Info hT
  have hidx : ∀ x y : Nat, sprite_pixel_index E gb sprite.toNat y x = index x y :=
    fun x y => sprite_pixel_index_first E gb sprite.toNat y x
  refine ⟨⟨hr1, hr2, hr3⟩, ?_, ?_, ?_, ?_, ?_⟩
  · intro y hy
    have hrow : row y < height := by
      show (if Info &&& (1 <<< 6) ≠ 0 then height - 1 - y else y) < height
      split_ifs <;> omega
    have haddr : ∀ f h b r : Nat, r < h → b ≤ f → f + 2 * h ≤ b + 0x1000 →
        f ≤ f + 2 * r ∧ f + 2 * r + 1 < f + 2 * h ∧ b ≤ f + 2 * r ∧
          f + 2 * r + 1 ≤ b + 0x0FFF := by
      intro f h b r h1 h2 h3
      omega
    exact haddr first height bank (row y) hrow hr1 hr2
  · obtain ⟨img, h1, hp⟩ := PrintSpriteAlpha_pixel E gb buf sprite hs
    refine ⟨img, h1, ?_⟩
    intro x y k hx hy hk
    rw [hp x y k hx hy hk, hidx x y]
  · obtain ⟨out, h1, hp⟩ := PrintSprite_content E gb buf bufw buff_x buff_y sprite hs
    refine ⟨out, h1, ?_⟩
    intro hw y x i j k hy hx hi hj hk
    rw [hp hw y x i j k hy hx hi hj hk, hidx x y]
  · obtain ⟨out, h1, hp⟩ := PrintZoomedSprite_content E gb buf sprite hs
    refine ⟨out, h1, ?_⟩
    intro y x i j k hy hx hi hj hk
    rw [hp y x i j k hy hx hi hj hk, hidx x y]
  · intro v hv
    apply sprite_renderers_set_video_ram E gb buf bufw buff_x buff_y sprite hs v
    intro a h1 h2
    rw [hoff] at h1 h2
    exact hv a h1 h2

/-- Witness of C30: sprite 39 of the sample state in which the sprites are 16
pixels high with `Tile = 0xFF` in bank 1 of CGB mode; the pixel `(7, 15)` is
decoded from the bytes at `0x2FFE` and `0x2FFF`, and the three pictures are the
same when every byte of the video RAM outside of `0x2FE0..0x2FFF` is set to 0. -/
theorem sprite_reads_in_bank_witness :
    ((0 : Int) ≤ 39 ∧ (39 : Int) < 40) ∧
    spriteheight sampleExtern sampleStateLastTile.Memory = 16 ∧
    (∃ out, GB_Debug_PrintZoomedSprite sampleExtern sampleStateLastTile (fun _ => 7) 39 =
        some out ∧
      out (((((15 * 8 : Nat) : Int) + ((0 : Nat) : Int)) * (8 * 8) +
        (((7 * 8 : Nat) : Int) + ((0 : Nat) : Int))) * 3 + ((0 : Nat) : Int)) = 248) ∧
    (GB_Debug_PrintSprite sampleExtern
        (set_video_ram sampleStateLastTile
          (fun a => if 0x2FE0 ≤ a ∧ a < 0x3000 then a % 256 else 0))
        (fun _ => 7) 16 0 0 39 =
      GB_Debug_PrintSprite sampleExtern sampleStateLastTile (fun _ => 7) 16 0 0 39 ∧
    GB_Debug_PrintZoomedSprite sampleExtern
        (set_video_ram sampleStateLastTile
          (fun a => if 0x2FE0 ≤ a ∧ a < 0x3000 then a % 256 else 0))
        (fun _ => 7) 39 =
      GB_Debug_PrintZoomedSprite sampleExtern sampleStateLastTile (fun _ => 7) 39 ∧
    GB_Debug_PrintSpriteAlpha sampleExtern
        (set_video_ram sampleStateLastTile
          (fun a => if 0x2FE0 ≤ a ∧ a < 0x3000 then a % 256 else 0))
        (fun _ => 7) 39 =
      GB_Debug_PrintSpriteAlpha sampleExtern sampleStateLastTile (fun _ => 7) 39) := by
  have h := sprite_reads_in_bank sampleExtern sampleStateLastTile (fun _ => 7) 16 0 0 39
    (by decide)
  obtain ⟨_, _, _, _, ⟨out, h1, hp⟩, hv⟩ := h
  refine ⟨by decide, by decide, ⟨out, h1, ?_⟩, ?_⟩
  · exact (hp 15 7 0 0 0 (by decide) (by decide) (by decide) (by decide) (by decide)).trans
      (by decide)
  · apply hv
    intro a h1 h2
    have h1' : 0x2FE0 ≤ a := h1
    have h2' : a < 0x3000 := h2
    have hb : 0x2FE0 ≤ a ∧ a < 0x3000 := ⟨h1', h2'⟩
    show (if 0x2FE0 ≤ a ∧ a < 0x3000 then a % 256 else 0) = a % 256
    rw [if_pos hb]

end GB
